import Mathlib

/-! # Input translation and device arbitration of the SDL port (`src/sdl/input.c`)

A shallow embedding of the gamepad part of `src/sdl/input.c`: the dead-zone
classifier, the button function dispatch, the autofire generator, the
configuration reader and writer, and the per-frame arbitration
(`PLATFORM_Keyboard`, `get_platform_PORT`).

Conventions of the embedding.

* C `int` values are `Int`; `unsigned int` bit masks are `Nat`, reduced modulo
  `2^32` where the C operation can leave the 32-bit range.  C truth values are
  integers (`0` is false), as in the source.
* `float` and `double` values are exact rationals; every arithmetic operation
  rounds its exact result to the nearest value of the format, ties to even
  (`f32`, `f64`), as IEEE 754 arithmetic does when expressions are evaluated in
  the precision of their type.  Overflow to infinity is not modelled.
* Module-level arrays indexed by the gamepad number or the button number are
  total functions on `Nat`.
* Everything the file receives from outside (SDL queries, the C library, the
  menu flag of `ui.c`, the key state array) is a field of `Host`; constants of
  headers that are not part of the file are fields of `Consts`.
-/

namespace SdlInput

/-! ## Binary floating point -/

/-- Number of halvings that bring `n` below 2, the first argument bounding the
recursion: `natLog2Aux n n` is the position of the highest set bit of `n`. -/
def natLog2Aux : Nat → Nat → Nat
  | 0, _ => 0
  | fuel + 1, n => if n < 2 then 0 else natLog2Aux fuel (n / 2) + 1

/-- Floor of the binary logarithm of `n` (and `0` for `n = 0`). -/
def natLog2 (n : Nat) : Nat := natLog2Aux n n

/-- Ceiling of the binary logarithm of `n` (and `0` for `n ≤ 1`). -/
def natClog2 (n : Nat) : Nat := if n ≤ 1 then 0 else natLog2 (n - 1) + 1

/-- Binade of a positive rational: the `e` with `2^e ≤ q < 2^(e+1)`. -/
def binade (q : ℚ) : Int :=
  if 1 ≤ q then (natLog2 ⌊q⌋₊ : Int) else -(natClog2 ⌈q⁻¹⌉₊ : Int)

/-- Nearest integer, ties to the even one. -/
def roundHalfEven (q : ℚ) : Int :=
  if q - ⌊q⌋ < 1 / 2 then ⌊q⌋
  else if 1 / 2 < q - ⌊q⌋ then ⌊q⌋ + 1
  else if ⌊q⌋ % 2 = 0 then ⌊q⌋ else ⌊q⌋ + 1

/-- Spacing of the values of a binary format with `p` significand bits and
least normal exponent `emin`, around `q`. -/
def ulp (p : Nat) (emin : Int) (q : ℚ) : ℚ :=
  (2 : ℚ) ^ (max (binade |q|) emin - (p : Int) + 1)

/-- Round to nearest, ties to even, in a binary format with `p` significand
bits and least normal exponent `emin` (subnormals included, no overflow). -/
def roundToFormat (p : Nat) (emin : Int) (q : ℚ) : ℚ :=
  if q = 0 then 0 else (roundHalfEven (q / ulp p emin q) : ℚ) * ulp p emin q

/-- Rounding to IEEE 754 binary32, the C `float`. -/
def f32 (q : ℚ) : ℚ := roundToFormat 24 (-126) q

/-- Rounding to IEEE 754 binary64, the C `double`. -/
def f64 (q : ℚ) : ℚ := roundToFormat 53 (-1022) q

/-- The integral part of a value: the fraction is discarded. -/
def truncToInt (q : ℚ) : Int := if 0 ≤ q then ⌊q⌋ else ⌈q⌉

/-- Conversion of a floating value to `int`: the fraction is discarded.  For a
value whose integral part is outside the range of `int` the C standard defines
no result; the conversion instructions of x86 deliver `INT_MIN`, and so does
this definition. -/
def floatToInt (q : ℚ) : Int :=
  if -2147483648 ≤ truncToInt q ∧ truncToInt q ≤ 2147483647 then truncToInt q else -2147483648

/-- C `round`: nearest integer, halfway cases away from zero. -/
def roundAway (q : ℚ) : Int := if 0 ≤ q then ⌊q + 1 / 2⌋ else ⌈q - 1 / 2⌉

/-- The `double` constant `M_PI` of `math.h`. -/
def M_PI : ℚ := 884279719003555 / 281474976710656

/-! ## Constants and external collaborators -/

/-- Constants of headers that are not part of `src/sdl/input.c` (`akey.h`,
`input.h`, `SDL.h`, the build configuration).  Every definition below takes
them as a parameter. -/
structure Consts where
  AKEY_NONE : Int
  AKEY_TURBO_START : Int
  AKEY_TURBO_STOP : Int
  AKEY_TURBO : Int
  AKEY_EXIT : Int
  AKEY_ESCAPE : Int
  AKEY_UI : Int
  AKEY_WARMSTART : Int
  AKEY_COLDSTART : Int
  AKEY_BREAK : Int
  AKEY_SCREENSHOT : Int
  AKEY_SCREENSHOT_INTERLACE : Int
  AKEY_KEYB : Int
  AKEY_SPACE : Int
  AKEY_HELP : Int
  AKEY_LEFT : Int
  AKEY_RIGHT : Int
  AKEY_UP : Int
  AKEY_DOWN : Int
  AKEY_RETURN : Int
  INPUT_STICK_CENTRE : Nat
  INPUT_STICK_LEFT : Nat
  INPUT_STICK_RIGHT : Nat
  INPUT_STICK_FORWARD : Nat
  INPUT_STICK_BACK : Nat
  INPUT_STICK_UL : Nat
  INPUT_STICK_UR : Nat
  INPUT_STICK_LL : Nat
  INPUT_STICK_LR : Nat
  INPUT_CONSOL_NONE : Nat
  INPUT_CONSOL_START : Nat
  INPUT_CONSOL_SELECT : Nat
  INPUT_CONSOL_OPTION : Nat
  SDL_HAT_UP : Nat
  SDL_HAT_RIGHT : Nat
  SDL_HAT_DOWN : Nat
  SDL_HAT_LEFT : Nat
  SDLK_FIRST : Int
  SDLK_LAST : Int
  /-- Whether `USE_UI_BASIC_ONSCREEN_KEYBOARD` is defined. -/
  USE_UI_BASIC_ONSCREEN_KEYBOARD : Bool
  /-- Whether `LPTJOY` is defined (it is on Linux). -/
  LPTJOY : Bool

/-- Modelled from the spec: the values of the constants that `akey.h`,
`input.h` and `SDL.h` (none of them under `src/`) give to the names used by
`input.c`; `none` is `-1`, the console lines are the bits 1, 2 and 4 of an
active-low mask, a stick is a 4-bit active-low mask. -/
def stdConsts : Consts where
  AKEY_NONE := -1
  AKEY_TURBO_START := -40
  AKEY_TURBO_STOP := -41
  AKEY_TURBO := -36
  AKEY_EXIT := -4
  AKEY_ESCAPE := 28
  AKEY_UI := -7
  AKEY_WARMSTART := -2
  AKEY_COLDSTART := -3
  AKEY_BREAK := -5
  AKEY_SCREENSHOT := -8
  AKEY_SCREENSHOT_INTERLACE := -9
  AKEY_KEYB := -37
  AKEY_SPACE := 33
  AKEY_HELP := 17
  AKEY_LEFT := 134
  AKEY_RIGHT := 135
  AKEY_UP := 142
  AKEY_DOWN := 143
  AKEY_RETURN := 12
  INPUT_STICK_CENTRE := 15
  INPUT_STICK_LEFT := 11
  INPUT_STICK_RIGHT := 7
  INPUT_STICK_FORWARD := 14
  INPUT_STICK_BACK := 13
  INPUT_STICK_UL := 10
  INPUT_STICK_UR := 6
  INPUT_STICK_LL := 9
  INPUT_STICK_LR := 5
  INPUT_CONSOL_NONE := 7
  INPUT_CONSOL_START := 1
  INPUT_CONSOL_SELECT := 2
  INPUT_CONSOL_OPTION := 4
  SDL_HAT_UP := 1
  SDL_HAT_RIGHT := 2
  SDL_HAT_DOWN := 4
  SDL_HAT_LEFT := 8
  SDLK_FIRST := 0
  SDLK_LAST := 323
  USE_UI_BASIC_ONSCREEN_KEYBOARD := false
  LPTJOY := true

/-- What the file reads from outside during one frame. -/
structure Host where
  /-- `SDL_JoystickGetAxis(sdl_gamepads[pad], axis)`, a `Sint16`. -/
  SDL_JoystickGetAxis : Nat → Nat → Int
  /-- `SDL_JoystickGetHat(sdl_gamepads[pad], 0)`, a `Uint8`. -/
  SDL_JoystickGetHat : Nat → Nat
  /-- `SDL_JoystickGetButton(sdl_gamepads[pad], button)`, a `Uint8`. -/
  SDL_JoystickGetButton : Nat → Nat → Nat
  /-- The menu flag `UI_is_active` of `ui.c`. -/
  UI_is_active : Int
  /-- `atan2(y, x)` of the C library on two integer arguments, a `double`. -/
  atan2 : Int → Int → ℚ
  /-- The key state array `kbhits` of SDL, indexed by key code. -/
  kbhits : Int → Nat
  /-- The status word that `ioctl(fd, LPGETSTATUS, &status)` stores. -/
  LPGETSTATUS : Int → Nat
  /-- The value `Keyboard_AtariKeys()` returns in this frame. -/
  Keyboard_AtariKeys : Int
  /-- The value of `input_key_consol_from_keys` once `Keyboard_AtariKeys()`
  has returned. -/
  input_key_consol_from_keys : Nat
  /-- `Util_sscandouble(s, &dest)` of `util.c`, a wrapper of `strtod`: the
  `double` it stores, or `none` when it returns `FALSE` and stores nothing. -/
  Util_sscandouble : List Char → Option ℚ
  /-- The indeterminate content of the uninitialised local `number` of
  `GamePads_Read_Config`. -/
  number_uninitialised : ℚ

/-! ## Data model -/

def FNPAD_NONE : Int := 0
def FNPAD_SP_HOLD : Int := 1
def FNPAD_FIRE_HOLD : Int := 2
def FNPAD_FIRE_TOGGLE : Int := 3
def FNPAD_AUTOFIRE_HOLD : Int := 4
def FNPAD_AUTOFIRE_TOGGLE : Int := 5
def FNPAD_START_HOLD : Int := 6
def FNPAD_SELECT_HOLD : Int := 7
def FNPAD_OPTION_HOLD : Int := 8
def FNPAD_TURBO_HOLD : Int := 256
def FNPAD_TURBO_TOGGLE : Int := 512
def FNPAD_EXIT : Int := 513
def FNPAD_UI : Int := 514
def FNPAD_SAVESTATE : Int := 515
def FNPAD_LOADSTATE : Int := 516
def FNPAD_WARMSTART : Int := 517
def FNPAD_COLDSTART : Int := 518
def FNPAD_BREAK : Int := 519
def FNPAD_SCREENSHOT : Int := 520
def FNPAD_SCREENSHOT_INTERLACE : Int := 521
def FNPAD_KEYB : Int := 522
def FNPAD_HELP : Int := 523
def FNPAD_ESCAPE : Int := 524
def FNPAD_KEY_SPACEBAR : Int := 525
def FNPAD_CODE_ : Int := 768

/-- The function codes that lines 118-143 define: the codes 0-8, 256, 512-525
and the raw key codes `FNPAD_CODE_ + c` with `c` in 0..255. -/
def isPadFunction (f : Int) : Prop :=
  (0 ≤ f ∧ f ≤ 8) ∨ f = 256 ∨ (512 ≤ f ∧ f ≤ 525) ∨ (768 ≤ f ∧ f ≤ 768 + 255)

instance (f : Int) : Decidable (isPadFunction f) := by
  unfold isPadFunction; infer_instance

def MAX_PAD_BUTTONS : Nat := 16
def MAX_GAMEPADS : Nat := 4
def MAX_GAMEPAD_BUTTONS : Nat := 16
def DEFAULT_DEADZONE : Int := 15000

/-- Configuration of a real SDL joystick.  The fields `radial` and
`radial_tolerance` are the ones `input.c` reads and writes besides those that
`input.h` declares. -/
structure SDL_INPUT_RealJSConfig_t where
  radial : Int
  deadzone : Int
  tolerance : ℚ
  radial_tolerance : ℚ
  use_as_stick : Int
  use_hat_as_stick : Int
  use_in_menus : Int
  use_hat_in_menus : Int
  in_menus_select_button : Int
  in_menus_back_button : Int
  autofire_freq : Int
  button_functions : Nat → Int
  button_sp_functions : Nat → Int

structure gamepads_sdl_state_t where
  x : Int
  y : Int
  hx : Int
  hy : Int
  buttons : Nat
  special : Int
  deriving DecidableEq

structure gamepads_fire_state_t where
  autofire_phase : Int
  autofire_toggle_on : Int
  autofire_actual_on : Int
  autofire_last_on : Int
  fire_toggle_on : Int
  fire : Int
  deriving DecidableEq

/-- The key bindings of the keyboard joysticks and of the function keys. -/
structure KeyBindings where
  KBD_TRIG_0 : Int
  KBD_STICK_0_LEFT : Int
  KBD_STICK_0_RIGHT : Int
  KBD_STICK_0_DOWN : Int
  KBD_STICK_0_UP : Int
  KBD_TRIG_1 : Int
  KBD_STICK_1_LEFT : Int
  KBD_STICK_1_RIGHT : Int
  KBD_STICK_1_DOWN : Int
  KBD_STICK_1_UP : Int
  KBD_UI : Int
  KBD_OPTION : Int
  KBD_SELECT : Int
  KBD_START : Int
  KBD_RESET : Int
  KBD_HELP : Int
  KBD_BREAK : Int
  KBD_MON : Int
  KBD_EXIT : Int
  KBD_SSHOT : Int
  KBD_TURBO : Int
  deriving DecidableEq

/-- The module-level variables of `input.c` that the gamepad code, the
configuration code and the arbitration use. -/
structure State where
  swap_joysticks : Int
  PLATFORM_kbd_joy_0_enabled : Int
  PLATFORM_kbd_joy_1_enabled : Int
  keys : KeyBindings
  fd_joystick0 : Int
  fd_joystick1 : Int
  /-- Whether `sdl_gamepads[i]` is not `NULL`. -/
  sdl_gamepads : Nat → Bool
  gamepad_config_reset : Int
  gamepad_configuration : Nat → SDL_INPUT_RealJSConfig_t
  gamepad_special_mask : Nat → Nat
  gamepad_atari_key_mask : Nat → Nat
  gamepad_masks_valid : Int
  gamepads_sdl_last_state : Nat → gamepads_sdl_state_t
  gamepads_sdl_actual_state : Nat → gamepads_sdl_state_t
  gamepads_consol_state : Nat
  gamepads_found : Nat
  gamepads_max_buttons : Nat → Nat
  gamepads_fire_state : Nat → gamepads_fire_state_t
  /-- The console mask `INPUT_key_consol` of the emulation core. -/
  INPUT_key_consol : Nat

/-- Reduction of an `unsigned int` to 32 bits. -/
def u32 (n : Nat) : Nat := n % 4294967296

/-- The C expression `a & ~b` on 32-bit values. -/
def andNot (a b : Nat) : Nat := a &&& (4294967295 ^^^ u32 b)

/-- The C expression `!a`. -/
def cNot (a : Int) : Int := if a = 0 then 1 else 0

/-- The C expression `a != b`. -/
def cNe (a b : Int) : Int := if a = b then 0 else 1

/-! ## Button tables and masks -/

/-- `GamePads_GetFunctionForButton` (lines 552-560), on the configuration of
the pad: indices from 16 on read the shifted bank. -/
def GamePads_GetFunctionForButton (cfg : SDL_INPUT_RealJSConfig_t) (buttonNumber : Nat) : Int :=
  if buttonNumber ≥ 16 then cfg.button_sp_functions (buttonNumber - 16)
  else cfg.button_functions buttonNumber

/-- `GamePads_GetFunctionForButton` (lines 552-560) on its two `int`
arguments, with the bounds of `gamepad_configuration` and of the two button
tables made explicit: `none` stands for an access outside them, which has no
defined result.  The function itself makes no range check. -/
def GamePads_GetFunctionForButton_int (s : State) (gamepadNumber buttonNumber : Int) : Option Int :=
  if gamepadNumber < 0 ∨ gamepadNumber ≥ MAX_GAMEPADS then none
  else if buttonNumber ≥ 16 then
    if buttonNumber - 16 ≥ MAX_PAD_BUTTONS then none
    else some ((s.gamepad_configuration gamepadNumber.toNat).button_sp_functions
      (buttonNumber - 16).toNat)
  else if buttonNumber < 0 then none
  else some ((s.gamepad_configuration gamepadNumber.toNat).button_functions buttonNumber.toNat)

/-- The special mask that `GamePads_DetermineMasks` (lines 297-303) computes. -/
def specialMask (cfg : SDL_INPUT_RealJSConfig_t) : Nat :=
  let m := (List.range MAX_PAD_BUTTONS).foldl
    (fun m i => if cfg.button_functions i = FNPAD_SP_HOLD then m ||| u32 (1 <<< i) else m) 0
  m ||| u32 (m <<< 16)

/-- The key mask that `GamePads_DetermineMasks` (lines 305-313) computes. -/
def atariKeyMask (cfg : SDL_INPUT_RealJSConfig_t) : Nat :=
  (List.range MAX_PAD_BUTTONS).foldl
    (fun m i =>
      let m1 := if cfg.button_functions i ≥ 256 then m ||| u32 (1 <<< i) else m
      if cfg.button_sp_functions i ≥ 256 then m1 ||| u32 (1 <<< (i + 16)) else m1) 0

/-- `GamePads_DetermineMasks` (lines 293-314). -/
def GamePads_DetermineMasks (gamepadNumber : Nat) (s : State) : State :=
  { s with
    gamepad_special_mask :=
      Function.update s.gamepad_special_mask gamepadNumber
        (specialMask (s.gamepad_configuration gamepadNumber))
    gamepad_atari_key_mask :=
      Function.update s.gamepad_atari_key_mask gamepadNumber
        (atariKeyMask (s.gamepad_configuration gamepadNumber)) }

/-! ## The dead-zone classifier -/

/-- One limit of the square mode (lines 679-682): `d * (1.0f + sel * tolerance)`
evaluated in `float` and converted to `int`; `d` is the deadzone or its
negative and `sel` is `0.5f` or `-0.5f`. -/
def squareLimit (d : Int) (sel : ℚ) (tolerance : ℚ) : Int :=
  floatToInt (f32 (f32 (d : ℚ) * f32 (1 + f32 (sel * tolerance))))

/-- Classification of one axis in square mode (lines 679-684): `last` is the
previous classification of the axis and `v` the raw sample. -/
def squareAxis (cfg : SDL_INPUT_RealJSConfig_t) (last v : Int) : Int :=
  let minlimit := squareLimit (-cfg.deadzone) (if last = -1 then -1 / 2 else 1 / 2) cfg.tolerance
  let maxlimit := squareLimit cfg.deadzone (if last = 1 then -1 / 2 else 1 / 2) cfg.tolerance
  if v > maxlimit then 1 else if v < minlimit then -1 else 0

/-- The normalised squared distance `dist` of radial mode (lines 583-585),
evaluated in `double`, for a deadzone other than 0.  With a deadzone of 0 the
divisions of lines 583-584 give an infinity or a NaN and so does `dist`;
`classifyAxes` treats that case apart. -/
def radialDist (cfg : SDL_INPUT_RealJSConfig_t) (x y : Int) : ℚ :=
  let xn := f64 ((x : ℚ) / (cfg.deadzone : ℚ))
  let yn := f64 ((y : ℚ) / (cfg.deadzone : ℚ))
  f64 (f64 (xn * xn) + f64 (yn * yn))

/-- The value of `recalc` that lines 587-629 compute from the hysteresis bands
before line 630 overwrites it. -/
def radialRecalc (cfg : SDL_INPUT_RealJSConfig_t) (last : gamepads_sdl_state_t)
    (angle_fine dist : ℚ) : Bool :=
  let tol : ℚ := cfg.tolerance
  if last.x ≠ 0 ∨ last.y ≠ 0 then
    if dist < f64 (f64 (1 - tol) * f64 (1 - tol)) then true
    else
      let last_angle0 : Int :=
        if last.x = -1 then 4 - last.y else if last.x = 0 then last.y * 2 else last.y
      let last_angle : Int := if last_angle0 = 5 then -3 else last_angle0
      let width : ℚ := f64 (f64 (M_PI / 8) * f32 (1 + f32 (cfg.radial_tolerance / 2)))
      let centre : ℚ := f64 (f64 ((last_angle : ℚ) * M_PI) / 4)
      let min_angle : Int := floatToInt (f64 (centre - width))
      let max_angle : Int := floatToInt (f64 (centre + width))
      if last_angle = 4 then
        let max_angle1 : Int := floatToInt (f64 ((max_angle : ℚ) - f64 (M_PI * 2)))
        decide (angle_fine > (max_angle1 : ℚ) ∧ angle_fine < (min_angle : ℚ))
      else
        decide (angle_fine > (max_angle : ℚ) ∨ angle_fine < (min_angle : ℚ))
  else
    decide (dist > f64 (f64 (1 + tol) * f64 (1 + tol)))

/-- The sector switch of radial mode (lines 639-673); a value outside
`-4 .. 4` matches no case and leaves the state as it is. -/
def radialSector (actual : gamepads_sdl_state_t) (actual_angle : Int) : gamepads_sdl_state_t :=
  if actual_angle = -4 ∨ actual_angle = 4 then { actual with x := -1, y := 0 }
  else if actual_angle = -3 then { actual with x := -1, y := -1 }
  else if actual_angle = -2 then { actual with x := 0, y := -1 }
  else if actual_angle = -1 then { actual with x := 1, y := -1 }
  else if actual_angle = 0 then { actual with x := 1, y := 0 }
  else if actual_angle = 1 then { actual with x := 1, y := 1 }
  else if actual_angle = 2 then { actual with x := 0, y := 1 }
  else if actual_angle = 3 then { actual with x := -1, y := 1 }
  else actual

/-- The axis part of `GamePads_UpdatePad` (lines 579-685): the new content of
`gamepads_sdl_actual_state[gamepadNumber]` after the stick has been classified. -/
def classifyAxes (h : Host) (cfg : SDL_INPUT_RealJSConfig_t)
    (last actual : gamepads_sdl_state_t) (x y : Int) : gamepads_sdl_state_t :=
  if cfg.radial ≠ 0 then
    let angle_fine := h.atan2 y x
    let dist := radialDist cfg x y
    let recalc := radialRecalc cfg last angle_fine dist
    -- line 630, `recalc = TRUE;`, discards the value computed so far
    let recalc := (fun (_ : Bool) => true) recalc
    if recalc then
      -- with a deadzone of 0 `dist` is an infinity or a NaN and `dist < 1.0` is false
      if cfg.deadzone ≠ 0 ∧ dist < 1 then { actual with x := 0, y := 0 }
      else radialSector actual (roundAway (f64 (angle_fine / f64 (M_PI / 4))))
    else actual
  else
    { actual with x := squareAxis cfg last.x x, y := squareAxis cfg last.y y }

/-- The value of `actual_angle` (line 638) for the sample `(x, y)`. -/
def radialAngle (h : Host) (x y : Int) : Int :=
  roundAway (f64 (h.atan2 y x / f64 (M_PI / 4)))

/-- The hat part of `GamePads_UpdatePad` (lines 687-691). -/
def classifyHat (K : Consts) (hat : Nat) (actual : gamepads_sdl_state_t) : gamepads_sdl_state_t :=
  { actual with
    hx := (if hat &&& K.SDL_HAT_LEFT = K.SDL_HAT_LEFT then -1 else 0)
        + (if hat &&& K.SDL_HAT_RIGHT = K.SDL_HAT_RIGHT then 1 else 0)
    hy := (if hat &&& K.SDL_HAT_DOWN = K.SDL_HAT_DOWN then 1 else 0)
        + (if hat &&& K.SDL_HAT_UP = K.SDL_HAT_UP then -1 else 0) }

/-! ## Buttons, console keys and fire -/

/-- The raw button mask `trig` of lines 694-699. -/
def rawButtons (h : Host) (gamepadNumber max_buttons : Nat) : Nat :=
  (List.range max_buttons).foldl
    (fun trig i => if h.SDL_JoystickGetButton gamepadNumber i ≠ 0 then trig ||| u32 (1 <<< i) else trig) 0

/-- The effective button mask of lines 700-705: with a special button held,
the special bits are removed and the rest moves to the bits 16-31. -/
def effectiveButtons (special_mask trig : Nat) : Nat :=
  if special_mask &&& trig ≠ 0 then u32 (andNot trig special_mask <<< 16) else trig

/-- The variables that the loop of lines 710-763 reads and writes. -/
structure ButtonScan where
  gamepads_consol_state : Nat
  autofire_toggle_on : Int
  fire_toggle_on : Int
  last_buttons : Nat
  autofire : Int
  fire : Int
  deriving DecidableEq

/-- One iteration of the loop of lines 710-763, for the bit `i`. -/
def dispatchButton (K : Consts) (cfg : SDL_INPUT_RealJSConfig_t) (trig last_trig : Nat)
    (a : ButtonScan) (i : Nat) : ButtonScan :=
  let mask := u32 (1 <<< i)
  let trigFunc := GamePads_GetFunctionForButton cfg i
  let changed : Bool := decide (trig &&& mask ≠ last_trig &&& mask)
  let pressed : Bool := decide (trig &&& mask ≠ 0)
  let handled : Bool :=
    decide (trigFunc = FNPAD_START_HOLD ∨ trigFunc = FNPAD_SELECT_HOLD ∨ trigFunc = FNPAD_OPTION_HOLD
      ∨ trigFunc = FNPAD_AUTOFIRE_TOGGLE ∨ trigFunc = FNPAD_AUTOFIRE_HOLD
      ∨ trigFunc = FNPAD_FIRE_TOGGLE ∨ trigFunc = FNPAD_FIRE_HOLD)
  let a1 : ButtonScan :=
    if trigFunc = FNPAD_START_HOLD then
      if pressed then { a with gamepads_consol_state := andNot a.gamepads_consol_state K.INPUT_CONSOL_START } else a
    else if trigFunc = FNPAD_SELECT_HOLD then
      if pressed then { a with gamepads_consol_state := andNot a.gamepads_consol_state K.INPUT_CONSOL_SELECT } else a
    else if trigFunc = FNPAD_OPTION_HOLD then
      if pressed then { a with gamepads_consol_state := andNot a.gamepads_consol_state K.INPUT_CONSOL_OPTION } else a
    else if trigFunc = FNPAD_AUTOFIRE_TOGGLE then
      if changed && pressed then { a with autofire_toggle_on := cNot a.autofire_toggle_on } else a
    else if trigFunc = FNPAD_AUTOFIRE_HOLD then
      if pressed then { a with autofire := 1 } else a
    else if trigFunc = FNPAD_FIRE_TOGGLE then
      if changed && pressed then { a with fire_toggle_on := cNot a.fire_toggle_on } else a
    else if trigFunc = FNPAD_FIRE_HOLD then
      if pressed then { a with fire := 1 } else a
    else a
  if handled && changed then
    if pressed then { a1 with last_buttons := a1.last_buttons ||| mask }
    else { a1 with last_buttons := andNot a1.last_buttons mask }
  else a1

/-- The loop of lines 708-763 over the 32 bits, started with `autofire` and
`fire` false. -/
def dispatchButtons (K : Consts) (cfg : SDL_INPUT_RealJSConfig_t) (trig last_trig : Nat)
    (consol : Nat) (fs : gamepads_fire_state_t) : ButtonScan :=
  (List.range 32).foldl (dispatchButton K cfg trig last_trig)
    { gamepads_consol_state := consol
      autofire_toggle_on := fs.autofire_toggle_on
      fire_toggle_on := fs.fire_toggle_on
      last_buttons := last_trig
      autofire := 0
      fire := 0 }

/-- The autofire and fire handling of lines 764-776: `fs` is the fire state
with the toggles as the button loop left them, `autofire` and `fire` are the
hold levels the loop found and `freq` is `autofire_freq`. -/
def fireHandling (freq : Int) (fs : gamepads_fire_state_t) (autofire fire : Int) :
    gamepads_fire_state_t :=
  let autofire_actual_on := cNe fs.autofire_toggle_on autofire
  let phase0 := if fs.autofire_last_on = 0 ∧ autofire_actual_on ≠ 0 then 0 else fs.autofire_phase
  let fire_from_autofire : Int := if autofire_actual_on ≠ 0 ∧ phase0 < freq then 1 else 0
  let phase1 := phase0 + 1
  let phase2 := if phase1 ≥ freq * 2 then 0 else phase1
  let fire_from_fire := cNe fs.fire_toggle_on fire
  { fs with
    autofire_actual_on := autofire_actual_on
    autofire_last_on := autofire_actual_on
    autofire_phase := phase2
    fire := cNe fire_from_autofire fire_from_fire }

/-- The result of the button loop (lines 693-763) of `GamePads_UpdatePad` for
the pad `gamepadNumber` in the state `s`: the console state, the toggles, the
stored button mask and the hold levels `autofire` and `fire`. -/
def padButtonScan (K : Consts) (h : Host) (gamepadNumber : Nat) (s : State) : ButtonScan :=
  dispatchButtons K (s.gamepad_configuration gamepadNumber)
    (effectiveButtons (s.gamepad_special_mask gamepadNumber)
      (rawButtons h gamepadNumber (s.gamepads_max_buttons gamepadNumber)))
    (s.gamepads_sdl_last_state gamepadNumber).buttons s.gamepads_consol_state
    (s.gamepads_fire_state gamepadNumber)

/-- `GamePads_UpdatePad` (lines 566-778). -/
def GamePads_UpdatePad (K : Consts) (h : Host) (gamepadNumber : Nat) (s : State) : State :=
  let cfg := s.gamepad_configuration gamepadNumber
  let x := h.SDL_JoystickGetAxis gamepadNumber 0
  let y := h.SDL_JoystickGetAxis gamepadNumber 1
  let last := s.gamepads_sdl_last_state gamepadNumber
  let actual1 := classifyAxes h cfg last (s.gamepads_sdl_actual_state gamepadNumber) x y
  let actual2 := classifyHat K (h.SDL_JoystickGetHat gamepadNumber) actual1
  let trig0 := rawButtons h gamepadNumber (s.gamepads_max_buttons gamepadNumber)
  let special : Int := if s.gamepad_special_mask gamepadNumber &&& trig0 ≠ 0 then 1 else 0
  let trig := effectiveButtons (s.gamepad_special_mask gamepadNumber) trig0
  let actual3 := { actual2 with special := special, buttons := trig }
  let s1 := { s with
    gamepads_sdl_actual_state := Function.update s.gamepads_sdl_actual_state gamepadNumber actual3 }
  if h.UI_is_active = 0 then
    let fs := s.gamepads_fire_state gamepadNumber
    let r := padButtonScan K h gamepadNumber s
    let fs1 := { fs with autofire_toggle_on := r.autofire_toggle_on, fire_toggle_on := r.fire_toggle_on }
    { s1 with
      gamepads_consol_state := r.gamepads_consol_state
      gamepads_sdl_last_state :=
        Function.update s.gamepads_sdl_last_state gamepadNumber { last with buttons := r.last_buttons }
      gamepads_fire_state :=
        Function.update s.gamepads_fire_state gamepadNumber
          (fireHandling cfg.autofire_freq fs1 r.autofire r.fire) }
  else s1

/-- `GamePads_Update` (lines 780-797): every found pad is updated in turn after
the console state of the pads has been reset. -/
def GamePads_Update (K : Consts) (h : Host) (s : State) : State :=
  if s.gamepads_found = 0 then s
  else
    let s1 :=
      if s.gamepad_masks_valid = 0 then
        { (List.range MAX_GAMEPADS).foldl (fun t i => GamePads_DetermineMasks i t) s with
          gamepad_masks_valid := 1 }
      else s
    let s2 := { s1 with gamepads_consol_state := K.INPUT_CONSOL_NONE }
    (List.range s2.gamepads_found).foldl (fun t i => GamePads_UpdatePad K h i t) s2

/-! ## Keys from the pads -/

/-- `GamePads_AtariKeysPressRelease` (lines 805-811). -/
def GamePads_AtariKeysPressRelease (K : Consts) (buttonFunc : Int) (pressed : Bool) : Int :=
  if buttonFunc = FNPAD_TURBO_HOLD then
    if pressed then K.AKEY_TURBO_START else K.AKEY_TURBO_STOP
  else K.AKEY_NONE

/-- `GamePads_AtariKeysPress` (lines 814-843). -/
def GamePads_AtariKeysPress (K : Consts) (h : Host) (buttonFunc : Int) : Int :=
  if buttonFunc = FNPAD_TURBO_TOGGLE then K.AKEY_TURBO
  else if buttonFunc = FNPAD_EXIT then K.AKEY_EXIT
  else if buttonFunc = FNPAD_UI then (if h.UI_is_active ≠ 0 then K.AKEY_ESCAPE else K.AKEY_UI)
  else if buttonFunc = FNPAD_SAVESTATE then K.AKEY_NONE
  else if buttonFunc = FNPAD_LOADSTATE then K.AKEY_NONE
  else if buttonFunc = FNPAD_WARMSTART then K.AKEY_WARMSTART
  else if buttonFunc = FNPAD_COLDSTART then K.AKEY_COLDSTART
  else if buttonFunc = FNPAD_BREAK then K.AKEY_BREAK
  else if buttonFunc = FNPAD_SCREENSHOT then K.AKEY_SCREENSHOT
  else if buttonFunc = FNPAD_SCREENSHOT_INTERLACE then K.AKEY_SCREENSHOT_INTERLACE
  else if K.USE_UI_BASIC_ONSCREEN_KEYBOARD = true ∧ buttonFunc = FNPAD_KEYB then K.AKEY_KEYB
  else if buttonFunc = FNPAD_HELP then K.AKEY_SPACE
  else if buttonFunc = FNPAD_ESCAPE then K.AKEY_SPACE
  else if buttonFunc = FNPAD_KEY_SPACEBAR then K.AKEY_SPACE
  else if buttonFunc ≥ FNPAD_CODE_ ∧ buttonFunc ≤ FNPAD_CODE_ + 255 then buttonFunc - FNPAD_CODE_
  else K.AKEY_NONE

/-- `GamePads_AtariKeysFromJoy` (lines 845-868): the key and the new content of
`gamepads_sdl_last_state[gamepadNumber]`. -/
def GamePads_AtariKeysFromJoy (K : Consts) (h : Host) (cfg : SDL_INPUT_RealJSConfig_t)
    (last actual : gamepads_sdl_state_t) : Int × gamepads_sdl_state_t :=
  if h.UI_is_active ≠ 0 ∧ cfg.use_in_menus ≠ 0 then
    let last1 := { last with x := actual.x }
    if actual.x = -1 then (K.AKEY_LEFT, last1)
    else if actual.x = 1 then (K.AKEY_RIGHT, last1)
    else
      let last2 := { last1 with y := actual.y }
      if actual.y = -1 then (K.AKEY_UP, last2)
      else if actual.y = 1 then (K.AKEY_DOWN, last2)
      else (K.AKEY_NONE, last2)
  else (K.AKEY_NONE, { last with x := actual.x, y := actual.y })

/-- `GamePads_AtariKeysFromHat` (lines 870-893). -/
def GamePads_AtariKeysFromHat (K : Consts) (h : Host) (cfg : SDL_INPUT_RealJSConfig_t)
    (last actual : gamepads_sdl_state_t) : Int × gamepads_sdl_state_t :=
  if h.UI_is_active ≠ 0 ∧ cfg.use_hat_in_menus ≠ 0 then
    let last1 := { last with hx := actual.hx }
    if actual.hx = -1 then (K.AKEY_LEFT, last1)
    else if actual.hx = 1 then (K.AKEY_RIGHT, last1)
    else
      let last2 := { last1 with hy := actual.hy }
      if actual.hy = -1 then (K.AKEY_UP, last2)
      else if actual.hy = 1 then (K.AKEY_DOWN, last2)
      else (K.AKEY_NONE, last2)
  else (K.AKEY_NONE, { last with hx := actual.hx, hy := actual.hy })

/-- The key that one changed bit `i` yields in the loop of
`GamePads_AtariKeysByPad` (lines 915-942); `atkey` is `AKEY_NONE` when the
iteration starts. -/
def buttonKey (K : Consts) (h : Host) (cfg : SDL_INPUT_RealJSConfig_t) (key_mask : Nat)
    (i : Nat) (pressed : Bool) : Int :=
  let mask := u32 (1 <<< i)
  let menu : Bool := decide (h.UI_is_active ≠ 0 ∧ (cfg.use_in_menus ≠ 0 ∨ cfg.use_hat_in_menus ≠ 0))
  let isBack : Bool := menu && decide ((i : Int) = cfg.in_menus_back_button)
  let isSelect : Bool := menu && decide ((i : Int) = cfg.in_menus_select_button)
  let atkey0 : Int := K.AKEY_NONE
  let atkey1 : Int := if isBack && pressed then K.AKEY_ESCAPE else atkey0
  let atkey2 : Int := if isSelect && pressed then K.AKEY_RETURN else atkey1
  let ui_button : Bool := isBack || isSelect
  if atkey2 = K.AKEY_NONE ∧ ui_button = false ∧ key_mask &&& mask ≠ 0 then
    let button_func := GamePads_GetFunctionForButton cfg i
    if button_func ≥ 512 ∧ button_func < 1024 then
      if pressed then GamePads_AtariKeysPress K h button_func else atkey2
    else GamePads_AtariKeysPressRelease K button_func pressed
  else atkey2

/-- The loop of `GamePads_AtariKeysByPad` (lines 911-955) over the bits in
`bits`: `last_buttons` and `buttons` are the masks read before the loop and
`stored` is `gamepads_sdl_last_state[gamepadNumber].buttons`, which the loop
updates.  The result is the key and the stored mask. -/
def scanButtonKeys (K : Consts) (h : Host) (cfg : SDL_INPUT_RealJSConfig_t) (key_mask : Nat)
    (last_buttons buttons : Nat) : List Nat → Nat → Int × Nat
  | [], stored => (K.AKEY_NONE, stored)
  | i :: bits, stored =>
    let mask := u32 (1 <<< i)
    if last_buttons &&& mask ≠ buttons &&& mask then
      let pressed : Bool := decide (buttons &&& mask ≠ 0)
      let atkey := buttonKey K h cfg key_mask i pressed
      let stored1 := if pressed then stored ||| mask else andNot stored mask
      if atkey ≠ K.AKEY_NONE then (atkey, stored1)
      else scanButtonKeys K h cfg key_mask last_buttons buttons bits stored1
    else scanButtonKeys K h cfg key_mask last_buttons buttons bits stored

/-- `GamePads_AtariKeysByPad` (lines 895-957). -/
def GamePads_AtariKeysByPad (K : Consts) (h : Host) (gamepadNumber : Nat) (s : State) :
    Int × State :=
  let cfg := s.gamepad_configuration gamepadNumber
  let actual := s.gamepads_sdl_actual_state gamepadNumber
  let r1 := GamePads_AtariKeysFromJoy K h cfg (s.gamepads_sdl_last_state gamepadNumber) actual
  if r1.1 ≠ K.AKEY_NONE then
    (r1.1, { s with gamepads_sdl_last_state := Function.update s.gamepads_sdl_last_state gamepadNumber r1.2 })
  else
    let r2 := GamePads_AtariKeysFromHat K h cfg r1.2 actual
    if r2.1 ≠ K.AKEY_NONE then
      (r2.1, { s with gamepads_sdl_last_state := Function.update s.gamepads_sdl_last_state gamepadNumber r2.2 })
    else
      let r3 := scanButtonKeys K h cfg (s.gamepad_atari_key_mask gamepadNumber)
        r2.2.buttons actual.buttons (List.range 32) r2.2.buttons
      (r3.1, { s with
        gamepads_sdl_last_state :=
          Function.update s.gamepads_sdl_last_state gamepadNumber { r2.2 with buttons := r3.2 } })

/-- The loop of `GamePads_AtariKeys` (lines 963-968) over the pads in `pads`. -/
def scanPads (K : Consts) (h : Host) : List Nat → State → Int × State
  | [], s => (K.AKEY_NONE, s)
  | i :: pads, s =>
    let r := GamePads_AtariKeysByPad K h i s
    if r.1 ≠ K.AKEY_NONE then r else scanPads K h pads r.2

/-- `GamePads_AtariKeys` (lines 959-970). -/
def GamePads_AtariKeys (K : Consts) (h : Host) (s : State) : Int × State :=
  scanPads K h (List.range s.gamepads_found) s

/-- `PLATFORM_Keyboard` (lines 2210-2224): the key code and the new state.
`Keyboard_AtariKeys` enters through its result and through the value it leaves
in `input_key_consol_from_keys`; it touches none of the gamepad variables. -/
def PLATFORM_Keyboard (K : Consts) (h : Host) (s : State) : Int × State :=
  let s1 := GamePads_Update K h s
  let key_code := h.Keyboard_AtariKeys
  let r := if key_code = K.AKEY_NONE then GamePads_AtariKeys K h s1 else (key_code, s1)
  (r.1, { r.2 with
    INPUT_key_consol := h.input_key_consol_from_keys &&& r.2.gamepads_consol_state })

/-! ## Joystick ports -/

/-- `GamePads_AtariJoyFromGamePadJoy` (lines 977-986). -/
def GamePads_AtariJoyFromGamePadJoy (K : Consts) (actual : gamepads_sdl_state_t) : Nat :=
  let r0 := K.INPUT_STICK_CENTRE
  let r1 := if actual.x = -1 then r0 &&& K.INPUT_STICK_LEFT else r0
  let r2 := if actual.x = 1 then r1 &&& K.INPUT_STICK_RIGHT else r1
  let r3 := if actual.y = -1 then r2 &&& K.INPUT_STICK_FORWARD else r2
  if actual.y = 1 then r3 &&& K.INPUT_STICK_BACK else r3

/-- `GamePads_AtariJoyFromGamePadHat` (lines 993-1002). -/
def GamePads_AtariJoyFromGamePadHat (K : Consts) (actual : gamepads_sdl_state_t) : Nat :=
  let r0 := K.INPUT_STICK_CENTRE
  let r1 := if actual.hx = -1 then r0 &&& K.INPUT_STICK_LEFT else r0
  let r2 := if actual.hx = 1 then r1 &&& K.INPUT_STICK_RIGHT else r1
  let r3 := if actual.hy = -1 then r2 &&& K.INPUT_STICK_FORWARD else r2
  if actual.hy = 1 then r3 &&& K.INPUT_STICK_BACK else r3

/-- `GamePads_AtariJoy` (lines 1009-1020). -/
def GamePads_AtariJoy (K : Consts) (s : State) (joyNumber : Nat) : Nat :=
  let a0 := K.INPUT_STICK_CENTRE
  let a1 := if (s.gamepad_configuration joyNumber).use_as_stick ≠ 0
    then a0 &&& GamePads_AtariJoyFromGamePadJoy K (s.gamepads_sdl_actual_state joyNumber) else a0
  if (s.gamepad_configuration joyNumber).use_hat_as_stick ≠ 0
    then a1 &&& GamePads_AtariJoyFromGamePadHat K (s.gamepads_sdl_actual_state joyNumber) else a1

/-- `GamePads_AtariTrigger` (lines 1027-1030). -/
def GamePads_AtariTrigger (s : State) (joyNumber : Nat) : Int :=
  cNot (s.gamepads_fire_state joyNumber).fire

/-- `get_LPT_joystick_state` (lines 2404-2448). -/
def get_LPT_joystick_state (K : Consts) (h : Host) (fd : Int) : Nat :=
  if K.LPTJOY then
    let status := h.LPGETSTATUS fd ^^^ 120
    if status &&& 64 ≠ 0 then
      if status &&& 16 ≠ 0 then K.INPUT_STICK_UR
      else if status &&& 32 ≠ 0 then K.INPUT_STICK_LR
      else K.INPUT_STICK_RIGHT
    else if status &&& 128 ≠ 0 then
      if status &&& 16 ≠ 0 then K.INPUT_STICK_UL
      else if status &&& 32 ≠ 0 then K.INPUT_STICK_LL
      else K.INPUT_STICK_LEFT
    else
      if status &&& 16 ≠ 0 then K.INPUT_STICK_FORWARD
      else if status &&& 32 ≠ 0 then K.INPUT_STICK_BACK
      else K.INPUT_STICK_CENTRE
  else 0

/-- The stick of keyboard joystick 0 (lines 2455-2464). -/
def kbdStick0 (K : Consts) (h : Host) (s : State) : Nat :=
  let a0 := K.INPUT_STICK_CENTRE
  if s.PLATFORM_kbd_joy_0_enabled ≠ 0 then
    let a1 := if h.kbhits s.keys.KBD_STICK_0_LEFT ≠ 0 then a0 &&& K.INPUT_STICK_LEFT else a0
    let a2 := if h.kbhits s.keys.KBD_STICK_0_RIGHT ≠ 0 then a1 &&& K.INPUT_STICK_RIGHT else a1
    let a3 := if h.kbhits s.keys.KBD_STICK_0_UP ≠ 0 then a2 &&& K.INPUT_STICK_FORWARD else a2
    if h.kbhits s.keys.KBD_STICK_0_DOWN ≠ 0 then a3 &&& K.INPUT_STICK_BACK else a3
  else a0

/-- The stick of keyboard joystick 1 (lines 2465-2474). -/
def kbdStick1 (K : Consts) (h : Host) (s : State) : Nat :=
  let a0 := K.INPUT_STICK_CENTRE
  if s.PLATFORM_kbd_joy_1_enabled ≠ 0 then
    let a1 := if h.kbhits s.keys.KBD_STICK_1_LEFT ≠ 0 then a0 &&& K.INPUT_STICK_LEFT else a0
    let a2 := if h.kbhits s.keys.KBD_STICK_1_RIGHT ≠ 0 then a1 &&& K.INPUT_STICK_RIGHT else a1
    let a3 := if h.kbhits s.keys.KBD_STICK_1_UP ≠ 0 then a2 &&& K.INPUT_STICK_FORWARD else a2
    if h.kbhits s.keys.KBD_STICK_1_DOWN ≠ 0 then a3 &&& K.INPUT_STICK_BACK else a3
  else a0

/-- The four port values that `get_platform_PORT` stores. -/
structure Ports where
  s0 : Nat
  s1 : Nat
  s2 : Nat
  s3 : Nat
  deriving DecidableEq

/-- `get_platform_PORT` (lines 2450-2501); the outputs are `Uint8`. -/
def get_platform_PORT (K : Consts) (h : Host) (s : State) : Ports :=
  let stick0 := kbdStick0 K h s
  let stick1 := kbdStick1 K h s
  let s0a := (if s.swap_joysticks ≠ 0 then stick1 else stick0) % 256
  let s1a := (if s.swap_joysticks ≠ 0 then stick0 else stick1) % 256
  let s0b :=
    if s.fd_joystick0 ≠ -1 then s0a &&& get_LPT_joystick_state K h s.fd_joystick0
    else if s.sdl_gamepads 0 then s0a &&& GamePads_AtariJoy K s 0
    else s0a
  let s1b :=
    if s.fd_joystick1 ≠ -1 then s1a &&& get_LPT_joystick_state K h s.fd_joystick1
    else if s.sdl_gamepads 1 then s1a &&& GamePads_AtariJoy K s 1
    else s1a
  { s0 := s0b, s1 := s1b, s2 := GamePads_AtariJoy K s 2 % 256, s3 := GamePads_AtariJoy K s 3 % 256 }

/-! ## Trigger lines -/

/-- The trigger of keyboard joystick 0 (lines 2508-2510): `!kbhits[KBD_TRIG_0]`
when the joystick is enabled, and 1 otherwise. -/
def kbdTrig0 (h : Host) (s : State) : Nat :=
  if s.PLATFORM_kbd_joy_0_enabled ≠ 0 then (if h.kbhits s.keys.KBD_TRIG_0 ≠ 0 then 0 else 1) else 1

/-- The trigger of keyboard joystick 1 (lines 2512-2514). -/
def kbdTrig1 (h : Host) (s : State) : Nat :=
  if s.PLATFORM_kbd_joy_1_enabled ≠ 0 then (if h.kbhits s.keys.KBD_TRIG_1 ≠ 0 then 0 else 1) else 1

/-- The trigger of the LPT joystick with the descriptor `fd` (lines 2528-2530):
`(status & 8) > 0`. -/
def lptTrig (h : Host) (fd : Int) : Nat :=
  if h.LPGETSTATUS fd &&& 8 > 0 then 1 else 0

/-- The four trigger values that `get_platform_TRIG` stores. -/
structure Trigs where
  t0 : Nat
  t1 : Nat
  t2 : Nat
  t3 : Nat
  deriving DecidableEq

/-- `get_platform_TRIG` (lines 2503-2567); the outputs are `Uint8`, and
`GamePads_AtariTrigger` is 0 or 1. -/
def get_platform_TRIG (K : Consts) (h : Host) (s : State) : Trigs :=
  let trig0 := kbdTrig0 h s
  let trig1 := kbdTrig1 h s
  let t0a := if s.swap_joysticks ≠ 0 then trig1 else trig0
  let t1a := if s.swap_joysticks ≠ 0 then trig0 else trig1
  let t0b := if s.fd_joystick0 ≠ -1 ∧ K.LPTJOY = true then t0a &&& lptTrig h s.fd_joystick0 else t0a
  let t0c := t0b &&& (GamePads_AtariTrigger s 0).toNat
  let t1b := if s.fd_joystick1 ≠ -1 ∧ K.LPTJOY = true then t1a &&& lptTrig h s.fd_joystick1 else t1a
  let t1c := t1b &&& (GamePads_AtariTrigger s 1).toNat
  { t0 := t0c, t1 := t1c, t2 := (GamePads_AtariTrigger s 2).toNat % 256,
    t3 := (GamePads_AtariTrigger s 3).toNat % 256 }

/-! ## Configuration text

C strings are lists of characters (without the terminating NUL); a `NULL`
pointer is `none`. -/

/-- `strchr(s, c)`: the index of the first `c` in `s`. -/
def strchr (c : Char) : List Char → Option Nat
  | [] => none
  | d :: ds => if d = c then some 0 else (strchr c ds).map (· + 1)

/-- The loop of the decimal scanner over the rest of the string. -/
def scandecLoop : Int → List Char → Int
  | result, [] => result
  | result, c :: cs =>
    if 48 ≤ c.toNat ∧ c.toNat ≤ 57 then scandecLoop (10 * result + ((c.toNat : Int) - 48)) cs
    else -1

/-- Modelled from the spec: `Util_sscandec` of `util.c` (not under `src/`), the
scanner of an unsigned decimal number: the value of a non-empty string of
decimal digits, and `-1` for every other string. -/
def Util_sscandec (s : List Char) : Int :=
  if s = [] then -1 else scandecLoop 0 s

/-- The value of a hexadecimal digit, upper or lower case. -/
def hexValue (c : Char) : Option Int :=
  if 48 ≤ c.toNat ∧ c.toNat ≤ 57 then some ((c.toNat : Int) - 48)
  else if 65 ≤ c.toNat ∧ c.toNat ≤ 70 then some ((c.toNat : Int) - 65 + 10)
  else if 97 ≤ c.toNat ∧ c.toNat ≤ 102 then some ((c.toNat : Int) - 97 + 10)
  else none

/-- The loop of the hexadecimal scanner over the rest of the string. -/
def scanhexLoop : Int → List Char → Int
  | result, [] => result
  | result, c :: cs =>
    match hexValue c with
    | some d => scanhexLoop (16 * result + d) cs
    | none => -1

/-- Modelled from the spec: `Util_sscanhex` of `util.c` (not under `src/`), the
scanner of the `CODE_<hex>` form: the value of a non-empty string of
hexadecimal digits, and `-1` for every other string. -/
def Util_sscanhex (s : List Char) : Int :=
  if s = [] then -1 else scanhexLoop 0 s

/-- Modelled from the spec: `Util_sscanbool` of `util.c` (not under `src/`):
`0` for the string `0`, `1` for the string `1`, and `-1` for every other
string. -/
def Util_sscanbool (s : List Char) : Int :=
  if s = [ '0' ] then 0 else if s = [ '1' ] then 1 else -1

/-- `printf("%d", i)`. -/
def fmt_d (i : Int) : List Char :=
  if i < 0 then '-' :: Nat.toDigits 10 i.natAbs else Nat.toDigits 10 i.natAbs

/-- An upper-case hexadecimal digit. -/
def hexDigitUpper (d : Nat) : Char :=
  if d < 10 then Char.ofNat (48 + d) else Char.ofNat (55 + d)

/-- `printf("%02X", n)` for `n` below 256: two upper-case digits. -/
def fmt_02X (n : Nat) : List Char :=
  [hexDigitUpper (n / 16 % 16), hexDigitUpper (n % 16)]

/-- Decimal digits of `n`, padded with zeros on the left to `width`. -/
def padDigits (width n : Nat) : List Char :=
  List.replicate (width - (Nat.toDigits 10 n).length) '0' ++ Nat.toDigits 10 n

/-- `printf("%f", q)` for a `float` or `double` value: six decimals, the exact
value rounded to the nearest, ties to even. -/
def fmt_f (q : ℚ) : List Char :=
  let n := (roundHalfEven (|q| * 1000000)).natAbs
  (if q < 0 then [ '-' ] else []) ++ Nat.toDigits 10 (n / 1000000) ++ [ '.' ]
    ++ padDigits 6 (n % 1000000)

/-- `StringToPadFunction` (lines 212-245). -/
def StringToPadFunction (padFunctionString : List Char) : Int :=
  if padFunctionString = "FNPAD_NONE".toList then FNPAD_NONE
  else if padFunctionString = "FNPAD_SP_HOLD".toList then FNPAD_SP_HOLD
  else if padFunctionString = "FNPAD_FIRE_HOLD".toList then FNPAD_FIRE_HOLD
  else if padFunctionString = "FNPAD_FIRE_TOGGLE".toList then FNPAD_FIRE_TOGGLE
  else if padFunctionString = "FNPAD_AUTOFIRE_HOLD".toList then FNPAD_AUTOFIRE_HOLD
  else if padFunctionString = "FNPAD_AUTOFIRE_TOGGLE".toList then FNPAD_AUTOFIRE_TOGGLE
  else if padFunctionString = "FNPAD_START_HOLD".toList then FNPAD_START_HOLD
  else if padFunctionString = "FNPAD_SELECT_HOLD".toList then FNPAD_SELECT_HOLD
  else if padFunctionString = "FNPAD_OPTION_HOLD".toList then FNPAD_OPTION_HOLD
  else if padFunctionString = "FNPAD_TURBO_HOLD".toList then FNPAD_TURBO_HOLD
  else if padFunctionString = "FNPAD_TURBO_TOGGLE".toList then FNPAD_TURBO_TOGGLE
  else if padFunctionString = "FNPAD_EXIT".toList then FNPAD_EXIT
  else if padFunctionString = "FNPAD_UI".toList then FNPAD_UI
  else if padFunctionString = "FNPAD_SAVESTATE".toList then FNPAD_SAVESTATE
  else if padFunctionString = "FNPAD_LOADSTATE".toList then FNPAD_LOADSTATE
  else if padFunctionString = "FNPAD_WARMSTART".toList then FNPAD_WARMSTART
  else if padFunctionString = "FNPAD_COLDSTART".toList then FNPAD_COLDSTART
  else if padFunctionString = "FNPAD_BREAK".toList then FNPAD_BREAK
  else if padFunctionString = "FNPAD_SCREENSHOT".toList then FNPAD_SCREENSHOT
  else if padFunctionString = "FNPAD_SCREENSHOT_INTERLACE".toList then FNPAD_SCREENSHOT_INTERLACE
  else if padFunctionString = "FNPAD_KEYB".toList then FNPAD_KEYB
  else if padFunctionString = "FNPAD_HELP".toList then FNPAD_HELP
  else if padFunctionString = "FNPAD_ESCAPE".toList then FNPAD_ESCAPE
  else if padFunctionString = "FNPAD_KEY_SPACEBAR".toList then FNPAD_KEY_SPACEBAR
  else if padFunctionString.take 11 = "FNPAD_CODE_".toList then
    let code := Util_sscanhex (padFunctionString.drop 11)
    if code ≥ 0 ∧ code ≤ 255 then FNPAD_CODE_ + code else FNPAD_NONE
  else FNPAD_NONE

/-- `PadFunctionToString` (lines 251-287): the content of `outString`. -/
def PadFunctionToString (padFunction : Int) : List Char :=
  if padFunction = FNPAD_NONE then "FNPAD_NONE".toList
  else if padFunction = FNPAD_SP_HOLD then "FNPAD_SP_HOLD".toList
  else if padFunction = FNPAD_FIRE_HOLD then "FNPAD_FIRE_HOLD".toList
  else if padFunction = FNPAD_FIRE_TOGGLE then "FNPAD_FIRE_TOGGLE".toList
  else if padFunction = FNPAD_AUTOFIRE_HOLD then "FNPAD_AUTOFIRE_HOLD".toList
  else if padFunction = FNPAD_AUTOFIRE_TOGGLE then "FNPAD_AUTOFIRE_TOGGLE".toList
  else if padFunction = FNPAD_START_HOLD then "FNPAD_START_HOLD".toList
  else if padFunction = FNPAD_SELECT_HOLD then "FNPAD_SELECT_HOLD".toList
  else if padFunction = FNPAD_OPTION_HOLD then "FNPAD_OPTION_HOLD".toList
  else if padFunction = FNPAD_TURBO_HOLD then "FNPAD_TURBO_HOLD".toList
  else if padFunction = FNPAD_TURBO_TOGGLE then "FNPAD_TURBO_TOGGLE".toList
  else if padFunction = FNPAD_EXIT then "FNPAD_EXIT".toList
  else if padFunction = FNPAD_UI then "FNPAD_UI".toList
  else if padFunction = FNPAD_SAVESTATE then "FNPAD_SAVESTATE".toList
  else if padFunction = FNPAD_LOADSTATE then "FNPAD_LOADSTATE".toList
  else if padFunction = FNPAD_WARMSTART then "FNPAD_WARMSTART".toList
  else if padFunction = FNPAD_COLDSTART then "FNPAD_COLDSTART".toList
  else if padFunction = FNPAD_BREAK then "FNPAD_BREAK".toList
  else if padFunction = FNPAD_SCREENSHOT then "FNPAD_SCREENSHOT".toList
  else if padFunction = FNPAD_SCREENSHOT_INTERLACE then "FNPAD_SCREENSHOT_INTERLACE".toList
  else if padFunction = FNPAD_KEYB then "FNPAD_KEYB".toList
  else if padFunction = FNPAD_HELP then "FNPAD_HELP".toList
  else if padFunction = FNPAD_ESCAPE then "FNPAD_ESCAPE".toList
  else if padFunction = FNPAD_KEY_SPACEBAR then "FNPAD_KEY_SPACEBAR".toList
  else if padFunction ≥ FNPAD_CODE_ ∧ padFunction ≤ FNPAD_CODE_ + 255 then
    "FNPAD_CODE_".toList ++ fmt_02X (padFunction - FNPAD_CODE_).toNat
  else "FNPAD_NONE".toList

/-- The configuration that `GamePads_Reset_Config` (lines 325-339) gives to
every pad; `0.1` is a `double` constant converted to `float`. -/
def defaultConfig : SDL_INPUT_RealJSConfig_t where
  radial := 1
  deadzone := 15000
  tolerance := f32 (f64 (1 / 10))
  radial_tolerance := f32 (f64 (1 / 10))
  use_as_stick := 1
  use_hat_as_stick := 1
  use_in_menus := 0
  use_hat_in_menus := 0
  in_menus_select_button := 0
  in_menus_back_button := 1
  autofire_freq := 2
  button_functions := fun j => if j < MAX_GAMEPAD_BUTTONS then FNPAD_FIRE_HOLD else 0
  button_sp_functions := fun j => if j < MAX_GAMEPAD_BUTTONS then FNPAD_FIRE_HOLD else 0

/-- `GamePads_Reset_Config` (lines 320-343). -/
def GamePads_Reset_Config (s : State) : State :=
  { (List.range MAX_GAMEPADS).foldl
      (fun t i => GamePads_DetermineMasks i
        { t with gamepad_configuration := Function.update t.gamepad_configuration i defaultConfig })
      s with
    gamepad_masks_valid := 1 }

/-- The guard `if (!gamepad_config_reset) ...` that opens `GamePads_Write_Config`,
`GamePads_Read_Config` and `GamePads_Init`. -/
def resetOnFirstTouch (s : State) : State :=
  if s.gamepad_config_reset = 0 then { GamePads_Reset_Config s with gamepad_config_reset := 1 } else s

/-- A line `KEY=VALUE` of the configuration file, as the pair of its key and
its value. -/
abbrev ConfigLine := List Char × List Char

/-- The lines that the body of the loop of `GamePads_Write_Config`
(lines 360-378) prints for the pad `i`. -/
def writePadConfig (i : Nat) (cfg : SDL_INPUT_RealJSConfig_t) : List ConfigLine :=
  let pad := "SDL_PAD_".toList ++ fmt_d (i : Int)
  [ (pad ++ "_JOY_RADIAL".toList, fmt_d cfg.radial),
    (pad ++ "_JOY_DEADZONE".toList, fmt_d cfg.deadzone),
    (pad ++ "_JOY_TOLERANCE".toList, fmt_f cfg.tolerance),
    (pad ++ "_JOY_RADIAL_TOLERANCE".toList, fmt_f cfg.radial_tolerance),
    (pad ++ "_JOY_USE_AS_STICK".toList, fmt_d cfg.use_as_stick),
    (pad ++ "_HAT_USE_AS_STICK".toList, fmt_d cfg.use_hat_as_stick),
    (pad ++ "_JOY_USE_IN_MENUS".toList, fmt_d cfg.use_in_menus),
    (pad ++ "_HAT_USE_IN_MENUS".toList, fmt_d cfg.use_hat_in_menus),
    (pad ++ "_IN_MENUS_SELECT_BUTTON".toList, fmt_d cfg.in_menus_select_button),
    (pad ++ "_IN_MENUS_BACK_BUTTON".toList, fmt_d cfg.in_menus_back_button),
    (pad ++ "_AUTOFIRE_FREQ".toList, fmt_d cfg.autofire_freq) ]
  ++ (List.range MAX_GAMEPAD_BUTTONS).map
      (fun (j : Nat) => (pad ++ "_BUTTON_".toList ++ fmt_d (j : Int) ++ "_FUNC".toList,
        PadFunctionToString (cfg.button_functions j)))
  ++ (List.range MAX_GAMEPAD_BUTTONS).map
      (fun (j : Nat) => (pad ++ "_BUTTON_".toList ++ fmt_d (j : Int) ++ "_SP_FUNC".toList,
        PadFunctionToString (cfg.button_sp_functions j)))

/-- `GamePads_Write_Config` (lines 349-380): the lines written and the state
(the first touch resets the configuration). -/
def GamePads_Write_Config (s : State) : List ConfigLine × State :=
  let s1 := resetOnFirstTouch s
  ((List.range MAX_GAMEPADS).flatMap (fun i => writePadConfig i (s1.gamepad_configuration i)), s1)

/-- A write to `gamepad_configuration[joy_number]`; `joy_number` is below
`MAX_GAMEPADS` here, and a negative index, which lies outside the array, has no
defined result. -/
def setPad (s : State) (joy_number : Int)
    (f : SDL_INPUT_RealJSConfig_t → SDL_INPUT_RealJSConfig_t) : Option State :=
  if joy_number < 0 then none
  else some { s with
    gamepad_configuration :=
      Function.update s.gamepad_configuration joy_number.toNat
        (f (s.gamepad_configuration joy_number.toNat)) }

/-- The value that lines 426-427 and 431-432 assign: the scanned `double`
converted to `float`, and the content of the uninitialised `number` when the
scanner fails. -/
def scannedFloat (h : Host) (parameters : List Char) : ℚ :=
  match h.Util_sscandouble parameters with
  | some number => f32 number
  | none => f32 h.number_uninitialised

/-- The per-button part of `GamePads_Read_Config` (lines 462-484); `option0`
is the text after `_BUTTON_`. -/
def readButtonConfig (s : State) (joy_number : Int) (option0 parameters : List Char) :
    Option State :=
  match strchr '_' option0 with
  | none => some s
  | some len =>
    if len > 2 ∨ len = 0 then some s
    else
      let button_number := Util_sscandec (option0.take len)
      if button_number ≥ MAX_GAMEPAD_BUTTONS then some s
      else
        let option1 := option0.drop len
        if option1 = "_FUNC".toList then
          if button_number < 0 then none
          else setPad s joy_number (fun c => { c with
            button_functions :=
              Function.update c.button_functions button_number.toNat (StringToPadFunction parameters) })
        else if option1 = "_SP_FUNC".toList then
          if button_number < 0 then none
          else setPad s joy_number (fun c => { c with
            button_sp_functions :=
              Function.update c.button_sp_functions button_number.toNat (StringToPadFunction parameters) })
        else some s

/-- `GamePads_Read_Config` (lines 386-485); `none` stands for an access
outside `gamepad_configuration` or outside a button table. -/
def GamePads_Read_Config (h : Host) (option : List Char) (parameters : Option (List Char))
    (s : State) : Option State :=
  let s1 := resetOnFirstTouch s
  match parameters with
  | none => some s1
  | some parameters =>
    let s2 := { s1 with gamepad_masks_valid := 0 }
    match strchr '_' option with
    | none => some s2
    | some len =>
      if len > 2 ∨ len = 0 then some s2
      else
        let joy_number := Util_sscandec (option.take len)
        if joy_number ≥ MAX_GAMEPADS then some s2
        else
          let option := option.drop len
          if option = "_JOY_RADIAL".toList then
            setPad s2 joy_number (fun c => { c with radial := Util_sscanbool parameters })
          else if option = "_JOY_DEADZONE".toList then
            setPad s2 joy_number (fun c => { c with deadzone := Util_sscandec parameters })
          else if option = "_JOY_TOLERANCE".toList then
            setPad s2 joy_number (fun c => { c with tolerance := scannedFloat h parameters })
          else if option = "_JOY_RADIAL_TOLERANCE".toList then
            setPad s2 joy_number (fun c => { c with radial_tolerance := scannedFloat h parameters })
          else if option = "_JOY_USE_AS_STICK".toList then
            setPad s2 joy_number (fun c => { c with use_as_stick := Util_sscanbool parameters })
          else if option = "_HAT_USE_AS_STICK".toList then
            setPad s2 joy_number (fun c => { c with use_hat_as_stick := Util_sscanbool parameters })
          else if option = "_JOY_USE_IN_MENUS".toList then
            setPad s2 joy_number (fun c => { c with use_in_menus := Util_sscanbool parameters })
          else if option = "_HAT_USE_IN_MENUS".toList then
            setPad s2 joy_number (fun c => { c with use_hat_in_menus := Util_sscanbool parameters })
          else if option = "_IN_MENUS_SELECT_BUTTON".toList then
            setPad s2 joy_number (fun c => { c with in_menus_select_button := Util_sscandec parameters })
          else if option = "_AUTOFIRE_FREQ".toList then
            setPad s2 joy_number (fun c => { c with
              autofire_freq :=
                if Util_sscandec parameters ≤ 0 then 1 else Util_sscandec parameters })
          else if option.take 8 = "_BUTTON_".toList then
            readButtonConfig s2 joy_number (option.drop 8) parameters
          else some s2

/-- The pad number and the rest of the option that lines 405-416 of
`GamePads_Read_Config` extract; `none` when the function returns there. -/
def padOptionParts (option : List Char) : Option (Int × List Char) :=
  match strchr '_' option with
  | none => none
  | some len =>
    if len > 2 ∨ len = 0 then none
    else if Util_sscandec (option.take len) ≥ MAX_GAMEPADS then none
    else some (Util_sscandec (option.take len), option.drop len)

/-- The button number and the rest of the option that lines 463-473 of
`GamePads_Read_Config` extract from the text after `_BUTTON_`; `none` when the
function returns there. -/
def buttonOptionParts (option0 : List Char) : Option (Int × List Char) :=
  match strchr '_' option0 with
  | none => none
  | some len =>
    if len > 2 ∨ len = 0 then none
    else if Util_sscandec (option0.take len) ≥ MAX_GAMEPAD_BUTTONS then none
    else some (Util_sscandec (option0.take len), option0.drop len)

/-- The field names that `GamePads_Read_Config` compares the rest of the option
with (lines 417-456). -/
def knownPadFields : List (List Char) :=
  [ "_JOY_RADIAL".toList, "_JOY_DEADZONE".toList, "_JOY_TOLERANCE".toList,
    "_JOY_RADIAL_TOLERANCE".toList, "_JOY_USE_AS_STICK".toList, "_HAT_USE_AS_STICK".toList,
    "_JOY_USE_IN_MENUS".toList, "_HAT_USE_IN_MENUS".toList, "_IN_MENUS_SELECT_BUTTON".toList,
    "_AUTOFIRE_FREQ".toList ]

/-- `SDLKeyBind` (lines 1099-1117): the new value of the binding and the
result. -/
def SDLKeyBind (K : Consts) (retval : Int) (sdlKeySymIntStr : Option (List Char)) : Int × Int :=
  match sdlKeySymIntStr with
  | none => (retval, 0)
  | some str =>
    let ksym := Util_sscandec str
    if ksym > K.SDLK_FIRST ∧ ksym < K.SDLK_LAST then (ksym, 1) else (retval, 0)

/-- The value `(parameters != NULL && parameters[0] != '0')` of lines 1131 and
1135. -/
def enabledFlag (parameters : Option (List Char)) : Int :=
  match parameters with
  | none => 0
  | some str => if str.head? = some '0' then 0 else 1

/-- `Keyboard_ReadConfig` (lines 1122-1190): the state and the result. -/
def Keyboard_ReadConfig (K : Consts) (option : List Char) (parameters : Option (List Char))
    (s : State) : State × Int :=
  let k := s.keys
  let bind (old : Int) (set : Int → KeyBindings) : State × Int :=
    ({ s with keys := set (SDLKeyBind K old parameters).1 }, (SDLKeyBind K old parameters).2)
  if option = "SDL_JOY_0_ENABLED".toList then
    ({ s with PLATFORM_kbd_joy_0_enabled := enabledFlag parameters }, 1)
  else if option = "SDL_JOY_1_ENABLED".toList then
    ({ s with PLATFORM_kbd_joy_1_enabled := enabledFlag parameters }, 1)
  else if option = "SDL_JOY_0_LEFT".toList then bind k.KBD_STICK_0_LEFT (fun v => { k with KBD_STICK_0_LEFT := v })
  else if option = "SDL_JOY_0_RIGHT".toList then bind k.KBD_STICK_0_RIGHT (fun v => { k with KBD_STICK_0_RIGHT := v })
  else if option = "SDL_JOY_0_DOWN".toList then bind k.KBD_STICK_0_DOWN (fun v => { k with KBD_STICK_0_DOWN := v })
  else if option = "SDL_JOY_0_UP".toList then bind k.KBD_STICK_0_UP (fun v => { k with KBD_STICK_0_UP := v })
  else if option = "SDL_JOY_0_TRIGGER".toList then bind k.KBD_TRIG_0 (fun v => { k with KBD_TRIG_0 := v })
  else if option = "SDL_JOY_1_LEFT".toList then bind k.KBD_STICK_1_LEFT (fun v => { k with KBD_STICK_1_LEFT := v })
  else if option = "SDL_JOY_1_RIGHT".toList then bind k.KBD_STICK_1_RIGHT (fun v => { k with KBD_STICK_1_RIGHT := v })
  else if option = "SDL_JOY_1_DOWN".toList then bind k.KBD_STICK_1_DOWN (fun v => { k with KBD_STICK_1_DOWN := v })
  else if option = "SDL_JOY_1_UP".toList then bind k.KBD_STICK_1_UP (fun v => { k with KBD_STICK_1_UP := v })
  else if option = "SDL_JOY_1_TRIGGER".toList then bind k.KBD_TRIG_1 (fun v => { k with KBD_TRIG_1 := v })
  else if option = "SDL_UI_KEY".toList then bind k.KBD_UI (fun v => { k with KBD_UI := v })
  else if option = "SDL_OPTION_KEY".toList then bind k.KBD_OPTION (fun v => { k with KBD_OPTION := v })
  else if option = "SDL_SELECT_KEY".toList then bind k.KBD_SELECT (fun v => { k with KBD_SELECT := v })
  else if option = "SDL_START_KEY".toList then bind k.KBD_START (fun v => { k with KBD_START := v })
  else if option = "SDL_RESET_KEY".toList then bind k.KBD_RESET (fun v => { k with KBD_RESET := v })
  else if option = "SDL_HELP_KEY".toList then bind k.KBD_HELP (fun v => { k with KBD_HELP := v })
  else if option = "SDL_BREAK_KEY".toList then bind k.KBD_BREAK (fun v => { k with KBD_BREAK := v })
  else if option = "SDL_MON_KEY".toList then bind k.KBD_MON (fun v => { k with KBD_MON := v })
  else if option = "SDL_EXIT_KEY".toList then bind k.KBD_EXIT (fun v => { k with KBD_EXIT := v })
  else if option = "SDL_SSHOT_KEY".toList then bind k.KBD_SSHOT (fun v => { k with KBD_SSHOT := v })
  else if option = "SDL_TURBO_KEY".toList then bind k.KBD_TURBO (fun v => { k with KBD_TURBO := v })
  else (s, 0)

/-- A key of the configuration file that binds a key code, with the variable
that `Keyboard_ReadConfig` hands to `SDLKeyBind` for it (lines 1139-1187), as
the pair of its getter and its setter. -/
structure KeyBindingEntry where
  name : List Char
  get : KeyBindings → Int
  set : KeyBindings → Int → KeyBindings

/-- The binding keys of `Keyboard_ReadConfig` (lines 1139-1187), in the order
of the source. -/
def keyBindingTable : List KeyBindingEntry :=
  [ ⟨"SDL_JOY_0_LEFT".toList, fun k => k.KBD_STICK_0_LEFT, fun k v => { k with KBD_STICK_0_LEFT := v }⟩,
    ⟨"SDL_JOY_0_RIGHT".toList, fun k => k.KBD_STICK_0_RIGHT, fun k v => { k with KBD_STICK_0_RIGHT := v }⟩,
    ⟨"SDL_JOY_0_DOWN".toList, fun k => k.KBD_STICK_0_DOWN, fun k v => { k with KBD_STICK_0_DOWN := v }⟩,
    ⟨"SDL_JOY_0_UP".toList, fun k => k.KBD_STICK_0_UP, fun k v => { k with KBD_STICK_0_UP := v }⟩,
    ⟨"SDL_JOY_0_TRIGGER".toList, fun k => k.KBD_TRIG_0, fun k v => { k with KBD_TRIG_0 := v }⟩,
    ⟨"SDL_JOY_1_LEFT".toList, fun k => k.KBD_STICK_1_LEFT, fun k v => { k with KBD_STICK_1_LEFT := v }⟩,
    ⟨"SDL_JOY_1_RIGHT".toList, fun k => k.KBD_STICK_1_RIGHT, fun k v => { k with KBD_STICK_1_RIGHT := v }⟩,
    ⟨"SDL_JOY_1_DOWN".toList, fun k => k.KBD_STICK_1_DOWN, fun k v => { k with KBD_STICK_1_DOWN := v }⟩,
    ⟨"SDL_JOY_1_UP".toList, fun k => k.KBD_STICK_1_UP, fun k v => { k with KBD_STICK_1_UP := v }⟩,
    ⟨"SDL_JOY_1_TRIGGER".toList, fun k => k.KBD_TRIG_1, fun k v => { k with KBD_TRIG_1 := v }⟩,
    ⟨"SDL_UI_KEY".toList, fun k => k.KBD_UI, fun k v => { k with KBD_UI := v }⟩,
    ⟨"SDL_OPTION_KEY".toList, fun k => k.KBD_OPTION, fun k v => { k with KBD_OPTION := v }⟩,
    ⟨"SDL_SELECT_KEY".toList, fun k => k.KBD_SELECT, fun k v => { k with KBD_SELECT := v }⟩,
    ⟨"SDL_START_KEY".toList, fun k => k.KBD_START, fun k v => { k with KBD_START := v }⟩,
    ⟨"SDL_RESET_KEY".toList, fun k => k.KBD_RESET, fun k v => { k with KBD_RESET := v }⟩,
    ⟨"SDL_HELP_KEY".toList, fun k => k.KBD_HELP, fun k v => { k with KBD_HELP := v }⟩,
    ⟨"SDL_BREAK_KEY".toList, fun k => k.KBD_BREAK, fun k v => { k with KBD_BREAK := v }⟩,
    ⟨"SDL_MON_KEY".toList, fun k => k.KBD_MON, fun k v => { k with KBD_MON := v }⟩,
    ⟨"SDL_EXIT_KEY".toList, fun k => k.KBD_EXIT, fun k v => { k with KBD_EXIT := v }⟩,
    ⟨"SDL_SSHOT_KEY".toList, fun k => k.KBD_SSHOT, fun k v => { k with KBD_SSHOT := v }⟩,
    ⟨"SDL_TURBO_KEY".toList, fun k => k.KBD_TURBO, fun k v => { k with KBD_TURBO := v }⟩ ]

/-- The keys that `Keyboard_ReadConfig` recognises (lines 1130-1187). -/
def keyboardKeys : List (List Char) :=
  "SDL_JOY_0_ENABLED".toList :: "SDL_JOY_1_ENABLED".toList :: keyBindingTable.map (fun e => e.name)

/-- `SDL_INPUT_ReadConfig` (lines 2230-2242): the state and the result. -/
def SDL_INPUT_ReadConfig (K : Consts) (h : Host) (option : List Char)
    (parameters : Option (List Char)) (s : State) : Option (State × Int) :=
  let r := Keyboard_ReadConfig K option parameters s
  if r.2 ≠ 0 then some (r.1, 1)
  else if option.take 8 = "SDL_PAD_".toList then
    (GamePads_Read_Config h (option.drop 8) parameters r.1).map (fun t => (t, 1))
  else some (r.1, 0)

/-- Every line of `lines` fed through `SDL_INPUT_ReadConfig`, in order. -/
def readConfigLines (K : Consts) (h : Host) : List ConfigLine → State → Option State
  | [], s => some s
  | (key, value) :: lines, s =>
    match SDL_INPUT_ReadConfig K h key (some value) s with
    | none => none
    | some r => readConfigLines K h lines r.1

/-! ## Start-up -/

/-- The loop of `GamePads_Init` (lines 519-535) over the joysticks SDL lists:
for each one, `none` when `SDL_JoystickOpen` fails and otherwise the number of
its buttons. -/
def openGamepads : List (Option Nat) → State → State
  | [], s => s
  | j :: js, s =>
    if s.gamepads_found < MAX_GAMEPADS then
      match j with
      | none =>
        openGamepads js { s with sdl_gamepads := Function.update s.sdl_gamepads s.gamepads_found false }
      | some buttons =>
        openGamepads js { s with
          sdl_gamepads := Function.update s.sdl_gamepads s.gamepads_found true
          gamepads_max_buttons :=
            Function.update s.gamepads_max_buttons s.gamepads_found
              (if buttons > MAX_GAMEPAD_BUTTONS then MAX_GAMEPAD_BUTTONS else buttons)
          gamepads_found := s.gamepads_found + 1 }
    else s

/-- `GamePads_Init` (lines 492-536); `joysticks` is what SDL lists. -/
def GamePads_Init (K : Consts) (joysticks : List (Option Nat)) (s : State) : State :=
  let s1 := resetOnFirstTouch s
  openGamepads joysticks { s1 with
    gamepads_sdl_last_state := fun i =>
      if i < MAX_GAMEPADS then { s1.gamepads_sdl_last_state i with x := 0, y := 0, hx := 0, hy := 0, buttons := 0 }
      else s1.gamepads_sdl_last_state i
    gamepads_fire_state := fun i =>
      if i < MAX_GAMEPADS then
        { autofire_phase := 0, autofire_toggle_on := 0, autofire_actual_on := 0,
          autofire_last_on := 0, fire_toggle_on := 0, fire := 0 }
      else s1.gamepads_fire_state i
    gamepads_consol_state := K.INPUT_CONSOL_NONE
    gamepads_found := 0 }

/-- `SDL_INPUT_GetRealJSConfig` (lines 543-546): the address of the entry
`joyIndex` of `gamepad_configuration`, here the content found there; no
variable is written. -/
def SDL_INPUT_GetRealJSConfig (s : State) (joyIndex : Nat) : SDL_INPUT_RealJSConfig_t :=
  s.gamepad_configuration joyIndex

/-- The key bindings of the initialisers of lines 72-94, with the key codes of
`SDL_keysym.h`. -/
def initialKeys : KeyBindings where
  KBD_TRIG_0 := 305
  KBD_STICK_0_LEFT := 260
  KBD_STICK_0_RIGHT := 262
  KBD_STICK_0_DOWN := 261
  KBD_STICK_0_UP := 264
  KBD_TRIG_1 := 306
  KBD_STICK_1_LEFT := 97
  KBD_STICK_1_RIGHT := 100
  KBD_STICK_1_DOWN := 115
  KBD_STICK_1_UP := 119
  KBD_UI := 282
  KBD_OPTION := 283
  KBD_SELECT := 284
  KBD_START := 285
  KBD_RESET := 286
  KBD_HELP := 287
  KBD_BREAK := 288
  KBD_MON := 289
  KBD_EXIT := 290
  KBD_SSHOT := 291
  KBD_TURBO := 293

/-- The variables as their initialisers leave them when the program starts;
variables without an initialiser are zero. -/
def initialState (K : Consts) : State where
  swap_joysticks := 0
  PLATFORM_kbd_joy_0_enabled := 1
  PLATFORM_kbd_joy_1_enabled := 0
  keys := initialKeys
  fd_joystick0 := -1
  fd_joystick1 := -1
  sdl_gamepads := fun _ => false
  gamepad_config_reset := 0
  gamepad_configuration := fun _ =>
    { radial := 0, deadzone := 0, tolerance := 0, radial_tolerance := 0, use_as_stick := 0,
      use_hat_as_stick := 0, use_in_menus := 0, use_hat_in_menus := 0,
      in_menus_select_button := 0, in_menus_back_button := 0, autofire_freq := 0,
      button_functions := fun _ => 0, button_sp_functions := fun _ => 0 }
  gamepad_special_mask := fun _ => 0
  gamepad_atari_key_mask := fun _ => 0
  gamepad_masks_valid := 0
  gamepads_sdl_last_state := fun _ => { x := 0, y := 0, hx := 0, hy := 0, buttons := 0, special := 0 }
  gamepads_sdl_actual_state := fun _ => { x := 0, y := 0, hx := 0, hy := 0, buttons := 0, special := 0 }
  gamepads_consol_state := 0
  gamepads_found := 0
  gamepads_max_buttons := fun _ => 0
  gamepads_fire_state := fun _ =>
    { autofire_phase := 0, autofire_toggle_on := 0, autofire_actual_on := 0,
      autofire_last_on := 0, fire_toggle_on := 0, fire := 0 }
  INPUT_key_consol := K.INPUT_CONSOL_NONE

/-! ## The keyboard translator -/

def SDLK_UNKNOWN : Int := 0
def SDLK_BACKSPACE : Int := 8
def SDLK_TAB : Int := 9
def SDLK_RETURN : Int := 13
def SDLK_PAUSE : Int := 19
def SDLK_ESCAPE : Int := 27
def SDLK_SPACE : Int := 32
def SDLK_COMMA : Int := 44
def SDLK_MINUS : Int := 45
def SDLK_PERIOD : Int := 46
def SDLK_SLASH : Int := 47
def SDLK_0 : Int := 48
def SDLK_1 : Int := 49
def SDLK_6 : Int := 54
def SDLK_7 : Int := 55
def SDLK_8 : Int := 56
def SDLK_9 : Int := 57
def SDLK_SEMICOLON : Int := 59
def SDLK_EQUALS : Int := 61
def SDLK_LEFTBRACKET : Int := 91
def SDLK_BACKSLASH : Int := 92
def SDLK_RIGHTBRACKET : Int := 93
def SDLK_BACKQUOTE : Int := 96
def SDLK_a : Int := 97
def SDLK_c : Int := 99
def SDLK_d : Int := 100
def SDLK_f : Int := 102
def SDLK_g : Int := 103
def SDLK_j : Int := 106
def SDLK_l : Int := 108
def SDLK_m : Int := 109
def SDLK_o : Int := 111
def SDLK_r : Int := 114
def SDLK_s : Int := 115
def SDLK_t : Int := 116
def SDLK_v : Int := 118
def SDLK_w : Int := 119
def SDLK_x : Int := 120
def SDLK_y : Int := 121
def SDLK_DELETE : Int := 127
def SDLK_KP0 : Int := 256
def SDLK_KP9 : Int := 265
def SDLK_KP_PERIOD : Int := 266
def SDLK_KP_DIVIDE : Int := 267
def SDLK_KP_MULTIPLY : Int := 268
def SDLK_KP_MINUS : Int := 269
def SDLK_KP_PLUS : Int := 270
def SDLK_KP_ENTER : Int := 271
def SDLK_UP : Int := 273
def SDLK_DOWN : Int := 274
def SDLK_RIGHT : Int := 275
def SDLK_LEFT : Int := 276
def SDLK_INSERT : Int := 277
def SDLK_HOME : Int := 278
def SDLK_END : Int := 279
def SDLK_PAGEUP : Int := 280
def SDLK_PAGEDOWN : Int := 281
def SDLK_F4 : Int := 285
def SDLK_CAPSLOCK : Int := 301
def SDLK_RSHIFT : Int := 303
def SDLK_LSHIFT : Int := 304
def SDLK_RCTRL : Int := 305
def SDLK_LCTRL : Int := 306
def SDLK_LALT : Int := 308
def SDLK_LSUPER : Int := 311
def SDLK_RSUPER : Int := 312

/-- Constants of `akey.h`, `ui.h` and `atari.h` (none of them under `src/`)
that `Keyboard_AtariKeys` names besides those of `Consts`.  The constants of a
family are one field: `AKEY_upper i` and `AKEY_lower i` are `AKEY_A` ..
`AKEY_Z` and `AKEY_a` .. `AKEY_z` for `i` = 0 .. 25, `AKEY_CTRL_letter i` is
`AKEY_CTRL_a` .. `AKEY_CTRL_z`, and `AKEY_digit i`, `AKEY_CTRL_digit i`,
`AKEY_5200_digit i` and `AKEY_CX85_digit i` are `AKEY_0` .. `AKEY_9`,
`AKEY_CTRL_0` .. `AKEY_CTRL_9`, `AKEY_5200_0` .. `AKEY_5200_9` and
`AKEY_CX85_0` .. `AKEY_CX85_9`. -/
structure KeyConsts where
  AKEY_SHFT : Int
  AKEY_CTRL : Int
  AKEY_PBI_BB_MENU : Int
  AKEY_5200_START : Int
  AKEY_5200_PAUSE : Int
  AKEY_5200_RESET : Int
  AKEY_5200_HASH : Int
  AKEY_5200_ASTERISK : Int
  AKEY_5200_digit : Nat → Int
  AKEY_ATARI : Int
  AKEY_CAPSLOCK : Int
  AKEY_CAPSTOGGLE : Int
  AKEY_F1 : Int
  AKEY_F2 : Int
  AKEY_F3 : Int
  AKEY_F4 : Int
  AKEY_CLEAR : Int
  AKEY_BACKSPACE : Int
  AKEY_TAB : Int
  AKEY_DELETE_LINE : Int
  AKEY_DELETE_CHAR : Int
  AKEY_INSERT_LINE : Int
  AKEY_INSERT_CHAR : Int
  AKEY_CX85_digit : Nat → Int
  AKEY_CX85_PERIOD : Int
  AKEY_CX85_MINUS : Int
  AKEY_CX85_PLUS_ENTER : Int
  AKEY_CX85_ESCAPE : Int
  AKEY_CX85_NO : Int
  AKEY_CX85_DELETE : Int
  AKEY_CX85_YES : Int
  AKEY_CTRL_digit : Nat → Int
  AKEY_CTRL_letter : Nat → Int
  AKEY_upper : Nat → Int
  AKEY_lower : Nat → Int
  AKEY_digit : Nat → Int
  AKEY_COLON : Int
  AKEY_EXCLAMATION : Int
  AKEY_AT : Int
  AKEY_HASH : Int
  AKEY_DOLLAR : Int
  AKEY_PERCENT : Int
  AKEY_CARET : Int
  AKEY_AMPERSAND : Int
  AKEY_ASTERISK : Int
  AKEY_PARENLEFT : Int
  AKEY_PARENRIGHT : Int
  AKEY_PLUS : Int
  AKEY_UNDERSCORE : Int
  AKEY_DBLQUOTE : Int
  AKEY_QUESTION : Int
  AKEY_LESS : Int
  AKEY_GREATER : Int
  AKEY_SEMICOLON : Int
  AKEY_COMMA : Int
  AKEY_FULLSTOP : Int
  AKEY_EQUAL : Int
  AKEY_MINUS : Int
  AKEY_QUOTE : Int
  AKEY_SLASH : Int
  AKEY_BACKSLASH : Int
  AKEY_BRACKETLEFT : Int
  AKEY_BRACKETRIGHT : Int
  AKEY_BAR : Int
  UI_MENU_RUN : Int
  UI_MENU_SYSTEM : Int
  UI_MENU_SOUND : Int
  UI_MENU_SOUND_RECORDING : Int
  UI_MENU_VIDEO_RECORDING : Int
  UI_MENU_ABOUT : Int
  UI_MENU_SAVESTATE : Int
  UI_MENU_DISK : Int
  UI_MENU_LOADSTATE : Int
  UI_MENU_CARTRIDGE : Int
  UI_MENU_CASSETTE : Int
  UI_MENU_MONITOR : Int
  Atari800_MACHINE_5200 : Int

/-- An event that `SDL_PollEvent` delivers, as the switch of lines 1345-1414
tells them apart; `other` is an event that changes none of the variables of
the keyboard translator (resize, expose, an event without a case). -/
inductive SDL_Event where
  | SDL_KEYDOWN (sym unicode : Int)
  | SDL_KEYUP (sym : Int)
  | SDL_QUIT
  | other
  deriving DecidableEq

/-- What `Keyboard_AtariKeys` reads from outside besides `kbhits` and
`UI_is_active`, which are fields of `Host`. -/
structure KeyboardInput where
  /-- The events that the queue of SDL holds, in the order of delivery. -/
  events : List SDL_Event
  /-- Whether `FILTER_NTSC_emu` is not `NULL`. -/
  FILTER_NTSC_emu : Bool
  BINLOAD_wait_active : Int
  Atari800_machine_type : Int
  Atari800_f_keys : Int
  INPUT_cx85 : Int
  /-- The value `SDL_controller_kb()` returns, in a build with
  `USE_UI_BASIC_ONSCREEN_KEYBOARD`. -/
  SDL_controller_kb : Int

/-- The variables that `Keyboard_AtariKeys` keeps and writes: its statics of
lines 1283-1284, `grab_mouse`, `input_key_consol_from_keys` and the globals
`INPUT_key_shift`, `UI_alt_function` and `BINLOAD_pause_loading`. -/
structure KeyboardState where
  lastkey : Int
  key_pressed : Int
  key_control : Int
  lastuni : Int
  INPUT_key_shift : Int
  UI_alt_function : Int
  input_key_consol_from_keys : Nat
  BINLOAD_pause_loading : Int
  grab_mouse : Int
  deriving DecidableEq

/-- The caps-lock fix of lines 1337-1341. -/
def capsLockFix (k : KeyboardState) : KeyboardState :=
  if k.lastkey = SDLK_CAPSLOCK then { k with lastkey := SDLK_UNKNOWN, key_pressed := 0, lastuni := 0 }
  else k

/-- The event loop of lines 1343-1415: whether it met `SDL_QUIT`, on which the
function returns at once, and the variables as it leaves them. -/
def pollEvents : List SDL_Event → KeyboardState → Bool × KeyboardState
  | [], k => (false, k)
  | SDL_Event.SDL_KEYDOWN sym unicode :: es, k =>
    pollEvents es { k with lastkey := sym, lastuni := unicode, key_pressed := 1 }
  | SDL_Event.SDL_KEYUP sym :: es, k =>
    pollEvents es { k with
      lastkey := sym, lastuni := 0, key_pressed := if sym = SDLK_CAPSLOCK then 1 else 0 }
  | SDL_Event.SDL_QUIT :: _, k => (true, k)
  | SDL_Event.other :: es, k => pollEvents es k

/-- The chords with the left Alt key (lines 1427-1629): the value returned, if
the block returns, the state and the variables.  The calls into the video and
colour modules are left out. -/
def altChords (K : Consts) (A : KeyConsts) (h : Host) (e : KeyboardInput) (s : State)
    (k : KeyboardState) : Option Int × State × KeyboardState :=
  if h.kbhits SDLK_LALT ≠ 0 ∧ k.key_pressed ≠ 0 then
    if k.lastkey = SDLK_f then (none, s, { k with key_pressed := 0 })
    else if k.lastkey = SDLK_x then
      (none, s, if k.INPUT_key_shift ≠ 0 then { k with key_pressed := 0 } else k)
    else if k.lastkey = SDLK_g then (none, s, { k with key_pressed := 0 })
    else if k.lastkey = SDLK_j then
      (none, { s with swap_joysticks := 1 - s.swap_joysticks }, { k with key_pressed := 0 })
    else if k.lastkey = SDLK_r then (none, s, { k with UI_alt_function := A.UI_MENU_RUN })
    else if k.lastkey = SDLK_y then (none, s, { k with UI_alt_function := A.UI_MENU_SYSTEM })
    else if k.lastkey = SDLK_o then (none, s, { k with UI_alt_function := A.UI_MENU_SOUND })
    else if k.lastkey = SDLK_w then
      (none, s, { k with UI_alt_function := A.UI_MENU_SOUND_RECORDING })
    else if k.lastkey = SDLK_v then
      (none, s, { k with UI_alt_function := A.UI_MENU_VIDEO_RECORDING })
    else if k.lastkey = SDLK_a then (none, s, { k with UI_alt_function := A.UI_MENU_ABOUT })
    else if k.lastkey = SDLK_s then (none, s, { k with UI_alt_function := A.UI_MENU_SAVESTATE })
    else if k.lastkey = SDLK_d then (none, s, { k with UI_alt_function := A.UI_MENU_DISK })
    else if k.lastkey = SDLK_l then (none, s, { k with UI_alt_function := A.UI_MENU_LOADSTATE })
    else if k.lastkey = SDLK_c then (none, s, { k with UI_alt_function := A.UI_MENU_CARTRIDGE })
    else if k.lastkey = SDLK_t then (none, s, { k with UI_alt_function := A.UI_MENU_CASSETTE })
    else if k.lastkey = SDLK_BACKSLASH then (some A.AKEY_PBI_BB_MENU, s, k)
    else if k.lastkey = SDLK_m then
      (none, s, { k with grab_mouse := cNot k.grab_mouse, key_pressed := 0 })
    else if SDLK_1 ≤ k.lastkey ∧ k.lastkey ≤ SDLK_6 then (some K.AKEY_NONE, s, k)
    else if k.lastkey = SDLK_LEFTBRACKET then (some K.AKEY_NONE, s, k)
    else if e.FILTER_NTSC_emu = true then
      if (SDLK_7 ≤ k.lastkey ∧ k.lastkey ≤ SDLK_9) ∨ k.lastkey = SDLK_0
          ∨ k.lastkey = SDLK_MINUS ∨ k.lastkey = SDLK_EQUALS then (some K.AKEY_NONE, s, k)
      else if k.lastkey = SDLK_RIGHTBRACKET then (none, s, { k with key_pressed := 0 })
      else (none, s, k)
    else (none, s, k)
  else (none, s, k)

/-- The sampling of the shift and control keys and of the console keys
(lines 1631-1658). -/
def sampleModifiers (K : Consts) (h : Host) (s : State) (k : KeyboardState) : KeyboardState :=
  let c0 := K.INPUT_CONSOL_NONE
  let c1 := if h.kbhits s.keys.KBD_OPTION ≠ 0 then andNot c0 K.INPUT_CONSOL_OPTION else c0
  let c2 := if h.kbhits s.keys.KBD_SELECT ≠ 0 then andNot c1 K.INPUT_CONSOL_SELECT else c1
  let c3 := if h.kbhits s.keys.KBD_START ≠ 0 then andNot c2 K.INPUT_CONSOL_START else c2
  { k with
    INPUT_key_shift := if h.kbhits SDLK_LSHIFT ≠ 0 ∨ h.kbhits SDLK_RSHIFT ≠ 0 then 1 else 0
    key_control := if h.kbhits SDLK_LCTRL ≠ 0 ∨ h.kbhits SDLK_RCTRL ≠ 0 then 1 else 0
    BINLOAD_pause_loading := 0
    input_key_consol_from_keys := c3 }

/-- The part of `Keyboard_AtariKeys` before the translation of the key that is
down (lines 1337-1661): the value returned, if the function returns there, the
state and the variables. -/
def keyboardEntry (K : Consts) (A : KeyConsts) (h : Host) (e : KeyboardInput) (s : State)
    (k : KeyboardState) : Option Int × State × KeyboardState :=
  let p := pollEvents e.events (capsLockFix k)
  if p.1 = true then (some K.AKEY_EXIT, s, p.2)
  else if e.events = [] ∧ p.2.key_pressed = 0 then
    (some (if K.USE_UI_BASIC_ONSCREEN_KEYBOARD = true then e.SDL_controller_kb else K.AKEY_NONE),
      s, p.2)
  else
    let r := altChords K A h e s { p.2 with UI_alt_function := -1 }
    match r.1 with
    | some key => (some key, r.2.1, r.2.2)
    | none =>
      let k1 := sampleModifiers K h r.2.1 r.2.2
      if k1.key_pressed = 0 then (some K.AKEY_NONE, r.2.1, k1) else (none, r.2.1, k1)

/-- The keys bound to functions (lines 1667-1703): the value returned, if one
of the rules applies, and the variables. -/
def functionKeys (K : Consts) (A : KeyConsts) (e : KeyboardInput) (s : State)
    (k : KeyboardState) : Option Int × KeyboardState :=
  if k.lastkey = s.keys.KBD_RESET then
    (some (if k.INPUT_key_shift ≠ 0 then K.AKEY_COLDSTART else K.AKEY_WARMSTART),
      { k with key_pressed := 0 })
  else if k.lastkey = s.keys.KBD_EXIT then (some K.AKEY_EXIT, k)
  else if k.lastkey = s.keys.KBD_UI then (some K.AKEY_UI, { k with key_pressed := 0 })
  else
    let k1 := if k.lastkey = s.keys.KBD_MON then { k with UI_alt_function := A.UI_MENU_MONITOR } else k
    if k.lastkey = s.keys.KBD_HELP then (some (Int.xor K.AKEY_HELP 0), k1)
    else if k.lastkey = s.keys.KBD_BREAK then
      if e.BINLOAD_wait_active ≠ 0 then (some K.AKEY_NONE, { k1 with BINLOAD_pause_loading := 1 })
      else (some K.AKEY_BREAK, k1)
    else if k.lastkey = s.keys.KBD_SSHOT then
      (some (if k.INPUT_key_shift ≠ 0 then K.AKEY_SCREENSHOT_INTERLACE else K.AKEY_SCREENSHOT),
        { k1 with key_pressed := 0 })
    else if k.lastkey = s.keys.KBD_TURBO then (some K.AKEY_TURBO, { k1 with key_pressed := 0 })
    else if k1.UI_alt_function ≠ -1 then (some K.AKEY_UI, { k1 with key_pressed := 0 })
    else (none, k1)

/-- The test of lines 1708-1722: the menu is inactive and the key is one of
the five keys of an enabled keyboard joystick. -/
def keyboardJoystickKey (h : Host) (s : State) (lastkey : Int) : Prop :=
  (h.UI_is_active = 0 ∧ s.PLATFORM_kbd_joy_0_enabled ≠ 0
    ∧ (lastkey = s.keys.KBD_STICK_0_LEFT ∨ lastkey = s.keys.KBD_STICK_0_RIGHT
      ∨ lastkey = s.keys.KBD_STICK_0_UP ∨ lastkey = s.keys.KBD_STICK_0_DOWN
      ∨ lastkey = s.keys.KBD_TRIG_0))
  ∨ (h.UI_is_active = 0 ∧ s.PLATFORM_kbd_joy_1_enabled ≠ 0
    ∧ (lastkey = s.keys.KBD_STICK_1_LEFT ∨ lastkey = s.keys.KBD_STICK_1_RIGHT
      ∨ lastkey = s.keys.KBD_STICK_1_UP ∨ lastkey = s.keys.KBD_STICK_1_DOWN
      ∨ lastkey = s.keys.KBD_TRIG_1))

instance (h : Host) (s : State) (lastkey : Int) : Decidable (keyboardJoystickKey h s lastkey) := by
  unfold keyboardJoystickKey; infer_instance

/-- The keys of the 5200 (lines 1727-1762), `shiftctrl` holding the shift bit:
the value returned when the machine is a 5200 and the menu is inactive. -/
def keys5200 (K : Consts) (A : KeyConsts) (h : Host) (e : KeyboardInput) (shiftctrl : Int)
    (k : KeyboardState) : Option Int :=
  if e.Atari800_machine_type = A.Atari800_MACHINE_5200 ∧ h.UI_is_active = 0 then
    if k.lastkey = SDLK_F4 then some (Int.xor A.AKEY_5200_START shiftctrl)
    else if k.lastuni = 112 then some (Int.xor A.AKEY_5200_PAUSE shiftctrl)
    else if k.lastuni = 114 then some (Int.xor A.AKEY_5200_RESET shiftctrl)
    else if 48 ≤ k.lastuni ∧ k.lastuni ≤ 57 then
      some (Int.xor (A.AKEY_5200_digit (k.lastuni - 48).toNat) shiftctrl)
    else if k.lastuni = 35 ∨ k.lastuni = 61 then some (Int.xor A.AKEY_5200_HASH shiftctrl)
    else if k.lastuni = 42 then some (Int.xor A.AKEY_5200_ASTERISK shiftctrl)
    else some K.AKEY_NONE
  else none

/-- The switch on the key of lines 1767-1846. -/
def specialKeys (K : Consts) (A : KeyConsts) (h : Host) (e : KeyboardInput) (shiftctrl : Int)
    (k : KeyboardState) : Option Int :=
  let arrow (fkey shifted plain : Int) : Int :=
    Int.xor (if h.UI_is_active = 0 ∧ e.Atari800_f_keys ≠ 0 then fkey
      else if k.INPUT_key_shift ≠ 0 then shifted else plain) shiftctrl
  if k.lastkey = SDLK_BACKQUOTE ∨ k.lastkey = SDLK_LSUPER then some (Int.xor A.AKEY_ATARI shiftctrl)
  else if k.lastkey = SDLK_RSUPER then
    some (if k.INPUT_key_shift ≠ 0 then A.AKEY_CAPSLOCK else A.AKEY_CAPSTOGGLE)
  else if k.lastkey = SDLK_END ∨ k.lastkey = SDLK_PAGEDOWN then some (Int.lor A.AKEY_F2 A.AKEY_SHFT)
  else if k.lastkey = SDLK_PAGEUP then some (Int.lor A.AKEY_F1 A.AKEY_SHFT)
  else if k.lastkey = SDLK_HOME then
    some (if k.key_control ≠ 0 then Int.lor A.AKEY_LESS shiftctrl else A.AKEY_CLEAR)
  else if k.lastkey = SDLK_PAUSE ∨ k.lastkey = SDLK_CAPSLOCK then
    some (if k.INPUT_key_shift ≠ 0 then Int.lor A.AKEY_CAPSLOCK shiftctrl
      else Int.lor A.AKEY_CAPSTOGGLE shiftctrl)
  else if k.lastkey = SDLK_SPACE then some (Int.xor K.AKEY_SPACE shiftctrl)
  else if k.lastkey = SDLK_BACKSPACE then some (Int.lor A.AKEY_BACKSPACE shiftctrl)
  else if k.lastkey = SDLK_RETURN then some (Int.xor K.AKEY_RETURN shiftctrl)
  else if k.lastkey = SDLK_LEFT then some (arrow A.AKEY_F3 A.AKEY_PLUS K.AKEY_LEFT)
  else if k.lastkey = SDLK_RIGHT then some (arrow A.AKEY_F4 A.AKEY_ASTERISK K.AKEY_RIGHT)
  else if k.lastkey = SDLK_UP then some (arrow A.AKEY_F1 A.AKEY_MINUS K.AKEY_UP)
  else if k.lastkey = SDLK_DOWN then some (arrow A.AKEY_F2 A.AKEY_EQUAL K.AKEY_DOWN)
  else if k.lastkey = SDLK_ESCAPE then some (Int.xor K.AKEY_ESCAPE shiftctrl)
  else if k.lastkey = SDLK_TAB then some (Int.xor A.AKEY_TAB shiftctrl)
  else if k.lastkey = SDLK_DELETE then
    some (if k.INPUT_key_shift ≠ 0 then Int.lor A.AKEY_DELETE_LINE shiftctrl else A.AKEY_DELETE_CHAR)
  else if k.lastkey = SDLK_INSERT then
    some (if k.INPUT_key_shift ≠ 0 then Int.lor A.AKEY_INSERT_LINE shiftctrl else A.AKEY_INSERT_CHAR)
  else none

/-- The keys of the CX85 keypad (lines 1847-1880). -/
def keysCX85 (A : KeyConsts) (e : KeyboardInput) (k : KeyboardState) : Option Int :=
  if e.INPUT_cx85 ≠ 0 then
    if SDLK_KP0 ≤ k.lastkey ∧ k.lastkey ≤ SDLK_KP9 then
      some (A.AKEY_CX85_digit (k.lastkey - SDLK_KP0).toNat)
    else if k.lastkey = SDLK_KP_PERIOD then some A.AKEY_CX85_PERIOD
    else if k.lastkey = SDLK_KP_MINUS then some A.AKEY_CX85_MINUS
    else if k.lastkey = SDLK_KP_ENTER then some A.AKEY_CX85_PLUS_ENTER
    else if k.lastkey = SDLK_KP_DIVIDE then
      some (if k.key_control ≠ 0 then A.AKEY_CX85_ESCAPE else A.AKEY_CX85_NO)
    else if k.lastkey = SDLK_KP_MULTIPLY then some A.AKEY_CX85_DELETE
    else if k.lastkey = SDLK_KP_PLUS then some A.AKEY_CX85_YES
    else none
  else none

/-- The keys with the control key down (lines 1883-1925). -/
def controlKeys (K : Consts) (A : KeyConsts) (shiftctrl : Int) (k : KeyboardState) : Option Int :=
  if k.key_control ≠ 0 then
    if k.lastuni = 46 then some (Int.lor A.AKEY_FULLSTOP shiftctrl)
    else if k.lastuni = 44 then some (Int.lor A.AKEY_COMMA shiftctrl)
    else if k.lastuni = 59 then some (Int.lor A.AKEY_SEMICOLON shiftctrl)
    else if k.lastkey = SDLK_PERIOD then some (Int.lor A.AKEY_FULLSTOP shiftctrl)
    else if k.lastkey = SDLK_COMMA then some (Int.lor A.AKEY_COMMA shiftctrl)
    else if k.lastkey = SDLK_SEMICOLON then some (Int.lor A.AKEY_SEMICOLON shiftctrl)
    else if k.lastkey = SDLK_SLASH then some (Int.lor A.AKEY_SLASH shiftctrl)
    else if k.lastkey = SDLK_BACKSLASH then some (Int.lor K.AKEY_ESCAPE shiftctrl)
    else if SDLK_0 ≤ k.lastkey ∧ k.lastkey ≤ SDLK_9 then
      some (Int.lor (A.AKEY_CTRL_digit (k.lastkey - SDLK_0).toNat) shiftctrl)
    else none
  else none

/-- The case normalisation of lines 1928-1929 on `lastuni`. -/
def normaliseCase (shift lastuni : Int) : Int :=
  let u1 := if lastuni ≥ 65 ∧ lastuni ≤ 90 ∧ shift = 0 then lastuni + 32 else lastuni
  if u1 ≥ 97 ∧ u1 ≤ 122 ∧ shift ≠ 0 then u1 - 32 else u1

/-- The code points of the switch of lines 1933-2167 that are neither control
codes, letters nor digits, each with its key. -/
def punctuationKeys (A : KeyConsts) : List (Int × Int) :=
  [ (58, A.AKEY_COLON), (33, A.AKEY_EXCLAMATION), (64, A.AKEY_AT), (35, A.AKEY_HASH),
    (36, A.AKEY_DOLLAR), (37, A.AKEY_PERCENT), (94, A.AKEY_CARET), (38, A.AKEY_AMPERSAND),
    (42, A.AKEY_ASTERISK), (40, A.AKEY_PARENLEFT), (41, A.AKEY_PARENRIGHT), (43, A.AKEY_PLUS),
    (95, A.AKEY_UNDERSCORE), (34, A.AKEY_DBLQUOTE), (63, A.AKEY_QUESTION), (60, A.AKEY_LESS),
    (62, A.AKEY_GREATER), (59, A.AKEY_SEMICOLON), (44, A.AKEY_COMMA), (46, A.AKEY_FULLSTOP),
    (61, A.AKEY_EQUAL), (45, A.AKEY_MINUS), (39, A.AKEY_QUOTE), (47, A.AKEY_SLASH),
    (92, A.AKEY_BACKSLASH), (91, A.AKEY_BRACKETLEFT), (93, A.AKEY_BRACKETRIGHT),
    (124, A.AKEY_BAR) ]

/-- The switch on the code point of lines 1933-2168. -/
def unicodeKey (K : Consts) (A : KeyConsts) (shiftctrl lastuni : Int) : Int :=
  if 1 ≤ lastuni ∧ lastuni ≤ 26 then Int.lor (A.AKEY_CTRL_letter (lastuni - 1).toNat) shiftctrl
  else if 65 ≤ lastuni ∧ lastuni ≤ 90 then A.AKEY_upper (lastuni - 65).toNat
  else if 97 ≤ lastuni ∧ lastuni ≤ 122 then A.AKEY_lower (lastuni - 97).toNat
  else if 48 ≤ lastuni ∧ lastuni ≤ 57 then A.AKEY_digit (lastuni - 48).toNat
  else
    match (punctuationKeys A).lookup lastuni with
    | some key => key
    | none => K.AKEY_NONE

/-- The value of `shiftctrl` after line 1725. -/
def shiftBit (A : KeyConsts) (k : KeyboardState) : Int :=
  if k.INPUT_key_shift ≠ 0 then Int.xor 0 A.AKEY_SHFT else 0

/-- The value of `shiftctrl` after line 1765. -/
def shiftControlBits (A : KeyConsts) (k : KeyboardState) : Int :=
  if k.key_control ≠ 0 then Int.xor (shiftBit A k) A.AKEY_CTRL else shiftBit A k

/-- The translation of the key that is down (lines 1663-2168): the value
returned and the variables. -/
def translateKey (K : Consts) (A : KeyConsts) (h : Host) (e : KeyboardInput) (s : State)
    (k : KeyboardState) : Int × KeyboardState :=
  let f := functionKeys K A e s k
  match f.1 with
  | some key => (key, f.2)
  | none =>
    let k1 := f.2
    if keyboardJoystickKey h s k1.lastkey then (K.AKEY_NONE, { k1 with key_pressed := 0 })
    else
      match keys5200 K A h e (shiftBit A k1) k1 with
      | some key => (key, k1)
      | none =>
        match specialKeys K A h e (shiftControlBits A k1) k1 with
        | some key => (key, k1)
        | none =>
          match keysCX85 A e k1 with
          | some key => (key, k1)
          | none =>
            match controlKeys K A (shiftControlBits A k1) k1 with
            | some key => (key, k1)
            | none =>
              (unicodeKey K A (shiftControlBits A k1) (normaliseCase k1.INPUT_key_shift k1.lastuni),
                { k1 with lastuni := normaliseCase k1.INPUT_key_shift k1.lastuni })

/-- `Keyboard_AtariKeys` (lines 1314-2169) in a build without `HAVE_WINDOWS_H`:
the value returned, the state and the variables of the translator.  The calls
into the video, colour and filter modules are left out, and so is what
`SDL_consol_keys` does in a build with `USE_UI_BASIC_ONSCREEN_KEYBOARD`.
`PLATFORM_Keyboard` takes the value returned and the console mask from the
fields `Keyboard_AtariKeys` and `input_key_consol_from_keys` of `Host`. -/
def Keyboard_AtariKeys (K : Consts) (A : KeyConsts) (h : Host) (e : KeyboardInput) (s : State)
    (k : KeyboardState) : Int × State × KeyboardState :=
  let r := keyboardEntry K A h e s k
  match r.1 with
  | some key => (key, r.2.1, r.2.2)
  | none =>
    let t := translateKey K A h e r.2.1 r.2.2
    (t.1, r.2.1, t.2)

/-! ## The error messages of libatari800 -/

/-- The table `error_messages` of `libatari800/main.c` (lines 214-223). -/
def error_messages : List String :=
  ["no error", "unidentified cartridge", "CPU crash", "BRK instruction", "invalid display list",
    "self test", "memo pad", "invalid escape opcode"]

/-- The string `unknown_error` of `libatari800/main.c` (line 224). -/
def unknown_error : String := "unknown error"

/-- `libatari800_error_message` of `libatari800/main.c` (lines 226-231) for the
value `libatari800_error_code` of the variable of that name.  `pointer_size` is
`sizeof(char *)`, so that `sizeof(error_messages)` is the length of the table
times `pointer_size`; `none` stands for a read outside the table. -/
def libatari800_error_message (pointer_size : Nat) (libatari800_error_code : Int) :
    Option String :=
  if libatari800_error_code < 0
      ∨ libatari800_error_code > ((error_messages.length * pointer_size : Nat) : Int) then
    some unknown_error
  else error_messages.get? libatari800_error_code.toNat

/-! ## Sample inputs

Concrete hosts and states at which the theorems below are evaluated. -/

/-- The value of a plain decimal numeral `digits.digits`, the form in which
`%f` prints. -/
def decimalValue (s : List Char) : Option ℚ :=
  let ip := s.takeWhile (· ≠ '.')
  let fp := (s.dropWhile (· ≠ '.')).drop 1
  if Util_sscandec ip < 0 ∨ Util_sscandec fp < 0 then none
  else some ((Util_sscandec ip : ℚ) + (Util_sscandec fp : ℚ) / 10 ^ fp.length)

/-- A host with given axes, hat and pressed buttons on pad 0, no other input,
the menu closed and the keyboard idle; its `atan2` is constant and its
`Util_sscandouble` scans plain decimal numerals. -/
def sampleHost (x y : Int) (hat : Nat) (pressed : List Nat) : Host where
  SDL_JoystickGetAxis := fun pad axis => if pad = 0 then (if axis = 0 then x else y) else 0
  SDL_JoystickGetHat := fun pad => if pad = 0 then hat else 0
  SDL_JoystickGetButton := fun pad b => if pad = 0 ∧ b ∈ pressed then 1 else 0
  UI_is_active := 0
  atan2 := fun _ _ => 0
  kbhits := fun _ => 0
  LPGETSTATUS := fun _ => 120
  Keyboard_AtariKeys := -1
  input_key_consol_from_keys := 7
  Util_sscandouble := fun s => (decimalValue s).map f64
  number_uninitialised := 0

/-- The state after start-up with `pads` gamepads of 16 buttons each found,
all with the configuration `cfg`. -/
def sampleState (pads : Nat) (cfg : SDL_INPUT_RealJSConfig_t) : State :=
  let s := GamePads_Init stdConsts (List.replicate pads (some 16)) (initialState stdConsts)
  (List.range MAX_GAMEPADS).foldl (fun t i => GamePads_DetermineMasks i t)
    { s with gamepad_configuration := fun i => if i < MAX_GAMEPADS then cfg else s.gamepad_configuration i }

/-- The default configuration in square mode. -/
def squareConfig : SDL_INPUT_RealJSConfig_t := { defaultConfig with radial := 0 }

/-- The default configuration with half-period 3 and button 0 as the
autofire-hold button. -/
def autofireConfig : SDL_INPUT_RealJSConfig_t :=
  { defaultConfig with
    autofire_freq := 3
    button_functions := Function.update defaultConfig.button_functions 0 FNPAD_AUTOFIRE_HOLD }

/-- The default configuration with button 0 as the start-hold button. -/
def startConfig : SDL_INPUT_RealJSConfig_t :=
  { defaultConfig with
    button_functions := Function.update defaultConfig.button_functions 0 FNPAD_START_HOLD }

/-- A state with gamepad 0 present and its stick deflected to the left, no LPT
joystick, and the swap flag `swap`. -/
def swapState (swap : Int) : State :=
  { sampleState 1 defaultConfig with
    swap_joysticks := swap
    gamepads_sdl_actual_state := fun i =>
      if i = 0 then { x := -1, y := 0, hx := 0, hy := 0, buttons := 0, special := 0 }
      else { x := 0, y := 0, hx := 0, hy := 0, buttons := 0, special := 0 } }

/-- The default configuration with button 0 as the fire-toggle button. -/
def toggleConfig : SDL_INPUT_RealJSConfig_t :=
  { defaultConfig with
    button_functions := fun j => if j = 0 then FNPAD_FIRE_TOGGLE else FNPAD_NONE
    button_sp_functions := fun _ => FNPAD_NONE }

/-- The default configuration with button 0 as the exit button and button 1 as
the warm-start button. -/
def exitConfig : SDL_INPUT_RealJSConfig_t :=
  { defaultConfig with
    button_functions := fun j =>
      if j = 0 then FNPAD_EXIT else if j = 1 then FNPAD_WARMSTART else FNPAD_NONE
    button_sp_functions := fun _ => FNPAD_NONE }

/-- The host `sampleHost x y 0 []` with an `atan2` that returns `a`. -/
def angleHost (a : ℚ) (x y : Int) : Host :=
  { sampleHost x y 0 [] with atan2 := fun _ _ => a }

/-- The `double` that `atan2(10526, 10900)` returns: 44 degrees. -/
def angle44 : ℚ := 6917029199524085 / 9007199254740992

/-- The `double` that `atan2(10900, 10526)` returns: 46 degrees. -/
def angle46 : ℚ := 1807861576133199 / 2251799813685248

/-- The default configuration with button 0 as the autofire-toggle button and
no other function. -/
def autofireToggleConfig : SDL_INPUT_RealJSConfig_t :=
  { defaultConfig with
    button_functions := fun j => if j = 0 then FNPAD_AUTOFIRE_TOGGLE else FNPAD_NONE
    button_sp_functions := fun _ => FNPAD_NONE }

/-- The default configuration with button 1 as the special-bank-hold button. -/
def specialConfig : SDL_INPUT_RealJSConfig_t :=
  { defaultConfig with
    button_functions := Function.update defaultConfig.button_functions 1 FNPAD_SP_HOLD }

/-- The hosts of successive cycles in which button 0 of pad 0 has the levels of
`levels` in turn, and is released afterwards. -/
def buttonSequence (levels : List Bool) : Nat → Host :=
  fun k => sampleHost 0 0 0 (if levels.getD k false then [0] else [])

/-- Modelled from the spec: values for the constants of `KeyConsts`, whose
headers are not under `src/`: shift and control are the bits `0x40` and `0x80`
of a key code, an upper-case letter and a control letter are the lower-case
key with the shift bit and with the control bit, the menu entries are
numbered from 0 and the 5200 is machine 2. -/
def stdKeyConsts : KeyConsts where
  AKEY_SHFT := 64
  AKEY_CTRL := 128
  AKEY_PBI_BB_MENU := -12
  AKEY_5200_START := 57
  AKEY_5200_PAUSE := 49
  AKEY_5200_RESET := 41
  AKEY_5200_HASH := 35
  AKEY_5200_ASTERISK := 39
  AKEY_5200_digit := fun i => [37, 63, 61, 59, 55, 53, 51, 47, 45, 43].getD i 0
  AKEY_ATARI := 39
  AKEY_CAPSLOCK := 124
  AKEY_CAPSTOGGLE := 60
  AKEY_F1 := 3
  AKEY_F2 := 4
  AKEY_F3 := 19
  AKEY_F4 := 20
  AKEY_CLEAR := 118
  AKEY_BACKSPACE := 52
  AKEY_TAB := 44
  AKEY_DELETE_LINE := 116
  AKEY_DELETE_CHAR := 180
  AKEY_INSERT_LINE := 119
  AKEY_INSERT_CHAR := 183
  AKEY_CX85_digit := fun i => [28, 25, 26, 27, 17, 18, 19, 21, 22, 23].getD i 0
  AKEY_CX85_PERIOD := 29
  AKEY_CX85_MINUS := 31
  AKEY_CX85_PLUS_ENTER := 30
  AKEY_CX85_ESCAPE := 12
  AKEY_CX85_NO := 20
  AKEY_CX85_DELETE := 16
  AKEY_CX85_YES := 24
  AKEY_CTRL_digit := fun i => 128 + [50, 31, 30, 26, 24, 29, 27, 51, 53, 48].getD i 0
  AKEY_CTRL_letter := fun i =>
    128 + [63, 21, 18, 58, 42, 56, 61, 57, 13, 1, 5, 0, 37, 35, 8, 10, 47, 40, 62, 45, 11, 16,
      46, 22, 43, 23].getD i 0
  AKEY_upper := fun i =>
    64 + [63, 21, 18, 58, 42, 56, 61, 57, 13, 1, 5, 0, 37, 35, 8, 10, 47, 40, 62, 45, 11, 16,
      46, 22, 43, 23].getD i 0
  AKEY_lower := fun i =>
    [63, 21, 18, 58, 42, 56, 61, 57, 13, 1, 5, 0, 37, 35, 8, 10, 47, 40, 62, 45, 11, 16,
      46, 22, 43, 23].getD i 0
  AKEY_digit := fun i => [50, 31, 30, 26, 24, 29, 27, 51, 53, 48].getD i 0
  AKEY_COLON := 66
  AKEY_EXCLAMATION := 95
  AKEY_AT := 117
  AKEY_HASH := 90
  AKEY_DOLLAR := 88
  AKEY_PERCENT := 93
  AKEY_CARET := 71
  AKEY_AMPERSAND := 91
  AKEY_ASTERISK := 7
  AKEY_PARENLEFT := 112
  AKEY_PARENRIGHT := 114
  AKEY_PLUS := 6
  AKEY_UNDERSCORE := 78
  AKEY_DBLQUOTE := 94
  AKEY_QUESTION := 102
  AKEY_LESS := 54
  AKEY_GREATER := 55
  AKEY_SEMICOLON := 2
  AKEY_COMMA := 32
  AKEY_FULLSTOP := 34
  AKEY_EQUAL := 15
  AKEY_MINUS := 14
  AKEY_QUOTE := 115
  AKEY_SLASH := 38
  AKEY_BACKSLASH := 70
  AKEY_BRACKETLEFT := 96
  AKEY_BRACKETRIGHT := 98
  AKEY_BAR := 79
  UI_MENU_RUN := 2
  UI_MENU_SYSTEM := 3
  UI_MENU_SOUND := 4
  UI_MENU_SOUND_RECORDING := 5
  UI_MENU_VIDEO_RECORDING := 6
  UI_MENU_ABOUT := 16
  UI_MENU_SAVESTATE := 8
  UI_MENU_DISK := 0
  UI_MENU_LOADSTATE := 9
  UI_MENU_CARTRIDGE := 1
  UI_MENU_CASSETTE := 18
  UI_MENU_MONITOR := 15
  Atari800_MACHINE_5200 := 2

/-- The variables of the translator as their initialisers leave them. -/
def initialKeyboard : KeyboardState where
  lastkey := SDLK_UNKNOWN
  key_pressed := 0
  key_control := 0
  lastuni := 0
  INPUT_key_shift := 0
  UI_alt_function := -1
  input_key_consol_from_keys := 7
  BINLOAD_pause_loading := 0
  grab_mouse := 0

/-- The input of a call that finds the given events in the queue, on an
Atari 800 without the NTSC filter, the CX85 keypad or a pending load. -/
def keyboardInput (events : List SDL_Event) : KeyboardInput where
  events := events
  FILTER_NTSC_emu := false
  BINLOAD_wait_active := 0
  Atari800_machine_type := 0
  Atari800_f_keys := 0
  INPUT_cx85 := 0
  SDL_controller_kb := -1

/-- The idle host with the given keys down in `kbhits`. -/
def keysHost (down : List Int) (ui : Int) : Host :=
  { sampleHost 0 0 0 [] with kbhits := fun c => if c ∈ down then 1 else 0, UI_is_active := ui }

/-- The host `sampleHost 0 0 0 []` with the menu open. -/
def menuHost : Host := { sampleHost 0 0 0 [] with UI_is_active := 1 }

/-- The state after start-up with one gamepad of configuration `cfg` found,
whose current discrete state has the stick at `(x, y)`, the hat centred and
the button mask `buttons`. -/
def menuState (cfg : SDL_INPUT_RealJSConfig_t) (x y : Int) (buttons : Nat) : State :=
  { sampleState 1 cfg with
    gamepads_sdl_actual_state := fun _ =>
      { x := x, y := y, hx := 0, hy := 0, buttons := buttons, special := 0 } }

/-- The hosts of successive frames in which the x axis of pad 0 reads the
values of `xs` in turn, and 0 afterwards. -/
def axisSequence (xs : List Int) : Nat → Host :=
  fun k => sampleHost (xs.getD k 0) 0 0 []

/-- The state `s` with the previous stick classification of pad 0 set to
`(x, y)`. -/
def withLastStick (s : State) (x y : Int) : State :=
  { s with
    gamepads_sdl_last_state :=
      Function.update s.gamepads_sdl_last_state 0 { s.gamepads_sdl_last_state 0 with x := x, y := y } }

/-- The states at the start of successive calls of `GamePads_UpdatePad` for the
pad `gamepadNumber`, the host of call `k` being `hs k`. -/
def padRun (K : Consts) (hs : Nat → Host) (gamepadNumber : Nat) (s : State) : Nat → State
  | 0 => s
  | k + 1 => GamePads_UpdatePad K (hs k) gamepadNumber (padRun K hs gamepadNumber s k)

/-- The states at the start of successive frames, each frame being one call of
`PLATFORM_Keyboard`, the host of frame `k` being `hs k`. -/
def frameRun (K : Consts) (hs : Nat → Host) (s : State) : Nat → State
  | 0 => s
  | k + 1 => (PLATFORM_Keyboard K (hs k) (frameRun K hs s k)).2

/-! ## Notions used in the statements and proofs -/

/-- The effect of a recognised line on the state: the masks are invalidated
and the configuration of the pad `i` is edited by `f`. -/
def padEdit (i : Nat) (f : SDL_INPUT_RealJSConfig_t → SDL_INPUT_RealJSConfig_t) (t : State) : State :=
  { t with
    gamepad_masks_valid := 0
    gamepad_configuration := Function.update t.gamepad_configuration i (f (t.gamepad_configuration i)) }

/-- What reading one line does to an initialised state: it succeeds, leaves
the state initialised and edits the configuration of the pad `i` by `f`. -/
def LineAs (K : Consts) (h : Host) (key v : List Char) (i : Nat)
    (f : SDL_INPUT_RealJSConfig_t → SDL_INPUT_RealJSConfig_t) : Prop :=
  ∀ t : State, t.gamepad_config_reset ≠ 0 →
    ∃ t1 r, SDL_INPUT_ReadConfig K h key (some v) t = some (t1, r)
      ∧ t1.gamepad_config_reset ≠ 0
      ∧ t1.gamepad_configuration
          = Function.update t.gamepad_configuration i (f (t.gamepad_configuration i))

/-- What reading a list of lines does to an initialised state: it succeeds,
leaves the state initialised and edits the configuration of the pad `i` by
`F`. -/
def ReadsAs (K : Consts) (h : Host) (lines : List ConfigLine) (i : Nat)
    (F : SDL_INPUT_RealJSConfig_t → SDL_INPUT_RealJSConfig_t) : Prop :=
  ∀ t : State, t.gamepad_config_reset ≠ 0 →
    ∃ t1, readConfigLines K h lines t = some t1
      ∧ t1.gamepad_config_reset ≠ 0
      ∧ t1.gamepad_configuration
          = Function.update t.gamepad_configuration i (F (t.gamepad_configuration i))

/-- The configuration `new` holds what the lines written for `orig` say, field
by field; `in_menus_back_button` has no reader. -/
def Restored (h : Host) (orig new : SDL_INPUT_RealJSConfig_t) : Prop :=
  new.radial = Util_sscanbool (fmt_d orig.radial)
  ∧ new.deadzone = Util_sscandec (fmt_d orig.deadzone)
  ∧ new.tolerance = scannedFloat h (fmt_f orig.tolerance)
  ∧ new.radial_tolerance = scannedFloat h (fmt_f orig.radial_tolerance)
  ∧ new.use_as_stick = Util_sscanbool (fmt_d orig.use_as_stick)
  ∧ new.use_hat_as_stick = Util_sscanbool (fmt_d orig.use_hat_as_stick)
  ∧ new.use_in_menus = Util_sscanbool (fmt_d orig.use_in_menus)
  ∧ new.use_hat_in_menus = Util_sscanbool (fmt_d orig.use_hat_in_menus)
  ∧ new.in_menus_select_button = Util_sscandec (fmt_d orig.in_menus_select_button)
  ∧ new.autofire_freq
      = (if Util_sscandec (fmt_d orig.autofire_freq) ≤ 0 then 1
          else Util_sscandec (fmt_d orig.autofire_freq))
  ∧ (∀ j, j < MAX_GAMEPAD_BUTTONS →
      new.button_functions j = StringToPadFunction (PadFunctionToString (orig.button_functions j)))
  ∧ (∀ j, j < MAX_GAMEPAD_BUTTONS →
      new.button_sp_functions j
        = StringToPadFunction (PadFunctionToString (orig.button_sp_functions j)))

/-- A configuration within the closed enumeration and with non-negative
integer fields whose text does not determine it: a tolerance with more than
six decimals, a flag that is neither 0 nor 1 and a back button other than the
default. -/
def lossyConfig : SDL_INPUT_RealJSConfig_t :=
  { defaultConfig with tolerance := f32 (1 / 3), use_as_stick := 2, in_menus_back_button := 2 }

/-- Two states that a scan of the pads in `l` cannot tell apart. -/
def SameForPads (l : List Nat) (s t : State) : Prop :=
  t.gamepad_configuration = s.gamepad_configuration
  ∧ t.gamepads_sdl_actual_state = s.gamepads_sdl_actual_state
  ∧ t.gamepad_atari_key_mask = s.gamepad_atari_key_mask
  ∧ ∀ i ∈ l, t.gamepads_sdl_last_state i = s.gamepads_sdl_last_state i

/-- The test `pressed` of the button loops, for the function `f`. -/
def holdsAt (cfg : SDL_INPUT_RealJSConfig_t) (trig : Nat) (f : Int) (b : Nat) : Bool :=
  decide (trig &&& u32 (1 <<< b) ≠ 0) && decide (GamePads_GetFunctionForButton cfg b = f)

/-- The pad `i` has, in the button mask that `GamePads_UpdatePad` stored for
it, a pressed button whose function is `f`. -/
def padHolds (s : State) (i : Nat) (f : Int) : Prop :=
  ∃ b, b < 32 ∧ (s.gamepads_sdl_actual_state i).buttons.testBit b = true
    ∧ GamePads_GetFunctionForButton (s.gamepad_configuration i) b = f

/-- The effective button mask that `GamePads_UpdatePad` computes for the pad
`i` in the state `s` (lines 694-705). -/
def trigOf (h : Host) (s : State) (i : Nat) : Nat :=
  effectiveButtons (s.gamepad_special_mask i) (rawButtons h i (s.gamepads_max_buttons i))

/-- Whether some bit of the mask `trig` is set whose function is `f`. -/
def anyHolds (cfg : SDL_INPUT_RealJSConfig_t) (trig : Nat) (f : Int) : Bool :=
  (List.range 32).any (holdsAt cfg trig f)

/-- A state with the LPT joystick of port 0 open, gamepad 0 present and its
stick deflected to the left. -/
def lptAndPadState : State :=
  { sampleState 1 defaultConfig with
    fd_joystick0 := 3
    gamepads_sdl_actual_state := fun _ => { x := -1, y := 0, hx := 0, hy := 0, buttons := 0, special := 0 } }

/-- The functions that the button loop of `GamePads_UpdatePad` handles
(lines 716-746): for their buttons the loop stores the new level. -/
def handledFunction (f : Int) : Prop :=
  f = FNPAD_START_HOLD ∨ f = FNPAD_SELECT_HOLD ∨ f = FNPAD_OPTION_HOLD
    ∨ f = FNPAD_AUTOFIRE_TOGGLE ∨ f = FNPAD_AUTOFIRE_HOLD
    ∨ f = FNPAD_FIRE_TOGGLE ∨ f = FNPAD_FIRE_HOLD

instance (f : Int) : Decidable (handledFunction f) := by
  unfold handledFunction; infer_instance

/-- A non-empty string of decimal digits, the well-formed numbers of
`Util_sscandec`. -/
def decimalDigits (v : List Char) : Prop :=
  v ≠ [] ∧ ∀ c ∈ v, 48 ≤ c.toNat ∧ c.toNat ≤ 57

instance (v : List Char) : Decidable (decimalDigits v) := by
  unfold decimalDigits; infer_instance

/-- An option (the text after `SDL_PAD_`) that `GamePads_Read_Config` does not
recognise: it has no admissible pad number, or it names no known field and is
no per-button entry with an admissible button number and the suffix `_FUNC` or
`_SP_FUNC`. -/
def unknownPadOption (option : List Char) : Prop :=
  match padOptionParts option with
  | none => True
  | some (_, field) =>
    field ∉ knownPadFields
    ∧ (field.take 8 = "_BUTTON_".toList →
        match buttonOptionParts (field.drop 8) with
        | none => True
        | some (_, suffix) => suffix ≠ "_FUNC".toList ∧ suffix ≠ "_SP_FUNC".toList)

/-- A value of a digital axis: -1, 0 or 1. -/
def isAxisValue (v : Int) : Prop := v = -1 ∨ v = 0 ∨ v = 1

instance (v : Int) : Decidable (isAxisValue v) := by
  unfold isAxisValue; infer_instance

/-- The stick part `(x, y)` of the current discrete state of the pad `n`. -/
def padStick (s : State) (n : Nat) : Int × Int :=
  ((s.gamepads_sdl_actual_state n).x, (s.gamepads_sdl_actual_state n).y)

/-- The flag of the fire state that a button with the toggle function `f`
flips: `autofire_toggle_on` for autofire-toggle (line 730) and `fire_toggle_on`
for fire-toggle (line 740). -/
def toggleFlag (f : Int) (fs : gamepads_fire_state_t) : Int :=
  if f = FNPAD_AUTOFIRE_TOGGLE then fs.autofire_toggle_on else fs.fire_toggle_on

/-- The rest of the option after the pad number when the line addresses the
pad `i` (lines 405-416), and `none` when it addresses another pad or none. -/
def lineField (option : List Char) (i : Nat) : Option (List Char) :=
  match padOptionParts option with
  | none => none
  | some (joy_number, field) => if joy_number = (i : Int) then some field else none

/-- The line addresses the entry `j` of the button table of the pad `i` with
the suffix `suffix` (lines 462-484). -/
def lineButton (option : List Char) (i j : Nat) (suffix : List Char) : Prop :=
  ∃ field, lineField option i = some field ∧ field.take 8 = "_BUTTON_".toList
    ∧ buttonOptionParts (field.drop 8) = some ((j : Int), suffix)

/-- The configuration `new` of the pad `i` agrees with `old` in every field
that the line with the option `option` does not address; no line addresses
`in_menus_back_button`. -/
def KeepsOtherFields (option : List Char) (i : Nat) (old new : SDL_INPUT_RealJSConfig_t) : Prop :=
  (lineField option i = none → new = old)
  ∧ (lineField option i ≠ some "_JOY_RADIAL".toList → new.radial = old.radial)
  ∧ (lineField option i ≠ some "_JOY_DEADZONE".toList → new.deadzone = old.deadzone)
  ∧ (lineField option i ≠ some "_JOY_TOLERANCE".toList → new.tolerance = old.tolerance)
  ∧ (lineField option i ≠ some "_JOY_RADIAL_TOLERANCE".toList →
      new.radial_tolerance = old.radial_tolerance)
  ∧ (lineField option i ≠ some "_JOY_USE_AS_STICK".toList → new.use_as_stick = old.use_as_stick)
  ∧ (lineField option i ≠ some "_HAT_USE_AS_STICK".toList →
      new.use_hat_as_stick = old.use_hat_as_stick)
  ∧ (lineField option i ≠ some "_JOY_USE_IN_MENUS".toList → new.use_in_menus = old.use_in_menus)
  ∧ (lineField option i ≠ some "_HAT_USE_IN_MENUS".toList →
      new.use_hat_in_menus = old.use_hat_in_menus)
  ∧ (lineField option i ≠ some "_IN_MENUS_SELECT_BUTTON".toList →
      new.in_menus_select_button = old.in_menus_select_button)
  ∧ (lineField option i ≠ some "_AUTOFIRE_FREQ".toList → new.autofire_freq = old.autofire_freq)
  ∧ new.in_menus_back_button = old.in_menus_back_button
  ∧ (∀ j, ¬ lineButton option i j "_FUNC".toList → new.button_functions j = old.button_functions j)
  ∧ (∀ j, ¬ lineButton option i j "_SP_FUNC".toList →
      new.button_sp_functions j = old.button_sp_functions j)

/-- A sequence of calls of `GamePads_Read_Config`, each with its option and
its value. -/
def readPadLines (h : Host) : List (List Char × Option (List Char)) → State → Option State
  | [], s => some s
  | (option, parameters) :: lines, s =>
    match GamePads_Read_Config h option parameters s with
    | none => none
    | some t => readPadLines h lines t

/-- The bitwise AND of the values of `l`, started with `init`. -/
def andAll (init : Nat) (l : List Nat) : Nat := l.foldl (· &&& ·) init

/-- The direction constants that a pair of components selects: left or right
for the first component -1 or 1, forward or back for the second component -1
or 1. -/
def directionConsts (K : Consts) (dx dy : Int) : List Nat :=
  (if dx = -1 then [K.INPUT_STICK_LEFT] else []) ++ (if dx = 1 then [K.INPUT_STICK_RIGHT] else [])
  ++ (if dy = -1 then [K.INPUT_STICK_FORWARD] else []) ++ (if dy = 1 then [K.INPUT_STICK_BACK] else [])

/-- A pair of digital components of which one is -1 or 1. -/
def deflected (dx dy : Int) : Prop := dx = -1 ∨ dx = 1 ∨ dy = -1 ∨ dy = 1

instance (dx dy : Int) : Decidable (deflected dx dy) := by
  unfold deflected; infer_instance

/-! ## Lemmas on the floating-point operations -/

theorem natLog2Aux_spec (fuel n : Nat) (h : n ≤ fuel) (hn : 0 < n) :
    2 ^ natLog2Aux fuel n ≤ n ∧ n < 2 ^ (natLog2Aux fuel n + 1) := by
  induction fuel generalizing n with
  | zero => omega
  | succ fuel ih =>
    unfold natLog2Aux
    split
    · constructor <;> simp <;> omega
    · have h2 := ih (n / 2) (by omega) (by omega)
      obtain ⟨ha, hb⟩ := h2
      rw [pow_succ] at hb ⊢
      constructor
      · omega
      · rw [pow_succ]; omega

theorem natLog2_spec (n : Nat) (hn : 0 < n) :
    2 ^ natLog2 n ≤ n ∧ n < 2 ^ (natLog2 n + 1) :=
  natLog2Aux_spec n n le_rfl hn

theorem natClog2_spec (n : Nat) (hn : 2 ≤ n) :
    2 ^ (natClog2 n - 1) < n ∧ n ≤ 2 ^ natClog2 n ∧ 1 ≤ natClog2 n := by
  unfold natClog2
  rw [if_neg (by omega)]
  obtain ⟨ha, hb⟩ := natLog2_spec (n - 1) (by omega)
  simp only [Nat.add_sub_cancel]
  omega

/-- The binade brackets a positive rational between two powers of two. -/
theorem binade_spec (q : ℚ) (hq : 0 < q) :
    (2 : ℚ) ^ binade q ≤ q ∧ q < (2 : ℚ) ^ (binade q + 1) := by
  unfold binade
  split
  · rename_i h1
    have hfl : 0 < ⌊q⌋₊ := Nat.floor_pos.mpr h1
    obtain ⟨ha, hb⟩ := natLog2_spec ⌊q⌋₊ hfl
    constructor
    · rw [zpow_natCast]
      calc (2 : ℚ) ^ natLog2 ⌊q⌋₊ = ((2 ^ natLog2 ⌊q⌋₊ : Nat) : ℚ) := by push_cast; rfl
        _ ≤ (⌊q⌋₊ : ℚ) := by exact_mod_cast ha
        _ ≤ q := Nat.floor_le hq.le
    · have : ((natLog2 ⌊q⌋₊ : Int) + 1) = ((natLog2 ⌊q⌋₊ + 1 : Nat) : Int) := by push_cast; rfl
      rw [this, zpow_natCast]
      calc q < (⌊q⌋₊ : ℚ) + 1 := Nat.lt_floor_add_one q
        _ ≤ ((2 ^ (natLog2 ⌊q⌋₊ + 1) : Nat) : ℚ) := by exact_mod_cast hb
        _ = (2 : ℚ) ^ (natLog2 ⌊q⌋₊ + 1) := by push_cast; rfl
  · rename_i h1
    have hq1 : q < 1 := lt_of_not_le h1
    have hinv : 1 < q⁻¹ := by
      rw [one_lt_inv₀ hq]; exact hq1
    have hm : 2 ≤ ⌈q⁻¹⌉₊ := by
      have : 1 < ⌈q⁻¹⌉₊ := Nat.lt_ceil.mpr (by exact_mod_cast hinv)
      omega
    obtain ⟨ha, hb, hc⟩ := natClog2_spec ⌈q⁻¹⌉₊ hm
    set k := natClog2 ⌈q⁻¹⌉₊ with hk
    have hle : q⁻¹ ≤ (2 : ℚ) ^ k :=
      calc q⁻¹ ≤ (⌈q⁻¹⌉₊ : ℚ) := Nat.le_ceil _
        _ ≤ ((2 ^ k : Nat) : ℚ) := by exact_mod_cast hb
        _ = (2 : ℚ) ^ k := by push_cast; rfl
    have hlt : (2 : ℚ) ^ (k - 1) < q⁻¹ := by
      have h1 : ((2 ^ (k - 1) : Nat) : ℚ) < q⁻¹ := by
        have := Nat.lt_ceil.mp (show 2 ^ (k - 1) < ⌈q⁻¹⌉₊ from ha)
        exact_mod_cast this
      calc (2 : ℚ) ^ (k - 1) = ((2 ^ (k - 1) : Nat) : ℚ) := by push_cast; rfl
        _ < q⁻¹ := h1
    have p2 : (0 : ℚ) < 2 ^ k := by positivity
    have p3 : (0 : ℚ) < 2 ^ (k - 1) := by positivity
    constructor
    · rw [zpow_neg, zpow_natCast]
      rw [inv_le_comm₀ p2 hq]; exact hle
    · have : (-(k : Int) + 1) = -((k - 1 : Nat) : Int) := by omega
      rw [this, zpow_neg, zpow_natCast]
      rw [lt_inv_comm₀ hq p3]; exact hlt

theorem roundHalfEven_err (q : ℚ) : |(roundHalfEven q : ℚ) - q| ≤ 1 / 2 := by
  have h1 := Int.floor_le q
  have h2 := Int.lt_floor_add_one q
  unfold roundHalfEven
  rw [abs_le]
  split_ifs <;> push_cast <;> constructor <;> linarith

theorem ulp_pos (p : Nat) (emin : Int) (q : ℚ) : 0 < ulp p emin q := by
  unfold ulp; positivity

theorem roundToFormat_err (p : Nat) (emin : Int) (q : ℚ) :
    |roundToFormat p emin q - q| ≤ ulp p emin q / 2 := by
  have hu := ulp_pos p emin q
  unfold roundToFormat
  split
  · rename_i h0; subst h0; simp; positivity
  · have h := roundHalfEven_err (q / ulp p emin q)
    have e : (roundHalfEven (q / ulp p emin q) : ℚ) * ulp p emin q - q
        = ((roundHalfEven (q / ulp p emin q) : ℚ) - q / ulp p emin q) * ulp p emin q := by
      field_simp
    rw [e, abs_mul, abs_of_pos hu]
    calc |(roundHalfEven (q / ulp p emin q) : ℚ) - q / ulp p emin q| * ulp p emin q
        ≤ 1 / 2 * ulp p emin q := by gcongr
      _ = ulp p emin q / 2 := by ring

theorem ulp_le (p : Nat) (emin : Int) (q : ℚ) (hq : q ≠ 0) :
    ulp p emin q ≤ |q| * (2 : ℚ) ^ (1 - (p : Int)) + (2 : ℚ) ^ (emin - (p : Int) + 1) := by
  have hpos : 0 < |q| := abs_pos.mpr hq
  obtain ⟨ha, _⟩ := binade_spec |q| hpos
  unfold ulp
  rcases le_total (binade |q|) emin with h | h
  · rw [max_eq_right h]
    have : 0 ≤ |q| * (2 : ℚ) ^ (1 - (p : Int)) := by positivity
    linarith
  · rw [max_eq_left h]
    have e : (2 : ℚ) ^ (binade |q| - (p : Int) + 1) = (2 : ℚ) ^ binade |q| * (2 : ℚ) ^ (1 - (p : Int)) := by
      rw [← zpow_add₀ (by norm_num : (2 : ℚ) ≠ 0)]; congr 1; ring
    rw [e]
    have h2 : (0 : ℚ) < (2 : ℚ) ^ (1 - (p : Int)) := by positivity
    have h3 : (0 : ℚ) < (2 : ℚ) ^ (emin - (p : Int) + 1) := by positivity
    have := mul_le_mul_of_nonneg_right ha h2.le
    linarith

/-- Rounding to `float` moves a value by at most `2^-24` of its size, up to the
subnormal spacing. -/
theorem f32_err (q : ℚ) : |f32 q - q| ≤ |q| / 2 ^ 24 + 1 / 2 ^ 150 := by
  by_cases hq : q = 0
  · subst hq; simp [f32, roundToFormat]
  · have h1 := roundToFormat_err 24 (-126) q
    have h2 := ulp_le 24 (-126) q hq
    have e1 : (2 : ℚ) ^ (1 - ((24 : Nat) : Int)) = 1 / 2 ^ 23 := by
      rw [show (1 - ((24 : Nat) : Int)) = -((23 : Nat) : Int) by norm_num, zpow_neg, zpow_natCast]; norm_num
    have e2 : (2 : ℚ) ^ ((-126 : Int) - ((24 : Nat) : Int) + 1) = 1 / 2 ^ 149 := by
      rw [show ((-126 : Int) - ((24 : Nat) : Int) + 1) = -((149 : Nat) : Int) by norm_num, zpow_neg, zpow_natCast]; norm_num
    rw [e1, e2] at h2
    unfold f32
    have : ulp 24 (-126) q / 2 ≤ |q| / 2 ^ 24 + 1 / 2 ^ 150 := by
      have h3 : ulp 24 (-126) q / 2 ≤ (|q| * (1 / 2 ^ 23) + 1 / 2 ^ 149) / 2 := by linarith
      have e3 : (|q| * (1 / 2 ^ 23) + 1 / 2 ^ 149) / 2 = |q| / 2 ^ 24 + 1 / 2 ^ 150 := by ring
      linarith
    linarith

/-- Rounding to `double` moves a value by at most `2^-53` of its size, up to
the subnormal spacing. -/
theorem f64_err (q : ℚ) : |f64 q - q| ≤ |q| / 2 ^ 53 + 1 / 2 ^ 1075 := by
  by_cases hq : q = 0
  · subst hq; simp [f64, roundToFormat]
  · have h1 := roundToFormat_err 53 (-1022) q
    have h2 := ulp_le 53 (-1022) q hq
    have e1 : (2 : ℚ) ^ (1 - ((53 : Nat) : Int)) = 1 / 2 ^ 52 := by
      rw [show (1 - ((53 : Nat) : Int)) = -((52 : Nat) : Int) by norm_num, zpow_neg, zpow_natCast]; norm_num
    have e2 : (2 : ℚ) ^ ((-1022 : Int) - ((53 : Nat) : Int) + 1) = 1 / 2 ^ 1074 := by
      rw [show ((-1022 : Int) - ((53 : Nat) : Int) + 1) = -((1074 : Nat) : Int) by norm_num, zpow_neg, zpow_natCast]; norm_num
    rw [e1, e2] at h2
    unfold f64
    have : ulp 53 (-1022) q / 2 ≤ |q| / 2 ^ 53 + 1 / 2 ^ 1075 := by
      have h3 : ulp 53 (-1022) q / 2 ≤ (|q| * (1 / 2 ^ 52) + 1 / 2 ^ 1074) / 2 := by linarith
      have e3 : (|q| * (1 / 2 ^ 52) + 1 / 2 ^ 1074) / 2 = |q| / 2 ^ 53 + 1 / 2 ^ 1075 := by ring
      linarith
    linarith

/-- The `float` evaluation of `d * (1.0f + a)` is within `1/16` of the exact
value when `d` is in the range of an axis and `a` is at most 1 in size. -/
theorem limit_near (d a : ℚ) (hd : |d| ≤ 32768) (ha : |a| ≤ 1) :
    |f32 (f32 d * f32 (1 + f32 a)) - d * (1 + a)| ≤ 1 / 16 := by
  have hh : |f32 a - a| ≤ 1 / 2 ^ 23 := by
    have := f32_err a
    have e : |a| / 2 ^ 24 + 1 / 2 ^ 150 ≤ (1 : ℚ) / 2 ^ 23 := by
      have : |a| / 2 ^ 24 ≤ 1 / 2 ^ 24 := by gcongr
      have : (1 : ℚ) / 2 ^ 24 + 1 / 2 ^ 150 ≤ 1 / 2 ^ 23 := by norm_num
      linarith
    linarith
  have hbabs : |1 + f32 a| ≤ 3 := by
    rw [abs_le] at hh ha ⊢
    constructor <;> norm_num at hh ⊢ <;> linarith [hh.1, hh.2, ha.1, ha.2]
  have hc1 : |f32 (1 + f32 a) - (1 + f32 a)| ≤ 1 / 2 ^ 22 := by
    have := f32_err (1 + f32 a)
    have e : |1 + f32 a| / 2 ^ 24 + 1 / 2 ^ 150 ≤ (1 : ℚ) / 2 ^ 22 := by
      have : |1 + f32 a| / 2 ^ 24 ≤ 3 / 2 ^ 24 := by gcongr
      have : (3 : ℚ) / 2 ^ 24 + 1 / 2 ^ 150 ≤ 1 / 2 ^ 22 := by norm_num
      linarith
    linarith
  have hc : |f32 (1 + f32 a) - (1 + a)| ≤ 1 / 2 ^ 21 := by
    have e : f32 (1 + f32 a) - (1 + a) = (f32 (1 + f32 a) - (1 + f32 a)) + (f32 a - a) := by ring
    rw [e]
    calc |(f32 (1 + f32 a) - (1 + f32 a)) + (f32 a - a)|
        ≤ |f32 (1 + f32 a) - (1 + f32 a)| + |f32 a - a| := abs_add _ _
      _ ≤ 1 / 2 ^ 22 + 1 / 2 ^ 23 := by linarith
      _ ≤ 1 / 2 ^ 21 := by norm_num
  have hcabs : |f32 (1 + f32 a)| ≤ 3 := by
    rw [abs_le] at hc ha ⊢
    constructor <;> norm_num at hc ⊢ <;> linarith [hc.1, hc.2, ha.1, ha.2]
  have hd1 : |f32 d - d| ≤ 1 / 2 ^ 8 := by
    have := f32_err d
    have e : |d| / 2 ^ 24 + 1 / 2 ^ 150 ≤ (1 : ℚ) / 2 ^ 8 := by
      have : |d| / 2 ^ 24 ≤ 32768 / 2 ^ 24 := by gcongr
      have : (32768 : ℚ) / 2 ^ 24 + 1 / 2 ^ 150 ≤ 1 / 2 ^ 8 := by norm_num
      linarith
    linarith
  have hdabs : |f32 d| ≤ 32769 := by
    rw [abs_le] at hd1 hd ⊢
    constructor <;> norm_num at hd1 ⊢ <;> linarith [hd1.1, hd1.2, hd.1, hd.2]
  have h1a : |1 + a| ≤ 2 := by
    rw [abs_le] at ha ⊢
    constructor <;> linarith [ha.1, ha.2]
  have hP : |f32 d * f32 (1 + f32 a) - d * (1 + a)| ≤ 32769 * (1 / 2 ^ 21) + 1 / 2 ^ 8 * 2 := by
    have e : f32 d * f32 (1 + f32 a) - d * (1 + a)
        = f32 d * (f32 (1 + f32 a) - (1 + a)) + (f32 d - d) * (1 + a) := by ring
    rw [e]
    calc |f32 d * (f32 (1 + f32 a) - (1 + a)) + (f32 d - d) * (1 + a)|
        ≤ |f32 d * (f32 (1 + f32 a) - (1 + a))| + |(f32 d - d) * (1 + a)| := abs_add _ _
      _ = |f32 d| * |f32 (1 + f32 a) - (1 + a)| + |f32 d - d| * |1 + a| := by
          rw [abs_mul, abs_mul]
      _ ≤ 32769 * (1 / 2 ^ 21) + 1 / 2 ^ 8 * 2 := by gcongr
  have hPabs : |f32 d * f32 (1 + f32 a)| ≤ 32769 * 3 := by
    rw [abs_mul]; gcongr
  have hE : |f32 (f32 d * f32 (1 + f32 a)) - f32 d * f32 (1 + f32 a)| ≤ 1 / 2 ^ 7 := by
    have := f32_err (f32 d * f32 (1 + f32 a))
    have e : |f32 d * f32 (1 + f32 a)| / 2 ^ 24 + 1 / 2 ^ 150 ≤ (1 : ℚ) / 2 ^ 7 := by
      have : |f32 d * f32 (1 + f32 a)| / 2 ^ 24 ≤ 32769 * 3 / 2 ^ 24 := by gcongr
      have : (32769 : ℚ) * 3 / 2 ^ 24 + 1 / 2 ^ 150 ≤ 1 / 2 ^ 7 := by norm_num
      linarith
    linarith
  have e : f32 (f32 d * f32 (1 + f32 a)) - d * (1 + a)
      = (f32 (f32 d * f32 (1 + f32 a)) - f32 d * f32 (1 + f32 a))
        + (f32 d * f32 (1 + f32 a) - d * (1 + a)) := by ring
  rw [e]
  calc |(f32 (f32 d * f32 (1 + f32 a)) - f32 d * f32 (1 + f32 a))
        + (f32 d * f32 (1 + f32 a) - d * (1 + a))|
      ≤ |f32 (f32 d * f32 (1 + f32 a)) - f32 d * f32 (1 + f32 a)|
        + |f32 d * f32 (1 + f32 a) - d * (1 + a)| := abs_add _ _
    _ ≤ 1 / 2 ^ 7 + (32769 * (1 / 2 ^ 21) + 1 / 2 ^ 8 * 2) := by linarith
    _ ≤ 1 / 16 := by norm_num

theorem updatePad_fire_state (K : Consts) (h : Host) (n : Nat) (s : State)
    (hui : h.UI_is_active = 0) :
    (GamePads_UpdatePad K h n s).gamepads_fire_state n =
      fireHandling (s.gamepad_configuration n).autofire_freq
        { s.gamepads_fire_state n with
          autofire_toggle_on := (padButtonScan K h n s).autofire_toggle_on
          fire_toggle_on := (padButtonScan K h n s).fire_toggle_on }
        (padButtonScan K h n s).autofire (padButtonScan K h n s).fire := by
  simp [GamePads_UpdatePad, hui]

theorem cNe_ne_zero (a b : Int) : cNe a b ≠ 0 ↔ a ≠ b := by
  unfold cNe; split <;> simp_all

theorem cNe_eq_one (a b : Int) (h : cNe a b ≠ 0) : cNe a b = 1 := by
  unfold cNe at *; split <;> simp_all

theorem next_phase (F p : Int) (hF : 1 ≤ F) (k : Int) (hp : p = k % (2 * F)) :
    (if p + 1 ≥ F * 2 then 0 else p + 1) = (k + 1) % (2 * F) := by
  have h2 : (0 : Int) < 2 * F := by omega
  have hnn : 0 ≤ p := by rw [hp]; exact Int.emod_nonneg _ (by omega)
  have hlt : p < 2 * F := by rw [hp]; exact Int.emod_lt_of_pos _ h2
  have e : (k + 1) % (2 * F) = (p + 1) % (2 * F) := by
    rw [hp, Int.emod_add_cancel_right]; exact (Int.emod_emod_of_dvd _ (dvd_refl _)).symm
  rw [e]
  split
  · have : p + 1 = 2 * F := by omega
    rw [this]; simp
  · rw [Int.emod_eq_of_lt (by omega) (by omega)]

/-- Invariant of the autofire generator along an active run. -/
theorem autofire_run (K : Consts) (n : Nat) (F : Int) (hs : Nat → Host) (before : Nat → State)
    (hF : 1 ≤ F) (k : Nat)
    (hfreq : ∀ j ≤ k, ((before j).gamepad_configuration n).autofire_freq = F)
    (hmenu : ∀ j ≤ k, (hs j).UI_is_active = 0)
    (hnext : ∀ j < k, (before (j + 1)).gamepads_fire_state n
        = (GamePads_UpdatePad K (hs j) n (before j)).gamepads_fire_state n)
    (hedge : ((before 0).gamepads_fire_state n).autofire_last_on = 0)
    (hactive : ∀ j ≤ k, cNe (padButtonScan K (hs j) n (before j)).autofire_toggle_on
        (padButtonScan K (hs j) n (before j)).autofire ≠ 0)
    (hmanual : ∀ j ≤ k, (padButtonScan K (hs j) n (before j)).fire_toggle_on = 0
        ∧ (padButtonScan K (hs j) n (before j)).fire = 0) :
    ((GamePads_UpdatePad K (hs k) n (before k)).gamepads_fire_state n).autofire_last_on ≠ 0
    ∧ ((GamePads_UpdatePad K (hs k) n (before k)).gamepads_fire_state n).autofire_phase
        = ((k : Int) + 1) % (2 * F)
    ∧ (((GamePads_UpdatePad K (hs k) n (before k)).gamepads_fire_state n).fire ≠ 0
        ↔ (k : Int) % (2 * F) < F) := by
  induction k with
  | zero =>
    have ha := hactive 0 le_rfl
    have hm := hmanual 0 le_rfl
    rw [updatePad_fire_state K (hs 0) n (before 0) (hmenu 0 le_rfl), hfreq 0 le_rfl]
    have h1 := cNe_eq_one _ _ ha
    have hp := next_phase F 0 hF 0 (by simp)
    simp only [zero_add] at hp
    simp only [fireHandling, h1, hedge, hm.1, hm.2]
    refine ⟨by simp, ?_, ?_⟩
    · simpa using hp
    · have : (0 : Int) < F := by omega
      simp [cNe, this]
  | succ k ih =>
    have ih' := ih (fun j hj => hfreq j (by omega)) (fun j hj => hmenu j (by omega))
      (fun j hj => hnext j (by omega)) (fun j hj => hactive j (by omega))
      (fun j hj => hmanual j (by omega))
    have ha := hactive (k + 1) le_rfl
    have hm := hmanual (k + 1) le_rfl
    have hn := hnext k (by omega)
    rw [updatePad_fire_state K (hs (k + 1)) n (before (k + 1)) (hmenu (k + 1) le_rfl),
      hfreq (k + 1) le_rfl, hn]
    have h1 := cNe_eq_one _ _ ha
    obtain ⟨hl, hph, _⟩ := ih'
    have hp := next_phase F _ hF ((k : Int) + 1) hph
    simp only [fireHandling, h1, hm.1, hm.2, hl]
    refine ⟨by simp, ?_, ?_⟩
    · simpa using hp
    · rw [hph]
      push_cast
      by_cases hlt : ((k : Int) + 1) % (2 * F) < F <;> simp [cNe, hlt]

theorem updatePad_actual_xy (K : Consts) (h : Host) (n : Nat) (s : State) :
    ((GamePads_UpdatePad K h n s).gamepads_sdl_actual_state n).x
      = (classifyAxes h (s.gamepad_configuration n) (s.gamepads_sdl_last_state n)
          (s.gamepads_sdl_actual_state n) (h.SDL_JoystickGetAxis n 0) (h.SDL_JoystickGetAxis n 1)).x
    ∧ ((GamePads_UpdatePad K h n s).gamepads_sdl_actual_state n).y
      = (classifyAxes h (s.gamepad_configuration n) (s.gamepads_sdl_last_state n)
          (s.gamepads_sdl_actual_state n) (h.SDL_JoystickGetAxis n 0) (h.SDL_JoystickGetAxis n 1)).y := by
  unfold GamePads_UpdatePad
  by_cases hui : h.UI_is_active = 0 <;> simp [hui, classifyHat]

theorem truncToInt_ge (q : ℚ) (v : Int) (hq : 0 ≤ q) (h : (v : ℚ) ≤ q) : v ≤ truncToInt q := by
  unfold truncToInt
  rw [if_pos hq]
  exact Int.le_floor.mpr h

theorem truncToInt_le (q : ℚ) (v : Int) (hq : q ≤ 0) (h : q ≤ (v : ℚ)) : truncToInt q ≤ v := by
  unfold truncToInt
  split
  · have : q = 0 := le_antisymm hq ‹_›
    subst this
    simp at h ⊢
    exact h
  · exact Int.ceil_le.mpr h

theorem limit_bounds (D : Int) (t sel : ℚ) (hD : 0 < D) (hD2 : D ≤ 32768)
    (ht : 0 ≤ t) (ht2 : t ≤ 2) (hsel : sel = 1 / 2 ∨ sel = -1 / 2) :
    |f32 (f32 (D : ℚ) * f32 (1 + f32 (sel * t))) - (D : ℚ) * (1 + sel * t)| ≤ 1 / 16
    ∧ |f32 (f32 ((-D : Int) : ℚ) * f32 (1 + f32 (sel * t))) - (-(D : ℚ)) * (1 + sel * t)| ≤ 1 / 16 := by
  have hDq : (0 : ℚ) < (D : ℚ) := by exact_mod_cast hD
  have hDq2 : (D : ℚ) ≤ 32768 := by exact_mod_cast hD2
  have ha : |sel * t| ≤ 1 := by
    rw [abs_le]
    rcases hsel with h | h <;> subst h <;> constructor <;> linarith
  refine ⟨limit_near _ _ ?_ ha, ?_⟩
  · rw [abs_le]; constructor <;> linarith
  · have := limit_near (-(D : ℚ)) (sel * t) (by rw [abs_neg, abs_le]; constructor <;> linarith) ha
    push_cast
    exact this

/-- The integral part of a value of size at most `B` is of size at most `B`. -/
theorem truncToInt_abs_le (q : ℚ) (B : Int) (h : |q| ≤ (B : ℚ)) :
    -B ≤ truncToInt q ∧ truncToInt q ≤ B := by
  rw [abs_le] at h
  unfold truncToInt
  split
  · rename_i hq
    have h0 : 0 ≤ ⌊q⌋ := Int.floor_nonneg.mpr hq
    have h1 : ⌊q⌋ ≤ B := by
      have : ((⌊q⌋ : Int) : ℚ) ≤ (B : ℚ) := le_trans (Int.floor_le q) h.2
      exact_mod_cast this
    omega
  · rename_i hq
    have h0 : ⌈q⌉ ≤ 0 := Int.ceil_le.mpr (by push_cast; linarith [lt_of_not_le hq])
    have h1 : -B ≤ ⌈q⌉ := by
      have : ((-B : Int) : ℚ) ≤ ((⌈q⌉ : Int) : ℚ) := by
        push_cast
        exact le_trans h.1 (Int.le_ceil q)
      exact_mod_cast this
    omega

/-- The conversion to `int` of a value whose integral part is in the range of
`int` discards the fraction. -/
theorem floatToInt_eq (q : ℚ) (B : Int) (hB : B ≤ 2147483647) (h : |q| ≤ (B : ℚ)) :
    floatToInt q = truncToInt q := by
  obtain ⟨h1, h2⟩ := truncToInt_abs_le q B h
  unfold floatToInt
  rw [if_pos ⟨by omega, by omega⟩]

/-- For a deadzone of at most 32768 and a tolerance between 0 and 2 the limits
of the square mode are in the range of `int`: the conversion discards the
fraction of the `float`. -/
theorem squareLimit_eq (D : Int) (t sel : ℚ) (hD : 0 < D) (hD2 : D ≤ 32768)
    (ht : 0 ≤ t) (ht2 : t ≤ 2) (hsel : sel = 1 / 2 ∨ sel = -1 / 2) :
    squareLimit D sel t = truncToInt (f32 (f32 (D : ℚ) * f32 (1 + f32 (sel * t))))
    ∧ squareLimit (-D) sel t
        = truncToInt (f32 (f32 ((-D : Int) : ℚ) * f32 (1 + f32 (sel * t)))) := by
  obtain ⟨h1, h2⟩ := limit_bounds D t sel hD hD2 ht ht2 hsel
  have hDq : (0 : ℚ) < (D : ℚ) := by exact_mod_cast hD
  have hDq2 : (D : ℚ) ≤ 32768 := by exact_mod_cast hD2
  have hf : 0 ≤ 1 + sel * t ∧ 1 + sel * t ≤ 2 := by
    rcases hsel with h | h <;> subst h <;> constructor <;> linarith
  have hp : 0 ≤ (D : ℚ) * (1 + sel * t) ∧ (D : ℚ) * (1 + sel * t) ≤ 65536 := by
    constructor
    · exact mul_nonneg hDq.le hf.1
    · have : (D : ℚ) * (1 + sel * t) ≤ 32768 * 2 := mul_le_mul hDq2 hf.2 hf.1 (by norm_num)
      linarith
  rw [abs_le] at h1 h2
  unfold squareLimit
  constructor
  · apply floatToInt_eq _ 65537 (by decide)
    rw [abs_le]
    constructor <;> push_cast <;> linarith [h1.1, h1.2, hp.1, hp.2]
  · apply floatToInt_eq _ 65537 (by decide)
    have e : -(D : ℚ) * (1 + sel * t) = -((D : ℚ) * (1 + sel * t)) := by ring
    rw [e] at h2
    push_cast at h2 ⊢
    rw [abs_le]
    constructor <;> linarith [h2.1, h2.2, hp.1, hp.2]

theorem truncToInt_lt (q : ℚ) (v : Int) (h : q < (v : ℚ)) (hv : 0 < v) : truncToInt q < v := by
  unfold truncToInt
  split
  · exact Int.floor_lt.mpr h
  · rename_i hq
    have : ⌈q⌉ ≤ 0 := Int.ceil_le.mpr (by push_cast; linarith [lt_of_not_le hq])
    omega

theorem truncToInt_gt (q : ℚ) (v : Int) (h : (v : ℚ) < q) (hv : v < 0) : v < truncToInt q := by
  unfold truncToInt
  split
  · rename_i hq
    have : 0 ≤ ⌊q⌋ := Int.floor_nonneg.mpr hq
    omega
  · exact Int.lt_ceil.mpr h

/-- Square mode, upper band: a sample one unit inside the band between the exit
and the enter threshold keeps a classification of 0 or 1. -/
theorem squareAxis_band_pos (cfg : SDL_INPUT_RealJSConfig_t) (last v : Int)
    (hD : 0 < cfg.deadzone) (hD2 : cfg.deadzone ≤ 32768)
    (ht : 0 ≤ cfg.tolerance) (ht2 : cfg.tolerance ≤ 2)
    (hlo : (cfg.deadzone : ℚ) * (1 - cfg.tolerance / 2) + 1 < (v : ℚ))
    (hhi : (v : ℚ) + 1 < (cfg.deadzone : ℚ) * (1 + cfg.tolerance / 2))
    (hlast : last = 0 ∨ last = 1) :
    squareAxis cfg last v = last := by
  have hDq : (1 : ℚ) ≤ (cfg.deadzone : ℚ) := by exact_mod_cast hD
  have hLx : 0 ≤ (cfg.deadzone : ℚ) * (1 - cfg.tolerance / 2) :=
    mul_nonneg (by linarith) (by linarith)
  have hL : (cfg.deadzone : ℚ) ≤ (cfg.deadzone : ℚ) * (1 + cfg.tolerance / 2) := by
    have : 0 ≤ (cfg.deadzone : ℚ) * (cfg.tolerance / 2) := mul_nonneg (by linarith) (by linarith)
    linarith
  have hvpos : (0 : ℚ) < (v : ℚ) := by linarith
  have hvp : 0 < v := by exact_mod_cast hvpos
  obtain ⟨hE, hE'⟩ := limit_bounds cfg.deadzone cfg.tolerance (1 / 2) hD hD2 ht ht2 (Or.inl rfl)
  obtain ⟨hX, _⟩ := limit_bounds cfg.deadzone cfg.tolerance (-1 / 2) hD hD2 ht ht2 (Or.inr rfl)
  rw [abs_le] at hE hE' hX
  have e1 : (cfg.deadzone : ℚ) * (1 + 1 / 2 * cfg.tolerance) = (cfg.deadzone : ℚ) * (1 + cfg.tolerance / 2) := by ring
  have e2 : (cfg.deadzone : ℚ) * (1 + -1 / 2 * cfg.tolerance) = (cfg.deadzone : ℚ) * (1 - cfg.tolerance / 2) := by ring
  have e3 : -(cfg.deadzone : ℚ) * (1 + 1 / 2 * cfg.tolerance) = -((cfg.deadzone : ℚ) * (1 + cfg.tolerance / 2)) := by ring
  rw [e1] at hE
  rw [e2] at hX
  rw [e3] at hE'
  unfold squareAxis
  rcases hlast with h0 | h1
  · subst h0
    simp only [show ¬ ((0 : Int) = -1) by decide, show ¬ ((0 : Int) = 1) by decide, if_false]
    have hmax : v ≤ squareLimit cfg.deadzone (1 / 2) cfg.tolerance := by
      rw [(squareLimit_eq cfg.deadzone cfg.tolerance (1 / 2) hD hD2 ht ht2 (Or.inl rfl)).1]
      apply truncToInt_ge <;> linarith [hE.1]
    have hmin : squareLimit (-cfg.deadzone) (1 / 2) cfg.tolerance ≤ v := by
      rw [(squareLimit_eq cfg.deadzone cfg.tolerance (1 / 2) hD hD2 ht ht2 (Or.inl rfl)).2]
      apply truncToInt_le <;> linarith [hE'.2]
    rw [if_neg (by omega), if_neg (by omega)]
  · subst h1
    simp only [show ¬ ((1 : Int) = -1) by decide, if_false, if_true]
    have hmax : squareLimit cfg.deadzone (-1 / 2) cfg.tolerance < v := by
      rw [(squareLimit_eq cfg.deadzone cfg.tolerance (-1 / 2) hD hD2 ht ht2 (Or.inr rfl)).1]
      apply truncToInt_lt _ _ _ hvp
      linarith [hX.2]
    rw [if_pos (by omega)]

/-- Square mode, lower band: the mirror image of `squareAxis_band_pos`. -/
theorem squareAxis_band_neg (cfg : SDL_INPUT_RealJSConfig_t) (last v : Int)
    (hD : 0 < cfg.deadzone) (hD2 : cfg.deadzone ≤ 32768)
    (ht : 0 ≤ cfg.tolerance) (ht2 : cfg.tolerance ≤ 2)
    (hlo : -((cfg.deadzone : ℚ) * (1 + cfg.tolerance / 2)) + 1 < (v : ℚ))
    (hhi : (v : ℚ) + 1 < -((cfg.deadzone : ℚ) * (1 - cfg.tolerance / 2)))
    (hlast : last = 0 ∨ last = -1) :
    squareAxis cfg last v = last := by
  have hDq : (1 : ℚ) ≤ (cfg.deadzone : ℚ) := by exact_mod_cast hD
  have hLx : 0 ≤ (cfg.deadzone : ℚ) * (1 - cfg.tolerance / 2) :=
    mul_nonneg (by linarith) (by linarith)
  have hL : (cfg.deadzone : ℚ) ≤ (cfg.deadzone : ℚ) * (1 + cfg.tolerance / 2) := by
    have : 0 ≤ (cfg.deadzone : ℚ) * (cfg.tolerance / 2) := mul_nonneg (by linarith) (by linarith)
    linarith
  have hvneg : (v : ℚ) < 0 := by linarith
  have hvn : v < 0 := by exact_mod_cast hvneg
  obtain ⟨hE, hE'⟩ := limit_bounds cfg.deadzone cfg.tolerance (1 / 2) hD hD2 ht ht2 (Or.inl rfl)
  obtain ⟨_, hX'⟩ := limit_bounds cfg.deadzone cfg.tolerance (-1 / 2) hD hD2 ht ht2 (Or.inr rfl)
  rw [abs_le] at hE hE' hX'
  have e1 : (cfg.deadzone : ℚ) * (1 + 1 / 2 * cfg.tolerance) = (cfg.deadzone : ℚ) * (1 + cfg.tolerance / 2) := by ring
  have e2 : -(cfg.deadzone : ℚ) * (1 + -1 / 2 * cfg.tolerance) = -((cfg.deadzone : ℚ) * (1 - cfg.tolerance / 2)) := by ring
  have e3 : -(cfg.deadzone : ℚ) * (1 + 1 / 2 * cfg.tolerance) = -((cfg.deadzone : ℚ) * (1 + cfg.tolerance / 2)) := by ring
  rw [e1] at hE
  rw [e2] at hX'
  rw [e3] at hE'
  have hmax : v ≤ squareLimit cfg.deadzone (1 / 2) cfg.tolerance := by
    rw [(squareLimit_eq cfg.deadzone cfg.tolerance (1 / 2) hD hD2 ht ht2 (Or.inl rfl)).1]
    apply truncToInt_ge <;> linarith [hE.1]
  unfold squareAxis
  rcases hlast with h0 | h1
  · subst h0
    simp only [show ¬ ((0 : Int) = -1) by decide, show ¬ ((0 : Int) = 1) by decide, if_false]
    have hmin : squareLimit (-cfg.deadzone) (1 / 2) cfg.tolerance ≤ v := by
      rw [(squareLimit_eq cfg.deadzone cfg.tolerance (1 / 2) hD hD2 ht ht2 (Or.inl rfl)).2]
      apply truncToInt_le <;> linarith [hE'.2]
    rw [if_neg (by omega), if_neg (by omega)]
  · subst h1
    simp only [show ¬ ((-1 : Int) = 1) by decide, if_false, if_true]
    have hmin : v < squareLimit (-cfg.deadzone) (-1 / 2) cfg.tolerance := by
      rw [(squareLimit_eq cfg.deadzone cfg.tolerance (-1 / 2) hD hD2 ht ht2 (Or.inr rfl)).2]
      apply truncToInt_gt _ _ _ hvn
      linarith [hX'.1]
    rw [if_neg (by omega), if_pos (by omega)]

/-! ## The autofire generator (C1, C2) -/

/-- C1: with the menu inactive, manual fire off and autofire active from an
activation edge on, the fire output of the pad in the `k`-th update cycle
counted from the activation cycle is on exactly when `k mod 2F < F`, whatever
the autofire phase was before. -/
theorem autofire_duty_cycle (K : Consts) (n : Nat) (F : Int) (hs : Nat → Host)
    (before : Nat → State) (k : Nat) (hF : 1 ≤ F)
    (hfreq : ∀ j ≤ k, ((before j).gamepad_configuration n).autofire_freq = F)
    (hmenu : ∀ j ≤ k, (hs j).UI_is_active = 0)
    (hnext : ∀ j < k, (before (j + 1)).gamepads_fire_state n
        = (GamePads_UpdatePad K (hs j) n (before j)).gamepads_fire_state n)
    (hedge : ((before 0).gamepads_fire_state n).autofire_last_on = 0)
    (hactive : ∀ j ≤ k, cNe (padButtonScan K (hs j) n (before j)).autofire_toggle_on
        (padButtonScan K (hs j) n (before j)).autofire ≠ 0)
    (hmanual : ∀ j ≤ k, (padButtonScan K (hs j) n (before j)).fire_toggle_on = 0
        ∧ (padButtonScan K (hs j) n (before j)).fire = 0) :
    ((GamePads_UpdatePad K (hs k) n (before k)).gamepads_fire_state n).fire ≠ 0
      ↔ (k : Int) % (2 * F) < F :=
  (autofire_run K n F hs before hF k hfreq hmenu hnext hedge hactive hmanual).2.2

/-- C1 at half-period 3: a pad whose button 0 is an autofire-hold button, held
from the first cycle on, fires on, on, on, off, off, off. -/
theorem autofire_duty_cycle_witness :
    (List.range 6).map (fun k =>
        ((GamePads_UpdatePad stdConsts (sampleHost 0 0 0 [0]) 0
          (padRun stdConsts (fun _ => sampleHost 0 0 0 [0]) 0 (sampleState 1 autofireConfig) k)
          ).gamepads_fire_state 0).fire) = [1, 1, 1, 0, 0, 0]
    ∧ (((GamePads_UpdatePad stdConsts (sampleHost 0 0 0 [0]) 0
          (padRun stdConsts (fun _ => sampleHost 0 0 0 [0]) 0 (sampleState 1 autofireConfig) 4)
          ).gamepads_fire_state 0).fire ≠ 0 ↔ ((4 : Nat) : Int) % (2 * 3) < 3) :=
  ⟨by decide!,
   autofire_duty_cycle stdConsts 0 3 (fun _ => sampleHost 0 0 0 [0])
    (padRun stdConsts (fun _ => sampleHost 0 0 0 [0]) 0 (sampleState 1 autofireConfig)) 4
    (by decide) (by decide!) (fun _ _ => rfl) (fun _ _ => rfl) (by decide!) (by decide!) (by decide!)⟩

/-- C2: in an update cycle with the menu inactive, autofire is active exactly
when the autofire toggle differs from the autofire hold level; the autofire
source fires when it is active and the phase, taken after the reset on a rising
edge, is below the half-period; the manual source fires when the fire toggle
differs from the fire hold level; and the resolved fire output is on exactly
when one of the two sources fires and the other does not. -/
theorem fire_is_xor (K : Consts) (h : Host) (n : Nat) (s : State) (hui : h.UI_is_active = 0) :
    (((GamePads_UpdatePad K h n s).gamepads_fire_state n).autofire_actual_on ≠ 0
      ↔ (padButtonScan K h n s).autofire_toggle_on ≠ (padButtonScan K h n s).autofire)
    ∧ (((GamePads_UpdatePad K h n s).gamepads_fire_state n).fire ≠ 0
      ↔ Xor'
        ((padButtonScan K h n s).autofire_toggle_on ≠ (padButtonScan K h n s).autofire
          ∧ (if (s.gamepads_fire_state n).autofire_last_on = 0
                ∧ (padButtonScan K h n s).autofire_toggle_on ≠ (padButtonScan K h n s).autofire
              then 0 else (s.gamepads_fire_state n).autofire_phase)
            < (s.gamepad_configuration n).autofire_freq)
        ((padButtonScan K h n s).fire_toggle_on ≠ (padButtonScan K h n s).fire)) := by
  rw [updatePad_fire_state K h n s hui]
  refine ⟨by simp [fireHandling, cNe_ne_zero], ?_⟩
  simp only [fireHandling, cNe_ne_zero]
  by_cases ha : (padButtonScan K h n s).autofire_toggle_on = (padButtonScan K h n s).autofire <;>
  by_cases hm : (padButtonScan K h n s).fire_toggle_on = (padButtonScan K h n s).fire <;>
  by_cases hl : (s.gamepads_fire_state n).autofire_last_on = 0 <;>
  by_cases hp : (s.gamepads_fire_state n).autofire_phase < (s.gamepad_configuration n).autofire_freq <;>
  by_cases hf : (0 : Int) < (s.gamepad_configuration n).autofire_freq <;>
  simp [Xor', cNe, ha, hm, hl, hp, hf]

/-- C2 at concrete inputs, the menu closed: with button 0 an autofire-hold
button and button 1 a fire-hold button, either button alone makes the pad fire
in the first cycle and both together do not. -/
theorem fire_is_xor_witness :
    (sampleHost 0 0 0 [0, 1]).UI_is_active = 0
    ∧ ((GamePads_UpdatePad stdConsts (sampleHost 0 0 0 [1]) 0
        (sampleState 1 autofireConfig)).gamepads_fire_state 0).fire = 1
    ∧ ((GamePads_UpdatePad stdConsts (sampleHost 0 0 0 [0]) 0
        (sampleState 1 autofireConfig)).gamepads_fire_state 0).fire = 1
    ∧ ¬ ((GamePads_UpdatePad stdConsts (sampleHost 0 0 0 [0, 1]) 0
        (sampleState 1 autofireConfig)).gamepads_fire_state 0).fire ≠ 0 :=
  ⟨rfl, by decide!, by decide!,
   fun hne => absurd
    ((fire_is_xor stdConsts (sampleHost 0 0 0 [0, 1]) 0 (sampleState 1 autofireConfig) rfl).2.mp hne)
    (by decide!)⟩

/-! ## The dead-zone classifier (C3, C4, C5) -/

/-- C4 fails as stated.  With deadzone 5 and tolerance 3 the sample -2 lies
strictly between the two thresholds -2.5 and 12.5, yet an x axis that was at 1
is classified 0.  With the default deadzone 15000 and tolerance 0.1 the samples
15750 and 14250 lie strictly between the thresholds computed from the stored
tolerance, yet a centred axis is classified 1 on 15750 and a deflected axis is
classified 0 on 14250: the code compares with the thresholds rounded to `float`
and cut to `int`, 15749 and 14250. -/
theorem square_hysteresis_counterexample :
    ((5 : ℚ) * (1 - 3 / 2) < ((-2 : Int) : ℚ) ∧ (((-2 : Int) : ℚ)) < 5 * (1 + 3 / 2)
      ∧ ((GamePads_UpdatePad stdConsts (sampleHost (-2) 0 0 []) 0
          (withLastStick (sampleState 1 { squareConfig with deadzone := 5, tolerance := 3 }) 1 0)
          ).gamepads_sdl_actual_state 0).x = 0)
    ∧ (0 ≤ squareConfig.tolerance
      ∧ (squareConfig.deadzone : ℚ) * (1 - squareConfig.tolerance / 2) < ((15750 : Int) : ℚ)
      ∧ ((15750 : Int) : ℚ) < (squareConfig.deadzone : ℚ) * (1 + squareConfig.tolerance / 2)
      ∧ ((GamePads_UpdatePad stdConsts (sampleHost 15750 0 0 []) 0
          (withLastStick (sampleState 1 squareConfig) 0 0)).gamepads_sdl_actual_state 0).x = 1)
    ∧ ((squareConfig.deadzone : ℚ) * (1 - squareConfig.tolerance / 2) < ((14250 : Int) : ℚ)
      ∧ ((14250 : Int) : ℚ) < (squareConfig.deadzone : ℚ) * (1 + squareConfig.tolerance / 2)
      ∧ ((GamePads_UpdatePad stdConsts (sampleHost 14250 0 0 []) 0
          (withLastStick (sampleState 1 squareConfig) 1 0)).gamepads_sdl_actual_state 0).x = 0) := by
  decide!

/-- C4 (amended): square mode, deadzone `D` with `0 < D ≤ 32768` and tolerance
`t` with `0 ≤ t ≤ 2`.  For every sample `v` of an axis with
`D*(1 - t/2) + 1 < v` and `v + 1 < D*(1 + t/2)` the new classification of the
axis equals the previous one when that was 0 or 1; for every `v` with
`-D*(1 + t/2) + 1 < v` and `v + 1 < -D*(1 - t/2)` a previous classification of
0 or -1 is kept.  The x axis and the y axis are decided each from its own sample
and its own previous classification. -/
theorem square_hysteresis_band (K : Consts) (h : Host) (n : Nat) (s : State)
    (hsq : (s.gamepad_configuration n).radial = 0)
    (hD : 0 < (s.gamepad_configuration n).deadzone)
    (hD2 : (s.gamepad_configuration n).deadzone ≤ 32768)
    (ht : 0 ≤ (s.gamepad_configuration n).tolerance)
    (ht2 : (s.gamepad_configuration n).tolerance ≤ 2) :
    (((s.gamepad_configuration n).deadzone : ℚ) * (1 - (s.gamepad_configuration n).tolerance / 2) + 1
          < (h.SDL_JoystickGetAxis n 0 : ℚ) →
      (h.SDL_JoystickGetAxis n 0 : ℚ) + 1
          < ((s.gamepad_configuration n).deadzone : ℚ) * (1 + (s.gamepad_configuration n).tolerance / 2) →
      (s.gamepads_sdl_last_state n).x = 0 ∨ (s.gamepads_sdl_last_state n).x = 1 →
      ((GamePads_UpdatePad K h n s).gamepads_sdl_actual_state n).x = (s.gamepads_sdl_last_state n).x)
    ∧ (((s.gamepad_configuration n).deadzone : ℚ) * (1 - (s.gamepad_configuration n).tolerance / 2) + 1
          < (h.SDL_JoystickGetAxis n 1 : ℚ) →
      (h.SDL_JoystickGetAxis n 1 : ℚ) + 1
          < ((s.gamepad_configuration n).deadzone : ℚ) * (1 + (s.gamepad_configuration n).tolerance / 2) →
      (s.gamepads_sdl_last_state n).y = 0 ∨ (s.gamepads_sdl_last_state n).y = 1 →
      ((GamePads_UpdatePad K h n s).gamepads_sdl_actual_state n).y = (s.gamepads_sdl_last_state n).y)
    ∧ (-(((s.gamepad_configuration n).deadzone : ℚ) * (1 + (s.gamepad_configuration n).tolerance / 2)) + 1
          < (h.SDL_JoystickGetAxis n 0 : ℚ) →
      (h.SDL_JoystickGetAxis n 0 : ℚ) + 1
          < -(((s.gamepad_configuration n).deadzone : ℚ) * (1 - (s.gamepad_configuration n).tolerance / 2)) →
      (s.gamepads_sdl_last_state n).x = 0 ∨ (s.gamepads_sdl_last_state n).x = -1 →
      ((GamePads_UpdatePad K h n s).gamepads_sdl_actual_state n).x = (s.gamepads_sdl_last_state n).x)
    ∧ (-(((s.gamepad_configuration n).deadzone : ℚ) * (1 + (s.gamepad_configuration n).tolerance / 2)) + 1
          < (h.SDL_JoystickGetAxis n 1 : ℚ) →
      (h.SDL_JoystickGetAxis n 1 : ℚ) + 1
          < -(((s.gamepad_configuration n).deadzone : ℚ) * (1 - (s.gamepad_configuration n).tolerance / 2)) →
      (s.gamepads_sdl_last_state n).y = 0 ∨ (s.gamepads_sdl_last_state n).y = -1 →
      ((GamePads_UpdatePad K h n s).gamepads_sdl_actual_state n).y = (s.gamepads_sdl_last_state n).y) := by
  obtain ⟨ex, ey⟩ := updatePad_actual_xy K h n s
  rw [ex, ey]
  simp only [classifyAxes, hsq, ne_eq, not_true_eq_false, if_false]
  exact ⟨fun hlo hhi hl => squareAxis_band_pos _ _ _ hD hD2 ht ht2 hlo hhi hl,
    fun hlo hhi hl => squareAxis_band_pos _ _ _ hD hD2 ht ht2 hlo hhi hl,
    fun hlo hhi hl => squareAxis_band_neg _ _ _ hD hD2 ht ht2 hlo hhi hl,
    fun hlo hhi hl => squareAxis_band_neg _ _ _ hD hD2 ht ht2 hlo hhi hl⟩

/-- C4 (amended) at the default deadzone 15000 and tolerance 0.1: the sample
15000 keeps an x axis at 1 and the sample -15000 keeps a y axis at 0. -/
theorem square_hysteresis_band_witness :
    ((sampleState 1 squareConfig).gamepad_configuration 0).radial = 0
    ∧ ((GamePads_UpdatePad stdConsts (sampleHost 15000 (-15000) 0 []) 0
        (withLastStick (sampleState 1 squareConfig) 1 0)).gamepads_sdl_actual_state 0).x = 1
    ∧ ((GamePads_UpdatePad stdConsts (sampleHost 15000 (-15000) 0 []) 0
        (withLastStick (sampleState 1 squareConfig) 1 0)).gamepads_sdl_actual_state 0).y = 0 :=
  ⟨by decide!,
   (square_hysteresis_band stdConsts (sampleHost 15000 (-15000) 0 []) 0
      (withLastStick (sampleState 1 squareConfig) 1 0)
      (by decide!) (by decide!) (by decide!) (by decide!) (by decide!)).1
      (by decide!) (by decide!) (by decide!),
   (square_hysteresis_band stdConsts (sampleHost 15000 (-15000) 0 []) 0
      (withLastStick (sampleState 1 squareConfig) 1 0)
      (by decide!) (by decide!) (by decide!) (by decide!) (by decide!)).2.2.2
      (by decide!) (by decide!) (by decide!)⟩

/-- C5 fails as stated: in square mode with deadzone 15000 and tolerance 0.1,
starting centred, the samples `1.2*D`, `0.95*D`, `0.8*D` of the x axis in three
successive frames are classified 1, 0, 0: the sample `0.95*D = 14250` is not
above the exit limit 14250 and re-centres the axis. -/
theorem square_sequence_counterexample :
    (List.range 3).map (fun k =>
      ((frameRun stdConsts (axisSequence [15000 * 120 / 100, 15000 * 95 / 100, 15000 * 80 / 100])
        (sampleState 1 squareConfig) (k + 1)).gamepads_sdl_actual_state 0).x) = [1, 0, 0] := by
  decide!

/-- C5 (amended): in square mode with deadzone `D = 15000` and tolerance 0.1,
starting centred, with the previous state replaced by the new one after each
frame: after the sample `1.2*D` the x classification is 1; after the next sample
`0.95*D + 1`, the least one above the exit limit, it is still 1; after the next
sample `0.8*D` it is 0. -/
theorem square_sequence :
    (List.range 3).map (fun k =>
      ((frameRun stdConsts (axisSequence [15000 * 120 / 100, 15000 * 95 / 100 + 1, 15000 * 80 / 100])
        (sampleState 1 squareConfig) (k + 1)).gamepads_sdl_actual_state 0).x) = [1, 1, 0]
    ∧ (List.range 3).map (fun k =>
      ((frameRun stdConsts (axisSequence [15000 * 120 / 100, 15000 * 95 / 100 + 1, 15000 * 80 / 100])
        (sampleState 1 squareConfig) (k + 1)).gamepads_sdl_last_state 0).x) = [1, 1, 0] := by
  decide!

/-! ## Lemmas on the names of the functions -/

set_option maxRecDepth 100000 in
theorem padFunction_roundtrip_raw :
    ∀ c : Nat, c < 256 →
      StringToPadFunction (PadFunctionToString (768 + (c : Int))) = 768 + (c : Int)
      ∧ PadFunctionToString (768 + (c : Int))
        = "FNPAD_CODE_".toList
          ++ ["0123456789ABCDEF".toList.getD (c / 16) ' ', "0123456789ABCDEF".toList.getD (c % 16) ' '] := by
  decide!

theorem padFunction_roundtrip_named :
    ∀ c : Nat, c < 526 → isPadFunction (c : Int) →
      StringToPadFunction (PadFunctionToString (c : Int)) = (c : Int) := by
  decide!

theorem padFunction_roundtrip (f : Int) (hf : isPadFunction f) :
    StringToPadFunction (PadFunctionToString f) = f := by
  by_cases h : f < 526
  · have h0 : 0 ≤ f := by
      unfold isPadFunction at hf; omega
    have := padFunction_roundtrip_named f.toNat (by omega)
    rw [Int.toNat_of_nonneg h0] at this
    exact this hf
  · have hr : 768 ≤ f ∧ f ≤ 768 + 255 := by
      unfold isPadFunction at hf; omega
    have := (padFunction_roundtrip_raw (f - 768).toNat (by omega)).1
    rw [Int.toNat_of_nonneg (by omega)] at this
    have e : 768 + (f - 768) = f := by ring
    rw [e] at this
    exact this

/-! ## Lemmas on reading the configuration -/

theorem read_radial (h : Host) (i : Nat) (hi : i < 4) (v : List Char) (t : State)
    (ht : t.gamepad_config_reset ≠ 0) :
    GamePads_Read_Config h (fmt_d (i : Int) ++ "_JOY_RADIAL".toList) (some v) t
      = some (padEdit i (fun c => { c with radial := Util_sscanbool v }) t) := by
  simp only [GamePads_Read_Config, resetOnFirstTouch, if_neg ht]
  interval_cases i <;> rfl

theorem read_deadzone (h : Host) (i : Nat) (hi : i < 4) (v : List Char) (t : State)
    (ht : t.gamepad_config_reset ≠ 0) :
    GamePads_Read_Config h (fmt_d (i : Int) ++ "_JOY_DEADZONE".toList) (some v) t
      = some (padEdit i (fun c => { c with deadzone := Util_sscandec v }) t) := by
  simp only [GamePads_Read_Config, resetOnFirstTouch, if_neg ht]
  interval_cases i <;> rfl

theorem read_tolerance (h : Host) (i : Nat) (hi : i < 4) (v : List Char) (t : State)
    (ht : t.gamepad_config_reset ≠ 0) :
    GamePads_Read_Config h (fmt_d (i : Int) ++ "_JOY_TOLERANCE".toList) (some v) t
      = some (padEdit i (fun c => { c with tolerance := scannedFloat h v }) t) := by
  simp only [GamePads_Read_Config, resetOnFirstTouch, if_neg ht]
  interval_cases i <;> rfl

theorem read_radial_tolerance (h : Host) (i : Nat) (hi : i < 4) (v : List Char) (t : State)
    (ht : t.gamepad_config_reset ≠ 0) :
    GamePads_Read_Config h (fmt_d (i : Int) ++ "_JOY_RADIAL_TOLERANCE".toList) (some v) t
      = some (padEdit i (fun c => { c with radial_tolerance := scannedFloat h v }) t) := by
  simp only [GamePads_Read_Config, resetOnFirstTouch, if_neg ht]
  interval_cases i <;> rfl

theorem read_use_as_stick (h : Host) (i : Nat) (hi : i < 4) (v : List Char) (t : State)
    (ht : t.gamepad_config_reset ≠ 0) :
    GamePads_Read_Config h (fmt_d (i : Int) ++ "_JOY_USE_AS_STICK".toList) (some v) t
      = some (padEdit i (fun c => { c with use_as_stick := Util_sscanbool v }) t) := by
  simp only [GamePads_Read_Config, resetOnFirstTouch, if_neg ht]
  interval_cases i <;> rfl

theorem read_use_hat_as_stick (h : Host) (i : Nat) (hi : i < 4) (v : List Char) (t : State)
    (ht : t.gamepad_config_reset ≠ 0) :
    GamePads_Read_Config h (fmt_d (i : Int) ++ "_HAT_USE_AS_STICK".toList) (some v) t
      = some (padEdit i (fun c => { c with use_hat_as_stick := Util_sscanbool v }) t) := by
  simp only [GamePads_Read_Config, resetOnFirstTouch, if_neg ht]
  interval_cases i <;> rfl

theorem read_use_in_menus (h : Host) (i : Nat) (hi : i < 4) (v : List Char) (t : State)
    (ht : t.gamepad_config_reset ≠ 0) :
    GamePads_Read_Config h (fmt_d (i : Int) ++ "_JOY_USE_IN_MENUS".toList) (some v) t
      = some (padEdit i (fun c => { c with use_in_menus := Util_sscanbool v }) t) := by
  simp only [GamePads_Read_Config, resetOnFirstTouch, if_neg ht]
  interval_cases i <;> rfl

theorem read_use_hat_in_menus (h : Host) (i : Nat) (hi : i < 4) (v : List Char) (t : State)
    (ht : t.gamepad_config_reset ≠ 0) :
    GamePads_Read_Config h (fmt_d (i : Int) ++ "_HAT_USE_IN_MENUS".toList) (some v) t
      = some (padEdit i (fun c => { c with use_hat_in_menus := Util_sscanbool v }) t) := by
  simp only [GamePads_Read_Config, resetOnFirstTouch, if_neg ht]
  interval_cases i <;> rfl

theorem read_select_button (h : Host) (i : Nat) (hi : i < 4) (v : List Char) (t : State)
    (ht : t.gamepad_config_reset ≠ 0) :
    GamePads_Read_Config h (fmt_d (i : Int) ++ "_IN_MENUS_SELECT_BUTTON".toList) (some v) t
      = some (padEdit i (fun c => { c with in_menus_select_button := Util_sscandec v }) t) := by
  simp only [GamePads_Read_Config, resetOnFirstTouch, if_neg ht]
  interval_cases i <;> rfl

theorem read_autofire_freq (h : Host) (i : Nat) (hi : i < 4) (v : List Char) (t : State)
    (ht : t.gamepad_config_reset ≠ 0) :
    GamePads_Read_Config h (fmt_d (i : Int) ++ "_AUTOFIRE_FREQ".toList) (some v) t
      = some (padEdit i (fun c => { c with autofire_freq := if Util_sscandec v ≤ 0 then 1 else Util_sscandec v }) t) := by
  simp only [GamePads_Read_Config, resetOnFirstTouch, if_neg ht]
  interval_cases i <;> rfl

/-- The line of the back button is not recognised: only the masks are
invalidated. -/
theorem read_back_button (h : Host) (i : Nat) (hi : i < 4) (v : List Char) (t : State)
    (ht : t.gamepad_config_reset ≠ 0) :
    GamePads_Read_Config h (fmt_d (i : Int) ++ "_IN_MENUS_BACK_BUTTON".toList) (some v) t
      = some { t with gamepad_masks_valid := 0 } := by
  simp only [GamePads_Read_Config, resetOnFirstTouch, if_neg ht]
  interval_cases i <;> rfl

set_option maxRecDepth 100000 in
theorem read_button_func (h : Host) (i : Nat) (hi : i < 4) (j : Nat) (hj : j < 16)
    (v : List Char) (t : State) (ht : t.gamepad_config_reset ≠ 0) :
    GamePads_Read_Config h (fmt_d (i : Int) ++ "_BUTTON_".toList ++ fmt_d (j : Int) ++ "_FUNC".toList)
        (some v) t
      = some (padEdit i (fun c => { c with
          button_functions := Function.update c.button_functions j (StringToPadFunction v) }) t) := by
  simp only [GamePads_Read_Config, resetOnFirstTouch, if_neg ht]
  interval_cases i <;> interval_cases j <;> rfl

set_option maxRecDepth 100000 in
theorem read_button_sp_func (h : Host) (i : Nat) (hi : i < 4) (j : Nat) (hj : j < 16)
    (v : List Char) (t : State) (ht : t.gamepad_config_reset ≠ 0) :
    GamePads_Read_Config h (fmt_d (i : Int) ++ "_BUTTON_".toList ++ fmt_d (j : Int) ++ "_SP_FUNC".toList)
        (some v) t
      = some (padEdit i (fun c => { c with
          button_sp_functions := Function.update c.button_sp_functions j (StringToPadFunction v) }) t) := by
  simp only [GamePads_Read_Config, resetOnFirstTouch, if_neg ht]
  interval_cases i <;> interval_cases j <;> rfl

theorem digitChar_toNat (m : Nat) (hm : m < 10) : (Nat.digitChar m).toNat = 48 + m := by
  interval_cases m <;> rfl

theorem scandecLoop_digit (r : Int) (m : Nat) (hm : m < 10) (ds : List Char) :
    scandecLoop r (Nat.digitChar m :: ds) = scandecLoop (10 * r + (m : Int)) ds := by
  have e := digitChar_toNat m hm
  simp only [scandecLoop, e]
  rw [if_pos ⟨by omega, by omega⟩]
  congr 1
  push_cast
  ring

theorem scandecLoop_toDigitsCore (fuel : Nat) :
    ∀ (n : Nat) (ds : List Char), n < fuel →
      ∃ k : Nat, ∀ r : Int,
        scandecLoop r (Nat.toDigitsCore 10 fuel n ds) = scandecLoop (r * 10 ^ k + (n : Int)) ds := by
  induction fuel with
  | zero => intro n ds hn; omega
  | succ fuel ih =>
    intro n ds hn
    simp only [Nat.toDigitsCore]
    by_cases h0 : n / 10 = 0
    · rw [if_pos h0]
      refine ⟨1, fun r => ?_⟩
      rw [scandecLoop_digit r (n % 10) (Nat.mod_lt _ (by norm_num))]
      have : n % 10 = n := by omega
      rw [this]
      congr 1
      ring
    · rw [if_neg h0]
      obtain ⟨k, hk⟩ := ih (n / 10) (Nat.digitChar (n % 10) :: ds) (by omega)
      refine ⟨k + 1, fun r => ?_⟩
      rw [hk r, scandecLoop_digit _ (n % 10) (Nat.mod_lt _ (by norm_num))]
      congr 1
      have : (n : Int) = 10 * ((n / 10 : Nat) : Int) + ((n % 10 : Nat) : Int) := by
        have := Nat.div_add_mod n 10
        omega
      rw [pow_succ]
      linarith

theorem toDigitsCore_ne_nil (fuel : Nat) :
    ∀ (n : Nat) (ds : List Char), ds ≠ [] → Nat.toDigitsCore 10 fuel n ds ≠ [] := by
  induction fuel with
  | zero => intro n ds hds; simpa [Nat.toDigitsCore] using hds
  | succ fuel ih =>
    intro n ds _
    simp only [Nat.toDigitsCore]
    split_ifs
    · exact List.cons_ne_nil _ _
    · exact ih _ _ (List.cons_ne_nil _ _)

theorem toDigits_ne_nil (n : Nat) : Nat.toDigits 10 n ≠ [] := by
  unfold Nat.toDigits
  simp only [Nat.toDigitsCore]
  split_ifs
  · exact List.cons_ne_nil _ _
  · exact toDigitsCore_ne_nil _ _ _ (List.cons_ne_nil _ _)

/-- A non-negative `int` printed with `%d` is scanned back by
`Util_sscandec`. -/
theorem sscandec_fmt_d (i : Int) (hi : 0 ≤ i) : Util_sscandec (fmt_d i) = i := by
  have e : fmt_d i = Nat.toDigits 10 i.natAbs := by
    unfold fmt_d
    rw [if_neg (by omega)]
  unfold Util_sscandec
  rw [e, if_neg (toDigits_ne_nil _)]
  obtain ⟨k, hk⟩ := scandecLoop_toDigitsCore (i.natAbs + 1) i.natAbs [] (by omega)
  unfold Nat.toDigits
  rw [hk 0]
  simp only [scandecLoop, zero_mul, zero_add]
  omega

theorem sscanbool_fmt_d (f : Int) (hf : f = 0 ∨ f = 1) : Util_sscanbool (fmt_d f) = f := by
  rcases hf with rfl | rfl <;> decide

/-- `Keyboard_ReadConfig` does not recognise a key that starts with
`SDL_PAD_`. -/
theorem keyboard_skips_pad (K : Consts) (rest : List Char) (p : Option (List Char)) (s : State) :
    Keyboard_ReadConfig K ("SDL_PAD_".toList ++ rest) p s = (s, 0) := by
  have key : ∀ lit : List Char, lit.take 8 ≠ "SDL_PAD_".toList →
      ¬ ("SDL_PAD_".toList ++ rest = lit) := by
    intro lit hl he
    apply hl
    rw [← he]
    rfl
  simp only [Keyboard_ReadConfig]
  repeat rw [if_neg (key _ (by decide))]

theorem readConfig_pad (K : Consts) (h : Host) (rest v : List Char) (t : State) :
    SDL_INPUT_ReadConfig K h ("SDL_PAD_".toList ++ rest) (some v) t
      = (GamePads_Read_Config h rest (some v) t).map (fun u => (u, 1)) := by
  simp only [SDL_INPUT_ReadConfig, keyboard_skips_pad]
  rfl

theorem lineAs_of_read (K : Consts) (h : Host) (rest v : List Char) (i : Nat)
    (f : SDL_INPUT_RealJSConfig_t → SDL_INPUT_RealJSConfig_t)
    (hread : ∀ t : State, t.gamepad_config_reset ≠ 0 →
      GamePads_Read_Config h rest (some v) t = some (padEdit i f t)) :
    LineAs K h ("SDL_PAD_".toList ++ rest) v i f := by
  intro t ht
  rw [readConfig_pad, hread t ht]
  exact ⟨_, _, rfl, ht, rfl⟩

theorem line_radial (K : Consts) (h : Host) (i : Nat) (hi : i < 4) (v : List Char) :
    LineAs K h ("SDL_PAD_".toList ++ fmt_d (i : Int) ++ "_JOY_RADIAL".toList) v i
      (fun c => { c with radial := Util_sscanbool v }) := by
  rw [List.append_assoc]
  exact lineAs_of_read K h _ v i _ (fun t ht => read_radial h i hi v t ht)

theorem line_deadzone (K : Consts) (h : Host) (i : Nat) (hi : i < 4) (v : List Char) :
    LineAs K h ("SDL_PAD_".toList ++ fmt_d (i : Int) ++ "_JOY_DEADZONE".toList) v i
      (fun c => { c with deadzone := Util_sscandec v }) := by
  rw [List.append_assoc]
  exact lineAs_of_read K h _ v i _ (fun t ht => read_deadzone h i hi v t ht)

theorem line_tolerance (K : Consts) (h : Host) (i : Nat) (hi : i < 4) (v : List Char) :
    LineAs K h ("SDL_PAD_".toList ++ fmt_d (i : Int) ++ "_JOY_TOLERANCE".toList) v i
      (fun c => { c with tolerance := scannedFloat h v }) := by
  rw [List.append_assoc]
  exact lineAs_of_read K h _ v i _ (fun t ht => read_tolerance h i hi v t ht)

theorem line_radial_tolerance (K : Consts) (h : Host) (i : Nat) (hi : i < 4) (v : List Char) :
    LineAs K h ("SDL_PAD_".toList ++ fmt_d (i : Int) ++ "_JOY_RADIAL_TOLERANCE".toList) v i
      (fun c => { c with radial_tolerance := scannedFloat h v }) := by
  rw [List.append_assoc]
  exact lineAs_of_read K h _ v i _ (fun t ht => read_radial_tolerance h i hi v t ht)

theorem line_use_as_stick (K : Consts) (h : Host) (i : Nat) (hi : i < 4) (v : List Char) :
    LineAs K h ("SDL_PAD_".toList ++ fmt_d (i : Int) ++ "_JOY_USE_AS_STICK".toList) v i
      (fun c => { c with use_as_stick := Util_sscanbool v }) := by
  rw [List.append_assoc]
  exact lineAs_of_read K h _ v i _ (fun t ht => read_use_as_stick h i hi v t ht)

theorem line_use_hat_as_stick (K : Consts) (h : Host) (i : Nat) (hi : i < 4) (v : List Char) :
    LineAs K h ("SDL_PAD_".toList ++ fmt_d (i : Int) ++ "_HAT_USE_AS_STICK".toList) v i
      (fun c => { c with use_hat_as_stick := Util_sscanbool v }) := by
  rw [List.append_assoc]
  exact lineAs_of_read K h _ v i _ (fun t ht => read_use_hat_as_stick h i hi v t ht)

theorem line_use_in_menus (K : Consts) (h : Host) (i : Nat) (hi : i < 4) (v : List Char) :
    LineAs K h ("SDL_PAD_".toList ++ fmt_d (i : Int) ++ "_JOY_USE_IN_MENUS".toList) v i
      (fun c => { c with use_in_menus := Util_sscanbool v }) := by
  rw [List.append_assoc]
  exact lineAs_of_read K h _ v i _ (fun t ht => read_use_in_menus h i hi v t ht)

theorem line_use_hat_in_menus (K : Consts) (h : Host) (i : Nat) (hi : i < 4) (v : List Char) :
    LineAs K h ("SDL_PAD_".toList ++ fmt_d (i : Int) ++ "_HAT_USE_IN_MENUS".toList) v i
      (fun c => { c with use_hat_in_menus := Util_sscanbool v }) := by
  rw [List.append_assoc]
  exact lineAs_of_read K h _ v i _ (fun t ht => read_use_hat_in_menus h i hi v t ht)

theorem line_select_button (K : Consts) (h : Host) (i : Nat) (hi : i < 4) (v : List Char) :
    LineAs K h ("SDL_PAD_".toList ++ fmt_d (i : Int) ++ "_IN_MENUS_SELECT_BUTTON".toList) v i
      (fun c => { c with in_menus_select_button := Util_sscandec v }) := by
  rw [List.append_assoc]
  exact lineAs_of_read K h _ v i _ (fun t ht => read_select_button h i hi v t ht)

theorem line_autofire_freq (K : Consts) (h : Host) (i : Nat) (hi : i < 4) (v : List Char) :
    LineAs K h ("SDL_PAD_".toList ++ fmt_d (i : Int) ++ "_AUTOFIRE_FREQ".toList) v i
      (fun c => { c with autofire_freq := if Util_sscandec v ≤ 0 then 1 else Util_sscandec v }) := by
  rw [List.append_assoc]
  exact lineAs_of_read K h _ v i _ (fun t ht => read_autofire_freq h i hi v t ht)

theorem line_back_button (K : Consts) (h : Host) (i : Nat) (hi : i < 4) (v : List Char) :
    LineAs K h ("SDL_PAD_".toList ++ fmt_d (i : Int) ++ "_IN_MENUS_BACK_BUTTON".toList) v i
      (fun c => c) := by
  rw [List.append_assoc]
  intro t ht
  rw [readConfig_pad, read_back_button h i hi v t ht]
  exact ⟨_, _, rfl, ht, (Function.update_eq_self i t.gamepad_configuration).symm⟩

theorem line_button_func (K : Consts) (h : Host) (i : Nat) (hi : i < 4) (j : Nat) (hj : j < 16)
    (v : List Char) :
    LineAs K h
      ("SDL_PAD_".toList ++ fmt_d (i : Int) ++ "_BUTTON_".toList ++ fmt_d (j : Int) ++ "_FUNC".toList)
      v i
      (fun c => { c with
        button_functions := Function.update c.button_functions j (StringToPadFunction v) }) := by
  have e : "SDL_PAD_".toList ++ fmt_d (i : Int) ++ "_BUTTON_".toList ++ fmt_d (j : Int) ++ "_FUNC".toList
      = "SDL_PAD_".toList
        ++ (fmt_d (i : Int) ++ "_BUTTON_".toList ++ fmt_d (j : Int) ++ "_FUNC".toList) := by
    simp only [List.append_assoc]
  rw [e]
  exact lineAs_of_read K h _ v i _ (fun t ht => read_button_func h i hi j hj v t ht)

theorem line_button_sp_func (K : Consts) (h : Host) (i : Nat) (hi : i < 4) (j : Nat) (hj : j < 16)
    (v : List Char) :
    LineAs K h
      ("SDL_PAD_".toList ++ fmt_d (i : Int) ++ "_BUTTON_".toList ++ fmt_d (j : Int)
        ++ "_SP_FUNC".toList)
      v i
      (fun c => { c with
        button_sp_functions := Function.update c.button_sp_functions j (StringToPadFunction v) }) := by
  have e : "SDL_PAD_".toList ++ fmt_d (i : Int) ++ "_BUTTON_".toList ++ fmt_d (j : Int)
        ++ "_SP_FUNC".toList
      = "SDL_PAD_".toList
        ++ (fmt_d (i : Int) ++ "_BUTTON_".toList ++ fmt_d (j : Int) ++ "_SP_FUNC".toList) := by
    simp only [List.append_assoc]
  rw [e]
  exact lineAs_of_read K h _ v i _ (fun t ht => read_button_sp_func h i hi j hj v t ht)

theorem readsAs_nil (K : Consts) (h : Host) (i : Nat) : ReadsAs K h [] i (fun c => c) := by
  intro t ht
  exact ⟨t, rfl, ht, (Function.update_eq_self i t.gamepad_configuration).symm⟩

theorem readsAs_cons (K : Consts) (h : Host) (key v : List Char) (rest : List ConfigLine) (i : Nat)
    (f G : SDL_INPUT_RealJSConfig_t → SDL_INPUT_RealJSConfig_t)
    (h1 : LineAs K h key v i f) (h2 : ReadsAs K h rest i G) :
    ReadsAs K h ((key, v) :: rest) i (fun c => G (f c)) := by
  intro t ht
  obtain ⟨t1, r, e1, r1, c1⟩ := h1 t ht
  obtain ⟨t2, e2, r2, c2⟩ := h2 t1 r1
  refine ⟨t2, ?_, r2, ?_⟩
  · simp only [readConfigLines, e1]
    exact e2
  · rw [c2, c1]
    simp

theorem readConfigLines_append (K : Consts) (h : Host) (l1 l2 : List ConfigLine) (t : State) :
    readConfigLines K h (l1 ++ l2) t = (readConfigLines K h l1 t).bind (readConfigLines K h l2) := by
  induction l1 generalizing t with
  | nil => rfl
  | cons a l1 ih =>
    obtain ⟨key, v⟩ := a
    simp only [List.cons_append, readConfigLines]
    cases SDL_INPUT_ReadConfig K h key (some v) t with
    | none => rfl
    | some r => exact ih r.1

theorem readsAs_append (K : Consts) (h : Host) (l1 l2 : List ConfigLine) (i : Nat)
    (F G : SDL_INPUT_RealJSConfig_t → SDL_INPUT_RealJSConfig_t)
    (h1 : ReadsAs K h l1 i F) (h2 : ReadsAs K h l2 i G) :
    ReadsAs K h (l1 ++ l2) i (fun c => G (F c)) := by
  intro t ht
  obtain ⟨t1, e1, r1, c1⟩ := h1 t ht
  obtain ⟨t2, e2, r2, c2⟩ := h2 t1 r1
  refine ⟨t2, ?_, r2, ?_⟩
  · rw [readConfigLines_append, e1]
    exact e2
  · rw [c2, c1]
    simp

theorem readsAs_button_funcs (K : Consts) (h : Host) (i : Nat) (hi : i < 4) (g : Nat → List Char)
    (l : List Nat) (hl : ∀ j ∈ l, j < 16) :
    ReadsAs K h
      (l.map (fun (j : Nat) =>
        ("SDL_PAD_".toList ++ fmt_d (i : Int) ++ "_BUTTON_".toList ++ fmt_d (j : Int) ++ "_FUNC".toList,
          g j)))
      i
      (fun c => l.foldl (fun c j => { c with
        button_functions := Function.update c.button_functions j (StringToPadFunction (g j)) }) c) := by
  induction l with
  | nil => exact readsAs_nil K h i
  | cons j l ih =>
    exact readsAs_cons K h _ _ _ i _ _
      (line_button_func K h i hi j (hl j (List.mem_cons_self _ _)) (g j))
      (ih (fun j' hj' => hl j' (List.mem_cons_of_mem _ hj')))

theorem readsAs_button_sp_funcs (K : Consts) (h : Host) (i : Nat) (hi : i < 4) (g : Nat → List Char)
    (l : List Nat) (hl : ∀ j ∈ l, j < 16) :
    ReadsAs K h
      (l.map (fun (j : Nat) =>
        ("SDL_PAD_".toList ++ fmt_d (i : Int) ++ "_BUTTON_".toList ++ fmt_d (j : Int)
          ++ "_SP_FUNC".toList, g j)))
      i
      (fun c => l.foldl (fun c j => { c with
        button_sp_functions :=
          Function.update c.button_sp_functions j (StringToPadFunction (g j)) }) c) := by
  induction l with
  | nil => exact readsAs_nil K h i
  | cons j l ih =>
    exact readsAs_cons K h _ _ _ i _ _
      (line_button_sp_func K h i hi j (hl j (List.mem_cons_self _ _)) (g j))
      (ih (fun j' hj' => hl j' (List.mem_cons_of_mem _ hj')))

theorem foldl_button_functions (g : Nat → Int) (l : List Nat) (c : SDL_INPUT_RealJSConfig_t) :
    l.foldl (fun c j => { c with button_functions := Function.update c.button_functions j (g j) }) c
      = { c with button_functions := fun j => if j ∈ l then g j else c.button_functions j } := by
  induction l generalizing c with
  | nil => simp
  | cons a l ih =>
    rw [List.foldl_cons, ih]
    congr 1
    funext j
    by_cases h1 : j ∈ l
    · simp [h1]
    · by_cases h2 : j = a
      · subst h2; simp [h1]
      · simp [h1, h2, Function.update_noteq h2]

theorem foldl_button_sp_functions (g : Nat → Int) (l : List Nat) (c : SDL_INPUT_RealJSConfig_t) :
    l.foldl (fun c j => { c with
        button_sp_functions := Function.update c.button_sp_functions j (g j) }) c
      = { c with button_sp_functions := fun j => if j ∈ l then g j else c.button_sp_functions j } := by
  induction l generalizing c with
  | nil => simp
  | cons a l ih =>
    rw [List.foldl_cons, ih]
    congr 1
    funext j
    by_cases h1 : j ∈ l
    · simp [h1]
    · by_cases h2 : j = a
      · subst h2; simp [h1]
      · simp [h1, h2, Function.update_noteq h2]

/-- Reading the lines written for the configuration `cfg` of the pad `i`
edits the configuration of that pad, and only it, into one that holds what the
lines say. -/
theorem readsAs_writePadConfig (K : Consts) (h : Host) (i : Nat) (hi : i < 4)
    (cfg : SDL_INPUT_RealJSConfig_t) :
    ∃ F, ReadsAs K h (writePadConfig i cfg) i F ∧ ∀ c, Restored h cfg (F c) := by
  have hr : ∀ j ∈ List.range MAX_GAMEPAD_BUTTONS, j < 16 := fun j hj => List.mem_range.1 hj
  have hreads := readsAs_append K h _ _ i _ _
      (readsAs_append K h _ _ i _ _
        (readsAs_cons K h _ _ _ i _ _ (line_radial K h i hi (fmt_d cfg.radial))
          (readsAs_cons K h _ _ _ i _ _ (line_deadzone K h i hi (fmt_d cfg.deadzone))
            (readsAs_cons K h _ _ _ i _ _ (line_tolerance K h i hi (fmt_f cfg.tolerance))
              (readsAs_cons K h _ _ _ i _ _
                (line_radial_tolerance K h i hi (fmt_f cfg.radial_tolerance))
                (readsAs_cons K h _ _ _ i _ _ (line_use_as_stick K h i hi (fmt_d cfg.use_as_stick))
                  (readsAs_cons K h _ _ _ i _ _
                    (line_use_hat_as_stick K h i hi (fmt_d cfg.use_hat_as_stick))
                    (readsAs_cons K h _ _ _ i _ _
                      (line_use_in_menus K h i hi (fmt_d cfg.use_in_menus))
                      (readsAs_cons K h _ _ _ i _ _
                        (line_use_hat_in_menus K h i hi (fmt_d cfg.use_hat_in_menus))
                        (readsAs_cons K h _ _ _ i _ _
                          (line_select_button K h i hi (fmt_d cfg.in_menus_select_button))
                          (readsAs_cons K h _ _ _ i _ _
                            (line_back_button K h i hi (fmt_d cfg.in_menus_back_button))
                            (readsAs_cons K h _ _ _ i _ _
                              (line_autofire_freq K h i hi (fmt_d cfg.autofire_freq))
                              (readsAs_nil K h i))))))))))))
        (readsAs_button_funcs K h i hi (fun j => PadFunctionToString (cfg.button_functions j))
          (List.range MAX_GAMEPAD_BUTTONS) hr))
      (readsAs_button_sp_funcs K h i hi (fun j => PadFunctionToString (cfg.button_sp_functions j))
        (List.range MAX_GAMEPAD_BUTTONS) hr)
  refine ⟨_, hreads, fun c => ?_⟩
  simp only [foldl_button_functions, foldl_button_sp_functions]
  refine ⟨rfl, rfl, rfl, rfl, rfl, rfl, rfl, rfl, rfl, rfl, fun j hj => ?_, fun j hj => ?_⟩
  · simp [List.mem_range, hj]
  · simp [List.mem_range, hj]

/-- Reading the blocks written for the pads of `l`, all below 4 and distinct,
restores each of them and leaves the other pads alone. -/
theorem read_blocks (K : Consts) (h : Host) (cfgs : Nat → SDL_INPUT_RealJSConfig_t) (l : List Nat)
    (hl : ∀ i ∈ l, i < 4) (hnd : l.Nodup) (t : State) (ht : t.gamepad_config_reset ≠ 0) :
    ∃ t1, readConfigLines K h (l.flatMap (fun i => writePadConfig i (cfgs i))) t = some t1
      ∧ t1.gamepad_config_reset ≠ 0
      ∧ (∀ i, i ∉ l → t1.gamepad_configuration i = t.gamepad_configuration i)
      ∧ ∀ i ∈ l, Restored h (cfgs i) (t1.gamepad_configuration i) := by
  induction l generalizing t with
  | nil => exact ⟨t, rfl, ht, fun _ _ => rfl, fun i hi => absurd hi (List.not_mem_nil i)⟩
  | cons a l ih =>
    obtain ⟨F, hF, hR⟩ := readsAs_writePadConfig K h a (hl a (List.mem_cons_self _ _)) (cfgs a)
    obtain ⟨t1, e1, r1, c1⟩ := hF t ht
    rw [List.nodup_cons] at hnd
    obtain ⟨t2, e2, r2, o2, m2⟩ :=
      ih (fun i hi => hl i (List.mem_cons_of_mem _ hi)) hnd.2 t1 r1
    refine ⟨t2, ?_, r2, fun i hi => ?_, fun i hi => ?_⟩
    · rw [List.flatMap_cons, readConfigLines_append, e1]
      exact e2
    · rw [List.mem_cons, not_or] at hi
      rw [o2 i hi.2, c1, Function.update_noteq hi.1]
    · rcases List.mem_cons.1 hi with rfl | hi
      · rw [o2 i hnd.1, c1, Function.update_same]
        exact hR _
      · exact m2 i hi

/-- The first line read initialises the state, so reading into `t` is reading
into `resetOnFirstTouch t`. -/
theorem read_config_reset (h : Host) (o : List Char) (p : Option (List Char)) (t : State) :
    GamePads_Read_Config h o p t = GamePads_Read_Config h o p (resetOnFirstTouch t) := by
  have e : resetOnFirstTouch (resetOnFirstTouch t) = resetOnFirstTouch t := by
    unfold resetOnFirstTouch
    by_cases h0 : t.gamepad_config_reset = 0
    · simp [h0]
    · simp [h0]
  unfold GamePads_Read_Config
  rw [e]

theorem resetOnFirstTouch_reset (t : State) : (resetOnFirstTouch t).gamepad_config_reset ≠ 0 := by
  unfold resetOnFirstTouch
  by_cases h0 : t.gamepad_config_reset = 0
  · simp [h0]
  · simp [h0]

theorem writePadConfig_cons (i : Nat) (cfg : SDL_INPUT_RealJSConfig_t) :
    ∃ key v rest, writePadConfig i cfg = ("SDL_PAD_".toList ++ key, v) :: rest := by
  refine ⟨fmt_d (i : Int) ++ "_JOY_RADIAL".toList, fmt_d cfg.radial, (writePadConfig i cfg).tail, ?_⟩
  unfold writePadConfig
  simp only [List.cons_append, List.append_assoc, List.tail_cons]

/-- Reading the written lines of four pads into any state is reading them into
the initialised state. -/
theorem read_written_reset (K : Consts) (h : Host) (cfgs : Nat → SDL_INPUT_RealJSConfig_t)
    (t : State) :
    readConfigLines K h ((List.range MAX_GAMEPADS).flatMap (fun i => writePadConfig i (cfgs i))) t
      = readConfigLines K h
          ((List.range MAX_GAMEPADS).flatMap (fun i => writePadConfig i (cfgs i)))
          (resetOnFirstTouch t) := by
  have e : List.range MAX_GAMEPADS = 0 :: [1, 2, 3] := by decide
  obtain ⟨key, v, rest, hw⟩ := writePadConfig_cons 0 (cfgs 0)
  rw [e, List.flatMap_cons, hw]
  simp only [List.cons_append, readConfigLines, readConfig_pad]
  rw [read_config_reset]

/-! ## The configuration round trip -/

/-- C6, counterexample. Every pad holds `lossyConfig`: function codes of the
enumeration, half-period 2, no negative field. Written and read back into the
fresh state, pad 0 has the tolerance `0.333333` rounded to `float`, not the
original `float` nearest to 1/3; the flag `use_as_stick`, written as `2`, is
read as `-1`; and `in_menus_back_button`, written as `2`, keeps the default
`1`. -/
theorem config_roundtrip_counterexample :
    (readConfigLines stdConsts (sampleHost 0 0 0 [])
        (GamePads_Write_Config (sampleState 1 lossyConfig)).1 (initialState stdConsts)).map
      (fun u => ((u.gamepad_configuration 0).tolerance, (u.gamepad_configuration 0).use_as_stick,
        (u.gamepad_configuration 0).in_menus_back_button))
      = some (f32 (f64 (333333 / 1000000)), -1, 1)
    ∧ ((sampleState 1 lossyConfig).gamepad_configuration 0).tolerance ≠ f32 (f64 (333333 / 1000000))
    ∧ ((sampleState 1 lossyConfig).gamepad_configuration 0).use_as_stick = 2
    ∧ ((sampleState 1 lossyConfig).gamepad_configuration 0).in_menus_back_button = 2
    ∧ (∀ i, i < MAX_GAMEPADS →
        0 ≤ ((sampleState 1 lossyConfig).gamepad_configuration i).deadzone
        ∧ 1 ≤ ((sampleState 1 lossyConfig).gamepad_configuration i).autofire_freq
        ∧ ∀ j, j < MAX_GAMEPAD_BUTTONS →
          isPadFunction (((sampleState 1 lossyConfig).gamepad_configuration i).button_functions j)
          ∧ isPadFunction
              (((sampleState 1 lossyConfig).gamepad_configuration i).button_sp_functions j)) := by
  decide!

/-- C6, amended. For an initialised state `s` whose four pad configurations
have the five flags each 0 or 1, deadzone and select button not negative, the
half-period at least 1 and function codes of the enumeration in both tables:
feeding every line of `GamePads_Write_Config` through `SDL_INPUT_ReadConfig`
into any state `t` succeeds, and in the result every pad has the radial flag,
the deadzone, the four use flags, the select button, the half-period and both
16-entry tables of `s`; its two tolerances are the `float` scanned from the
six-decimal text of the tolerances of `s`. -/
theorem config_roundtrip (K : Consts) (h : Host) (s t : State)
    (hs : s.gamepad_config_reset ≠ 0)
    (hflags : ∀ i, i < MAX_GAMEPADS →
      ((s.gamepad_configuration i).radial = 0 ∨ (s.gamepad_configuration i).radial = 1)
      ∧ ((s.gamepad_configuration i).use_as_stick = 0 ∨ (s.gamepad_configuration i).use_as_stick = 1)
      ∧ ((s.gamepad_configuration i).use_hat_as_stick = 0
          ∨ (s.gamepad_configuration i).use_hat_as_stick = 1)
      ∧ ((s.gamepad_configuration i).use_in_menus = 0 ∨ (s.gamepad_configuration i).use_in_menus = 1)
      ∧ ((s.gamepad_configuration i).use_hat_in_menus = 0
          ∨ (s.gamepad_configuration i).use_hat_in_menus = 1))
    (hnum : ∀ i, i < MAX_GAMEPADS →
      0 ≤ (s.gamepad_configuration i).deadzone
      ∧ 0 ≤ (s.gamepad_configuration i).in_menus_select_button
      ∧ 1 ≤ (s.gamepad_configuration i).autofire_freq)
    (hfun : ∀ i, i < MAX_GAMEPADS → ∀ j, j < MAX_GAMEPAD_BUTTONS →
      isPadFunction ((s.gamepad_configuration i).button_functions j)
      ∧ isPadFunction ((s.gamepad_configuration i).button_sp_functions j)) :
    ∃ t1, readConfigLines K h (GamePads_Write_Config s).1 t = some t1
      ∧ ∀ i, i < MAX_GAMEPADS →
        (t1.gamepad_configuration i).radial = (s.gamepad_configuration i).radial
        ∧ (t1.gamepad_configuration i).deadzone = (s.gamepad_configuration i).deadzone
        ∧ (t1.gamepad_configuration i).tolerance
            = scannedFloat h (fmt_f (s.gamepad_configuration i).tolerance)
        ∧ (t1.gamepad_configuration i).radial_tolerance
            = scannedFloat h (fmt_f (s.gamepad_configuration i).radial_tolerance)
        ∧ (t1.gamepad_configuration i).use_as_stick = (s.gamepad_configuration i).use_as_stick
        ∧ (t1.gamepad_configuration i).use_hat_as_stick
            = (s.gamepad_configuration i).use_hat_as_stick
        ∧ (t1.gamepad_configuration i).use_in_menus = (s.gamepad_configuration i).use_in_menus
        ∧ (t1.gamepad_configuration i).use_hat_in_menus
            = (s.gamepad_configuration i).use_hat_in_menus
        ∧ (t1.gamepad_configuration i).in_menus_select_button
            = (s.gamepad_configuration i).in_menus_select_button
        ∧ (t1.gamepad_configuration i).autofire_freq = (s.gamepad_configuration i).autofire_freq
        ∧ (∀ j, j < MAX_GAMEPAD_BUTTONS →
            (t1.gamepad_configuration i).button_functions j
              = (s.gamepad_configuration i).button_functions j)
        ∧ (∀ j, j < MAX_GAMEPAD_BUTTONS →
            (t1.gamepad_configuration i).button_sp_functions j
              = (s.gamepad_configuration i).button_sp_functions j) := by
  have hw : (GamePads_Write_Config s).1
      = (List.range MAX_GAMEPADS).flatMap (fun i => writePadConfig i (s.gamepad_configuration i)) := by
    simp only [GamePads_Write_Config, resetOnFirstTouch, if_neg hs]
  obtain ⟨t1, e1, _, _, m1⟩ := read_blocks K h s.gamepad_configuration (List.range MAX_GAMEPADS)
    (fun i hi => List.mem_range.1 hi) (List.nodup_range _) (resetOnFirstTouch t)
    (resetOnFirstTouch_reset t)
  refine ⟨t1, ?_, fun i hi => ?_⟩
  · rw [hw, read_written_reset]
    exact e1
  · obtain ⟨r1, r2, r3, r4, r5, r6, r7, r8, r9, r10, r11, r12⟩ := m1 i (List.mem_range.2 hi)
    obtain ⟨f1, f2, f3, f4, f5⟩ := hflags i hi
    obtain ⟨n1, n2, n3⟩ := hnum i hi
    rw [sscanbool_fmt_d _ f1] at r1
    rw [sscandec_fmt_d _ n1] at r2
    rw [sscanbool_fmt_d _ f2] at r5
    rw [sscanbool_fmt_d _ f3] at r6
    rw [sscanbool_fmt_d _ f4] at r7
    rw [sscanbool_fmt_d _ f5] at r8
    rw [sscandec_fmt_d _ n2] at r9
    rw [sscandec_fmt_d _ (by omega), if_neg (by omega)] at r10
    refine ⟨r1, r2, r3, r4, r5, r6, r7, r8, r9, r10, fun j hj => ?_, fun j hj => ?_⟩
    · rw [r11 j hj, padFunction_roundtrip _ (hfun i hi j hj).1]
    · rw [r12 j hj, padFunction_roundtrip _ (hfun i hi j hj).2]

/-- Witness for C6: the state after start-up, every pad with the default
configuration, read back into the fresh state; the default tolerance `0.1f`
is one that its text `0.100000` scans back to. -/
theorem config_roundtrip_witness :
    (sampleState 1 defaultConfig).gamepad_config_reset ≠ 0
    ∧ scannedFloat (sampleHost 0 0 0 []) (fmt_f defaultConfig.tolerance) = defaultConfig.tolerance
    ∧ ∃ t1, readConfigLines stdConsts (sampleHost 0 0 0 [])
          (GamePads_Write_Config (sampleState 1 defaultConfig)).1 (initialState stdConsts) = some t1
        ∧ ∀ i, i < MAX_GAMEPADS →
          (t1.gamepad_configuration i).deadzone = 15000
          ∧ (t1.gamepad_configuration i).autofire_freq = 2
          ∧ ∀ j, j < MAX_GAMEPAD_BUTTONS →
            (t1.gamepad_configuration i).button_functions j = FNPAD_FIRE_HOLD := by
  refine ⟨by decide!, by decide!, ?_⟩
  obtain ⟨t1, e1, m1⟩ := config_roundtrip stdConsts (sampleHost 0 0 0 [])
    (sampleState 1 defaultConfig) (initialState stdConsts) (by decide!) (by decide!) (by decide!)
    (by decide!)
  refine ⟨t1, e1, fun i hi => ?_⟩
  obtain ⟨_, r2, _, _, _, _, _, _, _, r10, r11, _⟩ := m1 i hi
  have hc : ∀ i, i < MAX_GAMEPADS →
      ((sampleState 1 defaultConfig).gamepad_configuration i).deadzone = 15000
      ∧ ((sampleState 1 defaultConfig).gamepad_configuration i).autofire_freq = 2
      ∧ ∀ j, j < MAX_GAMEPAD_BUTTONS →
        ((sampleState 1 defaultConfig).gamepad_configuration i).button_functions j
          = FNPAD_FIRE_HOLD := by
    decide!
  obtain ⟨c1, c2, c3⟩ := hc i hi
  exact ⟨r2.trans c1, r10.trans c2, fun j hj => (r11 j hj).trans (c3 j hj)⟩

/-! ## The names of the functions -/

/-- C7: for every function code `f` of the enumeration,
`StringToPadFunction (PadFunctionToString f) = f`; a raw key code `768 + c` is
written as `FNPAD_CODE_` followed by the two upper-case hexadecimal digits of
`c`; and two codes of the enumeration with the same name are equal. -/
theorem padFunction_names (f : Int) (hf : isPadFunction f) :
    StringToPadFunction (PadFunctionToString f) = f
    ∧ (768 ≤ f → PadFunctionToString f
        = "FNPAD_CODE_".toList
          ++ ["0123456789ABCDEF".toList.getD ((f - 768).toNat / 16) ' ',
              "0123456789ABCDEF".toList.getD ((f - 768).toNat % 16) ' '])
    ∧ (∀ g : Int, isPadFunction g → PadFunctionToString f = PadFunctionToString g → f = g) := by
  refine ⟨padFunction_roundtrip f hf, fun h768 => ?_, fun g hg hfg => ?_⟩
  · have hr : f ≤ 768 + 255 := by
      unfold isPadFunction at hf; omega
    have := (padFunction_roundtrip_raw (f - 768).toNat (by omega)).2
    rw [Int.toNat_of_nonneg (by omega)] at this
    have e : 768 + (f - 768) = f := by ring
    rw [e] at this
    exact this
  · rw [← padFunction_roundtrip f hf, ← padFunction_roundtrip g hg, hfg]

/-- C7 at the raw key code 10: the code 778 is in the enumeration, is written
`FNPAD_CODE_0A` and is read back as 778. -/
theorem padFunction_names_witness :
    isPadFunction 778
    ∧ PadFunctionToString 778 = "FNPAD_CODE_0A".toList
    ∧ StringToPadFunction (PadFunctionToString 778) = 778 :=
  ⟨by decide, by decide, (padFunction_names 778 (by decide)).1⟩

/-! ## Keyboard priority -/

theorem byPad_key_congr (K : Consts) (h : Host) (i : Nat) (s t : State)
    (h1 : t.gamepad_configuration = s.gamepad_configuration)
    (h2 : t.gamepads_sdl_actual_state = s.gamepads_sdl_actual_state)
    (h3 : t.gamepad_atari_key_mask = s.gamepad_atari_key_mask)
    (h4 : t.gamepads_sdl_last_state i = s.gamepads_sdl_last_state i) :
    (GamePads_AtariKeysByPad K h i t).1 = (GamePads_AtariKeysByPad K h i s).1 := by
  unfold GamePads_AtariKeysByPad
  simp only [h1, h2, h3, h4]
  split_ifs <;> rfl

theorem byPad_state (K : Consts) (h : Host) (i : Nat) (s : State) :
    (GamePads_AtariKeysByPad K h i s).2.gamepad_configuration = s.gamepad_configuration
    ∧ (GamePads_AtariKeysByPad K h i s).2.gamepads_sdl_actual_state = s.gamepads_sdl_actual_state
    ∧ (GamePads_AtariKeysByPad K h i s).2.gamepad_atari_key_mask = s.gamepad_atari_key_mask
    ∧ ∀ j, j ≠ i → (GamePads_AtariKeysByPad K h i s).2.gamepads_sdl_last_state j
        = s.gamepads_sdl_last_state j := by
  simp only [GamePads_AtariKeysByPad]
  split_ifs <;> refine ⟨rfl, rfl, rfl, fun j hj => ?_⟩ <;> simp [Function.update_noteq hj]

theorem scanPads_none (K : Consts) (h : Host) (l : List Nat) (hl : l.Pairwise (· < ·))
    (s t : State) (hst : SameForPads l s t)
    (hall : ∀ j ∈ l, (GamePads_AtariKeysByPad K h j s).1 = K.AKEY_NONE) :
    (scanPads K h l t).1 = K.AKEY_NONE := by
  induction l generalizing t with
  | nil => rfl
  | cons a l ih =>
    obtain ⟨h1, h2, h3, h4⟩ := hst
    have hk := byPad_key_congr K h a s t h1 h2 h3 (h4 a (List.mem_cons_self _ _))
    have ha := hall a (List.mem_cons_self _ _)
    obtain ⟨b1, b2, b3, b4⟩ := byPad_state K h a t
    rw [List.pairwise_cons] at hl
    unfold scanPads
    simp only [hk, ha, ne_eq, not_true_eq_false, if_false]
    apply ih hl.2 _ ⟨b1.trans h1, b2.trans h2, b3.trans h3, fun i hi => ?_⟩
      (fun j hj => hall j (List.mem_cons_of_mem _ hj))
    rw [b4 i (by have := hl.1 i hi; omega)]
    exact h4 i (List.mem_cons_of_mem _ hi)

theorem scanPads_first (K : Consts) (h : Host) (l : List Nat) (hl : l.Pairwise (· < ·))
    (s t : State) (hst : SameForPads l s t) (i : Nat) (hi : i ∈ l)
    (hk : (GamePads_AtariKeysByPad K h i s).1 ≠ K.AKEY_NONE)
    (hlow : ∀ j ∈ l, j < i → (GamePads_AtariKeysByPad K h j s).1 = K.AKEY_NONE) :
    (scanPads K h l t).1 = (GamePads_AtariKeysByPad K h i s).1 := by
  induction l generalizing t with
  | nil => simp at hi
  | cons a l ih =>
    obtain ⟨h1, h2, h3, h4⟩ := hst
    have hka := byPad_key_congr K h a s t h1 h2 h3 (h4 a (List.mem_cons_self _ _))
    obtain ⟨b1, b2, b3, b4⟩ := byPad_state K h a t
    rw [List.pairwise_cons] at hl
    unfold scanPads
    rcases List.mem_cons.mp hi with rfl | hi'
    · simp only [hka, hk, ne_eq, not_false_eq_true, if_true]
    · have hai : a < i := hl.1 i hi'
      have ha := hlow a (List.mem_cons_self _ _) hai
      simp only [hka, ha, ne_eq, not_true_eq_false, if_false]
      apply ih hl.2 _ ⟨b1.trans h1, b2.trans h2, b3.trans h3, fun j hj => ?_⟩ hi'
        (fun j hj hji => hlow j (List.mem_cons_of_mem _ hj) hji)
      rw [b4 j (by have := hl.1 j hj; omega)]
      exact h4 j (List.mem_cons_of_mem _ hj)

/-- C8: `PLATFORM_Keyboard` returns the key of the keyboard translator whenever
that key is not `AKEY_NONE`; otherwise it returns the key of the lowest-indexed
found gamepad whose scan, made in the state that `GamePads_Update` leaves,
yields a key, and `AKEY_NONE` when no found gamepad yields one. -/
theorem keyboard_priority (K : Consts) (h : Host) (s : State) :
    (h.Keyboard_AtariKeys ≠ K.AKEY_NONE → (PLATFORM_Keyboard K h s).1 = h.Keyboard_AtariKeys)
    ∧ (h.Keyboard_AtariKeys = K.AKEY_NONE →
      (∀ i, i < (GamePads_Update K h s).gamepads_found →
        (GamePads_AtariKeysByPad K h i (GamePads_Update K h s)).1 ≠ K.AKEY_NONE →
        (∀ j, j < i → (GamePads_AtariKeysByPad K h j (GamePads_Update K h s)).1 = K.AKEY_NONE) →
        (PLATFORM_Keyboard K h s).1 = (GamePads_AtariKeysByPad K h i (GamePads_Update K h s)).1)
      ∧ ((∀ i, i < (GamePads_Update K h s).gamepads_found →
          (GamePads_AtariKeysByPad K h i (GamePads_Update K h s)).1 = K.AKEY_NONE) →
        (PLATFORM_Keyboard K h s).1 = K.AKEY_NONE)) := by
  refine ⟨fun hk => ?_, fun hk => ⟨fun i hi hki hlow => ?_, fun hall => ?_⟩⟩
  · simp [PLATFORM_Keyboard, hk]
  · simp only [PLATFORM_Keyboard, hk, if_true, GamePads_AtariKeys]
    exact scanPads_first K h _ (List.pairwise_lt_range _) _ _ ⟨rfl, rfl, rfl, fun _ _ => rfl⟩ i
      (List.mem_range.mpr hi) hki (fun j _ hji => hlow j hji)
  · simp only [PLATFORM_Keyboard, hk, if_true, GamePads_AtariKeys]
    exact scanPads_none K h _ (List.pairwise_lt_range _) _ _ ⟨rfl, rfl, rfl, fun _ _ => rfl⟩
      (fun j hj => hall j (List.mem_range.mp hj))

/-! ## The console keys -/

theorem u32_one_shiftLeft (b : Nat) (hb : b < 32) : u32 (1 <<< b) = 2 ^ b := by
  unfold u32
  rw [Nat.one_shiftLeft]
  exact Nat.mod_eq_of_lt (by
    calc 2 ^ b < 2 ^ 32 := Nat.pow_lt_pow_right (by norm_num) hb
      _ = 4294967296 := by norm_num)

theorem pressed_iff (trig b : Nat) (hb : b < 32) :
    trig &&& u32 (1 <<< b) ≠ 0 ↔ trig.testBit b = true := by
  rw [u32_one_shiftLeft b hb, Nat.land_comm, Nat.two_pow_and]
  cases h : trig.testBit b <;> simp

theorem andNot_testBit (c m k : Nat) (hk : k < 32) :
    (andNot c m).testBit k = (c.testBit k && !(m.testBit k)) := by
  unfold andNot u32
  have e1 : (4294967295 : Nat) = 2 ^ 32 - 1 := by norm_num
  have e2 : (4294967296 : Nat) = 2 ^ 32 := by norm_num
  rw [Nat.testBit_and, Nat.testBit_xor, e1, e2, Nat.testBit_two_pow_sub_one, Nat.testBit_mod_two_pow]
  simp [hk]

theorem dispatchButton_consol_eq (K : Consts) (cfg : SDL_INPUT_RealJSConfig_t) (trig last_trig : Nat)
    (a : ButtonScan) (b : Nat) :
    (dispatchButton K cfg trig last_trig a b).gamepads_consol_state
      = if GamePads_GetFunctionForButton cfg b = FNPAD_START_HOLD then
          (if trig &&& u32 (1 <<< b) ≠ 0 then andNot a.gamepads_consol_state K.INPUT_CONSOL_START
            else a.gamepads_consol_state)
        else if GamePads_GetFunctionForButton cfg b = FNPAD_SELECT_HOLD then
          (if trig &&& u32 (1 <<< b) ≠ 0 then andNot a.gamepads_consol_state K.INPUT_CONSOL_SELECT
            else a.gamepads_consol_state)
        else if GamePads_GetFunctionForButton cfg b = FNPAD_OPTION_HOLD then
          (if trig &&& u32 (1 <<< b) ≠ 0 then andNot a.gamepads_consol_state K.INPUT_CONSOL_OPTION
            else a.gamepads_consol_state)
        else a.gamepads_consol_state := by
  simp only [dispatchButton, apply_ite ButtonScan.gamepads_consol_state, ite_self, decide_eq_true_eq]

/-- One iteration of the button loop clears the console bit `k` exactly when
the button is pressed and mapped to the hold function of that bit. -/
theorem dispatchButton_consol (K : Consts) (cfg : SDL_INPUT_RealJSConfig_t) (trig last_trig : Nat)
    (a : ButtonScan) (b : Nat)
    (hS : K.INPUT_CONSOL_START = 1) (hE : K.INPUT_CONSOL_SELECT = 2) (hO : K.INPUT_CONSOL_OPTION = 4) :
    ((dispatchButton K cfg trig last_trig a b).gamepads_consol_state.testBit 0
      = (a.gamepads_consol_state.testBit 0 && !(holdsAt cfg trig FNPAD_START_HOLD b)))
    ∧ ((dispatchButton K cfg trig last_trig a b).gamepads_consol_state.testBit 1
      = (a.gamepads_consol_state.testBit 1 && !(holdsAt cfg trig FNPAD_SELECT_HOLD b)))
    ∧ ((dispatchButton K cfg trig last_trig a b).gamepads_consol_state.testBit 2
      = (a.gamepads_consol_state.testBit 2 && !(holdsAt cfg trig FNPAD_OPTION_HOLD b))) := by
  have t10 : Nat.testBit 1 0 = true := by decide
  have t11 : Nat.testBit 1 1 = false := by decide
  have t12 : Nat.testBit 1 2 = false := by decide
  have t20 : Nat.testBit 2 0 = false := by decide
  have t21 : Nat.testBit 2 1 = true := by decide
  have t22 : Nat.testBit 2 2 = false := by decide
  have t40 : Nat.testBit 4 0 = false := by decide
  have t41 : Nat.testBit 4 1 = false := by decide
  have t42 : Nat.testBit 4 2 = true := by decide
  have n67 : FNPAD_START_HOLD ≠ FNPAD_SELECT_HOLD := by decide
  have n68 : FNPAD_START_HOLD ≠ FNPAD_OPTION_HOLD := by decide
  have n78 : FNPAD_SELECT_HOLD ≠ FNPAD_OPTION_HOLD := by decide
  have a0 : ∀ c m, (andNot c m).testBit 0 = (c.testBit 0 && !(m.testBit 0)) :=
    fun c m => andNot_testBit c m 0 (by norm_num)
  have a1 : ∀ c m, (andNot c m).testBit 1 = (c.testBit 1 && !(m.testBit 1)) :=
    fun c m => andNot_testBit c m 1 (by norm_num)
  have a2 : ∀ c m, (andNot c m).testBit 2 = (c.testBit 2 && !(m.testBit 2)) :=
    fun c m => andNot_testBit c m 2 (by norm_num)
  rw [dispatchButton_consol_eq, hS, hE, hO]
  simp only [holdsAt]
  by_cases hp : trig &&& u32 (1 <<< b) = 0
  swap
  · by_cases h6 : GamePads_GetFunctionForButton cfg b = FNPAD_START_HOLD
    · simp only [ne_eq, hp, h6, n67, n68, if_true, if_false, not_false_eq_true, a0, a1, a2, t10, t11, t12,
        decide_True, decide_False, Bool.not_true, Bool.not_false, Bool.and_true, Bool.and_false,
        Bool.true_and, and_self]
    · by_cases h7 : GamePads_GetFunctionForButton cfg b = FNPAD_SELECT_HOLD
      · simp only [ne_eq, hp, h7, n67.symm, n78, if_true, if_false, not_false_eq_true, a0, a1, a2,
          t20, t21, t22, decide_True, decide_False, Bool.not_true, Bool.not_false, Bool.and_true,
          Bool.and_false, Bool.true_and, and_self]
      · by_cases h8 : GamePads_GetFunctionForButton cfg b = FNPAD_OPTION_HOLD
        · simp only [ne_eq, hp, h8, n68.symm, n78.symm, if_true, if_false, not_false_eq_true, a0, a1, a2,
            t40, t41, t42, decide_True, decide_False, Bool.not_true, Bool.not_false, Bool.and_true,
            Bool.and_false, Bool.true_and, and_self]
        · simp only [ne_eq, hp, h6, h7, h8, if_true, if_false, not_false_eq_true,
            decide_True, decide_False, Bool.not_true, Bool.not_false, Bool.and_true,
            Bool.and_false, Bool.true_and, and_self]
  · simp only [ne_eq] at hp ⊢
    simp only [hp, not_true_eq_false, if_true, if_false, ite_self, decide_False, Bool.false_and, Bool.not_false,
      Bool.and_true, and_self]

theorem foldl_dispatch_consol (K : Consts) (cfg : SDL_INPUT_RealJSConfig_t) (trig last_trig : Nat)
    (hS : K.INPUT_CONSOL_START = 1) (hE : K.INPUT_CONSOL_SELECT = 2) (hO : K.INPUT_CONSOL_OPTION = 4)
    (l : List Nat) (a : ButtonScan) :
    ((l.foldl (dispatchButton K cfg trig last_trig) a).gamepads_consol_state.testBit 0
      = (a.gamepads_consol_state.testBit 0 && !(l.any (holdsAt cfg trig FNPAD_START_HOLD))))
    ∧ ((l.foldl (dispatchButton K cfg trig last_trig) a).gamepads_consol_state.testBit 1
      = (a.gamepads_consol_state.testBit 1 && !(l.any (holdsAt cfg trig FNPAD_SELECT_HOLD))))
    ∧ ((l.foldl (dispatchButton K cfg trig last_trig) a).gamepads_consol_state.testBit 2
      = (a.gamepads_consol_state.testBit 2 && !(l.any (holdsAt cfg trig FNPAD_OPTION_HOLD)))) := by
  induction l generalizing a with
  | nil => simp
  | cons b l ih =>
    obtain ⟨s0, s1, s2⟩ := dispatchButton_consol K cfg trig last_trig a b hS hE hO
    obtain ⟨i0, i1, i2⟩ := ih (dispatchButton K cfg trig last_trig a b)
    simp only [List.foldl_cons, List.any_cons, i0, i1, i2, s0, s1, s2, Bool.not_or, Bool.and_assoc]
    exact ⟨trivial, trivial, trivial⟩

theorem anyHolds_iff (cfg : SDL_INPUT_RealJSConfig_t) (trig : Nat) (f : Int) :
    anyHolds cfg trig f = true
      ↔ ∃ b, b < 32 ∧ trig.testBit b = true ∧ GamePads_GetFunctionForButton cfg b = f := by
  unfold anyHolds holdsAt
  simp only [List.any_eq_true, List.mem_range, Bool.and_eq_true, decide_eq_true_eq]
  constructor
  · rintro ⟨b, hb, hp, hf⟩
    exact ⟨b, hb, (pressed_iff trig b hb).1 hp, hf⟩
  · rintro ⟨b, hb, hp, hf⟩
    exact ⟨b, hb, (pressed_iff trig b hb).2 hp, hf⟩

theorem padButtonScan_consol (K : Consts) (h : Host) (n : Nat) (s : State)
    (hS : K.INPUT_CONSOL_START = 1) (hE : K.INPUT_CONSOL_SELECT = 2) (hO : K.INPUT_CONSOL_OPTION = 4) :
    ((padButtonScan K h n s).gamepads_consol_state.testBit 0
      = (s.gamepads_consol_state.testBit 0
          && !(anyHolds (s.gamepad_configuration n) (trigOf h s n) FNPAD_START_HOLD)))
    ∧ ((padButtonScan K h n s).gamepads_consol_state.testBit 1
      = (s.gamepads_consol_state.testBit 1
          && !(anyHolds (s.gamepad_configuration n) (trigOf h s n) FNPAD_SELECT_HOLD)))
    ∧ ((padButtonScan K h n s).gamepads_consol_state.testBit 2
      = (s.gamepads_consol_state.testBit 2
          && !(anyHolds (s.gamepad_configuration n) (trigOf h s n) FNPAD_OPTION_HOLD))) :=
  foldl_dispatch_consol K _ _ _ hS hE hO (List.range 32) _

/-- What one `GamePads_UpdatePad` with the menu inactive leaves and changes. -/
theorem updatePad_frame (K : Consts) (h : Host) (n : Nat) (s : State) (hUI : h.UI_is_active = 0) :
    (GamePads_UpdatePad K h n s).gamepad_configuration = s.gamepad_configuration
    ∧ (GamePads_UpdatePad K h n s).gamepad_special_mask = s.gamepad_special_mask
    ∧ (GamePads_UpdatePad K h n s).gamepads_max_buttons = s.gamepads_max_buttons
    ∧ (GamePads_UpdatePad K h n s).gamepads_found = s.gamepads_found
    ∧ (GamePads_UpdatePad K h n s).gamepads_consol_state
        = (padButtonScan K h n s).gamepads_consol_state
    ∧ ((GamePads_UpdatePad K h n s).gamepads_sdl_actual_state n).buttons = trigOf h s n
    ∧ ∀ j, j ≠ n → (GamePads_UpdatePad K h n s).gamepads_sdl_actual_state j
        = s.gamepads_sdl_actual_state j := by
  simp only [GamePads_UpdatePad, hUI, if_true, trigOf]
  refine ⟨trivial, trivial, trivial, trivial, trivial, ?_, fun j hj => ?_⟩
  · simp
  · simp [Function.update_noteq hj]

/-- The pads 0..n-1 updated in turn, menu inactive. -/
theorem updateFold (K : Consts) (h : Host) (s : State) (hUI : h.UI_is_active = 0)
    (hS : K.INPUT_CONSOL_START = 1) (hE : K.INPUT_CONSOL_SELECT = 2) (hO : K.INPUT_CONSOL_OPTION = 4)
    (n : Nat) :
    ((List.range n).foldl (fun t i => GamePads_UpdatePad K h i t) s).gamepad_configuration
        = s.gamepad_configuration
    ∧ ((List.range n).foldl (fun t i => GamePads_UpdatePad K h i t) s).gamepad_special_mask
        = s.gamepad_special_mask
    ∧ ((List.range n).foldl (fun t i => GamePads_UpdatePad K h i t) s).gamepads_max_buttons
        = s.gamepads_max_buttons
    ∧ ((List.range n).foldl (fun t i => GamePads_UpdatePad K h i t) s).gamepads_found
        = s.gamepads_found
    ∧ (∀ i, i < n →
        (((List.range n).foldl (fun t i => GamePads_UpdatePad K h i t) s).gamepads_sdl_actual_state i).buttons
          = trigOf h s i)
    ∧ (((List.range n).foldl (fun t i => GamePads_UpdatePad K h i t) s).gamepads_consol_state.testBit 0
        = (s.gamepads_consol_state.testBit 0 && !((List.range n).any
            (fun i => anyHolds (s.gamepad_configuration i) (trigOf h s i) FNPAD_START_HOLD))))
    ∧ (((List.range n).foldl (fun t i => GamePads_UpdatePad K h i t) s).gamepads_consol_state.testBit 1
        = (s.gamepads_consol_state.testBit 1 && !((List.range n).any
            (fun i => anyHolds (s.gamepad_configuration i) (trigOf h s i) FNPAD_SELECT_HOLD))))
    ∧ (((List.range n).foldl (fun t i => GamePads_UpdatePad K h i t) s).gamepads_consol_state.testBit 2
        = (s.gamepads_consol_state.testBit 2 && !((List.range n).any
            (fun i => anyHolds (s.gamepad_configuration i) (trigOf h s i) FNPAD_OPTION_HOLD)))) := by
  induction n with
  | zero => simp
  | succ n ih =>
    obtain ⟨i1, i2, i3, i4, i5, i6, i7, i8⟩ := ih
    rw [List.range_succ, List.foldl_append, List.foldl_cons, List.foldl_nil]
    obtain ⟨u1, u2, u3, u4, u5, u6, u7⟩ :=
      updatePad_frame K h n ((List.range n).foldl (fun t i => GamePads_UpdatePad K h i t) s) hUI
    obtain ⟨p0, p1, p2⟩ :=
      padButtonScan_consol K h n ((List.range n).foldl (fun t i => GamePads_UpdatePad K h i t) s) hS hE hO
    have ht : trigOf h ((List.range n).foldl (fun t i => GamePads_UpdatePad K h i t) s) n
        = trigOf h s n := by
      unfold trigOf
      rw [i2, i3]
    refine ⟨u1.trans i1, u2.trans i2, u3.trans i3, u4.trans i4, fun i hi => ?_, ?_, ?_, ?_⟩
    · rcases Nat.lt_succ_iff_lt_or_eq.1 hi with hlt | heq
      · rw [u7 i (by omega)]
        exact i5 i hlt
      · rw [heq, u6, ht]
    · rw [u5, p0, i6, i1, ht, List.any_append]
      simp [Bool.and_assoc]
    · rw [u5, p1, i7, i1, ht, List.any_append]
      simp [Bool.and_assoc]
    · rw [u5, p2, i8, i1, ht, List.any_append]
      simp [Bool.and_assoc]

theorem byPad_frame (K : Consts) (h : Host) (i : Nat) (s : State) :
    (GamePads_AtariKeysByPad K h i s).2.gamepad_configuration = s.gamepad_configuration
    ∧ (GamePads_AtariKeysByPad K h i s).2.gamepads_sdl_actual_state = s.gamepads_sdl_actual_state
    ∧ (GamePads_AtariKeysByPad K h i s).2.gamepads_consol_state = s.gamepads_consol_state
    ∧ (GamePads_AtariKeysByPad K h i s).2.gamepads_found = s.gamepads_found := by
  simp only [GamePads_AtariKeysByPad]
  split_ifs <;> exact ⟨rfl, rfl, rfl, rfl⟩

theorem scanPads_frame (K : Consts) (h : Host) (l : List Nat) (s : State) :
    (scanPads K h l s).2.gamepad_configuration = s.gamepad_configuration
    ∧ (scanPads K h l s).2.gamepads_sdl_actual_state = s.gamepads_sdl_actual_state
    ∧ (scanPads K h l s).2.gamepads_consol_state = s.gamepads_consol_state
    ∧ (scanPads K h l s).2.gamepads_found = s.gamepads_found := by
  induction l generalizing s with
  | nil => exact ⟨rfl, rfl, rfl, rfl⟩
  | cons a l ih =>
    obtain ⟨b1, b2, b3, b4⟩ := byPad_frame K h a s
    simp only [scanPads]
    split_ifs
    · exact ⟨b1, b2, b3, b4⟩
    · obtain ⟨c1, c2, c3, c4⟩ := ih (GamePads_AtariKeysByPad K h a s).2
      exact ⟨c1.trans b1, c2.trans b2, c3.trans b3, c4.trans b4⟩

/-- The state after `PLATFORM_Keyboard` has the gamepad variables that
`GamePads_Update` left. -/
theorem keyboard_frame (K : Consts) (h : Host) (s : State) :
    (PLATFORM_Keyboard K h s).2.gamepad_configuration = (GamePads_Update K h s).gamepad_configuration
    ∧ (PLATFORM_Keyboard K h s).2.gamepads_sdl_actual_state
        = (GamePads_Update K h s).gamepads_sdl_actual_state
    ∧ (PLATFORM_Keyboard K h s).2.gamepads_consol_state
        = (GamePads_Update K h s).gamepads_consol_state
    ∧ (PLATFORM_Keyboard K h s).2.gamepads_found = (GamePads_Update K h s).gamepads_found
    ∧ (PLATFORM_Keyboard K h s).2.INPUT_key_consol
        = h.input_key_consol_from_keys &&& (GamePads_Update K h s).gamepads_consol_state := by
  obtain ⟨c1, c2, c3, c4⟩ :=
    scanPads_frame K h (List.range (GamePads_Update K h s).gamepads_found) (GamePads_Update K h s)
  simp only [PLATFORM_Keyboard, GamePads_AtariKeys]
  split_ifs
  · exact ⟨c1, c2, c3, c4, by rw [c3]⟩
  · exact ⟨rfl, rfl, rfl, rfl, rfl⟩

/-- After `GamePads_Update` with a pad found and the menu inactive, a bit of
the console state of the pads is clear exactly when a found pad holds a
button of the function of that bit. -/
theorem update_consol (K : Consts) (h : Host) (s : State) (hUI : h.UI_is_active = 0)
    (hN : K.INPUT_CONSOL_NONE = 7)
    (hS : K.INPUT_CONSOL_START = 1) (hE : K.INPUT_CONSOL_SELECT = 2) (hO : K.INPUT_CONSOL_OPTION = 4)
    (hf : 0 < s.gamepads_found) :
    (GamePads_Update K h s).gamepads_found = s.gamepads_found
    ∧ ((GamePads_Update K h s).gamepads_consol_state.testBit 0 = false
        ↔ ∃ i, i < s.gamepads_found ∧ padHolds (GamePads_Update K h s) i FNPAD_START_HOLD)
    ∧ ((GamePads_Update K h s).gamepads_consol_state.testBit 1 = false
        ↔ ∃ i, i < s.gamepads_found ∧ padHolds (GamePads_Update K h s) i FNPAD_SELECT_HOLD)
    ∧ ((GamePads_Update K h s).gamepads_consol_state.testBit 2 = false
        ↔ ∃ i, i < s.gamepads_found ∧ padHolds (GamePads_Update K h s) i FNPAD_OPTION_HOLD) := by
  have key : ∀ s2 : State, s2.gamepads_consol_state = 7 →
      ∀ (k : Nat) (f : Int), Nat.testBit 7 k = true →
      (((List.range s2.gamepads_found).foldl (fun t i => GamePads_UpdatePad K h i t) s2).gamepads_consol_state.testBit k
        = (s2.gamepads_consol_state.testBit k && !((List.range s2.gamepads_found).any
            (fun i => anyHolds (s2.gamepad_configuration i) (trigOf h s2 i) f)))) →
      (((List.range s2.gamepads_found).foldl (fun t i => GamePads_UpdatePad K h i t) s2).gamepads_consol_state.testBit k = false
        ↔ ∃ i, i < s2.gamepads_found ∧
            padHolds ((List.range s2.gamepads_found).foldl (fun t i => GamePads_UpdatePad K h i t) s2) i f) := by
    intro s2 h7 k f hk hb
    obtain ⟨i1, _, _, _, i5, _, _, _⟩ := updateFold K h s2 hUI hS hE hO s2.gamepads_found
    rw [hb, h7, hk, Bool.true_and, Bool.not_eq_false_eq_eq_true, List.any_eq_true]
    simp only [List.mem_range, anyHolds_iff, padHolds, i1]
    constructor
    · rintro ⟨i, hi, b, hb1, hb2, hb3⟩
      exact ⟨i, hi, b, hb1, by rw [i5 i hi]; exact hb2, hb3⟩
    · rintro ⟨i, hi, b, hb1, hb2, hb3⟩
      exact ⟨i, hi, b, hb1, by rw [i5 i hi] at hb2; exact hb2, hb3⟩
  have hne : s.gamepads_found ≠ 0 := by omega
  simp only [GamePads_Update, hne, if_false]
  by_cases hm : s.gamepad_masks_valid = 0
  · simp only [hm, if_true]
    have hfound : ∀ (l : List Nat) (t : State),
        (l.foldl (fun t i => GamePads_DetermineMasks i t) t).gamepads_found = t.gamepads_found := by
      intro l
      induction l with
      | nil => intro t; rfl
      | cons a l ih => intro t; rw [List.foldl_cons, ih]; rfl
    have hfd := hfound (List.range MAX_GAMEPADS) s
    obtain ⟨_, _, _, j4, _, j6, j7, j8⟩ := updateFold K h
      { ({ (List.range MAX_GAMEPADS).foldl (fun t i => GamePads_DetermineMasks i t) s with
            gamepad_masks_valid := 1 } : State) with gamepads_consol_state := K.INPUT_CONSOL_NONE }
      hUI hS hE hO s.gamepads_found
    have := key
      { ({ (List.range MAX_GAMEPADS).foldl (fun t i => GamePads_DetermineMasks i t) s with
            gamepad_masks_valid := 1 } : State) with gamepads_consol_state := K.INPUT_CONSOL_NONE } hN
    simp only [hfd] at this j4 ⊢
    exact ⟨j4, this 0 _ (by decide) j6, this 1 _ (by decide) j7, this 2 _ (by decide) j8⟩
  · simp only [hm, if_false]
    obtain ⟨_, _, _, j4, _, j6, j7, j8⟩ := updateFold K h
      { s with gamepads_consol_state := K.INPUT_CONSOL_NONE } hUI hS hE hO s.gamepads_found
    have := key { s with gamepads_consol_state := K.INPUT_CONSOL_NONE } hN
    exact ⟨j4, this 0 _ (by decide) j6, this 1 _ (by decide) j7, this 2 _ (by decide) j8⟩

/-- C9. After an arbitration pass with the menu inactive and at least one pad
found (so also with two or more), with the console bits START = 1, SELECT = 2,
OPTION = 4 and the idle mask 7: `INPUT_key_consol` is the bitwise AND of the
console mask of the keyboard and the console mask of the pads; each of the
three bits is clear exactly when the keyboard mask has it clear or some found
pad has a pressed button mapped to the hold function of the bit; so when pad 0
has a pressed start-hold button and pad 1 has none, the start bit is clear. -/
theorem console_and_merge (K : Consts) (h : Host) (s : State)
    (hN : K.INPUT_CONSOL_NONE = 7) (hS : K.INPUT_CONSOL_START = 1)
    (hE : K.INPUT_CONSOL_SELECT = 2) (hO : K.INPUT_CONSOL_OPTION = 4)
    (hUI : h.UI_is_active = 0) (hf : 0 < s.gamepads_found) :
    (PLATFORM_Keyboard K h s).2.INPUT_key_consol
        = h.input_key_consol_from_keys &&& (PLATFORM_Keyboard K h s).2.gamepads_consol_state
    ∧ (PLATFORM_Keyboard K h s).2.gamepads_found = s.gamepads_found
    ∧ ((PLATFORM_Keyboard K h s).2.INPUT_key_consol.testBit 0 = false
        ↔ h.input_key_consol_from_keys.testBit 0 = false
          ∨ ∃ i, i < s.gamepads_found ∧ padHolds (PLATFORM_Keyboard K h s).2 i FNPAD_START_HOLD)
    ∧ ((PLATFORM_Keyboard K h s).2.INPUT_key_consol.testBit 1 = false
        ↔ h.input_key_consol_from_keys.testBit 1 = false
          ∨ ∃ i, i < s.gamepads_found ∧ padHolds (PLATFORM_Keyboard K h s).2 i FNPAD_SELECT_HOLD)
    ∧ ((PLATFORM_Keyboard K h s).2.INPUT_key_consol.testBit 2 = false
        ↔ h.input_key_consol_from_keys.testBit 2 = false
          ∨ ∃ i, i < s.gamepads_found ∧ padHolds (PLATFORM_Keyboard K h s).2 i FNPAD_OPTION_HOLD)
    ∧ (padHolds (PLATFORM_Keyboard K h s).2 0 FNPAD_START_HOLD
        → ¬ padHolds (PLATFORM_Keyboard K h s).2 1 FNPAD_START_HOLD
        → (PLATFORM_Keyboard K h s).2.INPUT_key_consol.testBit 0 = false) := by
  obtain ⟨k1, k2, k3, k4, k5⟩ := keyboard_frame K h s
  obtain ⟨u1, u2, u3, u4⟩ := update_consol K h s hUI hN hS hE hO hf
  have hp : ∀ i f, padHolds (PLATFORM_Keyboard K h s).2 i f ↔ padHolds (GamePads_Update K h s) i f := by
    intro i f
    unfold padHolds
    rw [k1, k2]
  have hb : ∀ k, ((PLATFORM_Keyboard K h s).2.INPUT_key_consol.testBit k = false
      ↔ h.input_key_consol_from_keys.testBit k = false
        ∨ (GamePads_Update K h s).gamepads_consol_state.testBit k = false) := by
    intro k
    rw [k5, Nat.testBit_and, Bool.and_eq_false_iff]
  refine ⟨by rw [k5, k3], k4.trans u1, ?_, ?_, ?_, ?_⟩
  · rw [hb 0, u2]; simp only [hp]
  · rw [hb 1, u3]; simp only [hp]
  · rw [hb 2, u4]; simp only [hp]
  · intro h0 _
    rw [hb 0, u2]
    exact Or.inr ⟨0, hf, (hp 0 _).1 h0⟩

/-- Witness for C9: two pads found, both with button 0 mapped to start-hold,
button 0 of pad 0 pressed and pad 1 idle, keyboard idle: the hypotheses of
`console_and_merge` hold, pad 0 holds start, pad 1 does not, and the merged
mask is 6, the start bit clear. -/
theorem console_and_merge_witness :
    (sampleState 2 startConfig).gamepads_found = 2
    ∧ padHolds (PLATFORM_Keyboard stdConsts (sampleHost 0 0 0 [0]) (sampleState 2 startConfig)).2 0
        FNPAD_START_HOLD
    ∧ ¬ padHolds (PLATFORM_Keyboard stdConsts (sampleHost 0 0 0 [0]) (sampleState 2 startConfig)).2 1
        FNPAD_START_HOLD
    ∧ (PLATFORM_Keyboard stdConsts (sampleHost 0 0 0 [0])
        (sampleState 2 startConfig)).2.INPUT_key_consol = 6
    ∧ (PLATFORM_Keyboard stdConsts (sampleHost 0 0 0 [0])
        (sampleState 2 startConfig)).2.INPUT_key_consol.testBit 0 = false := by
  have h0 : padHolds (PLATFORM_Keyboard stdConsts (sampleHost 0 0 0 [0])
      (sampleState 2 startConfig)).2 0 FNPAD_START_HOLD :=
    ⟨0, by decide, by decide!, by decide!⟩
  have hb : ((PLATFORM_Keyboard stdConsts (sampleHost 0 0 0 [0])
      (sampleState 2 startConfig)).2.gamepads_sdl_actual_state 1).buttons = 0 := by decide!
  have h1 : ¬ padHolds (PLATFORM_Keyboard stdConsts (sampleHost 0 0 0 [0])
      (sampleState 2 startConfig)).2 1 FNPAD_START_HOLD := by
    rintro ⟨b, _, hp, _⟩
    rw [hb, Nat.zero_testBit] at hp
    exact Bool.false_ne_true hp
  exact ⟨by decide!, h0, h1, by decide!,
    (console_and_merge stdConsts (sampleHost 0 0 0 [0]) (sampleState 2 startConfig)
      rfl rfl rfl rfl rfl (by decide!)).2.2.2.2.2 h0 h1⟩

/-! ## The joystick ports -/

/-- C10 fails as stated: with the LPT joystick of port 0 open and centred,
gamepad 0 present and deflected left and no key down, the AND of the three
sources is 11 (left), but `get_platform_PORT` leaves port 0 at 15 (centre): the
gamepad is not consulted when the LPT joystick is open. -/
theorem port_and_counterexample :
    lptAndPadState.fd_joystick0 ≠ -1 ∧ lptAndPadState.sdl_gamepads 0 = true
    ∧ kbdStick0 stdConsts (sampleHost 0 0 0 []) lptAndPadState
        &&& get_LPT_joystick_state stdConsts (sampleHost 0 0 0 []) lptAndPadState.fd_joystick0
        &&& GamePads_AtariJoy stdConsts lptAndPadState 0 = 11
    ∧ (get_platform_PORT stdConsts (sampleHost 0 0 0 []) lptAndPadState).s0 = 15 := by
  decide!

/-- C10 (amended): port 0 is the AND of the keyboard stick assigned to it
(keyboard joystick 0, or keyboard joystick 1 when the swap flag is set; a
disabled keyboard joystick reads centre) with the LPT joystick reading if the
descriptor of LPT joystick 0 is open, and otherwise with `GamePads_AtariJoy 0`
if gamepad 0 is present; port 1 likewise with the other keyboard joystick, LPT
joystick 1 and gamepad 1; ports 2 and 3 are the values of gamepads 2 and 3.  All
values are cut to the 8 bits of the outputs. -/
theorem port_sources (K : Consts) (h : Host) (s : State) :
    ((s.fd_joystick0 ≠ -1 → (get_platform_PORT K h s).s0
        = (if s.swap_joysticks ≠ 0 then kbdStick1 K h s else kbdStick0 K h s) % 256
          &&& get_LPT_joystick_state K h s.fd_joystick0)
      ∧ (s.fd_joystick0 = -1 → s.sdl_gamepads 0 = true → (get_platform_PORT K h s).s0
        = (if s.swap_joysticks ≠ 0 then kbdStick1 K h s else kbdStick0 K h s) % 256
          &&& GamePads_AtariJoy K s 0)
      ∧ (s.fd_joystick0 = -1 → s.sdl_gamepads 0 = false → (get_platform_PORT K h s).s0
        = (if s.swap_joysticks ≠ 0 then kbdStick1 K h s else kbdStick0 K h s) % 256))
    ∧ ((s.fd_joystick1 ≠ -1 → (get_platform_PORT K h s).s1
        = (if s.swap_joysticks ≠ 0 then kbdStick0 K h s else kbdStick1 K h s) % 256
          &&& get_LPT_joystick_state K h s.fd_joystick1)
      ∧ (s.fd_joystick1 = -1 → s.sdl_gamepads 1 = true → (get_platform_PORT K h s).s1
        = (if s.swap_joysticks ≠ 0 then kbdStick0 K h s else kbdStick1 K h s) % 256
          &&& GamePads_AtariJoy K s 1)
      ∧ (s.fd_joystick1 = -1 → s.sdl_gamepads 1 = false → (get_platform_PORT K h s).s1
        = (if s.swap_joysticks ≠ 0 then kbdStick0 K h s else kbdStick1 K h s) % 256))
    ∧ (get_platform_PORT K h s).s2 = GamePads_AtariJoy K s 2 % 256
    ∧ (get_platform_PORT K h s).s3 = GamePads_AtariJoy K s 3 % 256
    ∧ (s.PLATFORM_kbd_joy_0_enabled = 0 → kbdStick0 K h s = K.INPUT_STICK_CENTRE)
    ∧ (s.PLATFORM_kbd_joy_1_enabled = 0 → kbdStick1 K h s = K.INPUT_STICK_CENTRE) := by
  refine ⟨⟨fun h0 => ?_, fun h0 g0 => ?_, fun h0 g0 => ?_⟩, ⟨fun h1 => ?_, fun h1 g1 => ?_, fun h1 g1 => ?_⟩,
    rfl, rfl, fun e0 => ?_, fun e1 => ?_⟩
  · simp [get_platform_PORT, h0]
  · simp [get_platform_PORT, h0, g0]
  · simp [get_platform_PORT, h0, g0]
  · simp [get_platform_PORT, h1]
  · simp [get_platform_PORT, h1, g1]
  · simp [get_platform_PORT, h1, g1]
  · simp [kbdStick0, e0]
  · simp [kbdStick1, e1]

/-! ## The trigger lines -/

theorem and_bit (a b : Nat) (ha : a ≤ 1) (hb : b ≤ 1) :
    a &&& b ≤ 1 ∧ (a &&& b = 0 ↔ a = 0 ∨ b = 0) := by
  interval_cases a <;> interval_cases b <;> decide

theorem atariTrigger_bit (s : State) (n : Nat) :
    (GamePads_AtariTrigger s n).toNat ≤ 1
    ∧ ((GamePads_AtariTrigger s n).toNat = 0 ↔ (s.gamepads_fire_state n).fire ≠ 0)
    ∧ (GamePads_AtariTrigger s n).toNat = (if (s.gamepads_fire_state n).fire ≠ 0 then 0 else 1) := by
  unfold GamePads_AtariTrigger cNot
  by_cases h : (s.gamepads_fire_state n).fire = 0 <;> simp [h]

theorem kbdTrig0_bit (h : Host) (s : State) :
    kbdTrig0 h s ≤ 1
    ∧ (kbdTrig0 h s = 0 ↔ s.PLATFORM_kbd_joy_0_enabled ≠ 0 ∧ h.kbhits s.keys.KBD_TRIG_0 ≠ 0) := by
  unfold kbdTrig0
  by_cases h1 : s.PLATFORM_kbd_joy_0_enabled = 0 <;>
  by_cases h2 : h.kbhits s.keys.KBD_TRIG_0 = 0 <;> simp [h1, h2]

theorem kbdTrig1_bit (h : Host) (s : State) :
    kbdTrig1 h s ≤ 1
    ∧ (kbdTrig1 h s = 0 ↔ s.PLATFORM_kbd_joy_1_enabled ≠ 0 ∧ h.kbhits s.keys.KBD_TRIG_1 ≠ 0) := by
  unfold kbdTrig1
  by_cases h1 : s.PLATFORM_kbd_joy_1_enabled = 0 <;>
  by_cases h2 : h.kbhits s.keys.KBD_TRIG_1 = 0 <;> simp [h1, h2]

theorem lptTrig_bit (K : Consts) (h : Host) (fd : Int) :
    (if fd ≠ -1 ∧ K.LPTJOY = true then lptTrig h fd else 1) ≤ 1
    ∧ ((if fd ≠ -1 ∧ K.LPTJOY = true then lptTrig h fd else 1) = 0
        ↔ fd ≠ -1 ∧ K.LPTJOY = true ∧ h.LPGETSTATUS fd &&& 8 = 0) := by
  unfold lptTrig
  by_cases h0 : fd ≠ -1 ∧ K.LPTJOY = true
  · by_cases h1 : h.LPGETSTATUS fd &&& 8 = 0
    · simp [h0, h1]
    · have h2 : 0 < h.LPGETSTATUS fd &&& 8 := Nat.pos_of_ne_zero h1
      rw [if_pos h0, if_pos h2]
      exact ⟨le_refl _, by simp [h0, h1]⟩
  · rw [if_neg h0]
    refine ⟨le_refl _, ?_⟩
    constructor
    · intro h1; exact absurd h1 (by decide)
    · rintro ⟨a, b, _⟩; exact absurd ⟨a, b⟩ h0

theorem trig_line (K : Consts) (h : Host) (fd : Int) (k g : Nat) (hg : g ≤ 1) :
    (if fd ≠ -1 ∧ K.LPTJOY = true then k &&& lptTrig h fd else k) &&& g
      = k &&& (if fd ≠ -1 ∧ K.LPTJOY = true then lptTrig h fd else 1) &&& g := by
  by_cases h0 : fd ≠ -1 ∧ K.LPTJOY = true
  · rw [if_pos h0, if_pos h0]
  · rw [if_neg h0, if_neg h0]
    interval_cases g
    · simp
    · rw [Nat.and_assoc]
      congr 1

/-- C11: every trigger line is the AND of its sources.  Lines 0 and 1: the
trigger of the keyboard joystick assigned to the line (1 unless that joystick is
enabled and its trigger key is down), the trigger of the LPT joystick of the
line if its descriptor is open, and the trigger of the gamepad of the line (the
negation of its resolved fire); lines 2 and 3: the trigger of gamepads 2 and 3.
With no swap a line is 0 exactly when one of its sources asserts fire. -/
theorem trig_sources (K : Consts) (h : Host) (s : State) :
    (get_platform_TRIG K h s).t0
        = (if s.swap_joysticks ≠ 0 then kbdTrig1 h s else kbdTrig0 h s)
          &&& (if s.fd_joystick0 ≠ -1 ∧ K.LPTJOY = true then lptTrig h s.fd_joystick0 else 1)
          &&& (GamePads_AtariTrigger s 0).toNat
    ∧ (get_platform_TRIG K h s).t1
        = (if s.swap_joysticks ≠ 0 then kbdTrig0 h s else kbdTrig1 h s)
          &&& (if s.fd_joystick1 ≠ -1 ∧ K.LPTJOY = true then lptTrig h s.fd_joystick1 else 1)
          &&& (GamePads_AtariTrigger s 1).toNat
    ∧ (get_platform_TRIG K h s).t2 = (GamePads_AtariTrigger s 2).toNat
    ∧ (get_platform_TRIG K h s).t3 = (GamePads_AtariTrigger s 3).toNat
    ∧ (∀ n, (GamePads_AtariTrigger s n).toNat = if (s.gamepads_fire_state n).fire ≠ 0 then 0 else 1)
    ∧ (s.swap_joysticks = 0 →
        ((get_platform_TRIG K h s).t0 = 0
          ↔ (s.PLATFORM_kbd_joy_0_enabled ≠ 0 ∧ h.kbhits s.keys.KBD_TRIG_0 ≠ 0)
            ∨ (s.fd_joystick0 ≠ -1 ∧ K.LPTJOY = true ∧ h.LPGETSTATUS s.fd_joystick0 &&& 8 = 0)
            ∨ (s.gamepads_fire_state 0).fire ≠ 0)
        ∧ ((get_platform_TRIG K h s).t1 = 0
          ↔ (s.PLATFORM_kbd_joy_1_enabled ≠ 0 ∧ h.kbhits s.keys.KBD_TRIG_1 ≠ 0)
            ∨ (s.fd_joystick1 ≠ -1 ∧ K.LPTJOY = true ∧ h.LPGETSTATUS s.fd_joystick1 &&& 8 = 0)
            ∨ (s.gamepads_fire_state 1).fire ≠ 0))
    ∧ ((get_platform_TRIG K h s).t2 = 0 ↔ (s.gamepads_fire_state 2).fire ≠ 0)
    ∧ ((get_platform_TRIG K h s).t3 = 0 ↔ (s.gamepads_fire_state 3).fire ≠ 0) := by
  have e0 : (get_platform_TRIG K h s).t0
      = (if s.swap_joysticks ≠ 0 then kbdTrig1 h s else kbdTrig0 h s)
        &&& (if s.fd_joystick0 ≠ -1 ∧ K.LPTJOY = true then lptTrig h s.fd_joystick0 else 1)
        &&& (GamePads_AtariTrigger s 0).toNat :=
    trig_line K h s.fd_joystick0 _ _ (atariTrigger_bit s 0).1
  have e1 : (get_platform_TRIG K h s).t1
      = (if s.swap_joysticks ≠ 0 then kbdTrig0 h s else kbdTrig1 h s)
        &&& (if s.fd_joystick1 ≠ -1 ∧ K.LPTJOY = true then lptTrig h s.fd_joystick1 else 1)
        &&& (GamePads_AtariTrigger s 1).toNat :=
    trig_line K h s.fd_joystick1 _ _ (atariTrigger_bit s 1).1
  have e2 : (get_platform_TRIG K h s).t2 = (GamePads_AtariTrigger s 2).toNat :=
    Nat.mod_eq_of_lt (lt_of_le_of_lt (atariTrigger_bit s 2).1 (by norm_num))
  have e3 : (get_platform_TRIG K h s).t3 = (GamePads_AtariTrigger s 3).toNat :=
    Nat.mod_eq_of_lt (lt_of_le_of_lt (atariTrigger_bit s 3).1 (by norm_num))
  refine ⟨e0, e1, e2, e3, fun n => (atariTrigger_bit s n).2.2, fun hsw => ⟨?_, ?_⟩, ?_, ?_⟩
  · rw [e0, if_neg (by simp [hsw])]
    obtain ⟨k1, k2⟩ := kbdTrig0_bit h s
    obtain ⟨l1, l2⟩ := lptTrig_bit K h s.fd_joystick0
    obtain ⟨g1, g2, _⟩ := atariTrigger_bit s 0
    obtain ⟨a1, a2⟩ := and_bit _ _ k1 l1
    rw [(and_bit _ _ a1 g1).2, a2, k2, l2, g2, or_assoc]
  · rw [e1, if_neg (by simp [hsw])]
    obtain ⟨k1, k2⟩ := kbdTrig1_bit h s
    obtain ⟨l1, l2⟩ := lptTrig_bit K h s.fd_joystick1
    obtain ⟨g1, g2, _⟩ := atariTrigger_bit s 1
    obtain ⟨a1, a2⟩ := and_bit _ _ k1 l1
    rw [(and_bit _ _ a1 g1).2, a2, k2, l2, g2, or_assoc]
  · rw [e2]; exact (atariTrigger_bit s 2).2.1
  · rw [e3]; exact (atariTrigger_bit s 3).2.1

/-! ## The swap flag -/

/-- C12 fails as stated: gamepad 0 is deflected to the left and no key is
down.  With the swap flag clear the ports 0 and 1 read 11 (left) and 15
(centre); with the flag set they read 11 and 15 again, not 15 and 11: the
gamepad stays on port 0. -/
theorem port_swap_counterexample :
    (swapState 0).sdl_gamepads 0 = true
    ∧ (get_platform_PORT stdConsts (sampleHost 0 0 0 []) (swapState 0)).s0 = 11
    ∧ (get_platform_PORT stdConsts (sampleHost 0 0 0 []) (swapState 0)).s1 = 15
    ∧ (get_platform_PORT stdConsts (sampleHost 0 0 0 []) (swapState 1)).s0 = 11
    ∧ (get_platform_PORT stdConsts (sampleHost 0 0 0 []) (swapState 1)).s1 = 15 := by
  decide!

/-- C12 (amended): the swap flag exchanges the two keyboard sticks before the
LPT joystick or the gamepad of each port is merged.  With the flag set, port 0
is keyboard stick 1 merged with LPT joystick 0 or else gamepad 0, and port 1 is
keyboard stick 0 merged with LPT joystick 1 or else gamepad 1; with the flag
clear the keyboard sticks are 0 and 1.  When neither port has an LPT joystick
or a gamepad, the ports with the flag set are the ports with the flag clear,
exchanged.  Ports 2 and 3 do not depend on the flag. -/
theorem port_swap (K : Consts) (h : Host) (s : State) (v : Int) (hv : v ≠ 0) :
    (get_platform_PORT K h { s with swap_joysticks := v }).s0
        = (if s.fd_joystick0 ≠ -1 then kbdStick1 K h s % 256 &&& get_LPT_joystick_state K h s.fd_joystick0
            else if s.sdl_gamepads 0 = true then kbdStick1 K h s % 256 &&& GamePads_AtariJoy K s 0
            else kbdStick1 K h s % 256)
    ∧ (get_platform_PORT K h { s with swap_joysticks := v }).s1
        = (if s.fd_joystick1 ≠ -1 then kbdStick0 K h s % 256 &&& get_LPT_joystick_state K h s.fd_joystick1
            else if s.sdl_gamepads 1 = true then kbdStick0 K h s % 256 &&& GamePads_AtariJoy K s 1
            else kbdStick0 K h s % 256)
    ∧ (get_platform_PORT K h { s with swap_joysticks := 0 }).s0
        = (if s.fd_joystick0 ≠ -1 then kbdStick0 K h s % 256 &&& get_LPT_joystick_state K h s.fd_joystick0
            else if s.sdl_gamepads 0 = true then kbdStick0 K h s % 256 &&& GamePads_AtariJoy K s 0
            else kbdStick0 K h s % 256)
    ∧ (get_platform_PORT K h { s with swap_joysticks := 0 }).s1
        = (if s.fd_joystick1 ≠ -1 then kbdStick1 K h s % 256 &&& get_LPT_joystick_state K h s.fd_joystick1
            else if s.sdl_gamepads 1 = true then kbdStick1 K h s % 256 &&& GamePads_AtariJoy K s 1
            else kbdStick1 K h s % 256)
    ∧ (s.fd_joystick0 = -1 → s.fd_joystick1 = -1 → s.sdl_gamepads 0 = false →
        s.sdl_gamepads 1 = false →
        (get_platform_PORT K h { s with swap_joysticks := v }).s0
            = (get_platform_PORT K h { s with swap_joysticks := 0 }).s1
        ∧ (get_platform_PORT K h { s with swap_joysticks := v }).s1
            = (get_platform_PORT K h { s with swap_joysticks := 0 }).s0)
    ∧ (get_platform_PORT K h { s with swap_joysticks := v }).s2
        = (get_platform_PORT K h { s with swap_joysticks := 0 }).s2
    ∧ (get_platform_PORT K h { s with swap_joysticks := v }).s3
        = (get_platform_PORT K h { s with swap_joysticks := 0 }).s3 := by
  have k0 : ∀ w, kbdStick0 K h { s with swap_joysticks := w } = kbdStick0 K h s := fun _ => rfl
  have k1 : ∀ w, kbdStick1 K h { s with swap_joysticks := w } = kbdStick1 K h s := fun _ => rfl
  have j : ∀ w n, GamePads_AtariJoy K { s with swap_joysticks := w } n = GamePads_AtariJoy K s n :=
    fun _ _ => rfl
  have z : ¬ ((0 : Int) ≠ 0) := by decide
  have p1 : (get_platform_PORT K h { s with swap_joysticks := v }).s0 = _ :=
    show _ = (if s.fd_joystick0 ≠ -1 then kbdStick1 K h s % 256 &&& get_LPT_joystick_state K h s.fd_joystick0
            else if s.sdl_gamepads 0 = true then kbdStick1 K h s % 256 &&& GamePads_AtariJoy K s 0
            else kbdStick1 K h s % 256) by
      simp only [get_platform_PORT, k0, k1, j, if_pos hv]
  have p2 : (get_platform_PORT K h { s with swap_joysticks := v }).s1 = _ :=
    show _ = (if s.fd_joystick1 ≠ -1 then kbdStick0 K h s % 256 &&& get_LPT_joystick_state K h s.fd_joystick1
            else if s.sdl_gamepads 1 = true then kbdStick0 K h s % 256 &&& GamePads_AtariJoy K s 1
            else kbdStick0 K h s % 256) by
      simp only [get_platform_PORT, k0, k1, j, if_pos hv]
  have p3 : (get_platform_PORT K h { s with swap_joysticks := 0 }).s0 = _ :=
    show _ = (if s.fd_joystick0 ≠ -1 then kbdStick0 K h s % 256 &&& get_LPT_joystick_state K h s.fd_joystick0
            else if s.sdl_gamepads 0 = true then kbdStick0 K h s % 256 &&& GamePads_AtariJoy K s 0
            else kbdStick0 K h s % 256) by
      simp only [get_platform_PORT, k0, k1, j, if_neg z]
  have p4 : (get_platform_PORT K h { s with swap_joysticks := 0 }).s1 = _ :=
    show _ = (if s.fd_joystick1 ≠ -1 then kbdStick1 K h s % 256 &&& get_LPT_joystick_state K h s.fd_joystick1
            else if s.sdl_gamepads 1 = true then kbdStick1 K h s % 256 &&& GamePads_AtariJoy K s 1
            else kbdStick1 K h s % 256) by
      simp only [get_platform_PORT, k0, k1, j, if_neg z]
  refine ⟨p1, p2, p3, p4, fun f0 f1 g0 g1 => ⟨?_, ?_⟩, rfl, rfl⟩
  · rw [p1, p4]
    simp [f0, f1, g0, g1]
  · rw [p2, p3]
    simp [f0, f1, g0, g1]

/-- Witness for C12: keyboard joystick 0 pushed left (key 260 down), no LPT
joystick and no gamepad: with the flag set port 0 reads 15 and port 1 reads
11. -/
theorem port_swap_witness :
    (1 : Int) ≠ 0
    ∧ (get_platform_PORT stdConsts
        { sampleHost 0 0 0 [] with kbhits := fun k => if k = 260 then 1 else 0 }
        { initialState stdConsts with swap_joysticks := 1 }).s0 = 15
    ∧ (get_platform_PORT stdConsts
        { sampleHost 0 0 0 [] with kbhits := fun k => if k = 260 then 1 else 0 }
        { initialState stdConsts with swap_joysticks := 1 }).s1
      = (get_platform_PORT stdConsts
        { sampleHost 0 0 0 [] with kbhits := fun k => if k = 260 then 1 else 0 }
        { initialState stdConsts with swap_joysticks := 0 }).s0 :=
  ⟨by decide, by decide!,
    ((port_swap stdConsts { sampleHost 0 0 0 [] with kbhits := fun k => if k = 260 then 1 else 0 }
      (initialState stdConsts) 1 (by decide)).2.2.2.2.1 rfl rfl rfl rfl).2⟩

/-! ## The fire toggle -/

/-- C13 fails as stated: button 0 of pad 0 is the only fire-toggle button, it
was released before, and it is reported pressed in two successive update
cycles.  The toggle is 0 before, 1 after the first cycle and still 1 after the
second. -/
theorem fire_toggle_counterexample :
    ((sampleState 1 toggleConfig).gamepads_fire_state 0).fire_toggle_on = 0
    ∧ ((sampleState 1 toggleConfig).gamepads_sdl_last_state 0).buttons = 0
    ∧ ((padRun stdConsts (fun _ => sampleHost 0 0 0 [0]) 0 (sampleState 1 toggleConfig) 1
        ).gamepads_fire_state 0).fire_toggle_on = 1
    ∧ ((padRun stdConsts (fun _ => sampleHost 0 0 0 [0]) 0 (sampleState 1 toggleConfig) 2
        ).gamepads_fire_state 0).fire_toggle_on = 1 := by
  decide!

theorem changed_iff (trig last_trig b : Nat) (hb : b < 32) :
    trig &&& u32 (1 <<< b) ≠ last_trig &&& u32 (1 <<< b)
      ↔ trig.testBit b ≠ last_trig.testBit b := by
  rw [u32_one_shiftLeft b hb, Nat.land_comm trig, Nat.land_comm last_trig, Nat.two_pow_and,
    Nat.two_pow_and]
  have hpos : (2 : Nat) ^ b ≠ 0 := pow_ne_zero _ (by norm_num)
  cases trig.testBit b <;> cases last_trig.testBit b <;> simp [hpos, Ne.symm hpos]

theorem dispatchButton_fire_toggle (K : Consts) (cfg : SDL_INPUT_RealJSConfig_t)
    (trig last_trig : Nat) (a : ButtonScan) (i : Nat) :
    (dispatchButton K cfg trig last_trig a i).fire_toggle_on
      = if GamePads_GetFunctionForButton cfg i = FNPAD_FIRE_TOGGLE
          ∧ trig &&& u32 (1 <<< i) ≠ last_trig &&& u32 (1 <<< i) ∧ trig &&& u32 (1 <<< i) ≠ 0
        then cNot a.fire_toggle_on else a.fire_toggle_on := by
  have n1 : FNPAD_FIRE_TOGGLE ≠ FNPAD_START_HOLD := by decide
  have n2 : FNPAD_FIRE_TOGGLE ≠ FNPAD_SELECT_HOLD := by decide
  have n3 : FNPAD_FIRE_TOGGLE ≠ FNPAD_OPTION_HOLD := by decide
  have n4 : FNPAD_FIRE_TOGGLE ≠ FNPAD_AUTOFIRE_TOGGLE := by decide
  have n5 : FNPAD_FIRE_TOGGLE ≠ FNPAD_AUTOFIRE_HOLD := by decide
  simp only [dispatchButton, apply_ite ButtonScan.fire_toggle_on, ite_self, Bool.and_eq_true,
    decide_eq_true_eq]
  by_cases hT : GamePads_GetFunctionForButton cfg i = FNPAD_FIRE_TOGGLE
  · simp only [hT, n1, n2, n3, n4, n5, if_false, if_true, true_and]
  · simp only [hT, if_false, false_and, ite_self]

theorem foldl_fire_toggle_none (K : Consts) (cfg : SDL_INPUT_RealJSConfig_t) (trig last_trig : Nat)
    (l : List Nat) (a : ButtonScan)
    (hl : ∀ i ∈ l, ¬ (GamePads_GetFunctionForButton cfg i = FNPAD_FIRE_TOGGLE
      ∧ trig &&& u32 (1 <<< i) ≠ last_trig &&& u32 (1 <<< i) ∧ trig &&& u32 (1 <<< i) ≠ 0)) :
    (l.foldl (dispatchButton K cfg trig last_trig) a).fire_toggle_on = a.fire_toggle_on := by
  induction l generalizing a with
  | nil => rfl
  | cons i l ih =>
    rw [List.foldl_cons, ih _ (fun j hj => hl j (List.mem_cons_of_mem _ hj)),
      dispatchButton_fire_toggle, if_neg (hl i (List.mem_cons_self _ _))]

/-- The toggle after the button loop when exactly the bit `b` has a press edge
of a fire-toggle button. -/
theorem scan_fire_toggle_once (K : Consts) (cfg : SDL_INPUT_RealJSConfig_t) (trig last_trig : Nat)
    (consol : Nat) (fs : gamepads_fire_state_t) (b : Nat) (hb : b < 32)
    (hf : GamePads_GetFunctionForButton cfg b = FNPAD_FIRE_TOGGLE)
    (hlast : last_trig.testBit b = false) (hp : trig.testBit b = true)
    (hother : ∀ c, c < 32 → c ≠ b → GamePads_GetFunctionForButton cfg c = FNPAD_FIRE_TOGGLE →
      trig.testBit c = false) :
    (dispatchButtons K cfg trig last_trig consol fs).fire_toggle_on = cNot fs.fire_toggle_on := by
  obtain ⟨l1, l2, hl⟩ := List.append_of_mem (List.mem_range.2 hb)
  have hnd : (l1 ++ b :: l2).Nodup := hl ▸ List.nodup_range 32
  have hmem : ∀ c, c ∈ l1 ++ b :: l2 → c < 32 := fun c hc => List.mem_range.1 (hl ▸ hc)
  have hquiet : ∀ c, c < 32 → c ≠ b →
      ¬ (GamePads_GetFunctionForButton cfg c = FNPAD_FIRE_TOGGLE
        ∧ trig &&& u32 (1 <<< c) ≠ last_trig &&& u32 (1 <<< c) ∧ trig &&& u32 (1 <<< c) ≠ 0) := by
    rintro c hc hcb ⟨h1, _, h3⟩
    have := hother c hc hcb h1
    rw [pressed_iff trig c hc, this] at h3
    exact Bool.false_ne_true h3
  rw [List.nodup_append] at hnd
  obtain ⟨_, hnd2, hdis⟩ := hnd
  rw [List.nodup_cons] at hnd2
  unfold dispatchButtons
  rw [hl, List.foldl_append, List.foldl_cons, foldl_fire_toggle_none, dispatchButton_fire_toggle,
    if_pos, foldl_fire_toggle_none]
  · intro i hi
    refine hquiet i (hmem i (List.mem_append_left _ hi)) ?_
    rintro rfl
    exact hdis hi (List.mem_cons_self _ _)
  · refine ⟨hf, ?_, ?_⟩
    · rw [changed_iff trig last_trig b hb, hlast, hp]
      decide
    · rw [pressed_iff trig b hb, hp]
  · intro i hi
    refine hquiet i (hmem i (List.mem_append_right _ (List.mem_cons_of_mem _ hi))) ?_
    rintro rfl
    exact hnd2.1 hi

/-- The toggle after the button loop when no fire-toggle button has a press
edge. -/
theorem scan_fire_toggle_keep (K : Consts) (cfg : SDL_INPUT_RealJSConfig_t) (trig last_trig : Nat)
    (consol : Nat) (fs : gamepads_fire_state_t)
    (hquiet : ∀ c, c < 32 → GamePads_GetFunctionForButton cfg c = FNPAD_FIRE_TOGGLE →
      trig.testBit c = false ∨ last_trig.testBit c = true) :
    (dispatchButtons K cfg trig last_trig consol fs).fire_toggle_on = fs.fire_toggle_on := by
  unfold dispatchButtons
  rw [foldl_fire_toggle_none]
  rintro i hi ⟨h1, h2, h3⟩
  have hi32 := List.mem_range.1 hi
  rw [changed_iff trig last_trig i hi32] at h2
  rw [pressed_iff trig i hi32] at h3
  rcases hquiet i hi32 h1 with h4 | h4
  · rw [h4] at h3; exact Bool.false_ne_true h3
  · rw [h3, h4] at h2; exact h2 rfl

theorem dispatchButton_last_buttons (K : Consts) (cfg : SDL_INPUT_RealJSConfig_t)
    (trig last_trig : Nat) (a : ButtonScan) (i : Nat) :
    (dispatchButton K cfg trig last_trig a i).last_buttons
      = if handledFunction (GamePads_GetFunctionForButton cfg i)
          ∧ trig &&& u32 (1 <<< i) ≠ last_trig &&& u32 (1 <<< i)
        then (if trig &&& u32 (1 <<< i) ≠ 0 then a.last_buttons ||| u32 (1 <<< i)
          else andNot a.last_buttons (u32 (1 <<< i)))
        else a.last_buttons := by
  simp only [dispatchButton, handledFunction, apply_ite ButtonScan.last_buttons, ite_self,
    Bool.and_eq_true, decide_eq_true_eq]

theorem dispatchButton_last_bit (K : Consts) (cfg : SDL_INPUT_RealJSConfig_t)
    (trig last_trig : Nat) (a : ButtonScan) (i k : Nat) (hi : i < 32) (hk : k < 32) :
    (dispatchButton K cfg trig last_trig a i).last_buttons.testBit k
      = if k = i ∧ handledFunction (GamePads_GetFunctionForButton cfg i)
          ∧ trig.testBit i ≠ last_trig.testBit i
        then trig.testBit i else a.last_buttons.testBit k := by
  rw [dispatchButton_last_buttons]
  simp only [changed_iff trig last_trig i hi]
  have e := u32_one_shiftLeft i hi
  by_cases hH : handledFunction (GamePads_GetFunctionForButton cfg i)
      ∧ trig.testBit i ≠ last_trig.testBit i
  · rw [if_pos hH]
    by_cases hp : trig.testBit i = true
    · rw [if_pos ((pressed_iff trig i hi).2 hp), e, Nat.testBit_or, Nat.testBit_two_pow]
      by_cases hki : k = i
      · rw [if_pos ⟨hki, hH⟩, hp, hki]
        simp
      · have : ¬ i = k := fun h => hki h.symm
        rw [if_neg (fun h => hki h.1)]
        simp [this]
    · rw [if_neg (fun h => hp ((pressed_iff trig i hi).1 h)), andNot_testBit _ _ _ hk, e,
        Nat.testBit_two_pow]
      simp only [Bool.not_eq_true] at hp
      by_cases hki : k = i
      · rw [if_pos ⟨hki, hH⟩, hp, hki]
        simp
      · have : ¬ i = k := fun h => hki h.symm
        rw [if_neg (fun h => hki h.1)]
        simp [this]
  · rw [if_neg hH, if_neg (fun h => hH h.2)]

theorem foldl_last_bit (K : Consts) (cfg : SDL_INPUT_RealJSConfig_t) (trig last_trig : Nat)
    (k : Nat) (hk : k < 32) (l : List Nat) (hl : ∀ i ∈ l, i < 32) (a : ButtonScan) :
    (l.foldl (dispatchButton K cfg trig last_trig) a).last_buttons.testBit k
      = if k ∈ l ∧ handledFunction (GamePads_GetFunctionForButton cfg k)
          ∧ trig.testBit k ≠ last_trig.testBit k
        then trig.testBit k else a.last_buttons.testBit k := by
  induction l generalizing a with
  | nil => simp
  | cons i l ih =>
    rw [List.foldl_cons, ih (fun j hj => hl j (List.mem_cons_of_mem _ hj)),
      dispatchButton_last_bit K cfg trig last_trig a i k (hl i (List.mem_cons_self _ _)) hk]
    by_cases h1 : k ∈ l
    · by_cases h2 : handledFunction (GamePads_GetFunctionForButton cfg k)
          ∧ trig.testBit k ≠ last_trig.testBit k
      · simp [h1, h2]
      · by_cases hki : k = i
        · subst hki; simp [h1, h2]
        · simp [h1, h2, hki]
    · by_cases hki : k = i
      · subst hki; simp [h1]
      · simp [h1, hki]

/-- After the button loop the stored level of a handled button is its new
level. -/
theorem scan_last_bit (K : Consts) (cfg : SDL_INPUT_RealJSConfig_t) (trig last_trig : Nat)
    (consol : Nat) (fs : gamepads_fire_state_t) (k : Nat) (hk : k < 32)
    (hH : handledFunction (GamePads_GetFunctionForButton cfg k)) :
    (dispatchButtons K cfg trig last_trig consol fs).last_buttons.testBit k = trig.testBit k := by
  unfold dispatchButtons
  rw [foldl_last_bit K cfg trig last_trig k hk _ (fun i hi => List.mem_range.1 hi)]
  by_cases hc : trig.testBit k = last_trig.testBit k
  · simp [hc]
  · simp [List.mem_range, hk, hH, hc]

/-- What `GamePads_UpdatePad` with the menu inactive stores for the pad. -/
theorem updatePad_scan (K : Consts) (h : Host) (n : Nat) (s : State) (hui : h.UI_is_active = 0) :
    ((GamePads_UpdatePad K h n s).gamepads_fire_state n).fire_toggle_on
        = (padButtonScan K h n s).fire_toggle_on
    ∧ ((GamePads_UpdatePad K h n s).gamepads_sdl_last_state n).buttons
        = (padButtonScan K h n s).last_buttons := by
  simp [GamePads_UpdatePad, hui, fireHandling]

/-- C13 (amended): the menu is inactive, the bit `b` of the pad is mapped to
fire-toggle and was released before, it is reported pressed in an update
cycle, and no other fire-toggle button of the pad is pressed in that cycle or
the next.  Then the first cycle negates `fire_toggle_on` and the second leaves
it alone, whether the button is still held or not: after both cycles the flag
is the negation of the value it had before the press. -/
theorem fire_toggle_once (K : Consts) (h1 h2 : Host) (n b : Nat) (s : State)
    (hm1 : h1.UI_is_active = 0) (hm2 : h2.UI_is_active = 0) (hb : b < 32)
    (hf : GamePads_GetFunctionForButton (s.gamepad_configuration n) b = FNPAD_FIRE_TOGGLE)
    (hrel : (s.gamepads_sdl_last_state n).buttons.testBit b = false)
    (hp1 : (trigOf h1 s n).testBit b = true)
    (hother : ∀ c, c < 32 → c ≠ b →
      GamePads_GetFunctionForButton (s.gamepad_configuration n) c = FNPAD_FIRE_TOGGLE →
      (trigOf h1 s n).testBit c = false ∧ (trigOf h2 s n).testBit c = false) :
    ((GamePads_UpdatePad K h1 n s).gamepads_fire_state n).fire_toggle_on
        = cNot (s.gamepads_fire_state n).fire_toggle_on
    ∧ ((GamePads_UpdatePad K h2 n (GamePads_UpdatePad K h1 n s)).gamepads_fire_state n).fire_toggle_on
        = cNot (s.gamepads_fire_state n).fire_toggle_on := by
  obtain ⟨a1, a2⟩ := updatePad_scan K h1 n s hm1
  obtain ⟨b1, _⟩ := updatePad_scan K h2 n (GamePads_UpdatePad K h1 n s) hm2
  obtain ⟨u1, u2, u3, _, _, _, _⟩ := updatePad_frame K h1 n s hm1
  have e1 : (padButtonScan K h1 n s).fire_toggle_on = cNot (s.gamepads_fire_state n).fire_toggle_on :=
    scan_fire_toggle_once K _ _ _ _ _ b hb hf hrel hp1 (fun c hc hcb hfc => (hother c hc hcb hfc).1)
  have hlast : ((GamePads_UpdatePad K h1 n s).gamepads_sdl_last_state n).buttons.testBit b = true := by
    rw [a2]
    have := scan_last_bit K (s.gamepad_configuration n) (trigOf h1 s n)
      (s.gamepads_sdl_last_state n).buttons s.gamepads_consol_state (s.gamepads_fire_state n) b hb
      (by rw [hf]; unfold handledFunction; simp)
    rw [hp1] at this
    exact this
  have ht : trigOf h2 (GamePads_UpdatePad K h1 n s) n = trigOf h2 s n := by
    unfold trigOf
    rw [u2, u3]
  refine ⟨a1.trans e1, ?_⟩
  rw [b1, ← e1, ← a1]
  unfold padButtonScan
  rw [u1]
  apply scan_fire_toggle_keep
  intro c hc hfc
  by_cases hcb : c = b
  · right
    rw [hcb]
    exact hlast
  · left
    have := (hother c hc hcb hfc).2
    unfold trigOf at this ht
    rw [u2, u3]
    exact this

/-- Witness for C13: the pad whose button 0 is the only fire-toggle button,
held for two cycles from the released state; the toggle goes from 0 to 1 and
stays 1. -/
theorem fire_toggle_once_witness :
    ((sampleState 1 toggleConfig).gamepads_fire_state 0).fire_toggle_on = 0
    ∧ ((GamePads_UpdatePad stdConsts (sampleHost 0 0 0 [0]) 0
        (GamePads_UpdatePad stdConsts (sampleHost 0 0 0 [0]) 0 (sampleState 1 toggleConfig))
        ).gamepads_fire_state 0).fire_toggle_on
      = cNot ((sampleState 1 toggleConfig).gamepads_fire_state 0).fire_toggle_on :=
  ⟨by decide!,
    (fire_toggle_once stdConsts (sampleHost 0 0 0 [0]) (sampleHost 0 0 0 [0]) 0 0
      (sampleState 1 toggleConfig) rfl rfl (by decide) (by decide!) (by decide!) (by decide!)
      (by decide!)).2⟩

/-! ## Keys from the buttons -/

theorem atariKeyMask_step (cfg : SDL_INPUT_RealJSConfig_t) (m i b : Nat) (hi : i < 16) :
    (if cfg.button_sp_functions i ≥ 256
        then (if cfg.button_functions i ≥ 256 then m ||| u32 (1 <<< i) else m) ||| u32 (1 <<< (i + 16))
        else (if cfg.button_functions i ≥ 256 then m ||| u32 (1 <<< i) else m)).testBit b
      = (m.testBit b || (decide (b = i) && decide (cfg.button_functions i ≥ 256))
          || (decide (b = i + 16) && decide (cfg.button_sp_functions i ≥ 256))) := by
  rw [u32_one_shiftLeft i (by omega), u32_one_shiftLeft (i + 16) (by omega)]
  by_cases h1 : cfg.button_functions i ≥ 256 <;> by_cases h2 : cfg.button_sp_functions i ≥ 256 <;>
    simp only [h1, h2, if_true, if_false, Nat.testBit_or, Nat.testBit_two_pow, decide_True,
      decide_False, Bool.and_true, Bool.and_false, Bool.or_false, eq_comm]

theorem atariKeyMask_fold (cfg : SDL_INPUT_RealJSConfig_t) (b : Nat) (l : List Nat)
    (hl : ∀ i ∈ l, i < 16) (m : Nat) :
    (l.foldl (fun m i =>
        let m1 := if cfg.button_functions i ≥ 256 then m ||| u32 (1 <<< i) else m
        if cfg.button_sp_functions i ≥ 256 then m1 ||| u32 (1 <<< (i + 16)) else m1) m).testBit b
      = (m.testBit b || l.any (fun i => (decide (b = i) && decide (cfg.button_functions i ≥ 256))
          || (decide (b = i + 16) && decide (cfg.button_sp_functions i ≥ 256)))) := by
  induction l generalizing m with
  | nil => simp
  | cons i l ih =>
    rw [List.foldl_cons, ih (fun j hj => hl j (List.mem_cons_of_mem _ hj))]
    simp only [atariKeyMask_step cfg m i b (hl i (List.mem_cons_self _ _)), List.any_cons,
      Bool.or_assoc]

/-- The key mask of a configuration has the bit `b` set exactly when the
function of the bit is 256 or more. -/
theorem atariKeyMask_testBit (cfg : SDL_INPUT_RealJSConfig_t) (b : Nat) (hb : b < 32) :
    (atariKeyMask cfg).testBit b = decide (GamePads_GetFunctionForButton cfg b ≥ 256) := by
  unfold atariKeyMask
  rw [atariKeyMask_fold cfg b (List.range MAX_PAD_BUTTONS) (fun i hi => List.mem_range.1 hi)]
  simp only [Nat.zero_testBit, Bool.false_or, GamePads_GetFunctionForButton]
  by_cases h16 : b ≥ 16
  · simp only [if_pos h16]
    by_cases hf : cfg.button_sp_functions (b - 16) ≥ 256
    · rw [decide_eq_true hf, List.any_eq_true]
      refine ⟨b - 16, List.mem_range.2 (by unfold MAX_PAD_BUTTONS; omega), ?_⟩
      have : b = b - 16 + 16 := by omega
      simp [hf, ← this]
    · rw [decide_eq_false hf, List.any_eq_false]
      intro i hi
      have hi16 := List.mem_range.1 hi
      unfold MAX_PAD_BUTTONS at hi16
      have h1 : ¬ b = i := by omega
      by_cases h2 : b = i + 16
      · have : i = b - 16 := by omega
        subst this
        simp [h1, hf]
      · simp [h1, h2]
  · simp only [if_neg h16]
    by_cases hf : cfg.button_functions b ≥ 256
    · rw [decide_eq_true hf, List.any_eq_true]
      refine ⟨b, List.mem_range.2 (by unfold MAX_PAD_BUTTONS; omega), ?_⟩
      simp [hf]
    · rw [decide_eq_false hf, List.any_eq_false]
      intro i hi
      have h2 : ¬ b = i + 16 := by omega
      by_cases h1 : b = i
      · subst h1
        simp [hf, h2]
      · simp [h1, h2]

/-- One step of the loop of `GamePads_AtariKeysByPad` on a bit below 32, with
the tests written on the bits. -/
theorem scanButtonKeys_cons (K : Consts) (h : Host) (cfg : SDL_INPUT_RealJSConfig_t)
    (key_mask last_buttons buttons : Nat) (i : Nat) (hi : i < 32) (bits : List Nat) (stored : Nat) :
    scanButtonKeys K h cfg key_mask last_buttons buttons (i :: bits) stored
      = if last_buttons.testBit i ≠ buttons.testBit i then
          (if buttonKey K h cfg key_mask i (buttons.testBit i) ≠ K.AKEY_NONE then
            (buttonKey K h cfg key_mask i (buttons.testBit i),
              if buttons.testBit i = true then stored ||| 2 ^ i else andNot stored (2 ^ i))
          else scanButtonKeys K h cfg key_mask last_buttons buttons bits
            (if buttons.testBit i = true then stored ||| 2 ^ i else andNot stored (2 ^ i)))
        else scanButtonKeys K h cfg key_mask last_buttons buttons bits stored := by
  have hp : decide (buttons &&& u32 (1 <<< i) ≠ 0) = buttons.testBit i := by
    cases hb : buttons.testBit i
    · exact decide_eq_false (fun hc => by rw [pressed_iff buttons i hi, hb] at hc; exact Bool.false_ne_true hc)
    · exact decide_eq_true ((pressed_iff buttons i hi).2 hb)
  rw [scanButtonKeys]
  simp only [changed_iff last_buttons buttons i hi, hp]
  simp only [u32_one_shiftLeft i hi]

theorem stored_bit (stored i k : Nat) (p : Bool) (hk : k < 32) :
    (if p = true then stored ||| 2 ^ i else andNot stored (2 ^ i)).testBit k
      = if k = i then p else stored.testBit k := by
  have hu : ∀ j, (u32 (2 ^ j)).testBit k = (2 ^ j).testBit k := by
    intro j
    unfold u32
    have e2 : (4294967296 : Nat) = 2 ^ 32 := by norm_num
    rw [e2, Nat.testBit_mod_two_pow]
    simp [hk]
  cases p
  · simp only [Bool.false_eq_true, if_false]
    unfold andNot
    have e1 : (4294967295 : Nat) = 2 ^ 32 - 1 := by norm_num
    rw [Nat.testBit_and, Nat.testBit_xor, e1, Nat.testBit_two_pow_sub_one, hu, Nat.testBit_two_pow]
    by_cases hki : k = i
    · subst hki; simp [hk]
    · have : ¬ i = k := fun h => hki h.symm
      simp [hki, this, hk]
  · simp only [if_true, Nat.testBit_or, Nat.testBit_two_pow]
    by_cases hki : k = i
    · simp [hki]
    · have : ¬ i = k := fun h => hki h.symm
      simp [hki, this]

/-- A scan in which no changed bit yields a key returns no key and stores the
new level of every changed bit. -/
theorem scanButtonKeys_none (K : Consts) (h : Host) (cfg : SDL_INPUT_RealJSConfig_t)
    (key_mask last_buttons buttons : Nat) (bits : List Nat) (hbits : ∀ i ∈ bits, i < 32)
    (hquiet : ∀ i ∈ bits, last_buttons.testBit i ≠ buttons.testBit i →
      buttonKey K h cfg key_mask i (buttons.testBit i) = K.AKEY_NONE) (stored : Nat) :
    (scanButtonKeys K h cfg key_mask last_buttons buttons bits stored).1 = K.AKEY_NONE
    ∧ ∀ k, k < 32 →
      (scanButtonKeys K h cfg key_mask last_buttons buttons bits stored).2.testBit k
        = if k ∈ bits ∧ last_buttons.testBit k ≠ buttons.testBit k then buttons.testBit k
          else stored.testBit k := by
  induction bits generalizing stored with
  | nil => exact ⟨rfl, fun k _ => by simp [scanButtonKeys]⟩
  | cons i bits ih =>
    have hi := hbits i (List.mem_cons_self _ _)
    have ih' := ih (fun j hj => hbits j (List.mem_cons_of_mem _ hj))
      (fun j hj => hquiet j (List.mem_cons_of_mem _ hj))
    rw [scanButtonKeys_cons K h cfg key_mask last_buttons buttons i hi]
    by_cases hc : last_buttons.testBit i ≠ buttons.testBit i
    · rw [if_pos hc, if_neg (fun hk => hk (hquiet i (List.mem_cons_self _ _) hc))]
      refine ⟨(ih' _).1, fun k hk => ?_⟩
      rw [(ih' _).2 k hk, stored_bit stored i k _ hk]
      by_cases h1 : k ∈ bits ∧ last_buttons.testBit k ≠ buttons.testBit k
      · rw [if_pos h1, if_pos ⟨List.mem_cons_of_mem _ h1.1, h1.2⟩]
      · rw [if_neg h1]
        by_cases hki : k = i
        · rw [if_pos hki, if_pos ⟨by rw [hki]; exact List.mem_cons_self _ _, by rw [hki]; exact hc⟩, hki]
        · rw [if_neg hki, if_neg]
          rintro ⟨hm, hch⟩
          rcases List.mem_cons.1 hm with hm | hm
          · exact hki hm
          · exact h1 ⟨hm, hch⟩
    · rw [if_neg hc]
      refine ⟨(ih' _).1, fun k hk => ?_⟩
      rw [(ih' _).2 k hk]
      by_cases h1 : k ∈ bits ∧ last_buttons.testBit k ≠ buttons.testBit k
      · rw [if_pos h1, if_pos ⟨List.mem_cons_of_mem _ h1.1, h1.2⟩]
      · rw [if_neg h1, if_neg]
        rintro ⟨hm, hch⟩
        rcases List.mem_cons.1 hm with hm | hm
        · rw [hm] at hch; exact hc hch
        · exact h1 ⟨hm, hch⟩

/-- A scan returns the key of the first changed bit that yields one; the bits
before it have their new level stored, the bit itself too, and the bits after
it are left as they were. -/
theorem scanButtonKeys_hit (K : Consts) (h : Host) (cfg : SDL_INPUT_RealJSConfig_t)
    (key_mask last_buttons buttons : Nat) (l1 l2 : List Nat) (b : Nat)
    (hbits : ∀ i ∈ l1 ++ b :: l2, i < 32)
    (hquiet : ∀ i ∈ l1, last_buttons.testBit i ≠ buttons.testBit i →
      buttonKey K h cfg key_mask i (buttons.testBit i) = K.AKEY_NONE)
    (hc : last_buttons.testBit b ≠ buttons.testBit b)
    (hkey : buttonKey K h cfg key_mask b (buttons.testBit b) ≠ K.AKEY_NONE) (stored : Nat) :
    (scanButtonKeys K h cfg key_mask last_buttons buttons (l1 ++ b :: l2) stored).1
        = buttonKey K h cfg key_mask b (buttons.testBit b)
    ∧ ∀ k, k < 32 →
      (scanButtonKeys K h cfg key_mask last_buttons buttons (l1 ++ b :: l2) stored).2.testBit k
        = if (k ∈ l1 ∨ k = b) ∧ last_buttons.testBit k ≠ buttons.testBit k then buttons.testBit k
          else stored.testBit k := by
  induction l1 generalizing stored with
  | nil =>
    have hb := hbits b (List.mem_cons_self _ _)
    rw [List.nil_append, scanButtonKeys_cons K h cfg key_mask last_buttons buttons b hb,
      if_pos hc, if_pos hkey]
    refine ⟨rfl, fun k hk => ?_⟩
    simp only [List.not_mem_nil, false_or]
    rw [stored_bit stored b k _ hk]
    by_cases hkb : k = b
    · rw [if_pos hkb, if_pos ⟨hkb, by rw [hkb]; exact hc⟩, hkb]
    · rw [if_neg hkb, if_neg (fun hh => hkb hh.1)]
  | cons i l1 ih =>
    have hi := hbits i (List.mem_cons_self _ _)
    have ih' := ih (fun j hj => hbits j (List.mem_cons_of_mem _ hj))
      (fun j hj => hquiet j (List.mem_cons_of_mem _ hj))
    rw [List.cons_append, scanButtonKeys_cons K h cfg key_mask last_buttons buttons i hi]
    by_cases hci : last_buttons.testBit i ≠ buttons.testBit i
    · rw [if_pos hci, if_neg (fun hk => hk (hquiet i (List.mem_cons_self _ _) hci))]
      refine ⟨(ih' _).1, fun k hk => ?_⟩
      rw [(ih' _).2 k hk, stored_bit stored i k _ hk]
      by_cases h1 : (k ∈ l1 ∨ k = b) ∧ last_buttons.testBit k ≠ buttons.testBit k
      · rw [if_pos h1, if_pos ⟨h1.1.elim (fun hm => Or.inl (List.mem_cons_of_mem _ hm)) Or.inr, h1.2⟩]
      · rw [if_neg h1]
        by_cases hki : k = i
        · rw [if_pos hki, if_pos ⟨Or.inl (by rw [hki]; exact List.mem_cons_self _ _),
            by rw [hki]; exact hci⟩, hki]
        · rw [if_neg hki, if_neg]
          rintro ⟨hm, hch⟩
          rcases hm with hm | hm
          · rcases List.mem_cons.1 hm with hm | hm
            · exact hki hm
            · exact h1 ⟨Or.inl hm, hch⟩
          · exact h1 ⟨Or.inr hm, hch⟩
    · rw [if_neg hci]
      refine ⟨(ih' _).1, fun k hk => ?_⟩
      rw [(ih' _).2 k hk]
      by_cases h1 : (k ∈ l1 ∨ k = b) ∧ last_buttons.testBit k ≠ buttons.testBit k
      · rw [if_pos h1, if_pos ⟨h1.1.elim (fun hm => Or.inl (List.mem_cons_of_mem _ hm)) Or.inr, h1.2⟩]
      · rw [if_neg h1, if_neg]
        rintro ⟨hm, hch⟩
        rcases hm with hm | hm
        · rcases List.mem_cons.1 hm with hm | hm
          · rw [hm] at hch; exact hci hch
          · exact h1 ⟨Or.inl hm, hch⟩
        · exact h1 ⟨Or.inr hm, hch⟩

/-- The key of a changed bit whose function is a press-only function, with the
menu inactive and the bit in the key mask: the key of the function on a press
and none on a release. -/
theorem buttonKey_press_only (K : Consts) (h : Host) (cfg : SDL_INPUT_RealJSConfig_t)
    (key_mask i : Nat) (hi : i < 32) (hm : h.UI_is_active = 0)
    (hmask : key_mask.testBit i = true)
    (hf : 512 ≤ GamePads_GetFunctionForButton cfg i ∧ GamePads_GetFunctionForButton cfg i < 1024) :
    buttonKey K h cfg key_mask i true = GamePads_AtariKeysPress K h (GamePads_GetFunctionForButton cfg i)
    ∧ buttonKey K h cfg key_mask i false = K.AKEY_NONE := by
  have hp : key_mask &&& u32 (1 <<< i) ≠ 0 := (pressed_iff key_mask i hi).2 hmask
  constructor
  · simp [buttonKey, hm, hp, hf.1, hf.2]
  · simp [buttonKey, hm, hp, hf.1, hf.2]

/-- With the menu inactive `GamePads_AtariKeysByPad` is the scan of the 32
bits. -/
theorem byPad_inactive (K : Consts) (h : Host) (n : Nat) (s : State) (hm : h.UI_is_active = 0) :
    (GamePads_AtariKeysByPad K h n s).1
        = (scanButtonKeys K h (s.gamepad_configuration n) (s.gamepad_atari_key_mask n)
            (s.gamepads_sdl_last_state n).buttons (s.gamepads_sdl_actual_state n).buttons
            (List.range 32) (s.gamepads_sdl_last_state n).buttons).1
    ∧ ((GamePads_AtariKeysByPad K h n s).2.gamepads_sdl_last_state n).buttons
        = (scanButtonKeys K h (s.gamepad_configuration n) (s.gamepad_atari_key_mask n)
            (s.gamepads_sdl_last_state n).buttons (s.gamepads_sdl_actual_state n).buttons
            (List.range 32) (s.gamepads_sdl_last_state n).buttons).2 := by
  simp [GamePads_AtariKeysByPad, GamePads_AtariKeysFromJoy, GamePads_AtariKeysFromHat, hm]

/-- The button loop of `GamePads_UpdatePad` leaves the stored level of a button
alone whose function it does not handle. -/
theorem updatePad_last_bit (K : Consts) (h : Host) (n : Nat) (s : State) (b : Nat) (hb : b < 32)
    (hH : ¬ handledFunction (GamePads_GetFunctionForButton (s.gamepad_configuration n) b)) :
    ((GamePads_UpdatePad K h n s).gamepads_sdl_last_state n).buttons.testBit b
      = (s.gamepads_sdl_last_state n).buttons.testBit b := by
  by_cases hm : h.UI_is_active = 0
  · rw [(updatePad_scan K h n s hm).2]
    unfold padButtonScan dispatchButtons
    rw [foldl_last_bit K _ _ _ b hb _ (fun i hi => List.mem_range.1 hi), if_neg (fun hh => hH hh.2.1)]
  · simp [GamePads_UpdatePad, hm]

theorem range_split (b m : Nat) (hb : b < m) :
    ∃ l1 l2, List.range m = l1 ++ b :: l2 ∧ (∀ i ∈ l1, i < b) ∧ (∀ i ∈ l2, b < i) := by
  obtain ⟨l1, l2, hl⟩ := List.append_of_mem (List.mem_range.2 hb)
  have hp : (l1 ++ b :: l2).Pairwise (· < ·) := hl ▸ List.pairwise_lt_range m
  rw [List.pairwise_append] at hp
  obtain ⟨_, h2, h3⟩ := hp
  rw [List.pairwise_cons] at h2
  exact ⟨l1, l2, hl, fun i hi => h3 i hi b (List.mem_cons_self _ _), fun i hi => h2.1 i hi⟩

/-- C14: the menu is inactive, the key mask of the pad is the one of its
configuration, and the bit `b` is mapped to a press-only function (512..1023)
whose key is not `AKEY_NONE`.  On the press edge of the bit, no changed lower
bit yielding a key, `GamePads_AtariKeysByPad` returns the key of the function
and stores the bit as pressed; while the bit is stored as pressed and still
held it returns no key (no other changed bit yielding one) and keeps the bit
stored as pressed; on the release edge it returns no key and stores the bit as
released.  Between the calls `GamePads_UpdatePad` leaves the stored bit
alone. -/
theorem press_only_once (K : Consts) (h : Host) (n b : Nat) (s : State)
    (hm : h.UI_is_active = 0) (hb : b < 32)
    (hmask : s.gamepad_atari_key_mask n = atariKeyMask (s.gamepad_configuration n))
    (hf : 512 ≤ GamePads_GetFunctionForButton (s.gamepad_configuration n) b
      ∧ GamePads_GetFunctionForButton (s.gamepad_configuration n) b < 1024)
    (hkey : GamePads_AtariKeysPress K h (GamePads_GetFunctionForButton (s.gamepad_configuration n) b)
      ≠ K.AKEY_NONE) :
    ((s.gamepads_sdl_last_state n).buttons.testBit b = false →
      (s.gamepads_sdl_actual_state n).buttons.testBit b = true →
      (∀ i, i < b →
        (s.gamepads_sdl_last_state n).buttons.testBit i
          ≠ (s.gamepads_sdl_actual_state n).buttons.testBit i →
        buttonKey K h (s.gamepad_configuration n) (s.gamepad_atari_key_mask n) i
          ((s.gamepads_sdl_actual_state n).buttons.testBit i) = K.AKEY_NONE) →
      (GamePads_AtariKeysByPad K h n s).1
          = GamePads_AtariKeysPress K h (GamePads_GetFunctionForButton (s.gamepad_configuration n) b)
      ∧ ((GamePads_AtariKeysByPad K h n s).2.gamepads_sdl_last_state n).buttons.testBit b = true)
    ∧ ((s.gamepads_sdl_last_state n).buttons.testBit b = true →
      (s.gamepads_sdl_actual_state n).buttons.testBit b = true →
      (∀ i, i < 32 → i ≠ b →
        (s.gamepads_sdl_last_state n).buttons.testBit i
          ≠ (s.gamepads_sdl_actual_state n).buttons.testBit i →
        buttonKey K h (s.gamepad_configuration n) (s.gamepad_atari_key_mask n) i
          ((s.gamepads_sdl_actual_state n).buttons.testBit i) = K.AKEY_NONE) →
      (GamePads_AtariKeysByPad K h n s).1 = K.AKEY_NONE
      ∧ ((GamePads_AtariKeysByPad K h n s).2.gamepads_sdl_last_state n).buttons.testBit b = true)
    ∧ ((s.gamepads_sdl_last_state n).buttons.testBit b = true →
      (s.gamepads_sdl_actual_state n).buttons.testBit b = false →
      (∀ i, i < 32 → i ≠ b →
        (s.gamepads_sdl_last_state n).buttons.testBit i
          ≠ (s.gamepads_sdl_actual_state n).buttons.testBit i →
        buttonKey K h (s.gamepad_configuration n) (s.gamepad_atari_key_mask n) i
          ((s.gamepads_sdl_actual_state n).buttons.testBit i) = K.AKEY_NONE) →
      (GamePads_AtariKeysByPad K h n s).1 = K.AKEY_NONE
      ∧ ((GamePads_AtariKeysByPad K h n s).2.gamepads_sdl_last_state n).buttons.testBit b = false)
    ∧ (∀ h1 : Host,
      ((GamePads_UpdatePad K h1 n s).gamepads_sdl_last_state n).buttons.testBit b
        = (s.gamepads_sdl_last_state n).buttons.testBit b) := by
  obtain ⟨e1, e2⟩ := byPad_inactive K h n s hm
  have hbit : (s.gamepad_atari_key_mask n).testBit b = true := by
    rw [hmask, atariKeyMask_testBit _ b hb]
    exact decide_eq_true (by omega)
  obtain ⟨kp, kr⟩ := buttonKey_press_only K h (s.gamepad_configuration n)
    (s.gamepad_atari_key_mask n) b hb hm hbit hf
  refine ⟨fun hl ha hq => ?_, fun hl ha hq => ?_, fun hl ha hq => ?_, fun h1 => ?_⟩
  · obtain ⟨l1, l2, hsplit, hlow, _⟩ := range_split b 32 hb
    have hmem : ∀ i ∈ l1 ++ b :: l2, i < 32 := fun i hi => List.mem_range.1 (hsplit ▸ hi)
    obtain ⟨r1, r2⟩ := scanButtonKeys_hit K h (s.gamepad_configuration n)
      (s.gamepad_atari_key_mask n) (s.gamepads_sdl_last_state n).buttons
      (s.gamepads_sdl_actual_state n).buttons l1 l2 b hmem
      (fun i hi hc => hq i (hlow i hi) hc) (by rw [hl, ha]; decide) (by rw [ha, kp]; exact hkey)
      (s.gamepads_sdl_last_state n).buttons
    rw [e1, e2, hsplit, r1, r2 b hb, ha, kp]
    exact ⟨rfl, by simp [hl]⟩
  · obtain ⟨r1, r2⟩ := scanButtonKeys_none K h (s.gamepad_configuration n)
      (s.gamepad_atari_key_mask n) (s.gamepads_sdl_last_state n).buttons
      (s.gamepads_sdl_actual_state n).buttons (List.range 32) (fun i hi => List.mem_range.1 hi)
      (fun i hi hc => by
        by_cases hib : i = b
        · rw [hib, hl, ha] at hc; exact absurd rfl hc
        · exact hq i (List.mem_range.1 hi) hib hc)
      (s.gamepads_sdl_last_state n).buttons
    rw [e1, e2, r1, r2 b hb]
    exact ⟨rfl, by simp [hl, ha]⟩
  · obtain ⟨r1, r2⟩ := scanButtonKeys_none K h (s.gamepad_configuration n)
      (s.gamepad_atari_key_mask n) (s.gamepads_sdl_last_state n).buttons
      (s.gamepads_sdl_actual_state n).buttons (List.range 32) (fun i hi => List.mem_range.1 hi)
      (fun i hi hc => by
        by_cases hib : i = b
        · rw [hib, ha]; exact kr
        · exact hq i (List.mem_range.1 hi) hib hc)
      (s.gamepads_sdl_last_state n).buttons
    rw [e1, e2, r1, r2 b hb]
    exact ⟨rfl, by simp [hl, ha, hb]⟩
  · apply updatePad_last_bit K h1 n s b hb
    unfold handledFunction
    unfold FNPAD_START_HOLD FNPAD_SELECT_HOLD FNPAD_OPTION_HOLD FNPAD_AUTOFIRE_TOGGLE
      FNPAD_AUTOFIRE_HOLD FNPAD_FIRE_TOGGLE FNPAD_FIRE_HOLD
    omega

/-- Witness for C14: button 0 of pad 0 is the exit button and is pressed in the
update cycle before the scan; the scan returns `AKEY_EXIT`, and a second scan,
the button still held, returns no key. -/
theorem press_only_once_witness :
    (GamePads_AtariKeysByPad stdConsts (sampleHost 0 0 0 [0]) 0
        (GamePads_UpdatePad stdConsts (sampleHost 0 0 0 [0]) 0 (sampleState 1 exitConfig))).1
      = stdConsts.AKEY_EXIT
    ∧ (GamePads_AtariKeysByPad stdConsts (sampleHost 0 0 0 [0]) 0
        (GamePads_AtariKeysByPad stdConsts (sampleHost 0 0 0 [0]) 0
          (GamePads_UpdatePad stdConsts (sampleHost 0 0 0 [0]) 0 (sampleState 1 exitConfig))).2).1
      = stdConsts.AKEY_NONE :=
  ⟨((press_only_once stdConsts (sampleHost 0 0 0 [0]) 0 0
      (GamePads_UpdatePad stdConsts (sampleHost 0 0 0 [0]) 0 (sampleState 1 exitConfig))
      rfl (by decide) (by decide!) (by decide!) (by decide!)).1 (by decide!) (by decide!)
      (fun i hi => absurd hi (Nat.not_lt_zero i))).1.trans (by decide!),
    by decide!⟩

/-- C15: the menu is inactive, the key mask of the pad is the one of its
configuration, the bits `i < j` both have a press edge and are both mapped to
press-only functions that yield a key, and no changed bit below `i` yields a
key.  Then `GamePads_AtariKeysByPad` returns the key of the bit `i`; it stores
the bit `i` as pressed and leaves the bit `j` stored as released, so that the
press edge of `j`, which yields a key, is still to be scanned. -/
theorem lowest_bit_wins (K : Consts) (h : Host) (n i j : Nat) (s : State)
    (hm : h.UI_is_active = 0) (hij : i < j) (hj : j < 32)
    (hmask : s.gamepad_atari_key_mask n = atariKeyMask (s.gamepad_configuration n))
    (hfi : 512 ≤ GamePads_GetFunctionForButton (s.gamepad_configuration n) i
      ∧ GamePads_GetFunctionForButton (s.gamepad_configuration n) i < 1024)
    (hfj : 512 ≤ GamePads_GetFunctionForButton (s.gamepad_configuration n) j
      ∧ GamePads_GetFunctionForButton (s.gamepad_configuration n) j < 1024)
    (hki : GamePads_AtariKeysPress K h (GamePads_GetFunctionForButton (s.gamepad_configuration n) i)
      ≠ K.AKEY_NONE)
    (hkj : GamePads_AtariKeysPress K h (GamePads_GetFunctionForButton (s.gamepad_configuration n) j)
      ≠ K.AKEY_NONE)
    (hei : (s.gamepads_sdl_last_state n).buttons.testBit i = false
      ∧ (s.gamepads_sdl_actual_state n).buttons.testBit i = true)
    (hej : (s.gamepads_sdl_last_state n).buttons.testBit j = false
      ∧ (s.gamepads_sdl_actual_state n).buttons.testBit j = true)
    (hlow : ∀ k, k < i →
      (s.gamepads_sdl_last_state n).buttons.testBit k
        ≠ (s.gamepads_sdl_actual_state n).buttons.testBit k →
      buttonKey K h (s.gamepad_configuration n) (s.gamepad_atari_key_mask n) k
        ((s.gamepads_sdl_actual_state n).buttons.testBit k) = K.AKEY_NONE) :
    (GamePads_AtariKeysByPad K h n s).1
        = GamePads_AtariKeysPress K h (GamePads_GetFunctionForButton (s.gamepad_configuration n) i)
    ∧ ((GamePads_AtariKeysByPad K h n s).2.gamepads_sdl_last_state n).buttons.testBit i = true
    ∧ ((GamePads_AtariKeysByPad K h n s).2.gamepads_sdl_last_state n).buttons.testBit j = false
    ∧ buttonKey K h (s.gamepad_configuration n) (s.gamepad_atari_key_mask n) j true
        ≠ K.AKEY_NONE := by
  have hi : i < 32 := by omega
  obtain ⟨e1, e2⟩ := byPad_inactive K h n s hm
  have hbit : (s.gamepad_atari_key_mask n).testBit i = true := by
    rw [hmask, atariKeyMask_testBit _ i hi]
    exact decide_eq_true (by omega)
  have hbitj : (s.gamepad_atari_key_mask n).testBit j = true := by
    rw [hmask, atariKeyMask_testBit _ j hj]
    exact decide_eq_true (by omega)
  obtain ⟨kp, _⟩ := buttonKey_press_only K h (s.gamepad_configuration n)
    (s.gamepad_atari_key_mask n) i hi hm hbit hfi
  obtain ⟨kpj, _⟩ := buttonKey_press_only K h (s.gamepad_configuration n)
    (s.gamepad_atari_key_mask n) j hj hm hbitj hfj
  obtain ⟨l1, l2, hsplit, hl1, _⟩ := range_split i 32 hi
  have hmem : ∀ k ∈ l1 ++ i :: l2, k < 32 := fun k hk => List.mem_range.1 (hsplit ▸ hk)
  obtain ⟨r1, r2⟩ := scanButtonKeys_hit K h (s.gamepad_configuration n)
    (s.gamepad_atari_key_mask n) (s.gamepads_sdl_last_state n).buttons
    (s.gamepads_sdl_actual_state n).buttons l1 l2 i hmem
    (fun k hk hc => hlow k (hl1 k hk) hc) (by rw [hei.1, hei.2]; decide)
    (by rw [hei.2, kp]; exact hki) (s.gamepads_sdl_last_state n).buttons
  rw [e1, e2, hsplit, r1, r2 i hi, r2 j hj, hei.2, kp]
  refine ⟨rfl, by simp [hei.1], ?_, by rw [kpj]; exact hkj⟩
  rw [if_neg, hej.1]
  rintro ⟨hmj | hmj, _⟩
  · have := hl1 j hmj
    omega
  · omega

/-- Witness for C15: button 0 (exit) and button 1 (warm start) of pad 0 are
pressed in the same update cycle; the scan returns `AKEY_EXIT`, and the next
scan returns `AKEY_WARMSTART`. -/
theorem lowest_bit_wins_witness :
    (GamePads_AtariKeysByPad stdConsts (sampleHost 0 0 0 [0, 1]) 0
        (GamePads_UpdatePad stdConsts (sampleHost 0 0 0 [0, 1]) 0 (sampleState 1 exitConfig))).1
      = stdConsts.AKEY_EXIT
    ∧ (GamePads_AtariKeysByPad stdConsts (sampleHost 0 0 0 [0, 1]) 0
        (GamePads_AtariKeysByPad stdConsts (sampleHost 0 0 0 [0, 1]) 0
          (GamePads_UpdatePad stdConsts (sampleHost 0 0 0 [0, 1]) 0 (sampleState 1 exitConfig))).2).1
      = stdConsts.AKEY_WARMSTART :=
  ⟨(lowest_bit_wins stdConsts (sampleHost 0 0 0 [0, 1]) 0 0 1
      (GamePads_UpdatePad stdConsts (sampleHost 0 0 0 [0, 1]) 0 (sampleState 1 exitConfig))
      rfl (by decide) (by decide) (by decide!) (by decide!) (by decide!) (by decide!) (by decide!)
      (by decide!) (by decide!) (fun k hk => absurd hk (Nat.not_lt_zero k))).1.trans (by decide!),
    by decide!⟩

/-! ## Key bindings in the configuration -/

/-- `Keyboard_ReadConfig` on a binding key is `SDLKeyBind` on the variable of
the key. -/
theorem keyboard_binding_eq (K : Consts) (p : Option (List Char)) (s : State) :
    ∀ e ∈ keyBindingTable,
      Keyboard_ReadConfig K e.name p s
        = ({ s with keys := e.set s.keys (SDLKeyBind K (e.get s.keys) p).1 },
            (SDLKeyBind K (e.get s.keys) p).2) := by
  intro e he
  simp only [keyBindingTable, List.mem_cons, List.mem_singleton, List.not_mem_nil, or_false] at he
  rcases he with rfl | rfl | rfl | rfl | rfl | rfl | rfl | rfl | rfl | rfl | rfl | rfl | rfl | rfl | rfl | rfl | rfl | rfl | rfl | rfl | rfl <;> rfl

set_option maxHeartbeats 1000000 in
/-- The setter of a binding key changes the variable of that key and of no
other key of the table. -/
theorem keyBindingTable_frame (k : KeyBindings) (v : Int) :
    ∀ e ∈ keyBindingTable, e.get (e.set k v) = v
      ∧ (e.set k (e.get k) = k)
      ∧ ∀ e1 ∈ keyBindingTable, e1.name ≠ e.name → e1.get (e.set k v) = e1.get k := by
  intro e he
  simp only [keyBindingTable, List.mem_cons, List.mem_singleton, List.not_mem_nil, or_false] at he
  refine ⟨?_, ?_, ?_⟩
  · rcases he with rfl | rfl | rfl | rfl | rfl | rfl | rfl | rfl | rfl | rfl | rfl | rfl | rfl | rfl | rfl | rfl | rfl | rfl | rfl | rfl | rfl <;> rfl
  · rcases he with rfl | rfl | rfl | rfl | rfl | rfl | rfl | rfl | rfl | rfl | rfl | rfl | rfl | rfl | rfl | rfl | rfl | rfl | rfl | rfl | rfl <;> rfl
  · intro e1 he1 hne
    simp only [keyBindingTable, List.mem_cons, List.mem_singleton, List.not_mem_nil, or_false] at he1
    rcases he with rfl | rfl | rfl | rfl | rfl | rfl | rfl | rfl | rfl | rfl | rfl | rfl | rfl | rfl | rfl | rfl | rfl | rfl | rfl | rfl | rfl <;> rcases he1 with rfl | rfl | rfl | rfl | rfl | rfl | rfl | rfl | rfl | rfl | rfl | rfl | rfl | rfl | rfl | rfl | rfl | rfl | rfl | rfl | rfl <;>
      first
        | rfl
        | exact absurd rfl hne

theorem scandecLoop_malformed (l : List Char) (r : Int)
    (hl : ∃ c ∈ l, ¬ (48 ≤ c.toNat ∧ c.toNat ≤ 57)) : scandecLoop r l = -1 := by
  induction l generalizing r with
  | nil => obtain ⟨c, hc, _⟩ := hl; exact absurd hc (List.not_mem_nil c)
  | cons d l ih =>
    rw [scandecLoop]
    by_cases hd : 48 ≤ d.toNat ∧ d.toNat ≤ 57
    · rw [if_pos hd]
      obtain ⟨c, hc, hn⟩ := hl
      rcases List.mem_cons.1 hc with rfl | hc
      · exact absurd hd hn
      · exact ih _ ⟨c, hc, hn⟩
    · rw [if_neg hd]

/-- The decimal scanner reports every string that is not a non-empty string
of digits as -1. -/
theorem sscandec_malformed (v : List Char) (hv : ¬ decimalDigits v) : Util_sscandec v = -1 := by
  unfold Util_sscandec
  by_cases h0 : v = []
  · rw [if_pos h0]
  · rw [if_neg h0]
    apply scandecLoop_malformed
    by_contra hc
    apply hv
    refine ⟨h0, fun c hcv => ?_⟩
    by_contra hd
    exact hc ⟨c, hcv, hd⟩

/-- C19: for every binding key of the table and every value: when the value
scans to a key code `k` with `SDLK_FIRST < k < SDLK_LAST`, `Keyboard_ReadConfig`
returns TRUE and the variable of the key becomes `k`, the variables of the
other keys keeping their values; when the value is missing, or scans to a code
outside that range, or (with `SDLK_FIRST` not negative) is not a number, the
result is FALSE and the state is unchanged. -/
theorem keyboard_binding (K : Consts) (p : Option (List Char)) (s : State) (e : KeyBindingEntry)
    (he : e ∈ keyBindingTable) :
    (∀ v, p = some v → K.SDLK_FIRST < Util_sscandec v → Util_sscandec v < K.SDLK_LAST →
      Keyboard_ReadConfig K e.name p s = ({ s with keys := e.set s.keys (Util_sscandec v) }, 1)
      ∧ e.get (e.set s.keys (Util_sscandec v)) = Util_sscandec v
      ∧ ∀ e1 ∈ keyBindingTable, e1.name ≠ e.name →
          e1.get (e.set s.keys (Util_sscandec v)) = e1.get s.keys)
    ∧ (p = none → Keyboard_ReadConfig K e.name p s = (s, 0))
    ∧ (∀ v, p = some v → ¬ (K.SDLK_FIRST < Util_sscandec v ∧ Util_sscandec v < K.SDLK_LAST) →
      Keyboard_ReadConfig K e.name p s = (s, 0))
    ∧ (∀ v, p = some v → 0 ≤ K.SDLK_FIRST → ¬ decimalDigits v →
      Keyboard_ReadConfig K e.name p s = (s, 0)) := by
  have heq := keyboard_binding_eq K p s e he
  have hkeep : ({ s with keys := e.set s.keys (e.get s.keys) } : State) = s := by
    rw [(keyBindingTable_frame s.keys 0 e he).2.1]
  have hbad : ∀ v, p = some v → ¬ (K.SDLK_FIRST < Util_sscandec v ∧ Util_sscandec v < K.SDLK_LAST) →
      Keyboard_ReadConfig K e.name p s = (s, 0) := by
    intro v hp hr
    rw [heq, hp]
    simp only [SDLKeyBind, gt_iff_lt, if_neg hr, hkeep]
  refine ⟨fun v hp h1 h2 => ⟨?_, (keyBindingTable_frame s.keys _ e he).1,
    (keyBindingTable_frame s.keys _ e he).2.2⟩, fun hp => ?_, hbad, fun v hp h0 hv => ?_⟩
  · rw [heq, hp]
    simp only [SDLKeyBind, gt_iff_lt, if_pos (And.intro h1 h2)]
  · rw [heq, hp]
    simp only [SDLKeyBind, hkeep]
  · apply hbad v hp
    rw [sscandec_malformed v hv]
    omega

/-- Witness for C19: the line `SDL_JOY_0_LEFT=97` binds the left key of
keyboard joystick 0 to the key code 97 and is reported as handled; the up key
keeps the code 264. -/
theorem keyboard_binding_witness :
    (Keyboard_ReadConfig stdConsts "SDL_JOY_0_LEFT".toList (some "97".toList)
        (initialState stdConsts)).2 = 1
    ∧ (Keyboard_ReadConfig stdConsts "SDL_JOY_0_LEFT".toList (some "97".toList)
        (initialState stdConsts)).1.keys.KBD_STICK_0_LEFT = 97
    ∧ (Keyboard_ReadConfig stdConsts "SDL_JOY_0_LEFT".toList (some "97".toList)
        (initialState stdConsts)).1.keys.KBD_STICK_0_UP = 264
    ∧ Keyboard_ReadConfig stdConsts "SDL_JOY_0_LEFT".toList (some "9x".toList)
        (initialState stdConsts) = (initialState stdConsts, 0) :=
  ⟨by decide!, by decide!, by decide!,
    (keyboard_binding stdConsts (some "9x".toList) (initialState stdConsts)
      ⟨"SDL_JOY_0_LEFT".toList, fun k => k.KBD_STICK_0_LEFT, fun k v => { k with KBD_STICK_0_LEFT := v }⟩
      (List.mem_cons_self _ _)).2.2.1 _ rfl (by decide!)⟩

/-! ## Unknown and malformed configuration lines -/

/-- `Keyboard_ReadConfig` reports every option outside its keys as not
handled and changes nothing. -/
theorem keyboard_unknown (K : Consts) (o : List Char) (p : Option (List Char)) (s : State)
    (ho : o ∉ keyboardKeys) : Keyboard_ReadConfig K o p s = (s, 0) := by
  simp only [keyboardKeys, keyBindingTable, List.map, List.mem_cons, List.not_mem_nil, or_false,
    not_or] at ho
  obtain ⟨h1, h2, h3, h4, h5, h6, h7, h8, h9, h10, h11, h12, h13, h14, h15, h16, h17, h18, h19,
    h20, h21, h22, h23⟩ := ho
  simp only [Keyboard_ReadConfig, if_neg h1, if_neg h2, if_neg h3, if_neg h4, if_neg h5, if_neg h6,
    if_neg h7, if_neg h8, if_neg h9, if_neg h10, if_neg h11, if_neg h12, if_neg h13, if_neg h14,
    if_neg h15, if_neg h16, if_neg h17, if_neg h18, if_neg h19, if_neg h20, if_neg h21, if_neg h22,
    if_neg h23]

theorem readButton_unknown (s : State) (j : Int) (option0 parameters : List Char)
    (hu : match buttonOptionParts option0 with
      | none => True
      | some (_, suffix) => suffix ≠ "_FUNC".toList ∧ suffix ≠ "_SP_FUNC".toList) :
    readButtonConfig s j option0 parameters = some s := by
  unfold readButtonConfig
  unfold buttonOptionParts at hu
  cases hs : strchr '_' option0 with
  | none => rfl
  | some len =>
    simp only [hs] at hu ⊢
    by_cases hlen : len > 2 ∨ len = 0
    · rw [if_pos hlen]
    · rw [if_neg hlen] at hu ⊢
      by_cases hb : Util_sscandec (List.take len option0) ≥ MAX_GAMEPAD_BUTTONS
      · rw [if_pos hb]
      · rw [if_neg hb] at hu ⊢
        simp only [if_neg hu.1, if_neg hu.2]

/-- `GamePads_Read_Config` on an option it does not recognise, a value being
present: the first touch initialises the configuration, the masks are marked
invalid, and nothing else happens. -/
theorem read_unknown (h : Host) (option v : List Char) (s : State) (hu : unknownPadOption option) :
    GamePads_Read_Config h option (some v) s
      = some { resetOnFirstTouch s with gamepad_masks_valid := 0 } := by
  unfold GamePads_Read_Config
  unfold unknownPadOption padOptionParts at hu
  cases hs : strchr '_' option with
  | none => simp only [hs]
  | some len =>
    simp only [hs] at hu ⊢
    by_cases hlen : len > 2 ∨ len = 0
    · rw [if_pos hlen]
    · rw [if_neg hlen] at hu ⊢
      by_cases hj : Util_sscandec (List.take len option) ≥ MAX_GAMEPADS
      · rw [if_pos hj]
      · rw [if_neg hj] at hu ⊢
        obtain ⟨hk, hbtn⟩ := hu
        simp only [knownPadFields, List.mem_cons, List.not_mem_nil, or_false, not_or] at hk
        obtain ⟨k1, k2, k3, k4, k5, k6, k7, k8, k9, k10⟩ := hk
        simp only [if_neg k1, if_neg k2, if_neg k3, if_neg k4, if_neg k5, if_neg k6, if_neg k7,
          if_neg k8, if_neg k9, if_neg k10]
        by_cases hb : (List.drop len option).take 8 = "_BUTTON_".toList
        · rw [if_pos hb]
          exact readButton_unknown _ _ _ _ (hbtn hb)
        · rw [if_neg hb]

/-- `SDL_INPUT_ReadConfig` hands every option that starts with `SDL_PAD_` to
`GamePads_Read_Config` and reports it as handled. -/
theorem readConfig_pad_any (K : Consts) (h : Host) (rest : List Char) (p : Option (List Char))
    (t : State) :
    SDL_INPUT_ReadConfig K h ("SDL_PAD_".toList ++ rest) p t
      = (GamePads_Read_Config h rest p t).map (fun u => (u, 1)) := by
  simp only [SDL_INPUT_ReadConfig, keyboard_skips_pad]
  rfl

/-- C16 fails as stated: the option `SDL_PAD_0_FOO` names no known field, and
`SDL_INPUT_ReadConfig` reports it as handled (result 1, not 0). -/
theorem unknown_option_counterexample :
    unknownPadOption "0_FOO".toList
    ∧ (SDL_INPUT_ReadConfig stdConsts (sampleHost 0 0 0 []) "SDL_PAD_0_FOO".toList
        (some "1".toList) (sampleState 1 defaultConfig)).map Prod.snd = some 1 := by
  refine ⟨?_, by decide!⟩
  unfold unknownPadOption
  have e : padOptionParts "0_FOO".toList = some (0, "_FOO".toList) := by decide
  rw [e]
  exact ⟨by decide, fun hb => absurd hb (by decide)⟩

/-- C16 (amended): an option that is no key of `Keyboard_ReadConfig` and does
not start with `SDL_PAD_` is reported as not handled and changes nothing.  An
option that starts with `SDL_PAD_` is always reported as handled; when
`GamePads_Read_Config` does not recognise the rest of it, the only effects are
the initialisation of the gamepad configuration on the first touch and the
invalidation of the masks: no key binding changes, and no field of an
initialised gamepad configuration changes. -/
theorem unknown_option (K : Consts) (h : Host) (o : List Char) (p : Option (List Char))
    (s : State) :
    (o ∉ keyboardKeys → o.take 8 ≠ "SDL_PAD_".toList → SDL_INPUT_ReadConfig K h o p s = some (s, 0))
    ∧ (∀ rest, o = "SDL_PAD_".toList ++ rest →
        ∀ u r, SDL_INPUT_ReadConfig K h o p s = some (u, r) → r = 1)
    ∧ (∀ rest v, o = "SDL_PAD_".toList ++ rest → p = some v → unknownPadOption rest →
        SDL_INPUT_ReadConfig K h o p s
          = some ({ resetOnFirstTouch s with gamepad_masks_valid := 0 }, 1))
    ∧ (∀ rest, o = "SDL_PAD_".toList ++ rest → p = none →
        SDL_INPUT_ReadConfig K h o p s = some (resetOnFirstTouch s, 1))
    ∧ (resetOnFirstTouch s).keys = s.keys
    ∧ (s.gamepad_config_reset ≠ 0 →
        (resetOnFirstTouch s).gamepad_configuration = s.gamepad_configuration) := by
  refine ⟨fun h1 h2 => ?_, fun rest ho u r hr => ?_, fun rest v ho hp hu => ?_,
    fun rest ho hp => ?_, ?_, fun hs => ?_⟩
  · simp only [SDL_INPUT_ReadConfig, keyboard_unknown K o p s h1, ne_eq, not_true_eq_false,
      if_false, if_neg h2]
  · rw [ho, readConfig_pad_any] at hr
    cases hg : GamePads_Read_Config h rest p s with
    | none => rw [hg] at hr; exact absurd hr (by simp)
    | some w =>
      rw [hg] at hr
      simp only [Option.map_some', Option.some.injEq, Prod.mk.injEq] at hr
      exact hr.2.symm
  · rw [ho, hp, readConfig_pad_any, read_unknown h rest v s hu]
    rfl
  · rw [ho, hp, readConfig_pad_any]
    rfl
  · unfold resetOnFirstTouch
    split_ifs <;> rfl
  · unfold resetOnFirstTouch
    rw [if_neg hs]

/-- What `GamePads_Read_Config` stores for a malformed value in a pad `i`
below 4: a value that is not a non-empty string of digits leaves -1 in the
deadzone and in the select button, and 1 in the half-period of the autofire,
the one field whose branch tests the scanned value; a value that is neither `0`
nor `1` leaves -1 in the radial flag and in the four use flags. -/
theorem read_malformed (h : Host) (i : Nat) (hi : i < 4) (v : List Char) (t : State) :
    (¬ decimalDigits v →
      GamePads_Read_Config h (fmt_d (i : Int) ++ "_JOY_DEADZONE".toList) (some v) t
          = some (padEdit i (fun c => { c with deadzone := -1 }) (resetOnFirstTouch t))
      ∧ GamePads_Read_Config h (fmt_d (i : Int) ++ "_IN_MENUS_SELECT_BUTTON".toList) (some v) t
          = some (padEdit i (fun c => { c with in_menus_select_button := -1 }) (resetOnFirstTouch t))
      ∧ GamePads_Read_Config h (fmt_d (i : Int) ++ "_AUTOFIRE_FREQ".toList) (some v) t
          = some (padEdit i (fun c => { c with autofire_freq := 1 }) (resetOnFirstTouch t)))
    ∧ (v ≠ [ '0' ] → v ≠ [ '1' ] →
      GamePads_Read_Config h (fmt_d (i : Int) ++ "_JOY_RADIAL".toList) (some v) t
          = some (padEdit i (fun c => { c with radial := -1 }) (resetOnFirstTouch t))
      ∧ GamePads_Read_Config h (fmt_d (i : Int) ++ "_JOY_USE_AS_STICK".toList) (some v) t
          = some (padEdit i (fun c => { c with use_as_stick := -1 }) (resetOnFirstTouch t))
      ∧ GamePads_Read_Config h (fmt_d (i : Int) ++ "_HAT_USE_AS_STICK".toList) (some v) t
          = some (padEdit i (fun c => { c with use_hat_as_stick := -1 }) (resetOnFirstTouch t))
      ∧ GamePads_Read_Config h (fmt_d (i : Int) ++ "_JOY_USE_IN_MENUS".toList) (some v) t
          = some (padEdit i (fun c => { c with use_in_menus := -1 }) (resetOnFirstTouch t))
      ∧ GamePads_Read_Config h (fmt_d (i : Int) ++ "_HAT_USE_IN_MENUS".toList) (some v) t
          = some (padEdit i (fun c => { c with use_hat_in_menus := -1 }) (resetOnFirstTouch t))) := by
  have hr := resetOnFirstTouch_reset t
  refine ⟨fun hv => ?_, fun h0 h1 => ?_⟩
  · have hd := sscandec_malformed v hv
    refine ⟨?_, ?_, ?_⟩
    · rw [read_config_reset, read_deadzone h i hi v _ hr, hd]
    · rw [read_config_reset, read_select_button h i hi v _ hr, hd]
    · rw [read_config_reset, read_autofire_freq h i hi v _ hr, hd]
      rfl
  · have hb : Util_sscanbool v = -1 := by
      unfold Util_sscanbool
      rw [if_neg h0, if_neg h1]
    refine ⟨?_, ?_, ?_, ?_, ?_⟩
    · rw [read_config_reset, read_radial h i hi v _ hr, hb]
    · rw [read_config_reset, read_use_as_stick h i hi v _ hr, hb]
    · rw [read_config_reset, read_use_hat_as_stick h i hi v _ hr, hb]
    · rw [read_config_reset, read_use_in_menus h i hi v _ hr, hb]
    · rw [read_config_reset, read_use_hat_in_menus h i hi v _ hr, hb]

/-- C17, the failing inputs: pad 0 has the deadzone 15000 and the radial flag
1; the line `0_JOY_DEADZONE=abc` leaves the deadzone -1 and the line
`0_JOY_RADIAL=yes` leaves the flag -1, where the claim has the field keep its
value.  The branches of lines 417-454 assign what the scanner reports without
a test: for every pad below 4, a value that is not a non-empty string of
digits leaves -1 in the deadzone and in the select button, and a value that is
neither `0` nor `1` leaves -1 in the radial flag and in the four use flags.
The sibling paths test the scanned value: the line `0_AUTOFIRE_FREQ=abc` stores
1, not -1, and the line `SDL_JOY_0_LEFT=abc` is rejected by `SDLKeyBind` and
leaves the binding as it is. -/
theorem read_malformed_unvalidated :
    ¬ decimalDigits "abc".toList
    ∧ ((sampleState 1 defaultConfig).gamepad_configuration 0).deadzone = 15000
    ∧ (GamePads_Read_Config (sampleHost 0 0 0 []) "0_JOY_DEADZONE".toList (some "abc".toList)
        (sampleState 1 defaultConfig)).map (fun t => (t.gamepad_configuration 0).deadzone)
      = some (-1)
    ∧ ((sampleState 1 defaultConfig).gamepad_configuration 0).radial = 1
    ∧ (GamePads_Read_Config (sampleHost 0 0 0 []) "0_JOY_RADIAL".toList (some "yes".toList)
        (sampleState 1 defaultConfig)).map (fun t => (t.gamepad_configuration 0).radial)
      = some (-1)
    ∧ (GamePads_Read_Config (sampleHost 0 0 0 []) "0_AUTOFIRE_FREQ".toList (some "abc".toList)
        (sampleState 1 defaultConfig)).map (fun t => (t.gamepad_configuration 0).autofire_freq)
      = some 1
    ∧ (sampleState 1 defaultConfig).keys.KBD_STICK_0_LEFT = 260
    ∧ (Keyboard_ReadConfig stdConsts "SDL_JOY_0_LEFT".toList (some "abc".toList)
        (sampleState 1 defaultConfig)).1.keys.KBD_STICK_0_LEFT = 260
    ∧ (Keyboard_ReadConfig stdConsts "SDL_JOY_0_LEFT".toList (some "abc".toList)
        (sampleState 1 defaultConfig)).2 = 0
    ∧ (∀ (h : Host) (i : Nat) (v : List Char) (t : State), i < 4 → ¬ decimalDigits v →
        GamePads_Read_Config h (fmt_d (i : Int) ++ "_JOY_DEADZONE".toList) (some v) t
            = some (padEdit i (fun c => { c with deadzone := -1 }) (resetOnFirstTouch t))
        ∧ GamePads_Read_Config h (fmt_d (i : Int) ++ "_IN_MENUS_SELECT_BUTTON".toList) (some v) t
            = some (padEdit i (fun c => { c with in_menus_select_button := -1 })
                (resetOnFirstTouch t)))
    ∧ (∀ (h : Host) (i : Nat) (v : List Char) (t : State), i < 4 → v ≠ [ '0' ] → v ≠ [ '1' ] →
        GamePads_Read_Config h (fmt_d (i : Int) ++ "_JOY_RADIAL".toList) (some v) t
            = some (padEdit i (fun c => { c with radial := -1 }) (resetOnFirstTouch t))
        ∧ GamePads_Read_Config h (fmt_d (i : Int) ++ "_JOY_USE_AS_STICK".toList) (some v) t
            = some (padEdit i (fun c => { c with use_as_stick := -1 }) (resetOnFirstTouch t))
        ∧ GamePads_Read_Config h (fmt_d (i : Int) ++ "_HAT_USE_AS_STICK".toList) (some v) t
            = some (padEdit i (fun c => { c with use_hat_as_stick := -1 }) (resetOnFirstTouch t))
        ∧ GamePads_Read_Config h (fmt_d (i : Int) ++ "_JOY_USE_IN_MENUS".toList) (some v) t
            = some (padEdit i (fun c => { c with use_in_menus := -1 }) (resetOnFirstTouch t))
        ∧ GamePads_Read_Config h (fmt_d (i : Int) ++ "_HAT_USE_IN_MENUS".toList) (some v) t
            = some (padEdit i (fun c => { c with use_hat_in_menus := -1 })
                (resetOnFirstTouch t))) := by
  refine ⟨by decide, by decide!, by decide!, by decide!, by decide!, by decide!, by decide,
    by decide, by decide, ?_, ?_⟩
  · intro h i v t hi hv
    have hm := (read_malformed h i hi v t).1 hv
    exact ⟨hm.1, hm.2.1⟩
  · intro h i v t hi h0 h1
    exact (read_malformed h i hi v t).2 h0 h1

/-- C18, the failing input: the pad index `x` scans to -1, which passes the
test `joy_number >= MAX_GAMEPADS`, so the line `x_JOY_DEADZONE=5` writes
`gamepad_configuration[-1]`; likewise the button index `x` of the line
`0_BUTTON_x_FUNC=FNPAD_EXIT` scans to -1 and the line writes
`button_functions[-1]`.  An index 4 or 16 is rejected. -/
theorem pad_index_unchecked :
    Util_sscandec "x".toList = -1
    ∧ (GamePads_Read_Config (sampleHost 0 0 0 []) "x_JOY_DEADZONE".toList (some "5".toList)
        (sampleState 1 defaultConfig)).isNone = true
    ∧ (GamePads_Read_Config (sampleHost 0 0 0 []) "0_BUTTON_x_FUNC".toList
        (some "FNPAD_EXIT".toList) (sampleState 1 defaultConfig)).isNone = true
    ∧ (GamePads_Read_Config (sampleHost 0 0 0 []) "4_JOY_DEADZONE".toList (some "5".toList)
        (sampleState 1 defaultConfig)).map (fun t => (t.gamepad_configuration 0).deadzone)
      = some 15000
    ∧ (GamePads_Read_Config (sampleHost 0 0 0 []) "0_BUTTON_16_FUNC".toList
        (some "FNPAD_EXIT".toList) (sampleState 1 defaultConfig)).map
        (fun t => (t.gamepad_configuration 0).button_functions 0)
      = some FNPAD_FIRE_HOLD := by
  decide!

/-! ## The range of the button index -/

/-- C20 fails as stated: for the button indices 32 and -1 of pad 0 and for the
gamepad index 4 the function does not return `FNPAD_NONE`; it reads outside the
tables. -/
theorem function_for_button_counterexample :
    GamePads_GetFunctionForButton_int (sampleState 1 defaultConfig) 0 32 ≠ some FNPAD_NONE
    ∧ GamePads_GetFunctionForButton_int (sampleState 1 defaultConfig) 0 32 = none
    ∧ GamePads_GetFunctionForButton_int (sampleState 1 defaultConfig) 0 (-1) = none
    ∧ GamePads_GetFunctionForButton_int (sampleState 1 defaultConfig) 4 0 = none := by
  decide

/-- C20 (amended): for a gamepad index 0..3, `GamePads_GetFunctionForButton`
returns the entry of the normal bank for a button index 0..15 and the entry of
the shifted bank at `index - 16` for a button index 16..31.  There is no range
check: for every other button index and every other gamepad index the access
is outside the tables.  Within the ranges the value is the one the button
loops of the embedding read. -/
theorem function_for_button (s : State) (g b : Int) :
    (0 ≤ g → g < 4 → 0 ≤ b → b < 16 →
      GamePads_GetFunctionForButton_int s g b
        = some ((s.gamepad_configuration g.toNat).button_functions b.toNat))
    ∧ (0 ≤ g → g < 4 → 16 ≤ b → b < 32 →
      GamePads_GetFunctionForButton_int s g b
        = some ((s.gamepad_configuration g.toNat).button_sp_functions (b - 16).toNat))
    ∧ (0 ≤ g → g < 4 → 0 ≤ b → b < 32 →
      GamePads_GetFunctionForButton_int s g b
        = some (GamePads_GetFunctionForButton (s.gamepad_configuration g.toNat) b.toNat))
    ∧ ((b < 0 ∨ 32 ≤ b ∨ g < 0 ∨ 4 ≤ g) → GamePads_GetFunctionForButton_int s g b = none) := by
  refine ⟨fun h1 h2 h3 h4 => ?_, fun h1 h2 h3 h4 => ?_, fun h1 h2 h3 h4 => ?_, fun hh => ?_⟩
  · unfold GamePads_GetFunctionForButton_int MAX_GAMEPADS MAX_PAD_BUTTONS
    rw [if_neg (by push_cast; omega), if_neg (by omega), if_neg (by omega)]
  · unfold GamePads_GetFunctionForButton_int MAX_GAMEPADS MAX_PAD_BUTTONS
    rw [if_neg (by push_cast; omega), if_pos (by omega), if_neg (by push_cast; omega)]
  · unfold GamePads_GetFunctionForButton_int GamePads_GetFunctionForButton MAX_GAMEPADS
      MAX_PAD_BUTTONS
    rw [if_neg (by push_cast; omega)]
    by_cases hb : b ≥ 16
    · have e : (b - 16).toNat = b.toNat - 16 := by omega
      rw [if_pos hb, if_neg (by push_cast; omega), if_pos (by omega), e]
    · rw [if_neg hb, if_neg (by omega), if_neg (by omega)]
  · unfold GamePads_GetFunctionForButton_int MAX_GAMEPADS MAX_PAD_BUTTONS
    by_cases hg : g < 0 ∨ g ≥ ((4 : Nat) : Int)
    · rw [if_pos hg]
    · rw [if_neg hg]
      have hg' : 0 ≤ g ∧ g < 4 := by push_cast at hg; omega
      by_cases hb : b ≥ 16
      · rw [if_pos hb, if_pos (by push_cast; omega)]
      · rw [if_neg hb, if_pos (by omega)]

/-! ## The first touch of the configuration -/

theorem setPad_some (s : State) (jn : Int)
    (f : SDL_INPUT_RealJSConfig_t → SDL_INPUT_RealJSConfig_t) (t : State)
    (ht : setPad s jn f = some t) :
    0 ≤ jn ∧ t = { s with
      gamepad_configuration :=
        Function.update s.gamepad_configuration jn.toNat (f (s.gamepad_configuration jn.toNat)) } := by
  unfold setPad at ht
  by_cases hj : jn < 0
  · rw [if_pos hj] at ht; exact absurd ht (by simp)
  · rw [if_neg hj] at ht
    exact ⟨by omega, (Option.some.inj ht).symm⟩

/-- The shape of a successful `readButtonConfig`. -/
theorem readButton_some (s : State) (jn : Int) (option0 v : List Char) (t : State)
    (ht : readButtonConfig s jn option0 v = some t) :
    t = s
    ∨ ∃ bn, 0 ≤ bn ∧ 0 ≤ jn
        ∧ ((buttonOptionParts option0 = some (bn, "_FUNC".toList)
            ∧ t = { s with
              gamepad_configuration :=
                Function.update s.gamepad_configuration jn.toNat
                  { s.gamepad_configuration jn.toNat with
                    button_functions :=
                      Function.update (s.gamepad_configuration jn.toNat).button_functions bn.toNat
                        (StringToPadFunction v) } })
          ∨ (buttonOptionParts option0 = some (bn, "_SP_FUNC".toList)
            ∧ t = { s with
              gamepad_configuration :=
                Function.update s.gamepad_configuration jn.toNat
                  { s.gamepad_configuration jn.toNat with
                    button_sp_functions :=
                      Function.update (s.gamepad_configuration jn.toNat).button_sp_functions bn.toNat
                        (StringToPadFunction v) } })) := by
  unfold readButtonConfig at ht
  unfold buttonOptionParts
  cases hs : strchr '_' option0 with
  | none =>
    simp only [hs] at ht
    exact Or.inl (Option.some.inj ht).symm
  | some len =>
    simp only [hs] at ht ⊢
    by_cases hlen : len > 2 ∨ len = 0
    · rw [if_pos hlen] at ht
      exact Or.inl (Option.some.inj ht).symm
    · rw [if_neg hlen] at ht ⊢
      by_cases hb : Util_sscandec (List.take len option0) ≥ MAX_GAMEPAD_BUTTONS
      · rw [if_pos hb] at ht
        exact Or.inl (Option.some.inj ht).symm
      · rw [if_neg hb] at ht ⊢
        by_cases h1 : List.drop len option0 = "_FUNC".toList
        · rw [if_pos h1] at ht
          by_cases hn : Util_sscandec (List.take len option0) < 0
          · rw [if_pos hn] at ht; exact absurd ht (by simp)
          · rw [if_neg hn] at ht
            obtain ⟨hj, rfl⟩ := setPad_some _ _ _ _ ht
            exact Or.inr ⟨_, by omega, hj, Or.inl ⟨by rw [h1], rfl⟩⟩
        · rw [if_neg h1] at ht
          by_cases h2 : List.drop len option0 = "_SP_FUNC".toList
          · rw [if_pos h2] at ht
            by_cases hn : Util_sscandec (List.take len option0) < 0
            · rw [if_pos hn] at ht; exact absurd ht (by simp)
            · rw [if_neg hn] at ht
              obtain ⟨hj, rfl⟩ := setPad_some _ _ _ _ ht
              exact Or.inr ⟨_, by omega, hj, Or.inr ⟨by rw [h2], rfl⟩⟩
          · rw [if_neg h2] at ht
            exact Or.inl (Option.some.inj ht).symm

theorem keepsOtherFields_refl (o : List Char) (i : Nat) (c : SDL_INPUT_RealJSConfig_t) :
    KeepsOtherFields o i c c :=
  ⟨fun _ => rfl, fun _ => rfl, fun _ => rfl, fun _ => rfl, fun _ => rfl, fun _ => rfl,
    fun _ => rfl, fun _ => rfl, fun _ => rfl, fun _ => rfl, fun _ => rfl, rfl, fun _ _ => rfl,
    fun _ _ => rfl⟩

/-- A write to the configuration of the pad `joy_number` by an edit that keeps
the fields the line does not address. -/
theorem setPad_keeps (o : List Char) (s : State) (jn : Int)
    (f : SDL_INPUT_RealJSConfig_t → SDL_INPUT_RealJSConfig_t) (t : State) (i : Nat)
    (field : List Char) (hlf : lineField o i = if jn = (i : Int) then some field else none)
    (ht : setPad s jn f = some t)
    (hf : ∀ c, lineField o i = some field →
      KeepsOtherFields o i c (f c) ∧ (1 ≤ c.autofire_freq → 1 ≤ (f c).autofire_freq)) :
    t.gamepad_config_reset = s.gamepad_config_reset
    ∧ KeepsOtherFields o i (s.gamepad_configuration i) (t.gamepad_configuration i)
    ∧ (1 ≤ (s.gamepad_configuration i).autofire_freq →
        1 ≤ (t.gamepad_configuration i).autofire_freq) := by
  obtain ⟨hj0, rfl⟩ := setPad_some _ _ _ _ ht
  refine ⟨rfl, ?_⟩
  by_cases hij : jn = (i : Int)
  · rw [if_pos hij] at hlf
    have e : jn.toNat = i := by omega
    subst e
    simp only [Function.update_same]
    exact hf _ hlf
  · have e : i ≠ jn.toNat := by omega
    simp only [Function.update_noteq e]
    exact ⟨keepsOtherFields_refl _ _ _, id⟩

/-- The lines 417-484 of `GamePads_Read_Config`, for the pad number
`joy_number` and the rest `field` of the option: what a successful call
leaves of the configurations. -/
theorem readField_frame (h : Host) (o v : List Char) (s t : State) (jn : Int) (field : List Char)
    (i : Nat) (hlf : lineField o i = if jn = (i : Int) then some field else none)
    (ht : (if field = "_JOY_RADIAL".toList then
            setPad s jn (fun c => { c with radial := Util_sscanbool v })
          else if field = "_JOY_DEADZONE".toList then
            setPad s jn (fun c => { c with deadzone := Util_sscandec v })
          else if field = "_JOY_TOLERANCE".toList then
            setPad s jn (fun c => { c with tolerance := scannedFloat h v })
          else if field = "_JOY_RADIAL_TOLERANCE".toList then
            setPad s jn (fun c => { c with radial_tolerance := scannedFloat h v })
          else if field = "_JOY_USE_AS_STICK".toList then
            setPad s jn (fun c => { c with use_as_stick := Util_sscanbool v })
          else if field = "_HAT_USE_AS_STICK".toList then
            setPad s jn (fun c => { c with use_hat_as_stick := Util_sscanbool v })
          else if field = "_JOY_USE_IN_MENUS".toList then
            setPad s jn (fun c => { c with use_in_menus := Util_sscanbool v })
          else if field = "_HAT_USE_IN_MENUS".toList then
            setPad s jn (fun c => { c with use_hat_in_menus := Util_sscanbool v })
          else if field = "_IN_MENUS_SELECT_BUTTON".toList then
            setPad s jn (fun c => { c with in_menus_select_button := Util_sscandec v })
          else if field = "_AUTOFIRE_FREQ".toList then
            setPad s jn (fun c => { c with
              autofire_freq := if Util_sscandec v ≤ 0 then 1 else Util_sscandec v })
          else if field.take 8 = "_BUTTON_".toList then
            readButtonConfig s jn (field.drop 8) v
          else some s) = some t) :
    t.gamepad_config_reset = s.gamepad_config_reset
    ∧ KeepsOtherFields o i (s.gamepad_configuration i) (t.gamepad_configuration i)
    ∧ (1 ≤ (s.gamepad_configuration i).autofire_freq →
        1 ≤ (t.gamepad_configuration i).autofire_freq) := by
  by_cases k : field = "_JOY_RADIAL".toList
  · rw [if_pos k] at ht
    subst k
    refine setPad_keeps o s jn _ t i _ hlf ht (fun c hl => ⟨⟨fun hn => ?_, fun hne => ?_,
      fun hne => ?_, fun hne => ?_, fun hne => ?_, fun hne => ?_, fun hne => ?_, fun hne => ?_,
      fun hne => ?_, fun hne => ?_, fun hne => ?_, rfl, fun _ _ => rfl, fun _ _ => rfl⟩,
      fun hh => ?_⟩)
    · rw [hl] at hn; exact absurd hn (by simp)
    all_goals first
      | rfl
      | exact absurd hl hne
      | exact hh
  rw [if_neg k] at ht
  clear k
  by_cases k : field = "_JOY_DEADZONE".toList
  · rw [if_pos k] at ht
    subst k
    refine setPad_keeps o s jn _ t i _ hlf ht (fun c hl => ⟨⟨fun hn => ?_, fun hne => ?_,
      fun hne => ?_, fun hne => ?_, fun hne => ?_, fun hne => ?_, fun hne => ?_, fun hne => ?_,
      fun hne => ?_, fun hne => ?_, fun hne => ?_, rfl, fun _ _ => rfl, fun _ _ => rfl⟩,
      fun hh => ?_⟩)
    · rw [hl] at hn; exact absurd hn (by simp)
    all_goals first
      | rfl
      | exact absurd hl hne
      | exact hh
  rw [if_neg k] at ht
  clear k
  by_cases k : field = "_JOY_TOLERANCE".toList
  · rw [if_pos k] at ht
    subst k
    refine setPad_keeps o s jn _ t i _ hlf ht (fun c hl => ⟨⟨fun hn => ?_, fun hne => ?_,
      fun hne => ?_, fun hne => ?_, fun hne => ?_, fun hne => ?_, fun hne => ?_, fun hne => ?_,
      fun hne => ?_, fun hne => ?_, fun hne => ?_, rfl, fun _ _ => rfl, fun _ _ => rfl⟩,
      fun hh => ?_⟩)
    · rw [hl] at hn; exact absurd hn (by simp)
    all_goals first
      | rfl
      | exact absurd hl hne
      | exact hh
  rw [if_neg k] at ht
  clear k
  by_cases k : field = "_JOY_RADIAL_TOLERANCE".toList
  · rw [if_pos k] at ht
    subst k
    refine setPad_keeps o s jn _ t i _ hlf ht (fun c hl => ⟨⟨fun hn => ?_, fun hne => ?_,
      fun hne => ?_, fun hne => ?_, fun hne => ?_, fun hne => ?_, fun hne => ?_, fun hne => ?_,
      fun hne => ?_, fun hne => ?_, fun hne => ?_, rfl, fun _ _ => rfl, fun _ _ => rfl⟩,
      fun hh => ?_⟩)
    · rw [hl] at hn; exact absurd hn (by simp)
    all_goals first
      | rfl
      | exact absurd hl hne
      | exact hh
  rw [if_neg k] at ht
  clear k
  by_cases k : field = "_JOY_USE_AS_STICK".toList
  · rw [if_pos k] at ht
    subst k
    refine setPad_keeps o s jn _ t i _ hlf ht (fun c hl => ⟨⟨fun hn => ?_, fun hne => ?_,
      fun hne => ?_, fun hne => ?_, fun hne => ?_, fun hne => ?_, fun hne => ?_, fun hne => ?_,
      fun hne => ?_, fun hne => ?_, fun hne => ?_, rfl, fun _ _ => rfl, fun _ _ => rfl⟩,
      fun hh => ?_⟩)
    · rw [hl] at hn; exact absurd hn (by simp)
    all_goals first
      | rfl
      | exact absurd hl hne
      | exact hh
  rw [if_neg k] at ht
  clear k
  by_cases k : field = "_HAT_USE_AS_STICK".toList
  · rw [if_pos k] at ht
    subst k
    refine setPad_keeps o s jn _ t i _ hlf ht (fun c hl => ⟨⟨fun hn => ?_, fun hne => ?_,
      fun hne => ?_, fun hne => ?_, fun hne => ?_, fun hne => ?_, fun hne => ?_, fun hne => ?_,
      fun hne => ?_, fun hne => ?_, fun hne => ?_, rfl, fun _ _ => rfl, fun _ _ => rfl⟩,
      fun hh => ?_⟩)
    · rw [hl] at hn; exact absurd hn (by simp)
    all_goals first
      | rfl
      | exact absurd hl hne
      | exact hh
  rw [if_neg k] at ht
  clear k
  by_cases k : field = "_JOY_USE_IN_MENUS".toList
  · rw [if_pos k] at ht
    subst k
    refine setPad_keeps o s jn _ t i _ hlf ht (fun c hl => ⟨⟨fun hn => ?_, fun hne => ?_,
      fun hne => ?_, fun hne => ?_, fun hne => ?_, fun hne => ?_, fun hne => ?_, fun hne => ?_,
      fun hne => ?_, fun hne => ?_, fun hne => ?_, rfl, fun _ _ => rfl, fun _ _ => rfl⟩,
      fun hh => ?_⟩)
    · rw [hl] at hn; exact absurd hn (by simp)
    all_goals first
      | rfl
      | exact absurd hl hne
      | exact hh
  rw [if_neg k] at ht
  clear k
  by_cases k : field = "_HAT_USE_IN_MENUS".toList
  · rw [if_pos k] at ht
    subst k
    refine setPad_keeps o s jn _ t i _ hlf ht (fun c hl => ⟨⟨fun hn => ?_, fun hne => ?_,
      fun hne => ?_, fun hne => ?_, fun hne => ?_, fun hne => ?_, fun hne => ?_, fun hne => ?_,
      fun hne => ?_, fun hne => ?_, fun hne => ?_, rfl, fun _ _ => rfl, fun _ _ => rfl⟩,
      fun hh => ?_⟩)
    · rw [hl] at hn; exact absurd hn (by simp)
    all_goals first
      | rfl
      | exact absurd hl hne
      | exact hh
  rw [if_neg k] at ht
  clear k
  by_cases k : field = "_IN_MENUS_SELECT_BUTTON".toList
  · rw [if_pos k] at ht
    subst k
    refine setPad_keeps o s jn _ t i _ hlf ht (fun c hl => ⟨⟨fun hn => ?_, fun hne => ?_,
      fun hne => ?_, fun hne => ?_, fun hne => ?_, fun hne => ?_, fun hne => ?_, fun hne => ?_,
      fun hne => ?_, fun hne => ?_, fun hne => ?_, rfl, fun _ _ => rfl, fun _ _ => rfl⟩,
      fun hh => ?_⟩)
    · rw [hl] at hn; exact absurd hn (by simp)
    all_goals first
      | rfl
      | exact absurd hl hne
      | exact hh
  rw [if_neg k] at ht
  clear k
  by_cases k : field = "_AUTOFIRE_FREQ".toList
  · rw [if_pos k] at ht
    subst k
    refine setPad_keeps o s jn _ t i _ hlf ht (fun c hl => ⟨⟨fun hn => ?_, fun hne => ?_,
      fun hne => ?_, fun hne => ?_, fun hne => ?_, fun hne => ?_, fun hne => ?_, fun hne => ?_,
      fun hne => ?_, fun hne => ?_, fun hne => ?_, rfl, fun _ _ => rfl, fun _ _ => rfl⟩,
      fun hh => ?_⟩)
    · rw [hl] at hn; exact absurd hn (by simp)
    all_goals first
      | rfl
      | exact absurd hl hne
      | (show (1 : Int) ≤ (if _ then _ else _); split_ifs <;> omega)
  rw [if_neg k] at ht
  clear k
  by_cases kb : field.take 8 = "_BUTTON_".toList
  · rw [if_pos kb] at ht
    rcases readButton_some _ _ _ _ _ ht with rfl | ⟨bn, hb0, hj0, ⟨hbp, rfl⟩ | ⟨hbp, rfl⟩⟩
    · exact ⟨rfl, keepsOtherFields_refl _ _ _, id⟩
    · refine setPad_keeps o s jn (fun c => { c with
          button_functions := Function.update c.button_functions bn.toNat (StringToPadFunction v) })
        _ i field hlf (by unfold setPad; rw [if_neg (by omega)])
        (fun c hl => ⟨⟨fun hn => ?_, fun _ => rfl, fun _ => rfl, fun _ => rfl, fun _ => rfl,
          fun _ => rfl, fun _ => rfl, fun _ => rfl, fun _ => rfl, fun _ => rfl, fun _ => rfl, rfl,
          fun j hnb => ?_, fun _ _ => rfl⟩, id⟩)
      · rw [hl] at hn; exact absurd hn (by simp)
      · by_cases hjb : j = bn.toNat
        · exfalso
          apply hnb
          refine ⟨field, hl, kb, ?_⟩
          rw [hbp, hjb]
          congr 2
          omega
        · show Function.update _ _ _ j = _
          rw [Function.update_noteq hjb]
    · refine setPad_keeps o s jn (fun c => { c with
          button_sp_functions :=
            Function.update c.button_sp_functions bn.toNat (StringToPadFunction v) })
        _ i field hlf (by unfold setPad; rw [if_neg (by omega)])
        (fun c hl => ⟨⟨fun hn => ?_, fun _ => rfl, fun _ => rfl, fun _ => rfl, fun _ => rfl,
          fun _ => rfl, fun _ => rfl, fun _ => rfl, fun _ => rfl, fun _ => rfl, fun _ => rfl, rfl,
          fun _ _ => rfl, fun j hnb => ?_⟩, id⟩)
      · rw [hl] at hn; exact absurd hn (by simp)
      · by_cases hjb : j = bn.toNat
        · exfalso
          apply hnb
          refine ⟨field, hl, kb, ?_⟩
          rw [hbp, hjb]
          congr 2
          omega
        · show Function.update _ _ _ j = _
          rw [Function.update_noteq hjb]
  · rw [if_neg kb] at ht
    obtain rfl := Option.some.inj ht
    exact ⟨rfl, keepsOtherFields_refl _ _ _, id⟩

/-- What a successful `GamePads_Read_Config` on an initialised state leaves of
the configuration of the pad `i`. -/
theorem read_frame (h : Host) (o : List Char) (p : Option (List Char)) (s t : State)
    (hs : s.gamepad_config_reset ≠ 0) (ht : GamePads_Read_Config h o p s = some t) (i : Nat) :
    t.gamepad_config_reset = s.gamepad_config_reset
    ∧ KeepsOtherFields o i (s.gamepad_configuration i) (t.gamepad_configuration i)
    ∧ (1 ≤ (s.gamepad_configuration i).autofire_freq →
        1 ≤ (t.gamepad_configuration i).autofire_freq) := by
  have er : resetOnFirstTouch s = s := by
    unfold resetOnFirstTouch; rw [if_neg hs]
  unfold GamePads_Read_Config at ht
  rw [er] at ht
  cases p with
  | none =>
    obtain rfl := Option.some.inj ht
    exact ⟨rfl, keepsOtherFields_refl _ _ _, id⟩
  | some v =>
    simp only [] at ht
    cases hsc : strchr '_' o with
    | none =>
      simp only [hsc] at ht
      obtain rfl := Option.some.inj ht
      exact ⟨rfl, keepsOtherFields_refl _ _ _, id⟩
    | some len =>
      simp only [hsc] at ht
      by_cases hlen : len > 2 ∨ len = 0
      · rw [if_pos hlen] at ht
        obtain rfl := Option.some.inj ht
        exact ⟨rfl, keepsOtherFields_refl _ _ _, id⟩
      · rw [if_neg hlen] at ht
        by_cases hj : Util_sscandec (List.take len o) ≥ MAX_GAMEPADS
        · rw [if_pos hj] at ht
          obtain rfl := Option.some.inj ht
          exact ⟨rfl, keepsOtherFields_refl _ _ _, id⟩
        · rw [if_neg hj] at ht
          have hlf : lineField o i
              = if Util_sscandec (List.take len o) = (i : Int) then some (List.drop len o)
                else none := by
            unfold lineField padOptionParts
            simp only [hsc, if_neg hlen, if_neg hj]
          exact readField_frame h o v { s with gamepad_masks_valid := 0 } t _ _ i hlf ht

theorem reset_config_defaults (s : State) (i : Nat) (hi : i < 4) :
    (GamePads_Reset_Config s).gamepad_configuration i = defaultConfig := by
  have e : List.range MAX_GAMEPADS = [0, 1, 2, 3] := by decide
  unfold GamePads_Reset_Config
  rw [e]
  simp only [List.foldl, GamePads_DetermineMasks]
  interval_cases i <;> simp [Function.update]

theorem resetOnFirstTouch_first (s : State) (hs : s.gamepad_config_reset = 0) (i : Nat)
    (hi : i < 4) : (resetOnFirstTouch s).gamepad_configuration i = defaultConfig := by
  unfold resetOnFirstTouch
  rw [if_pos hs]
  exact reset_config_defaults s i hi

theorem resetOnFirstTouch_later (s : State) (hs : s.gamepad_config_reset ≠ 0) :
    resetOnFirstTouch s = s := by
  unfold resetOnFirstTouch; rw [if_neg hs]

theorem resetOnFirstTouch_idem (s : State) :
    resetOnFirstTouch (resetOnFirstTouch s) = resetOnFirstTouch s :=
  resetOnFirstTouch_later _ (resetOnFirstTouch_reset s)

theorem openGamepads_config (js : List (Option Nat)) (s : State) :
    (openGamepads js s).gamepad_configuration = s.gamepad_configuration
    ∧ (openGamepads js s).gamepad_config_reset = s.gamepad_config_reset := by
  induction js generalizing s with
  | nil => exact ⟨rfl, rfl⟩
  | cons j js ih =>
    unfold openGamepads
    by_cases hf : s.gamepads_found < MAX_GAMEPADS
    · rw [if_pos hf]
      cases j with
      | none => exact ih _
      | some b => exact ih _
    · rw [if_neg hf]
      exact ⟨rfl, rfl⟩

theorem init_config (K : Consts) (js : List (Option Nat)) (s : State) :
    (GamePads_Init K js s).gamepad_configuration = (resetOnFirstTouch s).gamepad_configuration
    ∧ (GamePads_Init K js s).gamepad_config_reset = (resetOnFirstTouch s).gamepad_config_reset := by
  unfold GamePads_Init
  exact openGamepads_config js _

/-- C21, the failing input: the line `0_AUTOFIRE_FREQ=5` read into the start-up
state leaves the half-period 5 in pad 0.  The later line
`0_BUTTON_x_FUNC=FNPAD_EXIT` addresses pad 0 and does not address the
half-period; its button index `x` scans to -1, which passes the test
`button_number >= MAX_GAMEPAD_BUTTONS` of line 471, and the line stores the
function code 513 in `button_functions[-1]`, outside the table, so that the
call has no defined result; in `SDL_INPUT_RealJSConfig_t` the member declared
directly before `button_functions` is `autofire_freq`.  The guard is as the
claim says: each of `GamePads_Read_Config`, `GamePads_Write_Config` and
`GamePads_Init` acts on the state that `resetOnFirstTouch` leaves; with the
flag clear the guard gives the four pads the defaults (radial on, deadzone
15000, both tolerances the `float` of 0.1, stick and hat used as stick, menu
use off for both, select button 0, back button 1, half-period 2, every button
of both banks fire-hold); after each of the three the flag is set, and with the
flag set writing leaves the state, initialising leaves the configurations, and
a line read with a defined result leaves every field of every pad that it does
not address. -/
theorem later_read_unchecked_index (K : Consts) (h : Host) (js : List (Option Nat)) (o : List Char)
    (p : Option (List Char)) (s : State) :
    GamePads_Read_Config h o p s = GamePads_Read_Config h o p (resetOnFirstTouch s)
    ∧ GamePads_Write_Config s = GamePads_Write_Config (resetOnFirstTouch s)
    ∧ GamePads_Init K js s = GamePads_Init K js (resetOnFirstTouch s)
    ∧ (s.gamepad_config_reset = 0 →
        ∀ i, i < 4 → (resetOnFirstTouch s).gamepad_configuration i = defaultConfig)
    ∧ (defaultConfig.radial = 1 ∧ defaultConfig.deadzone = 15000
        ∧ defaultConfig.tolerance = f32 (f64 (1 / 10))
        ∧ defaultConfig.radial_tolerance = f32 (f64 (1 / 10))
        ∧ |f32 (f64 (1 / 10)) - 1 / 10| < 1 / 10 ^ 8
        ∧ defaultConfig.use_as_stick = 1 ∧ defaultConfig.use_hat_as_stick = 1
        ∧ defaultConfig.use_in_menus = 0 ∧ defaultConfig.use_hat_in_menus = 0
        ∧ defaultConfig.in_menus_select_button = 0 ∧ defaultConfig.in_menus_back_button = 1
        ∧ defaultConfig.autofire_freq = 2
        ∧ ∀ j, j < 16 → defaultConfig.button_functions j = FNPAD_FIRE_HOLD
            ∧ defaultConfig.button_sp_functions j = FNPAD_FIRE_HOLD)
    ∧ (GamePads_Write_Config s).2.gamepad_config_reset ≠ 0
    ∧ (GamePads_Init K js s).gamepad_config_reset ≠ 0
    ∧ (∀ t, GamePads_Read_Config h o p s = some t → t.gamepad_config_reset ≠ 0)
    ∧ (s.gamepad_config_reset ≠ 0 →
        (GamePads_Write_Config s).2 = s
        ∧ (GamePads_Init K js s).gamepad_configuration = s.gamepad_configuration
        ∧ ∀ t, GamePads_Read_Config h o p s = some t →
            ∀ i, KeepsOtherFields o i (s.gamepad_configuration i) (t.gamepad_configuration i))
    ∧ (readPadLines (sampleHost 0 0 0 [])
          [("0_JOY_DEADZONE".toList, some "5".toList), ("1_JOY_DEADZONE".toList, some "7".toList),
            ("0_JOY_RADIAL".toList, some "0".toList)] (initialState stdConsts)).map
        (fun t => ((t.gamepad_configuration 0).deadzone, (t.gamepad_configuration 0).radial,
          (t.gamepad_configuration 0).autofire_freq, (t.gamepad_configuration 1).deadzone,
          (t.gamepad_configuration 1).radial))
      = some (5, 0, 2, 7, 1)
    ∧ (readPadLines (sampleHost 0 0 0 []) [("0_AUTOFIRE_FREQ".toList, some "5".toList)]
        (initialState stdConsts)).map (fun t => (t.gamepad_configuration 0).autofire_freq)
      = some 5
    ∧ lineField "0_BUTTON_x_FUNC".toList 0 = some "_BUTTON_x_FUNC".toList
    ∧ Util_sscandec "x".toList = -1
    ∧ buttonOptionParts "x_FUNC".toList = some (-1, "_FUNC".toList)
    ∧ StringToPadFunction "FNPAD_EXIT".toList = 513
    ∧ (readPadLines (sampleHost 0 0 0 [])
        [("0_AUTOFIRE_FREQ".toList, some "5".toList),
          ("0_BUTTON_x_FUNC".toList, some "FNPAD_EXIT".toList)]
        (initialState stdConsts)).isNone = true := by
  refine ⟨read_config_reset h o p s, ?_, ?_, fun hs i hi => resetOnFirstTouch_first s hs i hi,
    ?_, resetOnFirstTouch_reset s, ?_, ?_, ?_, ?_, by decide!, by decide, by decide, by decide,
    by decide, by decide!⟩
  · unfold GamePads_Write_Config
    rw [resetOnFirstTouch_idem]
  · unfold GamePads_Init
    rw [resetOnFirstTouch_idem]
  · refine ⟨rfl, rfl, rfl, rfl, by decide!, rfl, rfl, rfl, rfl, rfl, rfl, rfl, ?_⟩
    intro j hj
    unfold defaultConfig MAX_GAMEPAD_BUTTONS
    simp only [if_pos hj, and_self]
  · rw [(init_config K js s).2]
    exact resetOnFirstTouch_reset s
  · intro t ht
    rw [read_config_reset] at ht
    rw [(read_frame h o p _ t (resetOnFirstTouch_reset s) ht 0).1]
    exact resetOnFirstTouch_reset s
  · intro hs
    refine ⟨?_, ?_, fun t ht i => (read_frame h o p s t hs ht i).2.1⟩
    · show resetOnFirstTouch s = s
      exact resetOnFirstTouch_later s hs
    · rw [(init_config K js s).1, resetOnFirstTouch_later s hs]
  · decide!

/-- C22, the failing input: in the state the program starts with, before any
configuration line is read or written and before `GamePads_Init`, the
configuration that `SDL_INPUT_GetRealJSConfig` exposes for each pad 0..3 is the
zero-filled static: deadzone 0, half-period 0, back button 0 and the function
0 for every button, not the defaults; the same read after
`GamePads_Write_Config` finds the defaults. -/
theorem getRealJSConfig_first_access :
    (initialState stdConsts).gamepad_config_reset = 0
    ∧ ∀ i, i < 4 →
      (SDL_INPUT_GetRealJSConfig (initialState stdConsts) i).deadzone = 0
      ∧ (SDL_INPUT_GetRealJSConfig (initialState stdConsts) i).autofire_freq = 0
      ∧ (SDL_INPUT_GetRealJSConfig (initialState stdConsts) i).in_menus_select_button = 0
      ∧ (SDL_INPUT_GetRealJSConfig (initialState stdConsts) i).in_menus_back_button = 0
      ∧ (∀ j, (SDL_INPUT_GetRealJSConfig (initialState stdConsts) i).button_functions j = FNPAD_NONE
          ∧ (SDL_INPUT_GetRealJSConfig (initialState stdConsts) i).button_sp_functions j
            = FNPAD_NONE)
      ∧ SDL_INPUT_GetRealJSConfig (initialState stdConsts) i ≠ defaultConfig
      ∧ SDL_INPUT_GetRealJSConfig (GamePads_Write_Config (initialState stdConsts)).2 i
          = defaultConfig := by
  refine ⟨rfl, fun i hi => ⟨rfl, rfl, rfl, rfl, fun j => ⟨rfl, rfl⟩, ?_, ?_⟩⟩
  · intro hc
    have hd : (0 : Int) = 15000 := congrArg SDL_INPUT_RealJSConfig_t.deadzone hc
    omega
  · exact resetOnFirstTouch_first (initialState stdConsts) rfl i hi

theorem readPadLines_inv (h : Host) (lines : List (List Char × Option (List Char)))
    (s t : State) (hs : s.gamepad_config_reset ≠ 0)
    (hinv : ∀ i, i < 4 → 1 ≤ (s.gamepad_configuration i).autofire_freq)
    (hrun : readPadLines h lines s = some t) :
    t.gamepad_config_reset ≠ 0 ∧ ∀ i, i < 4 → 1 ≤ (t.gamepad_configuration i).autofire_freq := by
  induction lines generalizing s with
  | nil =>
    obtain rfl := Option.some.inj hrun
    exact ⟨hs, hinv⟩
  | cons l lines ih =>
    obtain ⟨o, p⟩ := l
    unfold readPadLines at hrun
    cases hr : GamePads_Read_Config h o p s with
    | none => rw [hr] at hrun; exact absurd hrun (by simp)
    | some u =>
      rw [hr] at hrun
      refine ih u ?_ ?_ hrun
      · rw [(read_frame h o p s u hs hr 0).1]; exact hs
      · intro i hi
        exact (read_frame h o p s u hs hr i).2.2 (hinv i hi)

/-- C23, the failing input: after the default reset, which leaves the
half-period 2 in every pad, the line `0_BUTTON_x_FUNC=FNPAD_NONE` passes the
test of line 471 with the button index -1 and stores the function code 0 in
`button_functions[-1]`, outside the table, so that the call has no defined
result; in `SDL_INPUT_RealJSConfig_t` the member declared directly before
`button_functions` is `autofire_freq`.  Along every sequence of calls with a
defined result the half-period of every pad stays at least 1, and an
`_AUTOFIRE_FREQ` line with any value string stores the scanned number, or 1 when
that is 0 or less: the lines `0_AUTOFIRE_FREQ=0`, `1_AUTOFIRE_FREQ=-3`,
`2_AUTOFIRE_FREQ=abc` and `3_AUTOFIRE_FREQ=7` leave 1, 1, 1 and 7. -/
theorem autofire_freq_unchecked_index :
    Util_sscandec "x".toList = -1
    ∧ buttonOptionParts "x_FUNC".toList = some (-1, "_FUNC".toList)
    ∧ StringToPadFunction "FNPAD_NONE".toList = 0
    ∧ (∀ i, i < 4 →
        ((resetOnFirstTouch (initialState stdConsts)).gamepad_configuration i).autofire_freq = 2)
    ∧ (readPadLines (sampleHost 0 0 0 [])
        [("0_BUTTON_x_FUNC".toList, some "FNPAD_NONE".toList)]
        (resetOnFirstTouch (initialState stdConsts))).isNone = true
    ∧ (∀ (h : Host) (lines : List (List Char × Option (List Char))) (s t : State),
        (s.gamepad_config_reset ≠ 0 →
          ∀ i, i < 4 → 1 ≤ (s.gamepad_configuration i).autofire_freq) →
        readPadLines h lines (resetOnFirstTouch s) = some t →
        ∀ i, i < 4 → 1 ≤ (t.gamepad_configuration i).autofire_freq)
    ∧ (∀ (h : Host) (s : State) (i : Nat) (v : List Char), i < 4 →
        ∃ u, GamePads_Read_Config h (fmt_d (i : Int) ++ "_AUTOFIRE_FREQ".toList) (some v) s = some u
          ∧ (u.gamepad_configuration i).autofire_freq
              = (if Util_sscandec v ≤ 0 then 1 else Util_sscandec v)
          ∧ 1 ≤ (u.gamepad_configuration i).autofire_freq)
    ∧ (readPadLines (sampleHost 0 0 0 [])
        [("0_AUTOFIRE_FREQ".toList, some "0".toList), ("1_AUTOFIRE_FREQ".toList, some "-3".toList),
          ("2_AUTOFIRE_FREQ".toList, some "abc".toList), ("3_AUTOFIRE_FREQ".toList, some "7".toList)]
        (resetOnFirstTouch (initialState stdConsts))).map
      (fun t => ((t.gamepad_configuration 0).autofire_freq, (t.gamepad_configuration 1).autofire_freq,
        (t.gamepad_configuration 2).autofire_freq, (t.gamepad_configuration 3).autofire_freq))
      = some (1, 1, 1, 7) := by
  refine ⟨by decide, by decide, by decide, ?_, by decide!, ?_, ?_, by decide!⟩
  · intro i hi
    rw [resetOnFirstTouch_first _ rfl i hi]
    rfl
  · intro h lines s t hinv hrun
    refine (readPadLines_inv h lines _ t (resetOnFirstTouch_reset s) ?_ hrun).2
    intro i hi
    by_cases hs : s.gamepad_config_reset = 0
    · rw [resetOnFirstTouch_first s hs i hi]
      decide
    · rw [resetOnFirstTouch_later s hs]
      exact hinv hs i hi
  · intro h s i v hi
    rw [read_config_reset, read_autofire_freq h i hi v _ (resetOnFirstTouch_reset s)]
    refine ⟨_, rfl, ?_, ?_⟩
    · simp [padEdit]
    · simp only [padEdit, Function.update_same]
      split_ifs <;> omega

/-! ## The range of the stick components and of the autofire phase -/

theorem updatePad_actual_hat (K : Consts) (h : Host) (n : Nat) (s : State) :
    ((GamePads_UpdatePad K h n s).gamepads_sdl_actual_state n).hx
      = (if h.SDL_JoystickGetHat n &&& K.SDL_HAT_LEFT = K.SDL_HAT_LEFT then -1 else 0)
        + (if h.SDL_JoystickGetHat n &&& K.SDL_HAT_RIGHT = K.SDL_HAT_RIGHT then 1 else 0)
    ∧ ((GamePads_UpdatePad K h n s).gamepads_sdl_actual_state n).hy
      = (if h.SDL_JoystickGetHat n &&& K.SDL_HAT_DOWN = K.SDL_HAT_DOWN then 1 else 0)
        + (if h.SDL_JoystickGetHat n &&& K.SDL_HAT_UP = K.SDL_HAT_UP then -1 else 0) := by
  unfold GamePads_UpdatePad
  by_cases hui : h.UI_is_active = 0 <;> simp [hui, classifyHat]

theorem squareAxis_value (cfg : SDL_INPUT_RealJSConfig_t) (last v : Int) :
    isAxisValue (squareAxis cfg last v) := by
  unfold squareAxis isAxisValue
  simp only []
  split_ifs <;> simp

theorem radialSector_value (actual : gamepads_sdl_state_t) (k : Int)
    (hx : isAxisValue actual.x) (hy : isAxisValue actual.y) :
    isAxisValue (radialSector actual k).x ∧ isAxisValue (radialSector actual k).y := by
  unfold radialSector
  split_ifs <;> first | exact ⟨hx, hy⟩ | (constructor <;> (unfold isAxisValue; simp))

theorem classifyAxes_value (h : Host) (cfg : SDL_INPUT_RealJSConfig_t)
    (last actual : gamepads_sdl_state_t) (x y : Int)
    (hx : isAxisValue actual.x) (hy : isAxisValue actual.y) :
    isAxisValue (classifyAxes h cfg last actual x y).x
    ∧ isAxisValue (classifyAxes h cfg last actual x y).y := by
  unfold classifyAxes
  by_cases hr : cfg.radial ≠ 0
  · simp only [if_pos hr, if_true]
    by_cases hd : cfg.deadzone ≠ 0 ∧ radialDist cfg x y < 1
    · rw [if_pos hd]
      constructor <;> (unfold isAxisValue; simp)
    · rw [if_neg hd]
      exact radialSector_value actual _ hx hy
  · rw [if_neg hr]
    exact ⟨squareAxis_value cfg _ _, squareAxis_value cfg _ _⟩

/-- C24: if the stick components of the current discrete state of the pad are
in {-1, 0, 1} before `GamePads_UpdatePad`, then afterwards, for every raw
sample, every hat pattern, both geometry modes and every earlier state, each of
`x`, `y`, `hx`, `hy` of the current state is one of -1, 0, 1; the state that
the initialisers leave has all four components 0. -/
theorem stick_components (K : Consts) (h : Host) (n : Nat) (s : State)
    (hx : isAxisValue (s.gamepads_sdl_actual_state n).x)
    (hy : isAxisValue (s.gamepads_sdl_actual_state n).y) :
    isAxisValue ((GamePads_UpdatePad K h n s).gamepads_sdl_actual_state n).x
    ∧ isAxisValue ((GamePads_UpdatePad K h n s).gamepads_sdl_actual_state n).y
    ∧ isAxisValue ((GamePads_UpdatePad K h n s).gamepads_sdl_actual_state n).hx
    ∧ isAxisValue ((GamePads_UpdatePad K h n s).gamepads_sdl_actual_state n).hy
    ∧ ((initialState K).gamepads_sdl_actual_state n).x = 0
    ∧ ((initialState K).gamepads_sdl_actual_state n).y = 0
    ∧ ((initialState K).gamepads_sdl_actual_state n).hx = 0
    ∧ ((initialState K).gamepads_sdl_actual_state n).hy = 0 := by
  obtain ⟨e1, e2⟩ := updatePad_actual_xy K h n s
  obtain ⟨e3, e4⟩ := updatePad_actual_hat K h n s
  obtain ⟨c1, c2⟩ := classifyAxes_value h (s.gamepad_configuration n) (s.gamepads_sdl_last_state n)
    (s.gamepads_sdl_actual_state n) (h.SDL_JoystickGetAxis n 0) (h.SDL_JoystickGetAxis n 1) hx hy
  refine ⟨e1 ▸ c1, e2 ▸ c2, ?_, ?_, rfl, rfl, rfl, rfl⟩
  · rw [e3]
    unfold isAxisValue
    split_ifs <;> simp
  · rw [e4]
    unfold isAxisValue
    split_ifs <;> simp

/-- Witness for C24: the pad of the start-up state, its stick at (20000, 0) in
radial mode and the hat to the left: the new state is (1, 0) with the hat at
(-1, 0). -/
theorem stick_components_witness :
    isAxisValue ((sampleState 1 defaultConfig).gamepads_sdl_actual_state 0).x
    ∧ ((GamePads_UpdatePad stdConsts (sampleHost 20000 0 8 []) 0
        (sampleState 1 defaultConfig)).gamepads_sdl_actual_state 0).x = 1
    ∧ ((GamePads_UpdatePad stdConsts (sampleHost 20000 0 8 []) 0
        (sampleState 1 defaultConfig)).gamepads_sdl_actual_state 0).hx = -1
    ∧ isAxisValue ((GamePads_UpdatePad stdConsts (sampleHost 20000 0 8 []) 0
        (sampleState 1 defaultConfig)).gamepads_sdl_actual_state 0).y :=
  ⟨by decide!, by decide!, by decide!,
    (stick_components stdConsts (sampleHost 20000 0 8 []) 0 (sampleState 1 defaultConfig)
      (by decide!) (by decide!)).2.1⟩

/-- C25: with the menu inactive, a half-period `F` of at least 1 and a phase
that is not negative before the cycle, however large, the phase after
`GamePads_UpdatePad` is at least 0 and below `2 F`. -/
theorem autofire_phase_range (K : Consts) (h : Host) (n : Nat) (s : State)
    (hm : h.UI_is_active = 0) (hF : 1 ≤ (s.gamepad_configuration n).autofire_freq)
    (hp : 0 ≤ (s.gamepads_fire_state n).autofire_phase) :
    0 ≤ ((GamePads_UpdatePad K h n s).gamepads_fire_state n).autofire_phase
    ∧ ((GamePads_UpdatePad K h n s).gamepads_fire_state n).autofire_phase
        < 2 * (s.gamepad_configuration n).autofire_freq
    ∧ (GamePads_UpdatePad K h n s).gamepad_configuration = s.gamepad_configuration := by
  rw [updatePad_fire_state K h n s hm]
  refine ⟨?_, ?_, (updatePad_frame K h n s hm).1⟩
  · simp only [fireHandling]
    split_ifs <;> omega
  · simp only [fireHandling]
    split_ifs <;> omega

/-- Witness for C25: the half-period is 2 and the phase left over is 9; after
the cycle the phase is 0. -/
theorem autofire_phase_range_witness :
    ((GamePads_UpdatePad stdConsts (sampleHost 0 0 0 []) 0
        { sampleState 1 defaultConfig with
          gamepads_fire_state := fun _ =>
            { autofire_phase := 9, autofire_toggle_on := 0, autofire_actual_on := 0,
              autofire_last_on := 0, fire_toggle_on := 0, fire := 0 } }).gamepads_fire_state 0
      ).autofire_phase = 0
    ∧ 0 ≤ ((GamePads_UpdatePad stdConsts (sampleHost 0 0 0 []) 0
        { sampleState 1 defaultConfig with
          gamepads_fire_state := fun _ =>
            { autofire_phase := 9, autofire_toggle_on := 0, autofire_actual_on := 0,
              autofire_last_on := 0, fire_toggle_on := 0, fire := 0 } }).gamepads_fire_state 0
      ).autofire_phase :=
  ⟨by decide!,
    (autofire_phase_range stdConsts (sampleHost 0 0 0 []) 0
      { sampleState 1 defaultConfig with
        gamepads_fire_state := fun _ =>
          { autofire_phase := 9, autofire_toggle_on := 0, autofire_actual_on := 0,
            autofire_last_on := 0, fire_toggle_on := 0, fire := 0 } }
      rfl (by decide!) (by decide!)).1⟩

/-! ## The sectors of radial mode -/

theorem f64_quarter_pi : f64 (M_PI / 4) = M_PI / 4 := by decide!

theorem f64_close (q : ℚ) (hq : |q| ≤ 8) : |f64 q - q| ≤ 1 / 2 ^ 49 := by
  have h := f64_err q
  have h1 : |q| / 2 ^ 53 ≤ 8 / 2 ^ 53 := by
    apply div_le_div_of_nonneg_right hq (by positivity)
  have h2 : (1 : ℚ) / 2 ^ 1075 ≤ 1 / 2 ^ 53 := by
    apply one_div_le_one_div_of_le (by positivity)
    exact pow_le_pow_right₀ (by norm_num) (by norm_num)
  have h3 : (8 : ℚ) / 2 ^ 53 + 1 / 2 ^ 53 ≤ 1 / 2 ^ 49 := by norm_num
  linarith

theorem roundAway_eq (r : ℚ) (k : Int) (h1 : (k : ℚ) - 1 / 2 < r) (h2 : r < (k : ℚ) + 1 / 2) :
    roundAway r = k := by
  unfold roundAway
  split_ifs with h0
  · rw [Int.floor_eq_iff]
    constructor <;> linarith
  · rw [Int.ceil_eq_iff]
    constructor <;> linarith

theorem roundAway_range (r : ℚ) (h : |r| < 9 / 2) : -4 ≤ roundAway r ∧ roundAway r ≤ 4 := by
  rw [abs_lt] at h
  unfold roundAway
  split_ifs with h0
  · constructor
    · have : (0 : Int) ≤ ⌊r + 1 / 2⌋ := Int.floor_nonneg.mpr (by linarith)
      omega
    · have : ⌊r + 1 / 2⌋ < 5 := Int.floor_lt.mpr (by push_cast; linarith [h.2])
      omega
  · constructor
    · have : (-5 : Int) < ⌈r - 1 / 2⌉ := Int.lt_ceil.mpr (by push_cast; linarith [h.1])
      omega
    · have : ⌈r - 1 / 2⌉ ≤ 0 := Int.ceil_le.mpr (by push_cast; linarith)
      omega

theorem quarter_pi_bounds : (785 : ℚ) / 1000 < M_PI / 4 ∧ M_PI / 4 < 786 / 1000 := by
  unfold M_PI; constructor <;> norm_num

/-- The sector number of an angle `a` whose quotient by a quarter of pi lies
strictly between `k - 1/2` and `k + 1/2`, by a margin above the rounding of the
division. -/
theorem radialAngle_eq (h : Host) (x y k : Int) (hk : |(k : ℚ)| ≤ 4)
    (h1 : ((k : ℚ) - 1 / 2) * (M_PI / 4) + 1 / 2 ^ 40 ≤ h.atan2 y x)
    (h2 : h.atan2 y x ≤ ((k : ℚ) + 1 / 2) * (M_PI / 4) - 1 / 2 ^ 40) :
    radialAngle h x y = k := by
  unfold radialAngle
  rw [f64_quarter_pi]
  obtain ⟨p1, p2⟩ := quarter_pi_bounds
  have hp : (0 : ℚ) < M_PI / 4 := by linarith
  rw [abs_le] at hk
  set a := h.atan2 y x with ha
  have q1 : (k : ℚ) - 1 / 2 + 1 / 2 ^ 40 ≤ a / (M_PI / 4) := by
    rw [le_div_iff₀ hp]
    have : (1 : ℚ) / 2 ^ 40 * (M_PI / 4) ≤ 1 / 2 ^ 40 := by
      have : (1 : ℚ) / 2 ^ 40 * (M_PI / 4) ≤ 1 / 2 ^ 40 * 1 :=
        mul_le_mul_of_nonneg_left (by linarith) (by positivity)
      linarith
    linarith
  have q2 : a / (M_PI / 4) ≤ (k : ℚ) + 1 / 2 - 1 / 2 ^ 40 := by
    rw [div_le_iff₀ hp]
    have : (1 : ℚ) / 2 ^ 40 * (M_PI / 4) ≤ 1 / 2 ^ 40 := by
      have : (1 : ℚ) / 2 ^ 40 * (M_PI / 4) ≤ 1 / 2 ^ 40 * 1 :=
        mul_le_mul_of_nonneg_left (by linarith) (by positivity)
      linarith
    linarith
  have e40 : (1 : ℚ) / 2 ^ 49 < 1 / 2 ^ 40 := by norm_num
  have e40p : (0 : ℚ) < 1 / 2 ^ 40 := by positivity
  have hq : |a / (M_PI / 4)| ≤ 8 := by
    rw [abs_le]; constructor <;> linarith [hk.1, hk.2]
  have hc := f64_close _ hq
  rw [abs_le] at hc
  apply roundAway_eq <;> linarith [hc.1, hc.2]

theorem updatePad_radial_stick (K : Consts) (h : Host) (n : Nat) (s : State)
    (hr : (s.gamepad_configuration n).radial ≠ 0) :
    padStick (GamePads_UpdatePad K h n s) n
      = if (s.gamepad_configuration n).deadzone ≠ 0
            ∧ radialDist (s.gamepad_configuration n) (h.SDL_JoystickGetAxis n 0)
              (h.SDL_JoystickGetAxis n 1) < 1 then (0, 0)
        else
          ((radialSector (s.gamepads_sdl_actual_state n)
              (radialAngle h (h.SDL_JoystickGetAxis n 0) (h.SDL_JoystickGetAxis n 1))).x,
           (radialSector (s.gamepads_sdl_actual_state n)
              (radialAngle h (h.SDL_JoystickGetAxis n 0) (h.SDL_JoystickGetAxis n 1))).y) := by
  obtain ⟨e1, e2⟩ := updatePad_actual_xy K h n s
  unfold padStick
  rw [e1, e2]
  unfold classifyAxes radialAngle
  simp only [if_pos hr, if_true]
  split_ifs <;> rfl

theorem radialSector_table (a : gamepads_sdl_state_t) (k : Int) :
    (k = 0 → ((radialSector a k).x, (radialSector a k).y) = (1, 0))
    ∧ (k = 1 → ((radialSector a k).x, (radialSector a k).y) = (1, 1))
    ∧ (k = 2 → ((radialSector a k).x, (radialSector a k).y) = (0, 1))
    ∧ (k = 3 → ((radialSector a k).x, (radialSector a k).y) = (-1, 1))
    ∧ (k = -1 → ((radialSector a k).x, (radialSector a k).y) = (1, -1))
    ∧ (k = -2 → ((radialSector a k).x, (radialSector a k).y) = (0, -1))
    ∧ (k = -3 → ((radialSector a k).x, (radialSector a k).y) = (-1, -1))
    ∧ (k = 4 ∨ k = -4 → ((radialSector a k).x, (radialSector a k).y) = (-1, 0))
    ∧ (k < -4 ∨ 4 < k → ((radialSector a k).x, (radialSector a k).y) = (a.x, a.y)) := by
  refine ⟨?_, ?_, ?_, ?_, ?_, ?_, ?_, ?_, ?_⟩
  · rintro rfl; rfl
  · rintro rfl; rfl
  · rintro rfl; rfl
  · rintro rfl; rfl
  · rintro rfl; rfl
  · rintro rfl; rfl
  · rintro rfl; rfl
  · rintro (rfl | rfl) <;> rfl
  · intro hk
    unfold radialSector
    repeat rw [if_neg (by omega)]

theorem radialSector_in_range (a b : gamepads_sdl_state_t) (k : Int) (h1 : -4 ≤ k) (h2 : k ≤ 4) :
    ((radialSector a k).x, (radialSector a k).y) = ((radialSector b k).x, (radialSector b k).y) := by
  interval_cases k <;> rfl

theorem radialAngle_zero (h : Host) (x y : Int) (ha : h.atan2 y x = 0) : radialAngle h x y = 0 := by
  unfold radialAngle
  rw [ha]
  decide!

theorem radialAngle_half_pi (h : Host) (x y : Int) (ha : h.atan2 y x = M_PI / 2) :
    radialAngle h x y = 2 := by
  unfold radialAngle
  rw [ha]
  decide!

/-- C26: radial mode, a sample whose normalised squared distance is at least 1
(so the deadzone is not 0): with `k = round(atan2(y, x) / (pi / 4))`, the
stick after `GamePads_UpdatePad` is (1,0), (1,1), (0,1), (-1,1) for
`k = 0, 1, 2, 3`, is (1,-1), (0,-1), (-1,-1) for `k = -1, -2, -3` and is
(-1,0) for `k = 4` and for `k = -4`; a `k` outside `-4 .. 4` leaves the stick
as it was.  A sample with `y = 0` whose angle is 0 gives (1,0) and a sample
with `x = 0` whose angle is the `double` of pi/2 gives (0,1). -/
theorem radial_sector (K : Consts) (h : Host) (n : Nat) (s : State)
    (hr : (s.gamepad_configuration n).radial ≠ 0)
    (hd : 1 ≤ radialDist (s.gamepad_configuration n) (h.SDL_JoystickGetAxis n 0)
      (h.SDL_JoystickGetAxis n 1)) :
    (radialAngle h (h.SDL_JoystickGetAxis n 0) (h.SDL_JoystickGetAxis n 1) = 0 →
      padStick (GamePads_UpdatePad K h n s) n = (1, 0))
    ∧ (radialAngle h (h.SDL_JoystickGetAxis n 0) (h.SDL_JoystickGetAxis n 1) = 1 →
      padStick (GamePads_UpdatePad K h n s) n = (1, 1))
    ∧ (radialAngle h (h.SDL_JoystickGetAxis n 0) (h.SDL_JoystickGetAxis n 1) = 2 →
      padStick (GamePads_UpdatePad K h n s) n = (0, 1))
    ∧ (radialAngle h (h.SDL_JoystickGetAxis n 0) (h.SDL_JoystickGetAxis n 1) = 3 →
      padStick (GamePads_UpdatePad K h n s) n = (-1, 1))
    ∧ (radialAngle h (h.SDL_JoystickGetAxis n 0) (h.SDL_JoystickGetAxis n 1) = -1 →
      padStick (GamePads_UpdatePad K h n s) n = (1, -1))
    ∧ (radialAngle h (h.SDL_JoystickGetAxis n 0) (h.SDL_JoystickGetAxis n 1) = -2 →
      padStick (GamePads_UpdatePad K h n s) n = (0, -1))
    ∧ (radialAngle h (h.SDL_JoystickGetAxis n 0) (h.SDL_JoystickGetAxis n 1) = -3 →
      padStick (GamePads_UpdatePad K h n s) n = (-1, -1))
    ∧ (radialAngle h (h.SDL_JoystickGetAxis n 0) (h.SDL_JoystickGetAxis n 1) = 4
        ∨ radialAngle h (h.SDL_JoystickGetAxis n 0) (h.SDL_JoystickGetAxis n 1) = -4 →
      padStick (GamePads_UpdatePad K h n s) n = (-1, 0))
    ∧ (radialAngle h (h.SDL_JoystickGetAxis n 0) (h.SDL_JoystickGetAxis n 1) < -4
        ∨ 4 < radialAngle h (h.SDL_JoystickGetAxis n 0) (h.SDL_JoystickGetAxis n 1) →
      padStick (GamePads_UpdatePad K h n s) n = padStick s n)
    ∧ (h.SDL_JoystickGetAxis n 1 = 0 → h.atan2 0 (h.SDL_JoystickGetAxis n 0) = 0 →
      padStick (GamePads_UpdatePad K h n s) n = (1, 0))
    ∧ (h.SDL_JoystickGetAxis n 0 = 0 → h.atan2 (h.SDL_JoystickGetAxis n 1) 0 = M_PI / 2 →
      padStick (GamePads_UpdatePad K h n s) n = (0, 1)) := by
  have e := updatePad_radial_stick K h n s hr
  rw [if_neg (fun x => not_lt.mpr hd x.2)] at e
  rw [e]
  obtain ⟨t0, t1, t2, t3, t4, t5, t6, t7, t8⟩ := radialSector_table (s.gamepads_sdl_actual_state n)
    (radialAngle h (h.SDL_JoystickGetAxis n 0) (h.SDL_JoystickGetAxis n 1))
  refine ⟨t0, t1, t2, t3, t4, t5, t6, t7, t8, ?_, ?_⟩
  · intro hy ha
    apply t0
    apply radialAngle_zero
    rw [hy]; exact ha
  · intro hx ha
    apply t2
    apply radialAngle_half_pi
    rw [hx]; exact ha

/-- Witness for C26: the stick pushed straight along +y to 20000 with the
default deadzone 15000; the angle is the `double` of pi/2 and the result is
(0, 1). -/
theorem radial_sector_witness :
    1 ≤ radialDist defaultConfig 0 20000
    ∧ padStick (GamePads_UpdatePad stdConsts (angleHost (M_PI / 2) 0 20000) 0
        (sampleState 1 defaultConfig)) 0 = (0, 1) :=
  ⟨by decide!,
    (radial_sector stdConsts (angleHost (M_PI / 2) 0 20000) 0 (sampleState 1 defaultConfig)
      (by decide!) (by decide!)).2.2.2.2.2.2.2.2.2.2 rfl rfl⟩

/-- C27, counterexample: the sample (10900, 10526) lies at 44 degrees and at a
normalised squared distance between 1 and 1.03 of the default deadzone; it is
classified as (1, 1), while the sample (15100, 0) at 0 degrees is classified as
(1, 0). -/
theorem radial_44_counterexample :
    |angle44 - 44 * M_PI / 180| < 1 / 10 ^ 6
    ∧ 1 ≤ radialDist defaultConfig 10900 10526
    ∧ radialDist defaultConfig 10900 10526 < 103 / 100
    ∧ padStick (GamePads_UpdatePad stdConsts (angleHost angle44 10900 10526) 0
        (sampleState 1 defaultConfig)) 0 = (1, 1)
    ∧ padStick (GamePads_UpdatePad stdConsts (angleHost 0 15100 0) 0
        (sampleState 1 defaultConfig)) 0 = (1, 0) := by
  decide!

/-- C27, amended: in radial mode, for a sample at a normalised squared distance
of at least 1 whose angle `atan2(y, x)` is within 0.001 rad of `d` degrees,
the stick is (1, 0) when `d` is between -22 and 22 and is (1, 1) when `d` is
between 23 and 67: the border between the two sectors lies at 22.5 degrees, and
44 and 46 degrees fall in the same sector (1, 1). -/
theorem radial_sector_border (K : Consts) (h : Host) (n : Nat) (s : State) (d : ℚ)
    (hr : (s.gamepad_configuration n).radial ≠ 0)
    (hd : 1 ≤ radialDist (s.gamepad_configuration n) (h.SDL_JoystickGetAxis n 0)
      (h.SDL_JoystickGetAxis n 1))
    (ha : |h.atan2 (h.SDL_JoystickGetAxis n 1) (h.SDL_JoystickGetAxis n 0) - d * M_PI / 180|
      ≤ 1 / 1000) :
    (-22 ≤ d ∧ d ≤ 22 → padStick (GamePads_UpdatePad K h n s) n = (1, 0))
    ∧ (23 ≤ d ∧ d ≤ 67 → padStick (GamePads_UpdatePad K h n s) n = (1, 1)) := by
  have e := updatePad_radial_stick K h n s hr
  rw [if_neg (fun x => not_lt.mpr hd x.2)] at e
  rw [e]
  obtain ⟨t0, t1, -⟩ := radialSector_table (s.gamepads_sdl_actual_state n)
    (radialAngle h (h.SDL_JoystickGetAxis n 0) (h.SDL_JoystickGetAxis n 1))
  rw [abs_le] at ha
  constructor
  · rintro ⟨d1, d2⟩
    apply t0
    apply radialAngle_eq h _ _ 0 (by norm_num)
    · unfold M_PI at ha ⊢
      norm_num at ha ⊢
      linarith [ha.1]
    · unfold M_PI at ha ⊢
      norm_num at ha ⊢
      linarith [ha.2]
  · rintro ⟨d1, d2⟩
    apply t1
    apply radialAngle_eq h _ _ 1 (by norm_num)
    · unfold M_PI at ha ⊢
      norm_num at ha ⊢
      linarith [ha.1]
    · unfold M_PI at ha ⊢
      norm_num at ha ⊢
      linarith [ha.2]

/-- Witness for C27: the sample (10526, 10900) at 46 degrees is classified as
(1, 1). -/
theorem radial_sector_border_witness :
    1 ≤ radialDist defaultConfig 10526 10900
    ∧ |angle46 - 46 * M_PI / 180| ≤ 1 / 1000
    ∧ padStick (GamePads_UpdatePad stdConsts (angleHost angle46 10526 10900) 0
        (sampleState 1 defaultConfig)) 0 = (1, 1) :=
  ⟨by decide!, by decide!,
    (radial_sector_border stdConsts (angleHost angle46 10526 10900) 0 (sampleState 1 defaultConfig)
      46 (by decide!) (by decide!) (by decide!)).2 ⟨by norm_num, by norm_num⟩⟩

/-- C30: in radial mode the stick after `GamePads_UpdatePad` depends on the
sample and the deadzone alone: two states whose configurations of the pad are
in radial mode with the same deadzone, and differ in any way in the tolerances,
in the previous and in the current discrete state, give the same stick for the
same sample, the angle that `atan2` returns being within `-pi .. pi`. -/
theorem radial_memoryless (K : Consts) (h : Host) (n : Nat) (s1 s2 : State)
    (hr1 : (s1.gamepad_configuration n).radial ≠ 0)
    (hr2 : (s2.gamepad_configuration n).radial ≠ 0)
    (hdz : (s1.gamepad_configuration n).deadzone = (s2.gamepad_configuration n).deadzone)
    (ha : |h.atan2 (h.SDL_JoystickGetAxis n 1) (h.SDL_JoystickGetAxis n 0)| ≤ M_PI) :
    padStick (GamePads_UpdatePad K h n s1) n = padStick (GamePads_UpdatePad K h n s2) n := by
  rw [updatePad_radial_stick K h n s1 hr1, updatePad_radial_stick K h n s2 hr2]
  have ed : radialDist (s1.gamepad_configuration n) (h.SDL_JoystickGetAxis n 0)
      (h.SDL_JoystickGetAxis n 1)
      = radialDist (s2.gamepad_configuration n) (h.SDL_JoystickGetAxis n 0)
      (h.SDL_JoystickGetAxis n 1) := by
    unfold radialDist
    rw [hdz]
  rw [ed, hdz]
  have hk : -4 ≤ radialAngle h (h.SDL_JoystickGetAxis n 0) (h.SDL_JoystickGetAxis n 1)
      ∧ radialAngle h (h.SDL_JoystickGetAxis n 0) (h.SDL_JoystickGetAxis n 1) ≤ 4 := by
    unfold radialAngle
    rw [f64_quarter_pi]
    apply roundAway_range
    obtain ⟨p1, p2⟩ := quarter_pi_bounds
    have hp : (0 : ℚ) < M_PI / 4 := by linarith
    rw [abs_le] at ha
    have q1 : -4 ≤ h.atan2 (h.SDL_JoystickGetAxis n 1) (h.SDL_JoystickGetAxis n 0) / (M_PI / 4) := by
      rw [le_div_iff₀ hp]; linarith [ha.1]
    have q2 : h.atan2 (h.SDL_JoystickGetAxis n 1) (h.SDL_JoystickGetAxis n 0) / (M_PI / 4) ≤ 4 := by
      rw [div_le_iff₀ hp]; linarith [ha.2]
    have hc := f64_close _ (abs_le.mpr ⟨by linarith, by linarith⟩)
    rw [abs_le] at hc
    have e49 : (1 : ℚ) / 2 ^ 49 < 1 / 2 := by norm_num
    rw [abs_lt]
    constructor <;> linarith [hc.1, hc.2]
  split_ifs
  · rfl
  · exact radialSector_in_range _ _ _ hk.1 hk.2

/-- Witness for C30: the sample (15800, 0); the start-up state, where the
hysteresis test of lines 587-629 says not to recalculate, and a state with
other tolerances whose previous stick was (-1, 1) both give (1, 0). -/
theorem radial_memoryless_witness :
    radialRecalc defaultConfig ((sampleState 1 defaultConfig).gamepads_sdl_last_state 0) 0
        (radialDist defaultConfig 15800 0) = false
    ∧ padStick (GamePads_UpdatePad stdConsts (angleHost 0 15800 0) 0
        (sampleState 1 defaultConfig)) 0 = (1, 0)
    ∧ padStick (GamePads_UpdatePad stdConsts (angleHost 0 15800 0) 0
        (withLastStick
          (sampleState 1 { defaultConfig with tolerance := 1 / 2, radial_tolerance := 1 / 4 })
          (-1) 1)) 0 = (1, 0) :=
  ⟨by decide!, by decide!,
    (radial_memoryless stdConsts (angleHost 0 15800 0) 0 (sampleState 1 defaultConfig)
      (withLastStick
        (sampleState 1 { defaultConfig with tolerance := 1 / 2, radial_tolerance := 1 / 4 })
        (-1) 1)
      (by decide!) (by decide!) (by decide!) (by decide!)).symm.trans (by decide!)⟩

/-! ## The toggles -/

theorem dispatchButton_autofire_toggle (K : Consts) (cfg : SDL_INPUT_RealJSConfig_t)
    (trig last_trig : Nat) (a : ButtonScan) (i : Nat) :
    (dispatchButton K cfg trig last_trig a i).autofire_toggle_on
      = if GamePads_GetFunctionForButton cfg i = FNPAD_AUTOFIRE_TOGGLE
          ∧ trig &&& u32 (1 <<< i) ≠ last_trig &&& u32 (1 <<< i) ∧ trig &&& u32 (1 <<< i) ≠ 0
        then cNot a.autofire_toggle_on else a.autofire_toggle_on := by
  have n1 : FNPAD_AUTOFIRE_TOGGLE ≠ FNPAD_START_HOLD := by decide
  have n2 : FNPAD_AUTOFIRE_TOGGLE ≠ FNPAD_SELECT_HOLD := by decide
  have n3 : FNPAD_AUTOFIRE_TOGGLE ≠ FNPAD_OPTION_HOLD := by decide
  simp only [dispatchButton, apply_ite ButtonScan.autofire_toggle_on, ite_self, Bool.and_eq_true,
    decide_eq_true_eq]
  by_cases hT : GamePads_GetFunctionForButton cfg i = FNPAD_AUTOFIRE_TOGGLE
  · simp only [hT, n1, n2, n3, if_false, if_true, true_and]
  · simp only [hT, if_false, false_and, ite_self]

theorem foldl_autofire_toggle_none (K : Consts) (cfg : SDL_INPUT_RealJSConfig_t)
    (trig last_trig : Nat) (l : List Nat) (a : ButtonScan)
    (hl : ∀ i ∈ l, ¬ (GamePads_GetFunctionForButton cfg i = FNPAD_AUTOFIRE_TOGGLE
      ∧ trig &&& u32 (1 <<< i) ≠ last_trig &&& u32 (1 <<< i) ∧ trig &&& u32 (1 <<< i) ≠ 0)) :
    (l.foldl (dispatchButton K cfg trig last_trig) a).autofire_toggle_on = a.autofire_toggle_on := by
  induction l generalizing a with
  | nil => rfl
  | cons i l ih =>
    rw [List.foldl_cons, ih _ (fun j hj => hl j (List.mem_cons_of_mem _ hj)),
      dispatchButton_autofire_toggle, if_neg (hl i (List.mem_cons_self _ _))]

/-- The autofire toggle after the button loop when exactly the bit `b` has a
press edge of an autofire-toggle button. -/
theorem scan_autofire_toggle_once (K : Consts) (cfg : SDL_INPUT_RealJSConfig_t)
    (trig last_trig : Nat) (consol : Nat) (fs : gamepads_fire_state_t) (b : Nat) (hb : b < 32)
    (hf : GamePads_GetFunctionForButton cfg b = FNPAD_AUTOFIRE_TOGGLE)
    (hlast : last_trig.testBit b = false) (hp : trig.testBit b = true)
    (hother : ∀ c, c < 32 → c ≠ b → GamePads_GetFunctionForButton cfg c = FNPAD_AUTOFIRE_TOGGLE →
      trig.testBit c = false) :
    (dispatchButtons K cfg trig last_trig consol fs).autofire_toggle_on
      = cNot fs.autofire_toggle_on := by
  obtain ⟨l1, l2, hl⟩ := List.append_of_mem (List.mem_range.2 hb)
  have hnd : (l1 ++ b :: l2).Nodup := hl ▸ List.nodup_range 32
  have hmem : ∀ c, c ∈ l1 ++ b :: l2 → c < 32 := fun c hc => List.mem_range.1 (hl ▸ hc)
  have hquiet : ∀ c, c < 32 → c ≠ b →
      ¬ (GamePads_GetFunctionForButton cfg c = FNPAD_AUTOFIRE_TOGGLE
        ∧ trig &&& u32 (1 <<< c) ≠ last_trig &&& u32 (1 <<< c) ∧ trig &&& u32 (1 <<< c) ≠ 0) := by
    rintro c hc hcb ⟨h1, _, h3⟩
    have := hother c hc hcb h1
    rw [pressed_iff trig c hc, this] at h3
    exact Bool.false_ne_true h3
  rw [List.nodup_append] at hnd
  obtain ⟨_, hnd2, hdis⟩ := hnd
  rw [List.nodup_cons] at hnd2
  unfold dispatchButtons
  rw [hl, List.foldl_append, List.foldl_cons, foldl_autofire_toggle_none,
    dispatchButton_autofire_toggle, if_pos, foldl_autofire_toggle_none]
  · intro i hi
    refine hquiet i (hmem i (List.mem_append_left _ hi)) ?_
    rintro rfl
    exact hdis hi (List.mem_cons_self _ _)
  · refine ⟨hf, ?_, ?_⟩
    · rw [changed_iff trig last_trig b hb, hlast, hp]
      decide
    · rw [pressed_iff trig b hb, hp]
  · intro i hi
    refine hquiet i (hmem i (List.mem_append_right _ (List.mem_cons_of_mem _ hi))) ?_
    rintro rfl
    exact hnd2.1 hi

/-- The autofire toggle after the button loop when no autofire-toggle button
has a press edge. -/
theorem scan_autofire_toggle_keep (K : Consts) (cfg : SDL_INPUT_RealJSConfig_t)
    (trig last_trig : Nat) (consol : Nat) (fs : gamepads_fire_state_t)
    (hquiet : ∀ c, c < 32 → GamePads_GetFunctionForButton cfg c = FNPAD_AUTOFIRE_TOGGLE →
      trig.testBit c = false ∨ last_trig.testBit c = true) :
    (dispatchButtons K cfg trig last_trig consol fs).autofire_toggle_on
      = fs.autofire_toggle_on := by
  unfold dispatchButtons
  rw [foldl_autofire_toggle_none]
  rintro i hi ⟨h1, h2, h3⟩
  have hi32 := List.mem_range.1 hi
  rw [changed_iff trig last_trig i hi32] at h2
  rw [pressed_iff trig i hi32] at h3
  rcases hquiet i hi32 h1 with h4 | h4
  · rw [h4] at h3; exact Bool.false_ne_true h3
  · rw [h3, h4] at h2; exact h2 rfl

theorem updatePad_autofire_toggle (K : Consts) (h : Host) (n : Nat) (s : State)
    (hui : h.UI_is_active = 0) :
    ((GamePads_UpdatePad K h n s).gamepads_fire_state n).autofire_toggle_on
        = (padButtonScan K h n s).autofire_toggle_on := by
  simp [GamePads_UpdatePad, hui, fireHandling]

/-- One cycle of `GamePads_UpdatePad` for a toggle button `b`, the other
buttons with the same function released: the flag is negated on the press edge
of the button and kept otherwise, and the level of the button is stored. -/
theorem toggle_step (K : Consts) (h : Host) (n b : Nat) (s : State) (T : Int)
    (hT : T = FNPAD_FIRE_TOGGLE ∨ T = FNPAD_AUTOFIRE_TOGGLE)
    (hm : h.UI_is_active = 0) (hb : b < 32)
    (hf : GamePads_GetFunctionForButton (s.gamepad_configuration n) b = T)
    (hother : ∀ c, c < 32 → c ≠ b →
      GamePads_GetFunctionForButton (s.gamepad_configuration n) c = T →
      (trigOf h s n).testBit c = false) :
    toggleFlag T ((GamePads_UpdatePad K h n s).gamepads_fire_state n)
      = (if (s.gamepads_sdl_last_state n).buttons.testBit b = false
            ∧ (trigOf h s n).testBit b = true
          then cNot (toggleFlag T (s.gamepads_fire_state n))
          else toggleFlag T (s.gamepads_fire_state n))
    ∧ ((GamePads_UpdatePad K h n s).gamepads_sdl_last_state n).buttons.testBit b
      = (trigOf h s n).testBit b := by
  obtain ⟨a1, a2⟩ := updatePad_scan K h n s hm
  have a3 := updatePad_autofire_toggle K h n s hm
  have hH : handledFunction (GamePads_GetFunctionForButton (s.gamepad_configuration n) b) := by
    rw [hf]; unfold handledFunction
    rcases hT with rfl | rfl <;> simp
  constructor
  · by_cases hedge : (s.gamepads_sdl_last_state n).buttons.testBit b = false
        ∧ (trigOf h s n).testBit b = true
    · rw [if_pos hedge]
      rcases hT with rfl | rfl
      · have e : toggleFlag FNPAD_FIRE_TOGGLE = fun fs => fs.fire_toggle_on := by
          funext fs; unfold toggleFlag; rw [if_neg (by decide)]
        rw [e]
        show ((GamePads_UpdatePad K h n s).gamepads_fire_state n).fire_toggle_on = _
        rw [a1]
        exact scan_fire_toggle_once K _ _ _ _ _ b hb hf hedge.1 hedge.2 hother
      · have e : toggleFlag FNPAD_AUTOFIRE_TOGGLE = fun fs => fs.autofire_toggle_on := by
          funext fs; unfold toggleFlag; rw [if_pos rfl]
        rw [e]
        show ((GamePads_UpdatePad K h n s).gamepads_fire_state n).autofire_toggle_on = _
        rw [a3]
        exact scan_autofire_toggle_once K _ _ _ _ _ b hb hf hedge.1 hedge.2 hother
    · rw [if_neg hedge]
      have hq : ∀ c, c < 32 →
          GamePads_GetFunctionForButton (s.gamepad_configuration n) c = T →
          (trigOf h s n).testBit c = false
            ∨ (s.gamepads_sdl_last_state n).buttons.testBit c = true := by
        intro c hc hfc
        by_cases hcb : c = b
        · subst hcb
          by_cases hl : (s.gamepads_sdl_last_state n).buttons.testBit c = true
          · exact Or.inr hl
          · left
            simp only [Bool.not_eq_true] at hl
            by_contra hp
            simp only [Bool.not_eq_false] at hp
            exact hedge ⟨hl, hp⟩
        · exact Or.inl (hother c hc hcb hfc)
      rcases hT with rfl | rfl
      · have e : toggleFlag FNPAD_FIRE_TOGGLE = fun fs => fs.fire_toggle_on := by
          funext fs; unfold toggleFlag; rw [if_neg (by decide)]
        rw [e]
        show ((GamePads_UpdatePad K h n s).gamepads_fire_state n).fire_toggle_on = _
        rw [a1]
        exact scan_fire_toggle_keep K _ _ _ _ _ hq
      · have e : toggleFlag FNPAD_AUTOFIRE_TOGGLE = fun fs => fs.autofire_toggle_on := by
          funext fs; unfold toggleFlag; rw [if_pos rfl]
        rw [e]
        show ((GamePads_UpdatePad K h n s).gamepads_fire_state n).autofire_toggle_on = _
        rw [a3]
        exact scan_autofire_toggle_keep K _ _ _ _ _ hq
  · rw [a2]
    exact scan_last_bit K _ _ _ _ _ b hb hH

/-- What a run of `GamePads_UpdatePad` with the menu inactive keeps. -/
theorem padRun_frame (K : Consts) (hs : Nat → Host) (n : Nat) (s : State)
    (hm : ∀ k, (hs k).UI_is_active = 0) (k : Nat) :
    (padRun K hs n s k).gamepad_configuration = s.gamepad_configuration
    ∧ (padRun K hs n s k).gamepad_special_mask = s.gamepad_special_mask
    ∧ (padRun K hs n s k).gamepads_max_buttons = s.gamepads_max_buttons := by
  induction k with
  | zero => exact ⟨rfl, rfl, rfl⟩
  | succ k ih =>
    obtain ⟨u1, u2, u3, -⟩ := updatePad_frame K (hs k) n (padRun K hs n s k) (hm k)
    obtain ⟨i1, i2, i3⟩ := ih
    exact ⟨u1.trans i1, u2.trans i2, u3.trans i3⟩

theorem padRun_toggle_step (K : Consts) (hs : Nat → Host) (n b : Nat) (s : State) (T : Int)
    (hT : T = FNPAD_FIRE_TOGGLE ∨ T = FNPAD_AUTOFIRE_TOGGLE)
    (hm : ∀ k, (hs k).UI_is_active = 0) (hb : b < 32)
    (hf : GamePads_GetFunctionForButton (s.gamepad_configuration n) b = T)
    (hother : ∀ k c, c < 32 → c ≠ b →
      GamePads_GetFunctionForButton (s.gamepad_configuration n) c = T →
      (trigOf (hs k) s n).testBit c = false) (k : Nat) :
    toggleFlag T ((padRun K hs n s (k + 1)).gamepads_fire_state n)
      = (if ((padRun K hs n s k).gamepads_sdl_last_state n).buttons.testBit b = false
            ∧ (trigOf (hs k) s n).testBit b = true
          then cNot (toggleFlag T ((padRun K hs n s k).gamepads_fire_state n))
          else toggleFlag T ((padRun K hs n s k).gamepads_fire_state n))
    ∧ ((padRun K hs n s (k + 1)).gamepads_sdl_last_state n).buttons.testBit b
      = (trigOf (hs k) s n).testBit b := by
  obtain ⟨i1, i2, i3⟩ := padRun_frame K hs n s hm k
  have ht : trigOf (hs k) (padRun K hs n s k) n = trigOf (hs k) s n := by
    unfold trigOf; rw [i2, i3]
  have := toggle_step K (hs k) n b (padRun K hs n s k) T hT (hm k) hb (by rw [i1]; exact hf)
    (by
      intro c hc hcb hfc
      rw [ht]
      rw [i1] at hfc
      exact hother k c hc hcb hfc)
  rw [ht] at this
  exact this

/-- C28: the menu is inactive, the bit `b` of pad `n` is mapped to fire-toggle
or to autofire-toggle (`T`) and the other buttons with that function stay
released.  Through successive cycles of `GamePads_UpdatePad`, with `flag k` the
flag before cycle `k`: cycle `k` negates the flag exactly when the button is
stored as released and is reported pressed, and keeps it otherwise, and stores
the level of the button; so a cycle after one in which the button was pressed,
and a cycle in which it is released, keep the flag, a cycle in which it is
pressed after one in which it was released negates it, and press, release,
press from the released state gives the double negation of the flag, which is
the flag itself when that is 0 or 1. -/
theorem toggle_on_press_edges (K : Consts) (hs : Nat → Host) (n b : Nat) (s : State) (T : Int)
    (hT : T = FNPAD_FIRE_TOGGLE ∨ T = FNPAD_AUTOFIRE_TOGGLE)
    (hm : ∀ k, (hs k).UI_is_active = 0) (hb : b < 32)
    (hf : GamePads_GetFunctionForButton (s.gamepad_configuration n) b = T)
    (hother : ∀ k c, c < 32 → c ≠ b →
      GamePads_GetFunctionForButton (s.gamepad_configuration n) c = T →
      (trigOf (hs k) s n).testBit c = false) :
    (∀ k, toggleFlag T ((padRun K hs n s (k + 1)).gamepads_fire_state n)
        = (if ((padRun K hs n s k).gamepads_sdl_last_state n).buttons.testBit b = false
              ∧ (trigOf (hs k) s n).testBit b = true
            then cNot (toggleFlag T ((padRun K hs n s k).gamepads_fire_state n))
            else toggleFlag T ((padRun K hs n s k).gamepads_fire_state n))
      ∧ ((padRun K hs n s (k + 1)).gamepads_sdl_last_state n).buttons.testBit b
        = (trigOf (hs k) s n).testBit b)
    ∧ (∀ k, (trigOf (hs k) s n).testBit b = true ∨ (trigOf (hs (k + 1)) s n).testBit b = false →
        toggleFlag T ((padRun K hs n s (k + 2)).gamepads_fire_state n)
          = toggleFlag T ((padRun K hs n s (k + 1)).gamepads_fire_state n))
    ∧ (∀ k, (trigOf (hs k) s n).testBit b = false → (trigOf (hs (k + 1)) s n).testBit b = true →
        toggleFlag T ((padRun K hs n s (k + 2)).gamepads_fire_state n)
          = cNot (toggleFlag T ((padRun K hs n s (k + 1)).gamepads_fire_state n)))
    ∧ ((s.gamepads_sdl_last_state n).buttons.testBit b = false →
        (trigOf (hs 0) s n).testBit b = true → (trigOf (hs 1) s n).testBit b = false →
        (trigOf (hs 2) s n).testBit b = true →
        toggleFlag T ((padRun K hs n s 3).gamepads_fire_state n)
            = cNot (cNot (toggleFlag T (s.gamepads_fire_state n)))
        ∧ (toggleFlag T (s.gamepads_fire_state n) = 0 ∨ toggleFlag T (s.gamepads_fire_state n) = 1 →
          toggleFlag T ((padRun K hs n s 3).gamepads_fire_state n)
            = toggleFlag T (s.gamepads_fire_state n))) := by
  have step := padRun_toggle_step K hs n b s T hT hm hb hf hother
  refine ⟨step, ?_, ?_, ?_⟩
  · intro k hk
    rw [(step (k + 1)).1, (step k).2]
    rcases hk with hk | hk
    · rw [hk]; simp
    · rw [hk]; simp
  · intro k h1 h2
    rw [(step (k + 1)).1, (step k).2, h1, h2]
    simp
  · intro h0 p0 p1 p2
    have e3 : toggleFlag T ((padRun K hs n s 3).gamepads_fire_state n)
        = cNot (cNot (toggleFlag T (s.gamepads_fire_state n))) := by
      rw [(step 2).1, (step 1).2, p1, p2, if_pos ⟨rfl, rfl⟩, (step 1).1, (step 0).2, p0,
        if_neg (by simp), (step 0).1]
      show cNot (if (s.gamepads_sdl_last_state n).buttons.testBit b = false
          ∧ (trigOf (hs 0) s n).testBit b = true then _ else _) = _
      rw [if_pos ⟨h0, p0⟩]
      rfl
    refine ⟨e3, ?_⟩
    rintro (hv | hv) <;> rw [e3, hv] <;> rfl

/-- Witness for C28: button 0 of pad 0 is the only autofire-toggle button and
is pressed, released and pressed again from the released state; the flag is 0
before, 1 after the first cycle and 0 after the third. -/
theorem toggle_on_press_edges_witness :
    toggleFlag FNPAD_AUTOFIRE_TOGGLE
        ((sampleState 1 autofireToggleConfig).gamepads_fire_state 0) = 0
    ∧ toggleFlag FNPAD_AUTOFIRE_TOGGLE
        ((padRun stdConsts (buttonSequence [true, false, true]) 0
          (sampleState 1 autofireToggleConfig) 1).gamepads_fire_state 0) = 1
    ∧ toggleFlag FNPAD_AUTOFIRE_TOGGLE
        ((padRun stdConsts (buttonSequence [true, false, true]) 0
          (sampleState 1 autofireToggleConfig) 3).gamepads_fire_state 0)
      = toggleFlag FNPAD_AUTOFIRE_TOGGLE
        ((sampleState 1 autofireToggleConfig).gamepads_fire_state 0) :=
  ⟨by decide!, by decide!,
    ((toggle_on_press_edges stdConsts (buttonSequence [true, false, true]) 0 0
      (sampleState 1 autofireToggleConfig) FNPAD_AUTOFIRE_TOGGLE (Or.inr rfl) (fun _ => rfl)
      (by decide) (by decide!)
      (by
        intro k c hc hcb hfc
        exfalso
        revert hfc
        interval_cases c
        all_goals first | exact absurd rfl hcb | decide!)).2.2.2
      (by decide!) (by decide!) (by decide!) (by decide!)).2 (Or.inl (by decide!))⟩

/-! ## The special bank -/

theorem foldl_or_testBit (P : Nat → Prop) [DecidablePred P] (l : List Nat)
    (hl : ∀ i ∈ l, i < 32) (a k : Nat) :
    (l.foldl (fun m i => if P i then m ||| u32 (1 <<< i) else m) a).testBit k
      = (a.testBit k || decide (k ∈ l ∧ P k)) := by
  induction l generalizing a with
  | nil => simp
  | cons i l ih =>
    rw [List.foldl_cons, ih (fun j hj => hl j (List.mem_cons_of_mem _ hj))]
    have e := u32_one_shiftLeft i (hl i (List.mem_cons_self _ _))
    by_cases hP : P i
    · rw [if_pos hP, e, Nat.testBit_or, Nat.testBit_two_pow]
      by_cases hki : k = i
      · subst hki; simp [hP]
      · have : ¬ i = k := fun h => hki h.symm
        simp [hki, this]
    · rw [if_neg hP]
      by_cases hki : k = i
      · subst hki; simp [hP]
      · simp [hki]

theorem rawButtons_testBit (h : Host) (n m k : Nat) (hm : m ≤ 32) :
    (rawButtons h n m).testBit k = decide (k < m ∧ h.SDL_JoystickGetButton n k ≠ 0) := by
  unfold rawButtons
  rw [foldl_or_testBit (fun i => h.SDL_JoystickGetButton n i ≠ 0) (List.range m)
    (fun i hi => lt_of_lt_of_le (List.mem_range.1 hi) hm)]
  simp [List.mem_range]

theorem specialMask_testBit (cfg : SDL_INPUT_RealJSConfig_t) (k : Nat) :
    (specialMask cfg).testBit k
      = (decide (k < 16 ∧ cfg.button_functions k = FNPAD_SP_HOLD)
        || decide (16 ≤ k ∧ k < 32 ∧ cfg.button_functions (k - 16) = FNPAD_SP_HOLD)) := by
  unfold specialMask
  have hb : ∀ j, ((List.range MAX_PAD_BUTTONS).foldl
      (fun m i => if cfg.button_functions i = FNPAD_SP_HOLD then m ||| u32 (1 <<< i) else m) 0).testBit j
        = decide (j < 16 ∧ cfg.button_functions j = FNPAD_SP_HOLD) := by
    intro j
    rw [foldl_or_testBit (fun i => cfg.button_functions i = FNPAD_SP_HOLD) (List.range MAX_PAD_BUTTONS)
      (fun i hi => lt_of_lt_of_le (List.mem_range.1 hi) (by decide))]
    simp [List.mem_range, MAX_PAD_BUTTONS]
  simp only []
  have e2 : (4294967296 : Nat) = 2 ^ 32 := by norm_num
  rw [Nat.testBit_or, hb, u32, e2, Nat.testBit_mod_two_pow, Nat.testBit_shiftLeft, hb]
  by_cases h1 : 16 ≤ k <;> by_cases h2 : k < 32 <;> simp [h1, h2]
  have h3 : k - 16 < 16 := by omega
  simp [h3]

theorem and_ne_zero_iff (a b : Nat) : a &&& b ≠ 0 ↔ ∃ k, a.testBit k = true ∧ b.testBit k = true := by
  constructor
  · intro hne
    obtain ⟨k, hk⟩ := Nat.ne_zero_implies_bit_true hne
    rw [Nat.testBit_and, Bool.and_eq_true] at hk
    exact ⟨k, hk⟩
  · rintro ⟨k, h1, h2⟩ h0
    have : (a &&& b).testBit k = true := by rw [Nat.testBit_and, h1, h2]; rfl
    rw [h0] at this
    simp at this

theorem updatePad_actual_buttons (K : Consts) (h : Host) (n : Nat) (s : State) :
    ((GamePads_UpdatePad K h n s).gamepads_sdl_actual_state n).buttons
      = effectiveButtons (s.gamepad_special_mask n) (rawButtons h n (s.gamepads_max_buttons n))
    ∧ ((GamePads_UpdatePad K h n s).gamepads_sdl_actual_state n).special
      = if s.gamepad_special_mask n &&& rawButtons h n (s.gamepads_max_buttons n) ≠ 0 then 1 else 0 := by
  unfold GamePads_UpdatePad
  by_cases hui : h.UI_is_active = 0 <;> simp [hui, classifyHat]

/-- The test of line 700: the special mask meets the raw mask exactly when a
pressed button has the special-bank-hold function. -/
theorem special_test (h : Host) (cfg : SDL_INPUT_RealJSConfig_t) (n m : Nat) (hm : m ≤ 16) :
    specialMask cfg &&& rawButtons h n m ≠ 0
      ↔ ∃ i, i < 16 ∧ cfg.button_functions i = FNPAD_SP_HOLD
          ∧ (rawButtons h n m).testBit i = true := by
  rw [and_ne_zero_iff]
  constructor
  · rintro ⟨k, h1, h2⟩
    have h2c := h2
    rw [rawButtons_testBit h n m k (by omega), decide_eq_true_eq] at h2
    have hk : k < 16 := by omega
    rw [specialMask_testBit] at h1
    have hn : ¬ 16 ≤ k := by omega
    simp [hk, hn] at h1
    exact ⟨k, hk, h1, h2c⟩
  · rintro ⟨i, hi, hS, hr⟩
    refine ⟨i, ?_, hr⟩
    rw [specialMask_testBit]
    simp [hi, hS]

theorem shifted_testBit (raw mask j : Nat) :
    (u32 (andNot raw mask <<< 16)).testBit j
      = (decide (16 ≤ j ∧ j < 32) && (raw.testBit (j - 16) && !(mask.testBit (j - 16)))) := by
  have e2 : (4294967296 : Nat) = 2 ^ 32 := by norm_num
  rw [u32, e2, Nat.testBit_mod_two_pow, Nat.testBit_shiftLeft]
  by_cases h1 : 16 ≤ j
  · by_cases h2 : j < 32
    · rw [andNot_testBit _ _ _ (by omega)]
      simp [h1, h2]
    · simp [h1, h2]
  · simp [h1]

/-- C29: the special mask of the pad is the one of its configuration and the
pad has at most 16 buttons.  `GamePads_DetermineMasks` stores the mask whose
bits `i` and `16 + i` tell whether button `i` has the special-bank-hold
function in the normal bank; the raw mask has bit `i` set exactly for the
pressed buttons below the button count.  If a pressed button has the
special-bank-hold function, `GamePads_UpdatePad` stores `special = 1` and the
raw mask with the bits of the special mask cleared, shifted left by 16: its
low 16 bits are zero and bit `16 + i` is set exactly when button `i` is pressed
and is not a special-bank-hold button.  Otherwise it stores `special = 0` and
the raw mask.  A lookup of bit `b` reads the normal bank for `b < 16` and the
shifted bank at `b - 16` for `b ≥ 16`. -/
theorem special_bank_remap (K : Consts) (h : Host) (n : Nat) (s : State)
    (hmask : s.gamepad_special_mask n = specialMask (s.gamepad_configuration n))
    (hmax : s.gamepads_max_buttons n ≤ 16) :
    (GamePads_DetermineMasks n s).gamepad_special_mask n = s.gamepad_special_mask n
    ∧ (∀ i, i < 16 →
        (s.gamepad_special_mask n).testBit i
          = decide ((s.gamepad_configuration n).button_functions i = FNPAD_SP_HOLD)
        ∧ (s.gamepad_special_mask n).testBit (16 + i)
          = decide ((s.gamepad_configuration n).button_functions i = FNPAD_SP_HOLD))
    ∧ (∀ i, (rawButtons h n (s.gamepads_max_buttons n)).testBit i
        = decide (i < s.gamepads_max_buttons n ∧ h.SDL_JoystickGetButton n i ≠ 0))
    ∧ ((∃ i, i < 16 ∧ (s.gamepad_configuration n).button_functions i = FNPAD_SP_HOLD
          ∧ (rawButtons h n (s.gamepads_max_buttons n)).testBit i = true) →
        ((GamePads_UpdatePad K h n s).gamepads_sdl_actual_state n).special = 1
        ∧ ((GamePads_UpdatePad K h n s).gamepads_sdl_actual_state n).buttons
          = u32 (andNot (rawButtons h n (s.gamepads_max_buttons n)) (s.gamepad_special_mask n) <<< 16)
        ∧ (∀ j, j < 16 →
          ((GamePads_UpdatePad K h n s).gamepads_sdl_actual_state n).buttons.testBit j = false)
        ∧ (∀ i, i < 16 →
          ((GamePads_UpdatePad K h n s).gamepads_sdl_actual_state n).buttons.testBit (16 + i)
            = ((rawButtons h n (s.gamepads_max_buttons n)).testBit i
              && !decide ((s.gamepad_configuration n).button_functions i = FNPAD_SP_HOLD))))
    ∧ ((¬ ∃ i, i < 16 ∧ (s.gamepad_configuration n).button_functions i = FNPAD_SP_HOLD
          ∧ (rawButtons h n (s.gamepads_max_buttons n)).testBit i = true) →
        ((GamePads_UpdatePad K h n s).gamepads_sdl_actual_state n).special = 0
        ∧ ((GamePads_UpdatePad K h n s).gamepads_sdl_actual_state n).buttons
          = rawButtons h n (s.gamepads_max_buttons n))
    ∧ (∀ b, (b < 16 → GamePads_GetFunctionForButton (s.gamepad_configuration n) b
          = (s.gamepad_configuration n).button_functions b)
        ∧ (16 ≤ b → GamePads_GetFunctionForButton (s.gamepad_configuration n) b
          = (s.gamepad_configuration n).button_sp_functions (b - 16))) := by
  obtain ⟨eb, es⟩ := updatePad_actual_buttons K h n s
  have ht := special_test h (s.gamepad_configuration n) n (s.gamepads_max_buttons n) hmax
  rw [← hmask] at ht
  have hbits : ∀ i, i < 16 →
      (s.gamepad_special_mask n).testBit i
        = decide ((s.gamepad_configuration n).button_functions i = FNPAD_SP_HOLD)
      ∧ (s.gamepad_special_mask n).testBit (16 + i)
        = decide ((s.gamepad_configuration n).button_functions i = FNPAD_SP_HOLD) := by
    intro i hi
    rw [hmask, specialMask_testBit, specialMask_testBit]
    have h1 : ¬ 16 ≤ i := by omega
    have h2 : ¬ 16 + i < 16 := by omega
    have h3 : 16 + i < 32 := by omega
    have h4 : 16 + i - 16 = i := by omega
    simp [hi, h1, h2, h3, h4]
  refine ⟨?_, hbits, ?_, ?_, ?_, ?_⟩
  · rw [hmask]
    simp [GamePads_DetermineMasks]
  · intro i
    exact rawButtons_testBit h n _ i (by omega)
  · intro hex
    have hne := ht.2 hex
    have eb2 : ((GamePads_UpdatePad K h n s).gamepads_sdl_actual_state n).buttons
        = u32 (andNot (rawButtons h n (s.gamepads_max_buttons n)) (s.gamepad_special_mask n) <<< 16) := by
      rw [eb, effectiveButtons, if_pos hne]
    refine ⟨by rw [es, if_pos hne], eb2, ?_, ?_⟩
    · intro j hj
      rw [eb2, shifted_testBit]
      have : ¬ 16 ≤ j := by omega
      simp [this]
    · intro i hi
      have h3 : 16 + i < 32 := by omega
      have h4 : 16 + i - 16 = i := by omega
      rw [eb2, shifted_testBit, h4, (hbits i hi).1]
      simp [h3]
  · intro hex
    have hne : ¬ (s.gamepad_special_mask n &&& rawButtons h n (s.gamepads_max_buttons n) ≠ 0) :=
      fun hh => hex (ht.1 hh)
    exact ⟨by rw [es, if_neg hne], by rw [eb, effectiveButtons, if_neg hne]⟩
  · intro b
    constructor
    · intro hb
      unfold GamePads_GetFunctionForButton
      rw [if_neg (by omega)]
    · intro hb
      unfold GamePads_GetFunctionForButton
      rw [if_pos hb]

/-- Witness for C29: button 1 is the special-bank-hold button and buttons 0
and 1 are pressed; the stored mask has bit 16 alone and `special` is 1. -/
theorem special_bank_remap_witness :
    rawButtons (sampleHost 0 0 0 [0, 1]) 0 16 = 3
    ∧ ((GamePads_UpdatePad stdConsts (sampleHost 0 0 0 [0, 1]) 0
        (sampleState 1 specialConfig)).gamepads_sdl_actual_state 0).buttons = 65536
    ∧ ((GamePads_UpdatePad stdConsts (sampleHost 0 0 0 [0, 1]) 0
        (sampleState 1 specialConfig)).gamepads_sdl_actual_state 0).special = 1 :=
  ⟨by decide!, by decide!,
    ((special_bank_remap stdConsts (sampleHost 0 0 0 [0, 1]) 0 (sampleState 1 specialConfig)
      (by decide!) (by decide!)).2.2.2.1 ⟨1, by decide, by decide!, by decide!⟩).1⟩

/-! ## Menu navigation -/

theorem fromJoy_menu (K : Consts) (h : Host) (cfg : SDL_INPUT_RealJSConfig_t)
    (last actual : gamepads_sdl_state_t) (hm : h.UI_is_active ≠ 0) (hu : cfg.use_in_menus ≠ 0) :
    (actual.x = -1 → (GamePads_AtariKeysFromJoy K h cfg last actual).1 = K.AKEY_LEFT)
    ∧ (actual.x = 1 → (GamePads_AtariKeysFromJoy K h cfg last actual).1 = K.AKEY_RIGHT)
    ∧ (actual.x ≠ -1 → actual.x ≠ 1 → actual.y = -1 →
        (GamePads_AtariKeysFromJoy K h cfg last actual).1 = K.AKEY_UP)
    ∧ (actual.x ≠ -1 → actual.x ≠ 1 → actual.y = 1 →
        (GamePads_AtariKeysFromJoy K h cfg last actual).1 = K.AKEY_DOWN) := by
  unfold GamePads_AtariKeysFromJoy
  rw [if_pos ⟨hm, hu⟩]
  refine ⟨fun h1 => ?_, fun h1 => ?_, fun h1 h2 h3 => ?_, fun h1 h2 h3 => ?_⟩
  · simp [h1]
  · simp [h1]
  · simp [h1, h2, h3]
  · simp [h1, h2, h3]

theorem fromJoy_none (K : Consts) (h : Host) (cfg : SDL_INPUT_RealJSConfig_t)
    (last actual : gamepads_sdl_state_t)
    (hq : h.UI_is_active = 0 ∨ cfg.use_in_menus = 0 ∨ ¬ deflected actual.x actual.y) :
    (GamePads_AtariKeysFromJoy K h cfg last actual).1 = K.AKEY_NONE := by
  unfold GamePads_AtariKeysFromJoy
  by_cases hc : h.UI_is_active ≠ 0 ∧ cfg.use_in_menus ≠ 0
  · rw [if_pos hc]
    have hd : ¬ deflected actual.x actual.y := by
      rcases hq with h1 | h1 | h1
      · exact absurd h1 hc.1
      · exact absurd h1 hc.2
      · exact h1
    unfold deflected at hd
    simp only [not_or] at hd
    simp [hd.1, hd.2.1, hd.2.2.1, hd.2.2.2]
  · rw [if_neg hc]

theorem fromJoy_buttons (K : Consts) (h : Host) (cfg : SDL_INPUT_RealJSConfig_t)
    (last actual : gamepads_sdl_state_t) :
    (GamePads_AtariKeysFromJoy K h cfg last actual).2.buttons = last.buttons := by
  unfold GamePads_AtariKeysFromJoy
  split_ifs <;> rfl

theorem fromHat_menu (K : Consts) (h : Host) (cfg : SDL_INPUT_RealJSConfig_t)
    (last actual : gamepads_sdl_state_t) (hm : h.UI_is_active ≠ 0)
    (hu : cfg.use_hat_in_menus ≠ 0) :
    (actual.hx = -1 → (GamePads_AtariKeysFromHat K h cfg last actual).1 = K.AKEY_LEFT)
    ∧ (actual.hx = 1 → (GamePads_AtariKeysFromHat K h cfg last actual).1 = K.AKEY_RIGHT)
    ∧ (actual.hx ≠ -1 → actual.hx ≠ 1 → actual.hy = -1 →
        (GamePads_AtariKeysFromHat K h cfg last actual).1 = K.AKEY_UP)
    ∧ (actual.hx ≠ -1 → actual.hx ≠ 1 → actual.hy = 1 →
        (GamePads_AtariKeysFromHat K h cfg last actual).1 = K.AKEY_DOWN) := by
  unfold GamePads_AtariKeysFromHat
  rw [if_pos ⟨hm, hu⟩]
  refine ⟨fun h1 => ?_, fun h1 => ?_, fun h1 h2 h3 => ?_, fun h1 h2 h3 => ?_⟩
  · simp [h1]
  · simp [h1]
  · simp [h1, h2, h3]
  · simp [h1, h2, h3]

theorem fromHat_none (K : Consts) (h : Host) (cfg : SDL_INPUT_RealJSConfig_t)
    (last actual : gamepads_sdl_state_t)
    (hq : h.UI_is_active = 0 ∨ cfg.use_hat_in_menus = 0 ∨ ¬ deflected actual.hx actual.hy) :
    (GamePads_AtariKeysFromHat K h cfg last actual).1 = K.AKEY_NONE := by
  unfold GamePads_AtariKeysFromHat
  by_cases hc : h.UI_is_active ≠ 0 ∧ cfg.use_hat_in_menus ≠ 0
  · rw [if_pos hc]
    have hd : ¬ deflected actual.hx actual.hy := by
      rcases hq with h1 | h1 | h1
      · exact absurd h1 hc.1
      · exact absurd h1 hc.2
      · exact h1
    unfold deflected at hd
    simp only [not_or] at hd
    simp [hd.1, hd.2.1, hd.2.2.1, hd.2.2.2]
  · rw [if_neg hc]

theorem fromHat_buttons (K : Consts) (h : Host) (cfg : SDL_INPUT_RealJSConfig_t)
    (last actual : gamepads_sdl_state_t) :
    (GamePads_AtariKeysFromHat K h cfg last actual).2.buttons = last.buttons := by
  unfold GamePads_AtariKeysFromHat
  split_ifs <;> rfl

/-- When the stick yields a key, `GamePads_AtariKeysByPad` returns it and
leaves the stored button mask. -/
theorem byPad_stick (K : Consts) (h : Host) (n : Nat) (s : State)
    (hk : (GamePads_AtariKeysFromJoy K h (s.gamepad_configuration n)
      (s.gamepads_sdl_last_state n) (s.gamepads_sdl_actual_state n)).1 ≠ K.AKEY_NONE) :
    (GamePads_AtariKeysByPad K h n s).1
        = (GamePads_AtariKeysFromJoy K h (s.gamepad_configuration n)
            (s.gamepads_sdl_last_state n) (s.gamepads_sdl_actual_state n)).1
    ∧ ((GamePads_AtariKeysByPad K h n s).2.gamepads_sdl_last_state n).buttons
        = (s.gamepads_sdl_last_state n).buttons := by
  unfold GamePads_AtariKeysByPad
  simp only [if_pos hk, Function.update_same]
  exact ⟨trivial, fromJoy_buttons K h _ _ _⟩

/-- When the stick yields no key and the hat yields one,
`GamePads_AtariKeysByPad` returns it and leaves the stored button mask. -/
theorem byPad_hat (K : Consts) (h : Host) (n : Nat) (s : State)
    (hj : (GamePads_AtariKeysFromJoy K h (s.gamepad_configuration n)
      (s.gamepads_sdl_last_state n) (s.gamepads_sdl_actual_state n)).1 = K.AKEY_NONE)
    (hk : (GamePads_AtariKeysFromHat K h (s.gamepad_configuration n)
      (GamePads_AtariKeysFromJoy K h (s.gamepad_configuration n)
        (s.gamepads_sdl_last_state n) (s.gamepads_sdl_actual_state n)).2
      (s.gamepads_sdl_actual_state n)).1 ≠ K.AKEY_NONE) :
    (GamePads_AtariKeysByPad K h n s).1
        = (GamePads_AtariKeysFromHat K h (s.gamepad_configuration n)
            (GamePads_AtariKeysFromJoy K h (s.gamepad_configuration n)
              (s.gamepads_sdl_last_state n) (s.gamepads_sdl_actual_state n)).2
            (s.gamepads_sdl_actual_state n)).1
    ∧ ((GamePads_AtariKeysByPad K h n s).2.gamepads_sdl_last_state n).buttons
        = (s.gamepads_sdl_last_state n).buttons := by
  unfold GamePads_AtariKeysByPad
  simp only [hj, ne_eq, not_true_eq_false, if_false, if_pos hk, Function.update_same]
  exact ⟨trivial, (fromHat_buttons K h _ _ _).trans (fromJoy_buttons K h _ _ _)⟩

/-- When neither the stick nor the hat yields a key,
`GamePads_AtariKeysByPad` is the scan of the 32 bits. -/
theorem byPad_scan (K : Consts) (h : Host) (n : Nat) (s : State)
    (hj : (GamePads_AtariKeysFromJoy K h (s.gamepad_configuration n)
      (s.gamepads_sdl_last_state n) (s.gamepads_sdl_actual_state n)).1 = K.AKEY_NONE)
    (hk : ∀ last, (GamePads_AtariKeysFromHat K h (s.gamepad_configuration n) last
      (s.gamepads_sdl_actual_state n)).1 = K.AKEY_NONE) :
    (GamePads_AtariKeysByPad K h n s).1
        = (scanButtonKeys K h (s.gamepad_configuration n) (s.gamepad_atari_key_mask n)
            (s.gamepads_sdl_last_state n).buttons (s.gamepads_sdl_actual_state n).buttons
            (List.range 32) (s.gamepads_sdl_last_state n).buttons).1
    ∧ ((GamePads_AtariKeysByPad K h n s).2.gamepads_sdl_last_state n).buttons
        = (scanButtonKeys K h (s.gamepad_configuration n) (s.gamepad_atari_key_mask n)
            (s.gamepads_sdl_last_state n).buttons (s.gamepads_sdl_actual_state n).buttons
            (List.range 32) (s.gamepads_sdl_last_state n).buttons).2 := by
  have eb := (fromHat_buttons K h (s.gamepad_configuration n)
    (GamePads_AtariKeysFromJoy K h (s.gamepad_configuration n)
      (s.gamepads_sdl_last_state n) (s.gamepads_sdl_actual_state n)).2
    (s.gamepads_sdl_actual_state n)).trans (fromJoy_buttons K h _ _ _)
  unfold GamePads_AtariKeysByPad
  simp only [hj, hk, ne_eq, not_true_eq_false, if_false, Function.update_same, eb]
  exact ⟨trivial, trivial⟩

/-- The key of a changed bit that is a menu button, the menu active and one of
the two menu flags set: return for a press of the select button, escape for a
press of the back button when that is not the select button too, and none for
a release of either. -/
theorem buttonKey_menu (K : Consts) (h : Host) (cfg : SDL_INPUT_RealJSConfig_t)
    (key_mask b : Nat) (hm : h.UI_is_active ≠ 0)
    (hu : cfg.use_in_menus ≠ 0 ∨ cfg.use_hat_in_menus ≠ 0)
    (hE : K.AKEY_ESCAPE ≠ K.AKEY_NONE) (hR : K.AKEY_RETURN ≠ K.AKEY_NONE) :
    ((b : Int) = cfg.in_menus_select_button → buttonKey K h cfg key_mask b true = K.AKEY_RETURN)
    ∧ ((b : Int) = cfg.in_menus_back_button → (b : Int) ≠ cfg.in_menus_select_button →
        buttonKey K h cfg key_mask b true = K.AKEY_ESCAPE)
    ∧ ((b : Int) = cfg.in_menus_back_button ∨ (b : Int) = cfg.in_menus_select_button →
        buttonKey K h cfg key_mask b false = K.AKEY_NONE) := by
  have hmenu : (h.UI_is_active ≠ 0 ∧ (cfg.use_in_menus ≠ 0 ∨ cfg.use_hat_in_menus ≠ 0)) := ⟨hm, hu⟩
  refine ⟨fun hs => ?_, fun hb hs => ?_, fun hbs => ?_⟩
  · unfold buttonKey
    simp [hmenu, hs, hR]
  · unfold buttonKey
    have hs2 : ¬ cfg.in_menus_back_button = cfg.in_menus_select_button := fun hc => hs (hb.trans hc)
    simp [hmenu, hb, hs2, hE]
  · unfold buttonKey
    rcases hbs with hb | hs
    · simp [hmenu, hb]
    · simp [hmenu, hs]

/-- C31 fails as stated: the menu is open, the pad navigates menus and button 0
is configured as the back button and as the select button; the press edge of
button 0 returns the return key, not the escape key. -/
theorem menu_back_counterexample :
    menuHost.UI_is_active ≠ 0
    ∧ ({ defaultConfig with use_in_menus := 1, in_menus_back_button := 0 }
        : SDL_INPUT_RealJSConfig_t).in_menus_select_button = 0
    ∧ ((menuState { defaultConfig with use_in_menus := 1, in_menus_back_button := 0 } 0 0 1
        ).gamepads_sdl_last_state 0).buttons = 0
    ∧ (GamePads_AtariKeysByPad stdConsts menuHost 0
        (menuState { defaultConfig with use_in_menus := 1, in_menus_back_button := 0 } 0 0 1)).1
      = stdConsts.AKEY_RETURN
    ∧ stdConsts.AKEY_RETURN ≠ stdConsts.AKEY_ESCAPE := by
  decide!

/-- C31 (amended): the menu is active and the keys left, right, up, down,
escape and return differ from `AKEY_NONE`.  With `use_in_menus` set,
`GamePads_AtariKeysByPad` returns left or right for a stick `x` of -1 or 1 and
otherwise up or down for a stick `y` of -1 or 1; with `use_hat_in_menus` set
and no key from the stick it returns the same for `hx` and `hy`; in both cases
the stored button mask is left as it is.  With one of the two flags set and no
key from the stick or the hat, the press edge of a bit `b`, no changed lower bit
yielding a key, returns the return key when `b` is the select button and the
escape key when `b` is the back button and not the select button, whatever the
function of the bit, and stores the bit as pressed; the release edge of a menu
button, no other changed bit yielding a key, returns no key and stores the
bit as released. -/
theorem menu_navigation (K : Consts) (h : Host) (n : Nat) (s : State)
    (hm : h.UI_is_active ≠ 0)
    (hL : K.AKEY_LEFT ≠ K.AKEY_NONE) (hRt : K.AKEY_RIGHT ≠ K.AKEY_NONE)
    (hU : K.AKEY_UP ≠ K.AKEY_NONE) (hD : K.AKEY_DOWN ≠ K.AKEY_NONE)
    (hE : K.AKEY_ESCAPE ≠ K.AKEY_NONE) (hR : K.AKEY_RETURN ≠ K.AKEY_NONE) :
    ((s.gamepad_configuration n).use_in_menus ≠ 0 →
      ((s.gamepads_sdl_actual_state n).x = -1 →
        (GamePads_AtariKeysByPad K h n s).1 = K.AKEY_LEFT)
      ∧ ((s.gamepads_sdl_actual_state n).x = 1 →
        (GamePads_AtariKeysByPad K h n s).1 = K.AKEY_RIGHT)
      ∧ ((s.gamepads_sdl_actual_state n).x ≠ -1 → (s.gamepads_sdl_actual_state n).x ≠ 1 →
        (s.gamepads_sdl_actual_state n).y = -1 →
        (GamePads_AtariKeysByPad K h n s).1 = K.AKEY_UP)
      ∧ ((s.gamepads_sdl_actual_state n).x ≠ -1 → (s.gamepads_sdl_actual_state n).x ≠ 1 →
        (s.gamepads_sdl_actual_state n).y = 1 →
        (GamePads_AtariKeysByPad K h n s).1 = K.AKEY_DOWN)
      ∧ (deflected (s.gamepads_sdl_actual_state n).x (s.gamepads_sdl_actual_state n).y →
        ((GamePads_AtariKeysByPad K h n s).2.gamepads_sdl_last_state n).buttons
          = (s.gamepads_sdl_last_state n).buttons))
    ∧ ((s.gamepad_configuration n).use_hat_in_menus ≠ 0 →
      ((s.gamepad_configuration n).use_in_menus = 0
        ∨ ¬ deflected (s.gamepads_sdl_actual_state n).x (s.gamepads_sdl_actual_state n).y) →
      ((s.gamepads_sdl_actual_state n).hx = -1 →
        (GamePads_AtariKeysByPad K h n s).1 = K.AKEY_LEFT)
      ∧ ((s.gamepads_sdl_actual_state n).hx = 1 →
        (GamePads_AtariKeysByPad K h n s).1 = K.AKEY_RIGHT)
      ∧ ((s.gamepads_sdl_actual_state n).hx ≠ -1 → (s.gamepads_sdl_actual_state n).hx ≠ 1 →
        (s.gamepads_sdl_actual_state n).hy = -1 →
        (GamePads_AtariKeysByPad K h n s).1 = K.AKEY_UP)
      ∧ ((s.gamepads_sdl_actual_state n).hx ≠ -1 → (s.gamepads_sdl_actual_state n).hx ≠ 1 →
        (s.gamepads_sdl_actual_state n).hy = 1 →
        (GamePads_AtariKeysByPad K h n s).1 = K.AKEY_DOWN)
      ∧ (deflected (s.gamepads_sdl_actual_state n).hx (s.gamepads_sdl_actual_state n).hy →
        ((GamePads_AtariKeysByPad K h n s).2.gamepads_sdl_last_state n).buttons
          = (s.gamepads_sdl_last_state n).buttons))
    ∧ ((s.gamepad_configuration n).use_in_menus ≠ 0
        ∨ (s.gamepad_configuration n).use_hat_in_menus ≠ 0 →
      ((s.gamepad_configuration n).use_in_menus = 0
        ∨ ¬ deflected (s.gamepads_sdl_actual_state n).x (s.gamepads_sdl_actual_state n).y) →
      ((s.gamepad_configuration n).use_hat_in_menus = 0
        ∨ ¬ deflected (s.gamepads_sdl_actual_state n).hx (s.gamepads_sdl_actual_state n).hy) →
      ∀ b, b < 32 →
        ((s.gamepads_sdl_last_state n).buttons.testBit b = false →
          (s.gamepads_sdl_actual_state n).buttons.testBit b = true →
          (∀ i, i < b →
            (s.gamepads_sdl_last_state n).buttons.testBit i
              ≠ (s.gamepads_sdl_actual_state n).buttons.testBit i →
            buttonKey K h (s.gamepad_configuration n) (s.gamepad_atari_key_mask n) i
              ((s.gamepads_sdl_actual_state n).buttons.testBit i) = K.AKEY_NONE) →
          ((b : Int) = (s.gamepad_configuration n).in_menus_select_button →
            (GamePads_AtariKeysByPad K h n s).1 = K.AKEY_RETURN
            ∧ ((GamePads_AtariKeysByPad K h n s).2.gamepads_sdl_last_state n).buttons.testBit b
                = true)
          ∧ ((b : Int) = (s.gamepad_configuration n).in_menus_back_button →
            (b : Int) ≠ (s.gamepad_configuration n).in_menus_select_button →
            (GamePads_AtariKeysByPad K h n s).1 = K.AKEY_ESCAPE
            ∧ ((GamePads_AtariKeysByPad K h n s).2.gamepads_sdl_last_state n).buttons.testBit b
                = true))
        ∧ ((s.gamepads_sdl_last_state n).buttons.testBit b = true →
          (s.gamepads_sdl_actual_state n).buttons.testBit b = false →
          ((b : Int) = (s.gamepad_configuration n).in_menus_back_button
            ∨ (b : Int) = (s.gamepad_configuration n).in_menus_select_button) →
          (∀ i, i < 32 → i ≠ b →
            (s.gamepads_sdl_last_state n).buttons.testBit i
              ≠ (s.gamepads_sdl_actual_state n).buttons.testBit i →
            buttonKey K h (s.gamepad_configuration n) (s.gamepad_atari_key_mask n) i
              ((s.gamepads_sdl_actual_state n).buttons.testBit i) = K.AKEY_NONE) →
          (GamePads_AtariKeysByPad K h n s).1 = K.AKEY_NONE
          ∧ ((GamePads_AtariKeysByPad K h n s).2.gamepads_sdl_last_state n).buttons.testBit b
              = false)) := by
  refine ⟨fun hu => ?_, fun hu hq => ?_, fun hu hq1 hq2 b hb => ?_⟩
  · obtain ⟨j1, j2, j3, j4⟩ := fromJoy_menu K h (s.gamepad_configuration n)
      (s.gamepads_sdl_last_state n) (s.gamepads_sdl_actual_state n) hm hu
    refine ⟨fun h1 => ?_, fun h1 => ?_, fun h1 h2 h3 => ?_, fun h1 h2 h3 => ?_, fun hd => ?_⟩
    · exact ((byPad_stick K h n s (by rw [j1 h1]; exact hL)).1).trans (j1 h1)
    · exact ((byPad_stick K h n s (by rw [j2 h1]; exact hRt)).1).trans (j2 h1)
    · exact ((byPad_stick K h n s (by rw [j3 h1 h2 h3]; exact hU)).1).trans (j3 h1 h2 h3)
    · exact ((byPad_stick K h n s (by rw [j4 h1 h2 h3]; exact hD)).1).trans (j4 h1 h2 h3)
    · have hk : (GamePads_AtariKeysFromJoy K h (s.gamepad_configuration n)
          (s.gamepads_sdl_last_state n) (s.gamepads_sdl_actual_state n)).1 ≠ K.AKEY_NONE := by
        by_cases h1 : (s.gamepads_sdl_actual_state n).x = -1
        · rw [j1 h1]; exact hL
        · by_cases h2 : (s.gamepads_sdl_actual_state n).x = 1
          · rw [j2 h2]; exact hRt
          · rcases hd with h0 | h0 | h0 | h0
            · exact absurd h0 h1
            · exact absurd h0 h2
            · rw [j3 h1 h2 h0]; exact hU
            · rw [j4 h1 h2 h0]; exact hD
      exact (byPad_stick K h n s hk).2
  · have hj := fromJoy_none K h (s.gamepad_configuration n) (s.gamepads_sdl_last_state n)
      (s.gamepads_sdl_actual_state n) (Or.inr hq)
    obtain ⟨j1, j2, j3, j4⟩ := fromHat_menu K h (s.gamepad_configuration n)
      (GamePads_AtariKeysFromJoy K h (s.gamepad_configuration n)
        (s.gamepads_sdl_last_state n) (s.gamepads_sdl_actual_state n)).2
      (s.gamepads_sdl_actual_state n) hm hu
    refine ⟨fun h1 => ?_, fun h1 => ?_, fun h1 h2 h3 => ?_, fun h1 h2 h3 => ?_, fun hd => ?_⟩
    · exact ((byPad_hat K h n s hj (by rw [j1 h1]; exact hL)).1).trans (j1 h1)
    · exact ((byPad_hat K h n s hj (by rw [j2 h1]; exact hRt)).1).trans (j2 h1)
    · exact ((byPad_hat K h n s hj (by rw [j3 h1 h2 h3]; exact hU)).1).trans (j3 h1 h2 h3)
    · exact ((byPad_hat K h n s hj (by rw [j4 h1 h2 h3]; exact hD)).1).trans (j4 h1 h2 h3)
    · have hk : (GamePads_AtariKeysFromHat K h (s.gamepad_configuration n)
          (GamePads_AtariKeysFromJoy K h (s.gamepad_configuration n)
            (s.gamepads_sdl_last_state n) (s.gamepads_sdl_actual_state n)).2
          (s.gamepads_sdl_actual_state n)).1 ≠ K.AKEY_NONE := by
        by_cases h1 : (s.gamepads_sdl_actual_state n).hx = -1
        · rw [j1 h1]; exact hL
        · by_cases h2 : (s.gamepads_sdl_actual_state n).hx = 1
          · rw [j2 h2]; exact hRt
          · rcases hd with h0 | h0 | h0 | h0
            · exact absurd h0 h1
            · exact absurd h0 h2
            · rw [j3 h1 h2 h0]; exact hU
            · rw [j4 h1 h2 h0]; exact hD
      exact (byPad_hat K h n s hj hk).2
  · obtain ⟨e1, e2⟩ := byPad_scan K h n s
      (fromJoy_none K h _ _ _ (Or.inr hq1)) (fun last => fromHat_none K h _ last _ (Or.inr hq2))
    obtain ⟨m1, m2, m3⟩ := buttonKey_menu K h (s.gamepad_configuration n)
      (s.gamepad_atari_key_mask n) b hm hu hE hR
    obtain ⟨l1, l2, hl, hl1, hl2⟩ := range_split b 32 hb
    have hmem : ∀ i ∈ l1 ++ b :: l2, i < 32 := fun i hi => List.mem_range.1 (hl ▸ hi)
    constructor
    · intro hlast hact hlow
      have hc : (s.gamepads_sdl_last_state n).buttons.testBit b
          ≠ (s.gamepads_sdl_actual_state n).buttons.testBit b := by
        rw [hlast, hact]; decide
      have hit : ∀ key, buttonKey K h (s.gamepad_configuration n) (s.gamepad_atari_key_mask n) b
            true = key → key ≠ K.AKEY_NONE →
          (GamePads_AtariKeysByPad K h n s).1 = key
          ∧ ((GamePads_AtariKeysByPad K h n s).2.gamepads_sdl_last_state n).buttons.testBit b
              = true := by
        intro key hkey hne
        obtain ⟨r1, r2⟩ := scanButtonKeys_hit K h (s.gamepad_configuration n)
          (s.gamepad_atari_key_mask n) (s.gamepads_sdl_last_state n).buttons
          (s.gamepads_sdl_actual_state n).buttons l1 l2 b hmem
          (fun i hi hci => hlow i (hl1 i hi) hci) hc (by rw [hact, hkey]; exact hne)
          (s.gamepads_sdl_last_state n).buttons
        rw [e1, e2, hl]
        refine ⟨by rw [r1, hact, hkey], ?_⟩
        rw [r2 b hb, if_pos ⟨Or.inr rfl, hc⟩, hact]
      exact ⟨fun hs => hit _ (m1 hs) hR, fun hbk hs => hit _ (m2 hbk hs) hE⟩
    · intro hlast hact hbs hother
      have hq : ∀ i ∈ List.range 32,
          (s.gamepads_sdl_last_state n).buttons.testBit i
            ≠ (s.gamepads_sdl_actual_state n).buttons.testBit i →
          buttonKey K h (s.gamepad_configuration n) (s.gamepad_atari_key_mask n) i
            ((s.gamepads_sdl_actual_state n).buttons.testBit i) = K.AKEY_NONE := by
        intro i hi hci
        by_cases hib : i = b
        · rw [hib, hact]; exact m3 hbs
        · exact hother i (List.mem_range.1 hi) hib hci
      obtain ⟨r1, r2⟩ := scanButtonKeys_none K h (s.gamepad_configuration n)
        (s.gamepad_atari_key_mask n) (s.gamepads_sdl_last_state n).buttons
        (s.gamepads_sdl_actual_state n).buttons (List.range 32)
        (fun i hi => List.mem_range.1 hi) hq (s.gamepads_sdl_last_state n).buttons
      rw [e1, e2]
      refine ⟨r1, ?_⟩
      rw [r2 b hb, if_pos ⟨List.mem_range.2 hb, by rw [hlast, hact]; decide⟩, hact]

/-- Witness for C31: the menu open, the default configuration with
`use_in_menus` set (select button 0, back button 1), the stick centred and
button 1 newly pressed: the escape key, though the function of button 1 is
fire-hold. -/
theorem menu_navigation_witness :
    menuHost.UI_is_active ≠ 0
    ∧ GamePads_GetFunctionForButton
        ((menuState { defaultConfig with use_in_menus := 1 } 0 0 2).gamepad_configuration 0) 1
      = FNPAD_FIRE_HOLD
    ∧ (GamePads_AtariKeysByPad stdConsts menuHost 0
        (menuState { defaultConfig with use_in_menus := 1 } 0 0 2)).1 = stdConsts.AKEY_ESCAPE
    ∧ (GamePads_AtariKeysByPad stdConsts menuHost 0
        (menuState { defaultConfig with use_in_menus := 1 } (-1) 0 2)).1 = stdConsts.AKEY_LEFT :=
  ⟨by decide!, by decide!,
    ((((menu_navigation stdConsts menuHost 0
      (menuState { defaultConfig with use_in_menus := 1 } 0 0 2)
      (by decide!) (by decide) (by decide) (by decide) (by decide) (by decide) (by decide)).2.2
      (Or.inl (by decide!)) (Or.inr (by decide!)) (Or.inr (by decide!)) 1 (by decide)).1
      (by decide!) (by decide!)
      (by
        intro i hi
        interval_cases i
        intro hc
        exact absurd hc (by decide!))).2 (by decide!) (by decide!)).1,
    by decide!⟩

/-! ## The direction masks, the keys of the buttons and the error messages -/

/-- C32: for every pad, `GamePads_AtariJoy` is the AND of `INPUT_STICK_CENTRE`
with the stick value when `use_as_stick` is set and with the hat value when
`use_hat_as_stick` is set; the stick value is the AND of `INPUT_STICK_CENTRE`
with the direction constants left or right for `x` -1 or 1 and forward or back
for `y` -1 or 1, and the hat value is the same of `hx` and `hy`; with both
sources off the result is `INPUT_STICK_CENTRE`.  With the constants of
`input.h` a stick at (-1, -1) and a centred hat give 10, up and left. -/
theorem atariJoy_and (K : Consts) (s : State) (n : Nat) :
    GamePads_AtariJoy K s n
      = andAll K.INPUT_STICK_CENTRE
          ((if (s.gamepad_configuration n).use_as_stick ≠ 0 then
              [GamePads_AtariJoyFromGamePadJoy K (s.gamepads_sdl_actual_state n)] else [])
            ++ (if (s.gamepad_configuration n).use_hat_as_stick ≠ 0 then
              [GamePads_AtariJoyFromGamePadHat K (s.gamepads_sdl_actual_state n)] else []))
    ∧ GamePads_AtariJoyFromGamePadJoy K (s.gamepads_sdl_actual_state n)
      = andAll K.INPUT_STICK_CENTRE
          (directionConsts K (s.gamepads_sdl_actual_state n).x (s.gamepads_sdl_actual_state n).y)
    ∧ GamePads_AtariJoyFromGamePadHat K (s.gamepads_sdl_actual_state n)
      = andAll K.INPUT_STICK_CENTRE
          (directionConsts K (s.gamepads_sdl_actual_state n).hx (s.gamepads_sdl_actual_state n).hy)
    ∧ ((s.gamepad_configuration n).use_as_stick = 0 →
        (s.gamepad_configuration n).use_hat_as_stick = 0 →
        GamePads_AtariJoy K s n = K.INPUT_STICK_CENTRE)
    ∧ GamePads_AtariJoy stdConsts
        { sampleState 1 defaultConfig with
          gamepads_sdl_actual_state := fun _ =>
            { x := -1, y := -1, hx := 0, hy := 0, buttons := 0, special := 0 } } 0 = 10 := by
  refine ⟨?_, ?_, ?_, ?_, by decide!⟩
  · unfold GamePads_AtariJoy andAll
    by_cases h1 : (s.gamepad_configuration n).use_as_stick ≠ 0 <;>
    by_cases h2 : (s.gamepad_configuration n).use_hat_as_stick ≠ 0 <;>
    simp [h1, h2]
  · unfold GamePads_AtariJoyFromGamePadJoy andAll directionConsts
    by_cases h1 : (s.gamepads_sdl_actual_state n).x = -1 <;>
    by_cases h2 : (s.gamepads_sdl_actual_state n).x = 1 <;>
    by_cases h3 : (s.gamepads_sdl_actual_state n).y = -1 <;>
    by_cases h4 : (s.gamepads_sdl_actual_state n).y = 1 <;>
    simp [h1, h2, h3, h4]
  · unfold GamePads_AtariJoyFromGamePadHat andAll directionConsts
    by_cases h1 : (s.gamepads_sdl_actual_state n).hx = -1 <;>
    by_cases h2 : (s.gamepads_sdl_actual_state n).hx = 1 <;>
    by_cases h3 : (s.gamepads_sdl_actual_state n).hy = -1 <;>
    by_cases h4 : (s.gamepads_sdl_actual_state n).hy = 1 <;>
    simp [h1, h2, h3, h4]
  · intro h1 h2
    unfold GamePads_AtariJoy
    simp [h1, h2]

/-- C37 fails as stated: `GamePads_AtariKeysPress` maps the help function and
the escape function to the space key, which differs from the help key and from
the escape key, and maps the save-state and load-state functions to no key. -/
theorem keys_press_counterexample :
    GamePads_AtariKeysPress stdConsts (sampleHost 0 0 0 []) FNPAD_HELP = stdConsts.AKEY_SPACE
    ∧ stdConsts.AKEY_SPACE ≠ stdConsts.AKEY_HELP
    ∧ GamePads_AtariKeysPress stdConsts (sampleHost 0 0 0 []) FNPAD_ESCAPE = stdConsts.AKEY_SPACE
    ∧ stdConsts.AKEY_SPACE ≠ stdConsts.AKEY_ESCAPE
    ∧ GamePads_AtariKeysPress stdConsts (sampleHost 0 0 0 []) FNPAD_SAVESTATE = stdConsts.AKEY_NONE
    ∧ GamePads_AtariKeysPress stdConsts (sampleHost 0 0 0 []) FNPAD_LOADSTATE = stdConsts.AKEY_NONE := by
  decide

/-- C37 (amended): `GamePads_AtariKeysPress` maps the spacebar function to the
space key, every raw-key code `768 + c` with `c` in 0..255 to the key code `c`,
the functions exit, warm start, cold start, break, screenshot, interlaced
screenshot and turbo-toggle to the key of the same name, and the save-state and
load-state functions to no key; with the constants of `akey.h` the seven named
keys differ from `AKEY_NONE`. -/
theorem keys_press_table (K : Consts) (h : Host) :
    GamePads_AtariKeysPress K h FNPAD_KEY_SPACEBAR = K.AKEY_SPACE
    ∧ (∀ c : Int, 0 ≤ c → c ≤ 255 → GamePads_AtariKeysPress K h (FNPAD_CODE_ + c) = c)
    ∧ GamePads_AtariKeysPress K h FNPAD_EXIT = K.AKEY_EXIT
    ∧ GamePads_AtariKeysPress K h FNPAD_WARMSTART = K.AKEY_WARMSTART
    ∧ GamePads_AtariKeysPress K h FNPAD_COLDSTART = K.AKEY_COLDSTART
    ∧ GamePads_AtariKeysPress K h FNPAD_BREAK = K.AKEY_BREAK
    ∧ GamePads_AtariKeysPress K h FNPAD_SCREENSHOT = K.AKEY_SCREENSHOT
    ∧ GamePads_AtariKeysPress K h FNPAD_SCREENSHOT_INTERLACE = K.AKEY_SCREENSHOT_INTERLACE
    ∧ GamePads_AtariKeysPress K h FNPAD_TURBO_TOGGLE = K.AKEY_TURBO
    ∧ GamePads_AtariKeysPress K h FNPAD_SAVESTATE = K.AKEY_NONE
    ∧ GamePads_AtariKeysPress K h FNPAD_LOADSTATE = K.AKEY_NONE
    ∧ (stdConsts.AKEY_EXIT ≠ stdConsts.AKEY_NONE ∧ stdConsts.AKEY_WARMSTART ≠ stdConsts.AKEY_NONE
        ∧ stdConsts.AKEY_COLDSTART ≠ stdConsts.AKEY_NONE ∧ stdConsts.AKEY_BREAK ≠ stdConsts.AKEY_NONE
        ∧ stdConsts.AKEY_SCREENSHOT ≠ stdConsts.AKEY_NONE
        ∧ stdConsts.AKEY_SCREENSHOT_INTERLACE ≠ stdConsts.AKEY_NONE
        ∧ stdConsts.AKEY_TURBO ≠ stdConsts.AKEY_NONE ∧ stdConsts.AKEY_SPACE ≠ stdConsts.AKEY_NONE) := by
  refine ⟨?_, ?_, ?_, ?_, ?_, ?_, ?_, ?_, ?_, ?_, ?_, by decide⟩
  · simp [GamePads_AtariKeysPress, FNPAD_KEY_SPACEBAR, FNPAD_TURBO_TOGGLE, FNPAD_EXIT, FNPAD_UI,
      FNPAD_SAVESTATE, FNPAD_LOADSTATE, FNPAD_WARMSTART, FNPAD_COLDSTART, FNPAD_BREAK,
      FNPAD_SCREENSHOT, FNPAD_SCREENSHOT_INTERLACE, FNPAD_KEYB, FNPAD_HELP, FNPAD_ESCAPE]
  · intro c h0 h1
    unfold GamePads_AtariKeysPress FNPAD_CODE_ FNPAD_TURBO_TOGGLE FNPAD_EXIT FNPAD_UI
      FNPAD_SAVESTATE FNPAD_LOADSTATE FNPAD_WARMSTART FNPAD_COLDSTART FNPAD_BREAK
      FNPAD_SCREENSHOT FNPAD_SCREENSHOT_INTERLACE FNPAD_KEYB FNPAD_HELP FNPAD_ESCAPE
      FNPAD_KEY_SPACEBAR
    repeat rw [if_neg (by omega)]
    rw [if_pos (by omega)]
    omega
  all_goals
    simp [GamePads_AtariKeysPress, FNPAD_KEY_SPACEBAR, FNPAD_TURBO_TOGGLE, FNPAD_EXIT, FNPAD_UI,
      FNPAD_SAVESTATE, FNPAD_LOADSTATE, FNPAD_WARMSTART, FNPAD_COLDSTART, FNPAD_BREAK,
      FNPAD_SCREENSHOT, FNPAD_SCREENSHOT_INTERLACE, FNPAD_KEYB, FNPAD_HELP, FNPAD_ESCAPE]

/-- C40, the failing input: for the error codes 0..7 the function returns the
entry of the table, and for a negative code and a code above
`sizeof(error_messages)` the string `unknown error`; for the codes from 8 to
`sizeof(error_messages)`, which is 64 with pointers of 8 bytes and 32 with
pointers of 4 bytes, it reads `error_messages[code]` beyond the 8 entries of
the table. -/
theorem error_message_beyond_table :
    error_messages.length = 8
    ∧ (∀ p : Nat, 1 ≤ p → ∀ c : Int, 0 ≤ c → c < 8 →
        libatari800_error_message p c = error_messages.get? c.toNat
        ∧ (libatari800_error_message p c).isSome = true)
    ∧ (∀ p : Nat, ∀ c : Int, c < 0 → libatari800_error_message p c = some unknown_error)
    ∧ (∀ p : Nat, ∀ c : Int, c > 8 * (p : Int) →
        libatari800_error_message p c = some unknown_error)
    ∧ (∀ p : Nat, ∀ c : Int, 8 ≤ c → c ≤ 8 * (p : Int) → libatari800_error_message p c = none)
    ∧ libatari800_error_message 8 8 = none
    ∧ libatari800_error_message 8 64 = none
    ∧ libatari800_error_message 4 8 = none
    ∧ libatari800_error_message 8 65 = some "unknown error"
    ∧ libatari800_error_message 8 7 = some "invalid escape opcode" := by
  have hl : error_messages.length = 8 := rfl
  refine ⟨hl, ?_, ?_, ?_, ?_, ?_, ?_, ?_, ?_, ?_⟩
  · intro p hp c h0 h1
    have hn : ¬ (c < 0 ∨ c > ((error_messages.length * p : Nat) : Int)) := by
      rw [hl]; push_cast; omega
    have e : libatari800_error_message p c = error_messages.get? c.toNat := by
      unfold libatari800_error_message; rw [if_neg hn]
    refine ⟨e, ?_⟩
    rw [e, List.get?_eq_getElem?]
    have : c.toNat < error_messages.length := by rw [hl]; omega
    simp [this]
  · intro p c hc
    unfold libatari800_error_message
    rw [if_pos (Or.inl hc)]
  · intro p c hc
    unfold libatari800_error_message
    rw [if_pos (Or.inr (by rw [hl]; push_cast; omega))]
  · intro p c h0 h1
    have hn : ¬ (c < 0 ∨ c > ((error_messages.length * p : Nat) : Int)) := by
      rw [hl]; push_cast; omega
    unfold libatari800_error_message
    rw [if_neg hn, List.get?_eq_none]
    rw [hl]; omega
  all_goals decide

/-! ## Keys from the keyboard -/

/-- The alt chords leave the key bindings, the keyboard joystick flags and the
last key as they are. -/
theorem altChords_frame (K : Consts) (A : KeyConsts) (h : Host) (e : KeyboardInput) (s : State)
    (k : KeyboardState) :
    (altChords K A h e s k).2.1.keys = s.keys
    ∧ (altChords K A h e s k).2.1.PLATFORM_kbd_joy_0_enabled = s.PLATFORM_kbd_joy_0_enabled
    ∧ (altChords K A h e s k).2.1.PLATFORM_kbd_joy_1_enabled = s.PLATFORM_kbd_joy_1_enabled
    ∧ (altChords K A h e s k).2.2.lastkey = k.lastkey
    ∧ (altChords K A h e s k).2.2.lastuni = k.lastuni := by
  refine ⟨?_, ?_, ?_, ?_, ?_⟩
  · simp only [altChords, apply_ite Prod.snd, apply_ite Prod.fst, apply_ite State.keys, ite_self]
  · simp only [altChords, apply_ite Prod.snd, apply_ite Prod.fst,
      apply_ite State.PLATFORM_kbd_joy_0_enabled, ite_self]
  · simp only [altChords, apply_ite Prod.snd, apply_ite Prod.fst,
      apply_ite State.PLATFORM_kbd_joy_1_enabled, ite_self]
  · simp only [altChords, apply_ite Prod.snd, apply_ite KeyboardState.lastkey, ite_self]
  · simp only [altChords, apply_ite Prod.snd, apply_ite KeyboardState.lastuni, ite_self]

/-- The result of the first part of `Keyboard_AtariKeys` when the event loop
met no `SDL_QUIT` and the function does not return for want of a key. -/
theorem keyboardEntry_eq (K : Consts) (A : KeyConsts) (h : Host) (e : KeyboardInput)
    (s : State) (k : KeyboardState) (h1 : ¬ (pollEvents e.events (capsLockFix k)).1 = true)
    (h2 : ¬ (e.events = [] ∧ (pollEvents e.events (capsLockFix k)).2.key_pressed = 0))
    (r : Option Int × State × KeyboardState)
    (hr : altChords K A h e s { (pollEvents e.events (capsLockFix k)).2 with UI_alt_function := -1 } = r) :
    keyboardEntry K A h e s k
      = match r.1 with
        | some key => (some key, r.2.1, r.2.2)
        | none =>
          if (sampleModifiers K h r.2.1 r.2.2).key_pressed = 0 then
            (some K.AKEY_NONE, r.2.1, sampleModifiers K h r.2.1 r.2.2)
          else (none, r.2.1, sampleModifiers K h r.2.1 r.2.2) := by
  subst hr
  unfold keyboardEntry
  simp only
  rw [if_neg h1, if_neg h2]

/-- The first part of `Keyboard_AtariKeys` leaves the key bindings and the
keyboard joystick flags as they are, and the last key and code point are those
of the event loop. -/
theorem keyboardEntry_frame (K : Consts) (A : KeyConsts) (h : Host) (e : KeyboardInput)
    (s : State) (k : KeyboardState) :
    (keyboardEntry K A h e s k).2.1.keys = s.keys
    ∧ (keyboardEntry K A h e s k).2.1.PLATFORM_kbd_joy_0_enabled = s.PLATFORM_kbd_joy_0_enabled
    ∧ (keyboardEntry K A h e s k).2.1.PLATFORM_kbd_joy_1_enabled = s.PLATFORM_kbd_joy_1_enabled
    ∧ (keyboardEntry K A h e s k).2.2.lastkey = (pollEvents e.events (capsLockFix k)).2.lastkey
    ∧ (keyboardEntry K A h e s k).2.2.lastuni = (pollEvents e.events (capsLockFix k)).2.lastuni := by
  by_cases h1 : (pollEvents e.events (capsLockFix k)).1 = true
  · unfold keyboardEntry
    simp only
    rw [if_pos h1]
    exact ⟨rfl, rfl, rfl, rfl, rfl⟩
  by_cases h2 : e.events = [] ∧ (pollEvents e.events (capsLockFix k)).2.key_pressed = 0
  · unfold keyboardEntry
    simp only
    rw [if_neg h1, if_pos h2]
    exact ⟨rfl, rfl, rfl, rfl, rfl⟩
  have hc := altChords_frame K A h e s
    { (pollEvents e.events (capsLockFix k)).2 with UI_alt_function := -1 }
  rw [keyboardEntry_eq K A h e s k h1 h2 _ rfl]
  generalize altChords K A h e s _ = r at hc ⊢
  obtain ⟨a, s1, k1⟩ := r
  cases a with
  | some key => exact hc
  | none =>
    simp only
    split_ifs <;> exact hc

/-- When `Keyboard_AtariKeys` gets past its first part, shift and control are
as sampled from `kbhits` and a key is down. -/
theorem keyboardEntry_none (K : Consts) (A : KeyConsts) (h : Host) (e : KeyboardInput)
    (s : State) (k : KeyboardState) (hentry : (keyboardEntry K A h e s k).1 = none) :
    (keyboardEntry K A h e s k).2.2.INPUT_key_shift
        = (if h.kbhits SDLK_LSHIFT ≠ 0 ∨ h.kbhits SDLK_RSHIFT ≠ 0 then 1 else 0)
    ∧ (keyboardEntry K A h e s k).2.2.key_control
        = (if h.kbhits SDLK_LCTRL ≠ 0 ∨ h.kbhits SDLK_RCTRL ≠ 0 then 1 else 0)
    ∧ (keyboardEntry K A h e s k).2.2.key_pressed ≠ 0 := by
  by_cases h1 : (pollEvents e.events (capsLockFix k)).1 = true
  · unfold keyboardEntry at hentry
    simp only at hentry
    rw [if_pos h1] at hentry
    simp at hentry
  by_cases h2 : e.events = [] ∧ (pollEvents e.events (capsLockFix k)).2.key_pressed = 0
  · unfold keyboardEntry at hentry
    simp only at hentry
    rw [if_neg h1, if_pos h2] at hentry
    simp at hentry
  rw [keyboardEntry_eq K A h e s k h1 h2 _ rfl] at hentry ⊢
  generalize altChords K A h e s _ = r at hentry ⊢
  obtain ⟨a, s1, k1⟩ := r
  cases a with
  | some key => simp at hentry
  | none =>
    simp only at hentry ⊢
    by_cases h3 : (sampleModifiers K h s1 k1).key_pressed = 0
    · rw [if_pos h3] at hentry
      simp at hentry
    · rw [if_neg h3]
      exact ⟨rfl, rfl, h3⟩

/-- The function keys never change the last key, the code point or the shift
and control state. -/
theorem functionKeys_fields (K : Consts) (A : KeyConsts) (e : KeyboardInput) (s : State)
    (k : KeyboardState) :
    (functionKeys K A e s k).2.lastkey = k.lastkey
    ∧ (functionKeys K A e s k).2.lastuni = k.lastuni
    ∧ (functionKeys K A e s k).2.INPUT_key_shift = k.INPUT_key_shift
    ∧ (functionKeys K A e s k).2.key_control = k.key_control := by
  refine ⟨?_, ?_, ?_, ?_⟩
  · simp only [functionKeys, apply_ite Prod.snd, apply_ite KeyboardState.lastkey, ite_self]
  · simp only [functionKeys, apply_ite Prod.snd, apply_ite KeyboardState.lastuni, ite_self]
  · simp only [functionKeys, apply_ite Prod.snd, apply_ite KeyboardState.INPUT_key_shift, ite_self]
  · simp only [functionKeys, apply_ite Prod.snd, apply_ite KeyboardState.key_control, ite_self]

/-- The translation of the key that is down never changes the last key. -/
theorem translateKey_lastkey (K : Consts) (A : KeyConsts) (h : Host) (e : KeyboardInput)
    (s : State) (k : KeyboardState) : (translateKey K A h e s k).2.lastkey = k.lastkey := by
  have hf := (functionKeys_fields K A e s k).1
  unfold translateKey
  simp only
  repeat (first | exact hf | split)

/-- `Keyboard_AtariKeys` leaves the last key as the event loop set it. -/
theorem keyboard_lastkey (K : Consts) (A : KeyConsts) (h : Host) (e : KeyboardInput)
    (s : State) (k : KeyboardState) :
    (Keyboard_AtariKeys K A h e s k).2.2.lastkey
      = (pollEvents e.events (capsLockFix k)).2.lastkey := by
  have hf := (keyboardEntry_frame K A h e s k).2.2.2.1
  unfold Keyboard_AtariKeys
  simp only
  split
  · exact hf
  · simp only [translateKey_lastkey]
    exact hf

/-- The event loop on a queue without `SDL_QUIT` that ends with an event of
the caps-lock key, a key-down or a key-up: the last key is caps-lock and the
key counts as down. -/
theorem pollEvents_caps (es : List SDL_Event) (ev : SDL_Event) (k : KeyboardState)
    (hq : (pollEvents es k).1 = false)
    (hev : (∃ u, ev = SDL_Event.SDL_KEYDOWN SDLK_CAPSLOCK u) ∨ ev = SDL_Event.SDL_KEYUP SDLK_CAPSLOCK) :
    (pollEvents (es ++ [ev]) k).1 = false
    ∧ (pollEvents (es ++ [ev]) k).2.lastkey = SDLK_CAPSLOCK
    ∧ (pollEvents (es ++ [ev]) k).2.key_pressed = 1 := by
  induction es generalizing k with
  | nil =>
    rcases hev with ⟨u, rfl⟩ | rfl
    · exact ⟨rfl, rfl, rfl⟩
    · exact ⟨rfl, rfl, rfl⟩
  | cons a es ih =>
    cases a with
    | SDL_KEYDOWN sym unicode => exact ih _ hq
    | SDL_KEYUP sym => exact ih _ hq
    | SDL_QUIT => simp [pollEvents] at hq
    | other => exact ih _ hq

/-- The case normalisation on a letter: the result is the upper-case code
point when shift is down and the lower-case one otherwise. -/
theorem normaliseCase_letter (shift u : Int) (i : Nat) (hi : i < 26)
    (hu : u = 65 + i ∨ u = 97 + i) :
    normaliseCase shift u = if shift ≠ 0 then 65 + (i : Int) else 97 + i := by
  unfold normaliseCase
  simp only
  rcases hu with rfl | rfl <;> split_ifs <;> omega

/-- The switch on the code point at an upper-case letter. -/
theorem unicodeKey_upper (K : Consts) (A : KeyConsts) (sc : Int) (i : Nat) (hi : i < 26) :
    unicodeKey K A sc (65 + i) = A.AKEY_upper i := by
  unfold unicodeKey
  rw [if_neg (fun x => by omega), if_pos ⟨by omega, by omega⟩]
  congr 1
  omega

/-- The switch on the code point at a lower-case letter. -/
theorem unicodeKey_lower (K : Consts) (A : KeyConsts) (sc : Int) (i : Nat) (hi : i < 26) :
    unicodeKey K A sc (97 + i) = A.AKEY_lower i := by
  unfold unicodeKey
  rw [if_neg (fun x => by omega), if_neg (fun x => by omega), if_pos ⟨by omega, by omega⟩]
  congr 1
  omega

/-- C33 (counterexample): with the menu active, keyboard joystick 0 enabled
and no earlier rule applying, a key-down of its left key (keypad 4, code point
`4`) is not consumed: `Keyboard_AtariKeys` returns the key of the digit 4, not
`AKEY_NONE`, and the key-is-down state stays set. -/
theorem kbd_joystick_menu_counterexample :
    (initialState stdConsts).PLATFORM_kbd_joy_0_enabled ≠ 0
    ∧ keyboardEntry stdConsts stdKeyConsts (keysHost [] 1)
          (keyboardInput [SDL_Event.SDL_KEYDOWN 260 52]) (initialState stdConsts) initialKeyboard
        = (none, initialState stdConsts,
            { initialKeyboard with lastkey := 260, lastuni := 52, key_pressed := 1 })
    ∧ (260 : Int) = (initialState stdConsts).keys.KBD_STICK_0_LEFT
    ∧ (functionKeys stdConsts stdKeyConsts (keyboardInput [SDL_Event.SDL_KEYDOWN 260 52])
          (initialState stdConsts)
          { initialKeyboard with lastkey := 260, lastuni := 52, key_pressed := 1 }).1 = none
    ∧ (Keyboard_AtariKeys stdConsts stdKeyConsts (keysHost [] 1)
          (keyboardInput [SDL_Event.SDL_KEYDOWN 260 52]) (initialState stdConsts)
          initialKeyboard).1 = stdKeyConsts.AKEY_digit 4
    ∧ stdKeyConsts.AKEY_digit 4 ≠ stdConsts.AKEY_NONE
    ∧ (Keyboard_AtariKeys stdConsts stdKeyConsts (keysHost [] 1)
          (keyboardInput [SDL_Event.SDL_KEYDOWN 260 52]) (initialState stdConsts)
          initialKeyboard).2.2.key_pressed = 1 := by
  refine ⟨by decide, rfl, rfl, by decide, by decide, by decide, by decide⟩

/-- C33 (amended): with the menu inactive, whenever keyboard joystick 0 or 1
is enabled, the key that is down is one of its five bound keys and no earlier
rule applies (the first part of the function does not return, none of the
function keys applies), `Keyboard_AtariKeys` returns `AKEY_NONE` and clears
the key-is-down state. -/
theorem kbd_joystick_consumed (K : Consts) (A : KeyConsts) (h : Host) (e : KeyboardInput)
    (s : State) (k : KeyboardState) (s1 : State) (k1 : KeyboardState)
    (hui : h.UI_is_active = 0)
    (hentry : keyboardEntry K A h e s k = (none, s1, k1))
    (hfn : (functionKeys K A e s1 k1).1 = none)
    (hkey : (s.PLATFORM_kbd_joy_0_enabled ≠ 0
        ∧ k1.lastkey ∈ [s.keys.KBD_STICK_0_LEFT, s.keys.KBD_STICK_0_RIGHT, s.keys.KBD_STICK_0_UP,
            s.keys.KBD_STICK_0_DOWN, s.keys.KBD_TRIG_0])
      ∨ (s.PLATFORM_kbd_joy_1_enabled ≠ 0
        ∧ k1.lastkey ∈ [s.keys.KBD_STICK_1_LEFT, s.keys.KBD_STICK_1_RIGHT, s.keys.KBD_STICK_1_UP,
            s.keys.KBD_STICK_1_DOWN, s.keys.KBD_TRIG_1])) :
    k1.lastkey = (pollEvents e.events (capsLockFix k)).2.lastkey
    ∧ (Keyboard_AtariKeys K A h e s k).1 = K.AKEY_NONE
    ∧ (Keyboard_AtariKeys K A h e s k).2.2.key_pressed = 0 := by
  have hf := keyboardEntry_frame K A h e s k
  rw [hentry] at hf
  obtain ⟨hk, h0, h1, hl, -⟩ := hf
  simp only at hk h0 h1 hl
  have hj : keyboardJoystickKey h s1 (functionKeys K A e s1 k1).2.lastkey := by
    rw [(functionKeys_fields K A e s1 k1).1]
    unfold keyboardJoystickKey
    rw [hk, h0, h1]
    simp only [List.mem_cons, List.mem_singleton, List.not_mem_nil, or_false] at hkey
    rcases hkey with ⟨ha, hb⟩ | ⟨ha, hb⟩
    · exact Or.inl ⟨hui, ha, hb⟩
    · exact Or.inr ⟨hui, ha, hb⟩
  refine ⟨hl, ?_, ?_⟩
  · unfold Keyboard_AtariKeys
    simp only
    rw [hentry]
    simp only
    unfold translateKey
    simp only
    rw [hfn]
    simp only
    rw [if_pos hj]
  · unfold Keyboard_AtariKeys
    simp only
    rw [hentry]
    simp only
    unfold translateKey
    simp only
    rw [hfn]
    simp only
    rw [if_pos hj]

/-- Witness of C33 (amended): keyboard joystick 0 with its initial bindings,
the menu inactive and a key-down of keypad 4. -/
theorem kbd_joystick_consumed_witness :
    (Keyboard_AtariKeys stdConsts stdKeyConsts (keysHost [] 0)
        (keyboardInput [SDL_Event.SDL_KEYDOWN 260 52]) (initialState stdConsts)
        initialKeyboard).1 = -1
    ∧ (Keyboard_AtariKeys stdConsts stdKeyConsts (keysHost [] 0)
        (keyboardInput [SDL_Event.SDL_KEYDOWN 260 52]) (initialState stdConsts)
        initialKeyboard).2.2.key_pressed = 0 :=
  (kbd_joystick_consumed stdConsts stdKeyConsts (keysHost [] 0)
    (keyboardInput [SDL_Event.SDL_KEYDOWN 260 52]) (initialState stdConsts) initialKeyboard
    (initialState stdConsts) { initialKeyboard with lastkey := 260, lastuni := 52, key_pressed := 1 }
    rfl rfl (by decide) (Or.inl ⟨by decide, by decide⟩)).2

/-- C34: for a key-down whose code point is the letter number `i` of the
alphabet in either case, on a machine that is not a 5200 and with no earlier
rule applying, `Keyboard_AtariKeys` returns the upper-case letter key when a
shift key is sampled down and the lower-case letter key otherwise, whatever
the case of the code point received; the code point it leaves in `lastuni` has
the case of the shift state, so a code point whose case agrees with the shift
state is not altered. -/
theorem letter_case_follows_shift (K : Consts) (A : KeyConsts) (h : Host) (e : KeyboardInput)
    (s : State) (k : KeyboardState) (s1 : State) (k1 k2 : KeyboardState)
    (hentry : keyboardEntry K A h e s k = (none, s1, k1))
    (hfn : functionKeys K A e s1 k1 = (none, k2))
    (hjoy : ¬ keyboardJoystickKey h s1 k2.lastkey)
    (hm : e.Atari800_machine_type ≠ A.Atari800_MACHINE_5200)
    (hsp : specialKeys K A h e (shiftControlBits A k2) k2 = none)
    (hcx : keysCX85 A e k2 = none)
    (hct : controlKeys K A (shiftControlBits A k2) k2 = none)
    (i : Nat) (hi : i < 26) (hu : k2.lastuni = 65 + i ∨ k2.lastuni = 97 + i) :
    k2.lastuni = (pollEvents e.events (capsLockFix k)).2.lastuni
    ∧ (Keyboard_AtariKeys K A h e s k).1
        = (if h.kbhits SDLK_LSHIFT ≠ 0 ∨ h.kbhits SDLK_RSHIFT ≠ 0 then A.AKEY_upper i
          else A.AKEY_lower i)
    ∧ (Keyboard_AtariKeys K A h e s k).2.2.lastuni
        = (if h.kbhits SDLK_LSHIFT ≠ 0 ∨ h.kbhits SDLK_RSHIFT ≠ 0 then 65 + (i : Int) else 97 + i)
    ∧ (((h.kbhits SDLK_LSHIFT ≠ 0 ∨ h.kbhits SDLK_RSHIFT ≠ 0) ∧ k2.lastuni = 65 + i
        ∨ ¬ (h.kbhits SDLK_LSHIFT ≠ 0 ∨ h.kbhits SDLK_RSHIFT ≠ 0) ∧ k2.lastuni = 97 + i) →
      (Keyboard_AtariKeys K A h e s k).2.2.lastuni = k2.lastuni) := by
  have hf := keyboardEntry_frame K A h e s k
  have hn := keyboardEntry_none K A h e s k (by rw [hentry])
  rw [hentry] at hf hn
  have hg := functionKeys_fields K A e s1 k1
  rw [hfn] at hg
  simp only at hf hn hg
  have hshift : k2.INPUT_key_shift
      = if h.kbhits SDLK_LSHIFT ≠ 0 ∨ h.kbhits SDLK_RSHIFT ≠ 0 then 1 else 0 := by
    rw [hg.2.2.1, hn.1]
  have h52 : keys5200 K A h e (shiftBit A k2) k2 = none := by
    unfold keys5200
    rw [if_neg (fun x => hm x.1)]
  have hres : Keyboard_AtariKeys K A h e s k
      = (unicodeKey K A (shiftControlBits A k2) (normaliseCase k2.INPUT_key_shift k2.lastuni), s1,
          { k2 with lastuni := normaliseCase k2.INPUT_key_shift k2.lastuni }) := by
    unfold Keyboard_AtariKeys
    simp only
    rw [hentry]
    simp only
    unfold translateKey
    simp only
    rw [hfn]
    simp only
    rw [if_neg hjoy, h52]
    simp only
    rw [hsp]
    simp only
    rw [hcx]
    simp only
    rw [hct]
  have hnorm := normaliseCase_letter k2.INPUT_key_shift k2.lastuni i hi hu
  by_cases hd : h.kbhits SDLK_LSHIFT ≠ 0 ∨ h.kbhits SDLK_RSHIFT ≠ 0
  · have hs1 : k2.INPUT_key_shift ≠ 0 := by
      rw [hshift, if_pos hd]
      decide
    rw [if_pos hs1] at hnorm
    rw [hres, hnorm, if_pos hd, if_pos hd]
    refine ⟨by rw [hg.2.1, hf.2.2.2.2], unicodeKey_upper K A _ i hi, rfl, ?_⟩
    rintro (⟨-, hx⟩ | ⟨hx, -⟩)
    · exact hx.symm
    · exact absurd hd hx
  · have hs0 : ¬ k2.INPUT_key_shift ≠ 0 := by
      rw [hshift, if_neg hd]
      decide
    rw [if_neg hs0] at hnorm
    rw [hres, hnorm, if_neg hd, if_neg hd]
    refine ⟨by rw [hg.2.1, hf.2.2.2.2], unicodeKey_lower K A _ i hi, rfl, ?_⟩
    rintro (⟨hx, -⟩ | ⟨-, hx⟩)
    · exact absurd hx hd
    · exact hx.symm

/-- Witness of C34: the lower-case code point `a` arrives while the left shift
key is down; the upper-case key `AKEY_A` is returned. -/
theorem letter_case_follows_shift_witness :
    (Keyboard_AtariKeys stdConsts stdKeyConsts (keysHost [SDLK_LSHIFT] 0)
        (keyboardInput [SDL_Event.SDL_KEYDOWN 98 98]) (initialState stdConsts)
        initialKeyboard).1 = 64 + 21
    ∧ (Keyboard_AtariKeys stdConsts stdKeyConsts (keysHost [SDLK_LSHIFT] 0)
        (keyboardInput [SDL_Event.SDL_KEYDOWN 98 98]) (initialState stdConsts)
        initialKeyboard).2.2.lastuni = 66 :=
  ⟨(letter_case_follows_shift stdConsts stdKeyConsts (keysHost [SDLK_LSHIFT] 0)
      (keyboardInput [SDL_Event.SDL_KEYDOWN 98 98]) (initialState stdConsts) initialKeyboard
      (initialState stdConsts)
      { initialKeyboard with lastkey := 98, lastuni := 98, key_pressed := 1, INPUT_key_shift := 1 }
      { initialKeyboard with lastkey := 98, lastuni := 98, key_pressed := 1, INPUT_key_shift := 1 }
      rfl rfl (by decide) (by decide) (by decide) (by decide) (by decide) 1 (by decide)
      (Or.inr rfl)).2.1,
   (letter_case_follows_shift stdConsts stdKeyConsts (keysHost [SDLK_LSHIFT] 0)
      (keyboardInput [SDL_Event.SDL_KEYDOWN 98 98]) (initialState stdConsts) initialKeyboard
      (initialState stdConsts)
      { initialKeyboard with lastkey := 98, lastuni := 98, key_pressed := 1, INPUT_key_shift := 1 }
      { initialKeyboard with lastkey := 98, lastuni := 98, key_pressed := 1, INPUT_key_shift := 1 }
      rfl rfl (by decide) (by decide) (by decide) (by decide) (by decide) 1 (by decide)
      (Or.inr rfl)).2.2.1⟩

/-- C35: when the last key is caps-lock, a call of `Keyboard_AtariKeys` that
finds no event resets the last key, the key-is-down state and the code point,
and returns `AKEY_NONE` in a build without the on-screen keyboard (the value
of `SDL_controller_kb()` in a build with it); further calls without events
return `AKEY_NONE` and leave the key released.  The last key is caps-lock
after every call whose event loop ended with a key-down or a key-up of
caps-lock, and the key counts as down in both cases. -/
theorem caps_lock_released (K : Consts) (A : KeyConsts) (h : Host) (e : KeyboardInput)
    (s : State) (k : KeyboardState) (hcaps : k.lastkey = SDLK_CAPSLOCK) (hev : e.events = []) :
    (Keyboard_AtariKeys K A h e s k).2.2.lastkey = SDLK_UNKNOWN
    ∧ (Keyboard_AtariKeys K A h e s k).2.2.key_pressed = 0
    ∧ (Keyboard_AtariKeys K A h e s k).2.2.lastuni = 0
    ∧ (Keyboard_AtariKeys K A h e s k).1
        = (if K.USE_UI_BASIC_ONSCREEN_KEYBOARD = true then e.SDL_controller_kb else K.AKEY_NONE)
    ∧ (∀ (h2 : Host) (e2 : KeyboardInput), e2.events = [] →
        (Keyboard_AtariKeys K A h2 e2 (Keyboard_AtariKeys K A h e s k).2.1
            (Keyboard_AtariKeys K A h e s k).2.2).1
          = (if K.USE_UI_BASIC_ONSCREEN_KEYBOARD = true then e2.SDL_controller_kb else K.AKEY_NONE)
        ∧ (Keyboard_AtariKeys K A h2 e2 (Keyboard_AtariKeys K A h e s k).2.1
            (Keyboard_AtariKeys K A h e s k).2.2).2.2 = (Keyboard_AtariKeys K A h e s k).2.2)
    ∧ (∀ (h0 : Host) (e0 : KeyboardInput) (s0 : State) (k0 : KeyboardState)
        (es : List SDL_Event) (ev : SDL_Event),
        e0.events = es ++ [ev] → (pollEvents es (capsLockFix k0)).1 = false →
        ((∃ u, ev = SDL_Event.SDL_KEYDOWN SDLK_CAPSLOCK u) ∨ ev = SDL_Event.SDL_KEYUP SDLK_CAPSLOCK) →
        (Keyboard_AtariKeys K A h0 e0 s0 k0).2.2.lastkey = SDLK_CAPSLOCK
        ∧ (pollEvents e0.events (capsLockFix k0)).2.key_pressed = 1) := by
  have hidle : ∀ (h2 : Host) (e2 : KeyboardInput) (s2 : State) (k2 : KeyboardState),
      e2.events = [] → (capsLockFix k2).key_pressed = 0 →
      Keyboard_AtariKeys K A h2 e2 s2 k2
        = (if K.USE_UI_BASIC_ONSCREEN_KEYBOARD = true then e2.SDL_controller_kb else K.AKEY_NONE,
            s2, capsLockFix k2) := by
    intro h2 e2 s2 k2 he hk
    unfold Keyboard_AtariKeys keyboardEntry
    simp only [he, pollEvents]
    rw [if_neg (by decide), if_pos ⟨trivial, hk⟩]
  have hfix : capsLockFix k = { k with lastkey := SDLK_UNKNOWN, key_pressed := 0, lastuni := 0 } := by
    unfold capsLockFix
    rw [if_pos hcaps]
  have hr := hidle h e s k hev (by rw [hfix])
  rw [hr, hfix]
  refine ⟨rfl, rfl, rfl, rfl, ?_, ?_⟩
  · intro h2 e2 he2
    have hfix2 : capsLockFix { k with lastkey := SDLK_UNKNOWN, key_pressed := 0, lastuni := 0 }
        = { k with lastkey := SDLK_UNKNOWN, key_pressed := 0, lastuni := 0 } := by
      unfold capsLockFix
      rw [if_neg (show ¬ SDLK_UNKNOWN = SDLK_CAPSLOCK by decide)]
    have hr2 := hidle h2 e2 s { k with lastkey := SDLK_UNKNOWN, key_pressed := 0, lastuni := 0 }
      he2 (by rw [hfix2])
    simp only
    rw [hr2, hfix2]
    exact ⟨rfl, rfl⟩
  · intro h0 e0 s0 k0 es ev he0 hq hcase
    have hp := pollEvents_caps es ev (capsLockFix k0) hq hcase
    rw [keyboard_lastkey, he0]
    exact ⟨hp.2.1, hp.2.2⟩

/-- Witness of C35: the call after a caps-lock event, with an empty queue. -/
theorem caps_lock_released_witness :
    (Keyboard_AtariKeys stdConsts stdKeyConsts (keysHost [] 0) (keyboardInput [])
        (initialState stdConsts)
        { initialKeyboard with lastkey := SDLK_CAPSLOCK, key_pressed := 1 }).1 = -1
    ∧ (Keyboard_AtariKeys stdConsts stdKeyConsts (keysHost [] 0) (keyboardInput [])
        (initialState stdConsts)
        { initialKeyboard with lastkey := SDLK_CAPSLOCK, key_pressed := 1 }).2.2.key_pressed = 0 :=
  ⟨(caps_lock_released stdConsts stdKeyConsts (keysHost [] 0) (keyboardInput [])
      (initialState stdConsts) { initialKeyboard with lastkey := SDLK_CAPSLOCK, key_pressed := 1 }
      rfl rfl).2.2.2.1,
   (caps_lock_released stdConsts stdKeyConsts (keysHost [] 0) (keyboardInput [])
      (initialState stdConsts) { initialKeyboard with lastkey := SDLK_CAPSLOCK, key_pressed := 1 }
      rfl rfl).2.1⟩

/-! ## The console mask without initialisation -/

theorem update_no_pads (K : Consts) (h : Host) (s : State) (hf : s.gamepads_found = 0) :
    GamePads_Update K h s = s := by
  unfold GamePads_Update
  rw [if_pos hf]

theorem init_consol (K : Consts) (js : List (Option Nat)) (s : State) :
    (GamePads_Init K js s).gamepads_consol_state = K.INPUT_CONSOL_NONE := by
  have key : ∀ (l : List (Option Nat)) (t : State),
      (openGamepads l t).gamepads_consol_state = t.gamepads_consol_state := by
    intro l
    induction l with
    | nil => intro t; rfl
    | cons j l ih =>
      intro t
      unfold openGamepads
      by_cases hf : t.gamepads_found < MAX_GAMEPADS
      · rw [if_pos hf]
        cases j with
        | none => exact ih _
        | some b => exact ih _
      · rw [if_neg hf]
  unfold GamePads_Init
  rw [key]

/-- C36, the failing input: when no gamepad is found, `GamePads_Update` returns
before it resets `gamepads_consol_state`, and `PLATFORM_Keyboard` merges the
console mask of the keyboard with the value that variable has.  After
`GamePads_Init` that value is `INPUT_CONSOL_NONE`; when `GamePads_Init` has not
run (`-nojoystick`) it is the 0 of the static without initialiser, and the
merged mask is 0, all three console keys down, with no console key down on the
keyboard (mask 7).  With a gamepad found, the menu inactive and no pressed
button of a found pad mapped to start-hold, select-hold or option-hold, the
three console bits of the merged mask are those of the keyboard. -/
theorem consol_without_init (K : Consts) (h : Host) (s : State) :
    (s.gamepads_found = 0 →
      (PLATFORM_Keyboard K h s).2.INPUT_key_consol
        = h.input_key_consol_from_keys &&& s.gamepads_consol_state)
    ∧ (∀ js, (GamePads_Init K js s).gamepads_found = 0 →
        (PLATFORM_Keyboard K h (GamePads_Init K js s)).2.INPUT_key_consol
          = h.input_key_consol_from_keys &&& K.INPUT_CONSOL_NONE)
    ∧ (K.INPUT_CONSOL_NONE = 7 → K.INPUT_CONSOL_START = 1 → K.INPUT_CONSOL_SELECT = 2 →
        K.INPUT_CONSOL_OPTION = 4 → h.UI_is_active = 0 → 0 < s.gamepads_found →
        (¬ ∃ i, i < s.gamepads_found ∧ padHolds (PLATFORM_Keyboard K h s).2 i FNPAD_START_HOLD) →
        (¬ ∃ i, i < s.gamepads_found ∧ padHolds (PLATFORM_Keyboard K h s).2 i FNPAD_SELECT_HOLD) →
        (¬ ∃ i, i < s.gamepads_found ∧ padHolds (PLATFORM_Keyboard K h s).2 i FNPAD_OPTION_HOLD) →
        ∀ k, k < 3 → (PLATFORM_Keyboard K h s).2.INPUT_key_consol.testBit k
          = h.input_key_consol_from_keys.testBit k)
    ∧ (initialState stdConsts).gamepads_found = 0
    ∧ (sampleHost 0 0 0 []).input_key_consol_from_keys = 7
    ∧ (PLATFORM_Keyboard stdConsts (sampleHost 0 0 0 []) (initialState stdConsts)).2.INPUT_key_consol
        = 0
    ∧ (PLATFORM_Keyboard stdConsts (sampleHost 0 0 0 [])
        (GamePads_Init stdConsts [] (initialState stdConsts))).2.INPUT_key_consol = 7 := by
  obtain ⟨k1, k2, k3, k4, k5⟩ := keyboard_frame K h s
  refine ⟨?_, ?_, ?_, rfl, rfl, by decide!, by decide!⟩
  · intro hf
    rw [k5, update_no_pads K h s hf]
  · intro js hf
    rw [(keyboard_frame K h (GamePads_Init K js s)).2.2.2.2, update_no_pads K h _ hf,
      init_consol]
  · intro hN hS hE hO hUI hf n0 n1 n2 k hk
    obtain ⟨u1, u2, u3, u4⟩ := update_consol K h s hUI hN hS hE hO hf
    have hp : ∀ i f, padHolds (PLATFORM_Keyboard K h s).2 i f
        ↔ padHolds (GamePads_Update K h s) i f := by
      intro i f
      unfold padHolds
      rw [k1, k2]
    simp only [hp] at n0 n1 n2
    have b0 : (GamePads_Update K h s).gamepads_consol_state.testBit 0 = true := by
      by_contra hc
      simp only [Bool.not_eq_true] at hc
      exact n0 (u2.1 hc)
    have b1 : (GamePads_Update K h s).gamepads_consol_state.testBit 1 = true := by
      by_contra hc
      simp only [Bool.not_eq_true] at hc
      exact n1 (u3.1 hc)
    have b2 : (GamePads_Update K h s).gamepads_consol_state.testBit 2 = true := by
      by_contra hc
      simp only [Bool.not_eq_true] at hc
      exact n2 (u4.1 hc)
    rw [k5, Nat.testBit_and]
    interval_cases k
    · rw [b0, Bool.and_true]
    · rw [b1, Bool.and_true]
    · rw [b2, Bool.and_true]

/-! ## The targets of the configuration lines -/

theorem dispatchButton_fire (K : Consts) (cfg : SDL_INPUT_RealJSConfig_t)
    (trig last_trig : Nat) (a : ButtonScan) (i : Nat) :
    (dispatchButton K cfg trig last_trig a i).fire
      = if GamePads_GetFunctionForButton cfg i = FNPAD_FIRE_HOLD ∧ trig &&& u32 (1 <<< i) ≠ 0
        then 1 else a.fire := by
  have n1 : FNPAD_FIRE_HOLD ≠ FNPAD_START_HOLD := by decide
  have n2 : FNPAD_FIRE_HOLD ≠ FNPAD_SELECT_HOLD := by decide
  have n3 : FNPAD_FIRE_HOLD ≠ FNPAD_OPTION_HOLD := by decide
  have n4 : FNPAD_FIRE_HOLD ≠ FNPAD_AUTOFIRE_TOGGLE := by decide
  have n5 : FNPAD_FIRE_HOLD ≠ FNPAD_AUTOFIRE_HOLD := by decide
  have n6 : FNPAD_FIRE_HOLD ≠ FNPAD_FIRE_TOGGLE := by decide
  simp only [dispatchButton, apply_ite ButtonScan.fire, ite_self, Bool.and_eq_true,
    decide_eq_true_eq]
  by_cases hT : GamePads_GetFunctionForButton cfg i = FNPAD_FIRE_HOLD
  · simp only [hT, n1, n2, n3, n4, n5, n6, if_false, if_true, true_and]
  · simp only [hT, if_false, false_and, ite_self]

theorem dispatchButton_autofire (K : Consts) (cfg : SDL_INPUT_RealJSConfig_t)
    (trig last_trig : Nat) (a : ButtonScan) (i : Nat) :
    (dispatchButton K cfg trig last_trig a i).autofire
      = if GamePads_GetFunctionForButton cfg i = FNPAD_AUTOFIRE_HOLD ∧ trig &&& u32 (1 <<< i) ≠ 0
        then 1 else a.autofire := by
  have n1 : FNPAD_AUTOFIRE_HOLD ≠ FNPAD_START_HOLD := by decide
  have n2 : FNPAD_AUTOFIRE_HOLD ≠ FNPAD_SELECT_HOLD := by decide
  have n3 : FNPAD_AUTOFIRE_HOLD ≠ FNPAD_OPTION_HOLD := by decide
  have n4 : FNPAD_AUTOFIRE_HOLD ≠ FNPAD_AUTOFIRE_TOGGLE := by decide
  simp only [dispatchButton, apply_ite ButtonScan.autofire, ite_self, Bool.and_eq_true,
    decide_eq_true_eq]
  by_cases hT : GamePads_GetFunctionForButton cfg i = FNPAD_AUTOFIRE_HOLD
  · simp only [hT, n1, n2, n3, n4, if_false, if_true, true_and]
  · simp only [hT, if_false, false_and, ite_self]

/-- The button loop on a configuration whose 32 bits all have the fire-hold
function: the toggles and the autofire level stay, and the fire level is 1
when a bit of `l` is set and stays otherwise. -/
theorem foldl_all_fire_hold (K : Consts) (cfg : SDL_INPUT_RealJSConfig_t) (trig last_trig : Nat)
    (hcfg : ∀ i, i < 32 → GamePads_GetFunctionForButton cfg i = FNPAD_FIRE_HOLD)
    (l : List Nat) (hl : ∀ i ∈ l, i < 32) (a : ButtonScan) :
    (l.foldl (dispatchButton K cfg trig last_trig) a).autofire = a.autofire
    ∧ (l.foldl (dispatchButton K cfg trig last_trig) a).autofire_toggle_on = a.autofire_toggle_on
    ∧ (l.foldl (dispatchButton K cfg trig last_trig) a).fire_toggle_on = a.fire_toggle_on
    ∧ (l.foldl (dispatchButton K cfg trig last_trig) a).fire
        = if ∃ i ∈ l, trig.testBit i = true then 1 else a.fire := by
  induction l generalizing a with
  | nil => simp
  | cons i l ih =>
    have hi := hl i (List.mem_cons_self _ _)
    obtain ⟨j1, j2, j3, j4⟩ := ih (fun j hj => hl j (List.mem_cons_of_mem _ hj))
      (dispatchButton K cfg trig last_trig a i)
    have hf := hcfg i hi
    rw [List.foldl_cons, j1, j2, j3, j4, dispatchButton_autofire, dispatchButton_autofire_toggle,
      dispatchButton_fire_toggle, dispatchButton_fire, hf]
    refine ⟨if_neg (fun hh => absurd hh.1 (by decide)), if_neg (fun hh => absurd hh.1 (by decide)),
      if_neg (fun hh => absurd hh.1 (by decide)), ?_⟩
    have hpi := pressed_iff trig i hi
    by_cases hp : trig.testBit i = true <;>
    by_cases hex : ∃ j ∈ l, trig.testBit j = true <;>
    simp [hp, hex, hpi]

theorem defaultConfig_fire_hold (i : Nat) (hi : i < 32) :
    GamePads_GetFunctionForButton defaultConfig i = FNPAD_FIRE_HOLD := by
  interval_cases i <;> rfl

/-- One cycle for a pad with the default configuration, valid masks, at most
32 buttons and both toggles off, the menu inactive. -/
theorem default_fire_step (K : Consts) (h : Host) (n : Nat) (s : State)
    (hm : h.UI_is_active = 0) (hc : s.gamepad_configuration n = defaultConfig)
    (hmask : s.gamepad_special_mask n = specialMask (s.gamepad_configuration n))
    (hmax : s.gamepads_max_buttons n ≤ 32)
    (ht1 : (s.gamepads_fire_state n).fire_toggle_on = 0)
    (ht2 : (s.gamepads_fire_state n).autofire_toggle_on = 0) :
    ((GamePads_UpdatePad K h n s).gamepads_fire_state n).fire_toggle_on = 0
    ∧ ((GamePads_UpdatePad K h n s).gamepads_fire_state n).autofire_toggle_on = 0
    ∧ GamePads_AtariTrigger (GamePads_UpdatePad K h n s) n
        = if ∃ i, i < s.gamepads_max_buttons n ∧ h.SDL_JoystickGetButton n i ≠ 0 then 0 else 1 := by
  have hsp : s.gamepad_special_mask n = 0 := by
    rw [hmask, hc]; decide
  have htrig : trigOf h s n = rawButtons h n (s.gamepads_max_buttons n) := by
    unfold trigOf effectiveButtons
    rw [hsp, Nat.zero_and, if_neg (by simp)]
  obtain ⟨j1, j2, j3, j4⟩ := foldl_all_fire_hold K (s.gamepad_configuration n) (trigOf h s n)
    (s.gamepads_sdl_last_state n).buttons (by rw [hc]; exact defaultConfig_fire_hold)
    (List.range 32) (fun i hi => List.mem_range.1 hi)
    { gamepads_consol_state := s.gamepads_consol_state
      autofire_toggle_on := (s.gamepads_fire_state n).autofire_toggle_on
      fire_toggle_on := (s.gamepads_fire_state n).fire_toggle_on
      last_buttons := (s.gamepads_sdl_last_state n).buttons
      autofire := 0
      fire := 0 }
  have e1 : (padButtonScan K h n s).autofire = 0 := j1
  have e2 : (padButtonScan K h n s).autofire_toggle_on = 0 := j2.trans ht2
  have e3 : (padButtonScan K h n s).fire_toggle_on = 0 := j3.trans ht1
  have e4 : (padButtonScan K h n s).fire
      = if ∃ i ∈ List.range 32, (trigOf h s n).testBit i = true then 1 else 0 := j4
  have hex : (∃ i ∈ List.range 32, (trigOf h s n).testBit i = true)
      ↔ ∃ i, i < s.gamepads_max_buttons n ∧ h.SDL_JoystickGetButton n i ≠ 0 := by
    rw [htrig]
    constructor
    · rintro ⟨i, _, hp⟩
      rw [rawButtons_testBit h n _ i hmax, decide_eq_true_eq] at hp
      exact ⟨i, hp⟩
    · rintro ⟨i, hi, hp⟩
      refine ⟨i, List.mem_range.2 (by omega), ?_⟩
      rw [rawButtons_testBit h n _ i hmax, decide_eq_true_eq]
      exact ⟨hi, hp⟩
  unfold GamePads_AtariTrigger
  rw [updatePad_fire_state K h n s hm]
  simp only [fireHandling, e1, e2, e3, e4, hex]
  refine ⟨trivial, trivial, ?_⟩
  by_cases hb : ∃ i, i < s.gamepads_max_buttons n ∧ h.SDL_JoystickGetButton n i ≠ 0
  · simp [hb, cNe, cNot]
  · simp [hb, cNe, cNot]

/-- C39: a pad with the default configuration, valid masks and at most 32
buttons, both toggles off as `GamePads_Init` leaves them, the menu inactive in
every cycle.  After every cycle of `GamePads_UpdatePad` the trigger value
`GamePads_AtariTrigger` of the pad is 0 when at least one of its buttons is
pressed in that cycle and 1 otherwise. -/
theorem default_trigger (K : Consts) (hs : Nat → Host) (n : Nat) (s : State)
    (hm : ∀ k, (hs k).UI_is_active = 0) (hc : s.gamepad_configuration n = defaultConfig)
    (hmask : s.gamepad_special_mask n = specialMask (s.gamepad_configuration n))
    (hmax : s.gamepads_max_buttons n ≤ 32)
    (ht1 : (s.gamepads_fire_state n).fire_toggle_on = 0)
    (ht2 : (s.gamepads_fire_state n).autofire_toggle_on = 0) (k : Nat) :
    GamePads_AtariTrigger (padRun K hs n s (k + 1)) n
      = if ∃ i, i < s.gamepads_max_buttons n ∧ (hs k).SDL_JoystickGetButton n i ≠ 0 then 0 else 1 := by
  have inv : ∀ j, ((padRun K hs n s j).gamepads_fire_state n).fire_toggle_on = 0
      ∧ ((padRun K hs n s j).gamepads_fire_state n).autofire_toggle_on = 0 := by
    intro j
    induction j with
    | zero => exact ⟨ht1, ht2⟩
    | succ j ih =>
      obtain ⟨i1, i2, i3⟩ := padRun_frame K hs n s hm j
      have := default_fire_step K (hs j) n (padRun K hs n s j) (hm j) (by rw [i1]; exact hc)
        (by rw [i1, i2]; exact hmask) (by rw [i3]; exact hmax) ih.1 ih.2
      exact ⟨this.1, this.2.1⟩
  obtain ⟨i1, i2, i3⟩ := padRun_frame K hs n s hm k
  have := (default_fire_step K (hs k) n (padRun K hs n s k) (hm k) (by rw [i1]; exact hc)
    (by rw [i1, i2]; exact hmask) (by rw [i3]; exact hmax) (inv k).1 (inv k).2).2.2
  rw [i3] at this
  exact this

/-- Witness for C39: the pad of the start-up state with button 0 pressed in
the first cycle and no button in the second; the trigger is 0 after the first
cycle and 1 after the second. -/
theorem default_trigger_witness :
    GamePads_AtariTrigger (padRun stdConsts (buttonSequence [true, false]) 0
        (sampleState 1 defaultConfig) 1) 0 = 0
    ∧ GamePads_AtariTrigger (padRun stdConsts (buttonSequence [true, false]) 0
        (sampleState 1 defaultConfig) 2) 0 = 1 :=
  ⟨(default_trigger stdConsts (buttonSequence [true, false]) 0
      (sampleState 1 defaultConfig) (fun _ => rfl) rfl (by decide!)
      (by decide!) (by decide!) (by decide!) 0).trans
      (if_pos ⟨0, by decide!, by decide!⟩),
    by decide!⟩

end SdlInput
